import Mathlib

/-! QgsVectorFileWriter: a shallow embedding

A Lean model of `src/core/qgsvectorfilewriter.cpp` (the generic OGR vector file
writer of QGIS) together with theorems about its behaviour.

Conventions of the embedding.

* C++ `int` / `qint64` values are modelled by `Int`; the counters of the export
  loops never come near the machine bounds, so no wrap-around is modelled for
  them.  Conversions that do wrap (`toInt` of an unsigned variant) reduce
  modulo the word size explicitly.
* Everything the writer obtains from OGR/GDAL, Qt or the rest of QGIS is an
  explicit oracle: a field of `OGRSFDriver`, `Env`, `QgsVectorLayer`,
  `QgsFeatureRenderer` and so on.  Theorems quantify over these oracles.
* Calls made to OGR on output records are collected as `OgrCall` values and
  the calls made by the export entry points as `Effect` values, in program
  order.
* The conditional compilation on `GDAL_VERSION_NUM` is kept: the version number
  is a field of `Env` and every `#if` of the source is an `if` of the model.
-/

namespace QgsVectorFileWriter

/-! ## Qt containers -/

/-- Key types of a `QMap`: `lt` is the `operator<` by which Qt keeps the map sorted. -/
class QMapKey (κ : Type) where
  /-- The strict order on keys. -/
  lt : κ → κ → Bool
  /-- No key is below itself. -/
  irrefl : ∀ a, lt a a = false
  /-- The order is transitive. -/
  trans : ∀ a b c, lt a b = true → lt b c = true → lt a c = true
  /-- Keys that are not ordered either way are equal. -/
  tri : ∀ a b, lt a b = false → lt b a = false → a = b

instance : QMapKey Int where
  lt a b := decide (a < b)
  irrefl a := by simp
  trans a b c h1 h2 := by
    simp only [decide_eq_true_eq] at *
    omega
  tri a b h1 h2 := by
    simp only [decide_eq_false_iff_not] at *
    omega

/-- Order of `QString::operator<` on the code points of two strings. -/
def qStringLess (a b : String) : Bool := decide (a.toList < b.toList)

instance : QMapKey String where
  lt := qStringLess
  irrefl a := by simp [qStringLess]
  trans a b c h1 h2 := by
    simp only [qStringLess, decide_eq_true_eq] at *
    exact lt_trans h1 h2
  tri a b h1 h2 := by
    simp only [qStringLess, decide_eq_false_iff_not, not_lt] at *
    have h := le_antisymm h2 h1
    exact String.ext h

/-- A `QMap<K, V>`: the entries in iteration order (ascending keys). -/
structure QMap (κ ν : Type) where
  /-- The entries, in the order a `QMap` iterator visits them. -/
  entries : List (κ × ν)
deriving DecidableEq, Repr

namespace QMap

variable {κ ν : Type}

/-- The empty map (also the result of `clear()`). -/
def empty : QMap κ ν := ⟨[]⟩

/-- Insertion into the sorted entry list; an equal key has its value replaced. -/
def insertEntries [QMapKey κ] (k : κ) (v : ν) : List (κ × ν) → List (κ × ν)
  | [] => [(k, v)]
  | (k', v') :: rest =>
    if QMapKey.lt k k' then (k, v) :: (k', v') :: rest
    else if QMapKey.lt k' k then (k', v') :: insertEntries k v rest
    else (k, v) :: rest

/-- The Qt call `QMap::insert( key, value )`. -/
def insert [QMapKey κ] (m : QMap κ ν) (k : κ) (v : ν) : QMap κ ν :=
  ⟨insertEntries k v m.entries⟩

/-- Lookup of a key (`QMap::find`), `none` standing for `end()`. -/
def find? [DecidableEq κ] (m : QMap κ ν) (k : κ) : Option ν :=
  (m.entries.find? (fun e => decide (e.1 = k))).map Prod.snd

/-- The Qt call `QMap::contains( key )`. -/
def contains [DecidableEq κ] (m : QMap κ ν) (k : κ) : Bool :=
  (m.find? k).isSome

/-- The non-const `QMap::operator[]`: the value stored under `k`; when there is
none, a default-constructed value is inserted under `k` and returned. -/
def index [QMapKey κ] [DecidableEq κ] (m : QMap κ ν) (k : κ) (dflt : ν) : ν × QMap κ ν :=
  match m.find? k with
  | some v => (v, m)
  | none => (dflt, m.insert k dflt)

/-- The keys in ascending order (`QMap::keys()`). -/
def keys (m : QMap κ ν) : List κ := m.entries.map Prod.fst

/-- The values in ascending key order (`QMap::values()`). -/
def values (m : QMap κ ν) : List ν := m.entries.map Prod.snd

/-- The entry list is strictly ascending in its keys. -/
def Sorted [QMapKey κ] (m : QMap κ ν) : Prop :=
  m.entries.Pairwise (fun a b => QMapKey.lt a.1 b.1 = true)

/-- No two distinct keys carry the same value. -/
def Injective (m : QMap κ ν) : Prop :=
  ∀ k₁ v₁ k₂ v₂, (k₁, v₁) ∈ m.entries → (k₂, v₂) ∈ m.entries → v₁ = v₂ → k₁ = k₂

end QMap

/-- A `QSet<int>`, kept as the list of its members. -/
abbrev QSetInt := List Int

/-- The Qt call `QSet::insert`. -/
def QSetInt.insert (s : QSetInt) (i : Int) : QSetInt :=
  if s.contains i then s else i :: s

/-! ## Geometry types (`QgsWkbTypes`) -/

namespace QgsWkbTypes

/-- Modelled from the spec: the enumeration `QgsWkbTypes::Type` of qgswkbtypes.h, which is not
among the sources: the geometry subtypes "point/line/polygon/collection, each plain/multi,
each 2D/3D/measured", under the names the writer uses for them. -/
inductive WkbType
  | Unknown
  | Point
  | LineString
  | Polygon
  | MultiPoint
  | MultiLineString
  | MultiPolygon
  | GeometryCollection
  | CircularString
  | CompoundCurve
  | CurvePolygon
  | MultiCurve
  | MultiSurface
  | NoGeometry
  | PointZ
  | LineStringZ
  | PolygonZ
  | MultiPointZ
  | MultiLineStringZ
  | MultiPolygonZ
  | GeometryCollectionZ
  | CircularStringZ
  | CompoundCurveZ
  | CurvePolygonZ
  | MultiCurveZ
  | MultiSurfaceZ
  | PointM
  | LineStringM
  | PolygonM
  | MultiPointM
  | MultiLineStringM
  | MultiPolygonM
  | GeometryCollectionM
  | CircularStringM
  | CompoundCurveM
  | CurvePolygonM
  | MultiCurveM
  | MultiSurfaceM
  | PointZM
  | LineStringZM
  | PolygonZM
  | MultiPointZM
  | MultiLineStringZM
  | MultiPolygonZM
  | GeometryCollectionZM
  | CircularStringZM
  | CompoundCurveZM
  | CurvePolygonZM
  | MultiCurveZM
  | MultiSurfaceZM
  | Point25D
  | LineString25D
  | Polygon25D
  | MultiPoint25D
  | MultiLineString25D
  | MultiPolygon25D
deriving DecidableEq, Repr

/-- Modelled from the spec: the shape of a geometry subtype (point, line, polygon, collection and
their multi and curved variants), its dimensionality left aside. -/
inductive Shape
  | Unknown
  | Point
  | LineString
  | Polygon
  | MultiPoint
  | MultiLineString
  | MultiPolygon
  | GeometryCollection
  | CircularString
  | CompoundCurve
  | CurvePolygon
  | MultiCurve
  | MultiSurface
  | NoGeometry
deriving DecidableEq, Repr

/-- Modelled from the spec: the dimensionality of a geometry subtype: 2D, 3D (Z), measured (M),
both (ZM), or the legacy 2.5D flag. -/
inductive Dim
  | XY
  | Z
  | M
  | ZM
  | D25
deriving DecidableEq, Repr

/-- Modelled from the spec: the numeric value of an enumerator of `QgsWkbTypes::Type` (the value
OGR receives after a cast): the well-known-binary code, plus 1000 for Z, 2000 for M, 3000 for
ZM, and with the top bit set for the legacy 2.5D types. -/
def code : WkbType → Nat
  | .Unknown => 0
  | .Point => 1
  | .LineString => 2
  | .Polygon => 3
  | .MultiPoint => 4
  | .MultiLineString => 5
  | .MultiPolygon => 6
  | .GeometryCollection => 7
  | .CircularString => 8
  | .CompoundCurve => 9
  | .CurvePolygon => 10
  | .MultiCurve => 11
  | .MultiSurface => 12
  | .NoGeometry => 100
  | .PointZ => 1001
  | .LineStringZ => 1002
  | .PolygonZ => 1003
  | .MultiPointZ => 1004
  | .MultiLineStringZ => 1005
  | .MultiPolygonZ => 1006
  | .GeometryCollectionZ => 1007
  | .CircularStringZ => 1008
  | .CompoundCurveZ => 1009
  | .CurvePolygonZ => 1010
  | .MultiCurveZ => 1011
  | .MultiSurfaceZ => 1012
  | .PointM => 2001
  | .LineStringM => 2002
  | .PolygonM => 2003
  | .MultiPointM => 2004
  | .MultiLineStringM => 2005
  | .MultiPolygonM => 2006
  | .GeometryCollectionM => 2007
  | .CircularStringM => 2008
  | .CompoundCurveM => 2009
  | .CurvePolygonM => 2010
  | .MultiCurveM => 2011
  | .MultiSurfaceM => 2012
  | .PointZM => 3001
  | .LineStringZM => 3002
  | .PolygonZM => 3003
  | .MultiPointZM => 3004
  | .MultiLineStringZM => 3005
  | .MultiPolygonZM => 3006
  | .GeometryCollectionZM => 3007
  | .CircularStringZM => 3008
  | .CompoundCurveZM => 3009
  | .CurvePolygonZM => 3010
  | .MultiCurveZM => 3011
  | .MultiSurfaceZM => 3012
  | .Point25D => 2147483649
  | .LineString25D => 2147483650
  | .Polygon25D => 2147483651
  | .MultiPoint25D => 2147483652
  | .MultiLineString25D => 2147483653
  | .MultiPolygon25D => 2147483654

/-- Modelled from the spec: the shape a geometry type belongs to. -/
def shape : WkbType → Shape
  | .Unknown => .Unknown
  | .Point => .Point
  | .LineString => .LineString
  | .Polygon => .Polygon
  | .MultiPoint => .MultiPoint
  | .MultiLineString => .MultiLineString
  | .MultiPolygon => .MultiPolygon
  | .GeometryCollection => .GeometryCollection
  | .CircularString => .CircularString
  | .CompoundCurve => .CompoundCurve
  | .CurvePolygon => .CurvePolygon
  | .MultiCurve => .MultiCurve
  | .MultiSurface => .MultiSurface
  | .NoGeometry => .NoGeometry
  | .PointZ => .Point
  | .LineStringZ => .LineString
  | .PolygonZ => .Polygon
  | .MultiPointZ => .MultiPoint
  | .MultiLineStringZ => .MultiLineString
  | .MultiPolygonZ => .MultiPolygon
  | .GeometryCollectionZ => .GeometryCollection
  | .CircularStringZ => .CircularString
  | .CompoundCurveZ => .CompoundCurve
  | .CurvePolygonZ => .CurvePolygon
  | .MultiCurveZ => .MultiCurve
  | .MultiSurfaceZ => .MultiSurface
  | .PointM => .Point
  | .LineStringM => .LineString
  | .PolygonM => .Polygon
  | .MultiPointM => .MultiPoint
  | .MultiLineStringM => .MultiLineString
  | .MultiPolygonM => .MultiPolygon
  | .GeometryCollectionM => .GeometryCollection
  | .CircularStringM => .CircularString
  | .CompoundCurveM => .CompoundCurve
  | .CurvePolygonM => .CurvePolygon
  | .MultiCurveM => .MultiCurve
  | .MultiSurfaceM => .MultiSurface
  | .PointZM => .Point
  | .LineStringZM => .LineString
  | .PolygonZM => .Polygon
  | .MultiPointZM => .MultiPoint
  | .MultiLineStringZM => .MultiLineString
  | .MultiPolygonZM => .MultiPolygon
  | .GeometryCollectionZM => .GeometryCollection
  | .CircularStringZM => .CircularString
  | .CompoundCurveZM => .CompoundCurve
  | .CurvePolygonZM => .CurvePolygon
  | .MultiCurveZM => .MultiCurve
  | .MultiSurfaceZM => .MultiSurface
  | .Point25D => .Point
  | .LineString25D => .LineString
  | .Polygon25D => .Polygon
  | .MultiPoint25D => .MultiPoint
  | .MultiLineString25D => .MultiLineString
  | .MultiPolygon25D => .MultiPolygon

/-- Modelled from the spec: the dimensionality of a geometry type. -/
def dim : WkbType → Dim
  | .Unknown => .XY
  | .Point => .XY
  | .LineString => .XY
  | .Polygon => .XY
  | .MultiPoint => .XY
  | .MultiLineString => .XY
  | .MultiPolygon => .XY
  | .GeometryCollection => .XY
  | .CircularString => .XY
  | .CompoundCurve => .XY
  | .CurvePolygon => .XY
  | .MultiCurve => .XY
  | .MultiSurface => .XY
  | .NoGeometry => .XY
  | .PointZ => .Z
  | .LineStringZ => .Z
  | .PolygonZ => .Z
  | .MultiPointZ => .Z
  | .MultiLineStringZ => .Z
  | .MultiPolygonZ => .Z
  | .GeometryCollectionZ => .Z
  | .CircularStringZ => .Z
  | .CompoundCurveZ => .Z
  | .CurvePolygonZ => .Z
  | .MultiCurveZ => .Z
  | .MultiSurfaceZ => .Z
  | .PointM => .M
  | .LineStringM => .M
  | .PolygonM => .M
  | .MultiPointM => .M
  | .MultiLineStringM => .M
  | .MultiPolygonM => .M
  | .GeometryCollectionM => .M
  | .CircularStringM => .M
  | .CompoundCurveM => .M
  | .CurvePolygonM => .M
  | .MultiCurveM => .M
  | .MultiSurfaceM => .M
  | .PointZM => .ZM
  | .LineStringZM => .ZM
  | .PolygonZM => .ZM
  | .MultiPointZM => .ZM
  | .MultiLineStringZM => .ZM
  | .MultiPolygonZM => .ZM
  | .GeometryCollectionZM => .ZM
  | .CircularStringZM => .ZM
  | .CompoundCurveZM => .ZM
  | .CurvePolygonZM => .ZM
  | .MultiCurveZM => .ZM
  | .MultiSurfaceZM => .ZM
  | .Point25D => .D25
  | .LineString25D => .D25
  | .Polygon25D => .D25
  | .MultiPoint25D => .D25
  | .MultiLineString25D => .D25
  | .MultiPolygon25D => .D25

/-- Modelled from the spec: the geometry type of a shape in a dimensionality; combinations that the enumeration
does not have give `Unknown`. -/
def mk : Shape → Dim → WkbType
  | .NoGeometry, _ => .NoGeometry
  | .Point, .XY => .Point
  | .LineString, .XY => .LineString
  | .Polygon, .XY => .Polygon
  | .MultiPoint, .XY => .MultiPoint
  | .MultiLineString, .XY => .MultiLineString
  | .MultiPolygon, .XY => .MultiPolygon
  | .GeometryCollection, .XY => .GeometryCollection
  | .CircularString, .XY => .CircularString
  | .CompoundCurve, .XY => .CompoundCurve
  | .CurvePolygon, .XY => .CurvePolygon
  | .MultiCurve, .XY => .MultiCurve
  | .MultiSurface, .XY => .MultiSurface
  | .Point, .Z => .PointZ
  | .LineString, .Z => .LineStringZ
  | .Polygon, .Z => .PolygonZ
  | .MultiPoint, .Z => .MultiPointZ
  | .MultiLineString, .Z => .MultiLineStringZ
  | .MultiPolygon, .Z => .MultiPolygonZ
  | .GeometryCollection, .Z => .GeometryCollectionZ
  | .CircularString, .Z => .CircularStringZ
  | .CompoundCurve, .Z => .CompoundCurveZ
  | .CurvePolygon, .Z => .CurvePolygonZ
  | .MultiCurve, .Z => .MultiCurveZ
  | .MultiSurface, .Z => .MultiSurfaceZ
  | .Point, .M => .PointM
  | .LineString, .M => .LineStringM
  | .Polygon, .M => .PolygonM
  | .MultiPoint, .M => .MultiPointM
  | .MultiLineString, .M => .MultiLineStringM
  | .MultiPolygon, .M => .MultiPolygonM
  | .GeometryCollection, .M => .GeometryCollectionM
  | .CircularString, .M => .CircularStringM
  | .CompoundCurve, .M => .CompoundCurveM
  | .CurvePolygon, .M => .CurvePolygonM
  | .MultiCurve, .M => .MultiCurveM
  | .MultiSurface, .M => .MultiSurfaceM
  | .Point, .ZM => .PointZM
  | .LineString, .ZM => .LineStringZM
  | .Polygon, .ZM => .PolygonZM
  | .MultiPoint, .ZM => .MultiPointZM
  | .MultiLineString, .ZM => .MultiLineStringZM
  | .MultiPolygon, .ZM => .MultiPolygonZM
  | .GeometryCollection, .ZM => .GeometryCollectionZM
  | .CircularString, .ZM => .CircularStringZM
  | .CompoundCurve, .ZM => .CompoundCurveZM
  | .CurvePolygon, .ZM => .CurvePolygonZM
  | .MultiCurve, .ZM => .MultiCurveZM
  | .MultiSurface, .ZM => .MultiSurfaceZM
  | .Point, .D25 => .Point25D
  | .LineString, .D25 => .LineString25D
  | .Polygon, .D25 => .Polygon25D
  | .MultiPoint, .D25 => .MultiPoint25D
  | .MultiLineString, .D25 => .MultiLineString25D
  | .MultiPolygon, .D25 => .MultiPolygon25D
  | _, _ => .Unknown

/-- Modelled from the spec: the enumerator with a given numeric value (`static_cast< QgsWkbTypes::Type >`);
numbers that are no enumerator give `Unknown`. -/
def ofCode (n : Nat) : WkbType :=
  if n = 1 then .Point else
  if n = 2 then .LineString else
  if n = 3 then .Polygon else
  if n = 4 then .MultiPoint else
  if n = 5 then .MultiLineString else
  if n = 6 then .MultiPolygon else
  if n = 7 then .GeometryCollection else
  if n = 8 then .CircularString else
  if n = 9 then .CompoundCurve else
  if n = 10 then .CurvePolygon else
  if n = 11 then .MultiCurve else
  if n = 12 then .MultiSurface else
  if n = 100 then .NoGeometry else
  if n = 1001 then .PointZ else
  if n = 1002 then .LineStringZ else
  if n = 1003 then .PolygonZ else
  if n = 1004 then .MultiPointZ else
  if n = 1005 then .MultiLineStringZ else
  if n = 1006 then .MultiPolygonZ else
  if n = 1007 then .GeometryCollectionZ else
  if n = 1008 then .CircularStringZ else
  if n = 1009 then .CompoundCurveZ else
  if n = 1010 then .CurvePolygonZ else
  if n = 1011 then .MultiCurveZ else
  if n = 1012 then .MultiSurfaceZ else
  if n = 2001 then .PointM else
  if n = 2002 then .LineStringM else
  if n = 2003 then .PolygonM else
  if n = 2004 then .MultiPointM else
  if n = 2005 then .MultiLineStringM else
  if n = 2006 then .MultiPolygonM else
  if n = 2007 then .GeometryCollectionM else
  if n = 2008 then .CircularStringM else
  if n = 2009 then .CompoundCurveM else
  if n = 2010 then .CurvePolygonM else
  if n = 2011 then .MultiCurveM else
  if n = 2012 then .MultiSurfaceM else
  if n = 3001 then .PointZM else
  if n = 3002 then .LineStringZM else
  if n = 3003 then .PolygonZM else
  if n = 3004 then .MultiPointZM else
  if n = 3005 then .MultiLineStringZM else
  if n = 3006 then .MultiPolygonZM else
  if n = 3007 then .GeometryCollectionZM else
  if n = 3008 then .CircularStringZM else
  if n = 3009 then .CompoundCurveZM else
  if n = 3010 then .CurvePolygonZM else
  if n = 3011 then .MultiCurveZM else
  if n = 3012 then .MultiSurfaceZM else
  if n = 2147483649 then .Point25D else
  if n = 2147483650 then .LineString25D else
  if n = 2147483651 then .Polygon25D else
  if n = 2147483652 then .MultiPoint25D else
  if n = 2147483653 then .MultiLineString25D else
  if n = 2147483654 then .MultiPolygon25D else
  .Unknown

/-- Modelled from the spec: `QgsWkbTypes::hasZ`, whether a subtype is 3D (Z, ZM or 2.5D). -/
def hasZ (t : WkbType) : Bool :=
  match dim t with
  | .Z => true
  | .ZM => true
  | .D25 => true
  | _ => false

/-- Modelled from the spec: `QgsWkbTypes::hasM`, whether a subtype is measured (M or ZM). -/
def hasM (t : WkbType) : Bool :=
  match dim t with
  | .M => true
  | .ZM => true
  | _ => false

/-- Modelled from the spec: `QgsWkbTypes::flatType`, the 2D subtype of the same shape. -/
def flatType (t : WkbType) : WkbType := mk (shape t) .XY

/-- Modelled from the spec: the plain (single-part) shape of a shape; a geometry collection has
none. -/
def singleShape : Shape → Shape
  | .MultiPoint => .Point
  | .MultiLineString => .LineString
  | .MultiPolygon => .Polygon
  | .GeometryCollection => .Unknown
  | .MultiCurve => .CompoundCurve
  | .MultiSurface => .CurvePolygon
  | s => s

/-- Modelled from the spec: the multi shape of a shape. -/
def multiShape : Shape → Shape
  | .Point => .MultiPoint
  | .LineString => .MultiLineString
  | .Polygon => .MultiPolygon
  | .CircularString => .MultiCurve
  | .CompoundCurve => .MultiCurve
  | .CurvePolygon => .MultiSurface
  | s => s

/-- Modelled from the spec: `QgsWkbTypes::singleType`, the plain variant of a subtype, in the
same dimensionality. -/
def singleType (t : WkbType) : WkbType := mk (singleShape (shape t)) (dim t)

/-- Modelled from the spec: `QgsWkbTypes::multiType`, the multi variant of a subtype, in the
same dimensionality. -/
def multiType (t : WkbType) : WkbType := mk (multiShape (shape t)) (dim t)

/-- Modelled from the spec: `QgsWkbTypes::isMultiType`, whether a subtype is a multi variant. -/
def isMultiType (t : WkbType) : Bool :=
  match shape t with
  | .MultiPoint => true
  | .MultiLineString => true
  | .MultiPolygon => true
  | .GeometryCollection => true
  | .MultiCurve => true
  | .MultiSurface => true
  | _ => false

/-- Modelled from the spec: `QgsWkbTypes::addZ`, the subtype with a Z dimension added (a 3D
subtype is returned as it is). -/
def addZ (t : WkbType) : WkbType :=
  if hasZ t then t
  else if hasM t then mk (shape t) .ZM
  else mk (shape t) .Z

/-- Modelled from the spec: `QgsWkbTypes::dropM`, the subtype without its M dimension. -/
def dropM (t : WkbType) : WkbType :=
  if !hasM t then t
  else if hasZ t then mk (shape t) .Z
  else mk (shape t) .XY

/-- Modelled from the spec: `QgsWkbTypes::to25D`, the legacy 2.5D subtype of the shapes that
have one (point to multi polygon). -/
def to25D (t : WkbType) : WkbType :=
  if code .Point ≤ code (flatType t) ∧ code (flatType t) ≤ code .MultiPolygon then
    mk (shape t) .D25
  else if t = .NoGeometry then .NoGeometry
  else .Unknown

end QgsWkbTypes

export QgsWkbTypes (WkbType)

/-! ## Attribute values, fields, geometries and features -/

/-- The type tags `QVariant::Type` that can reach the writer. -/
inductive QVariantType
  | Invalid
  | Bool
  | Int
  | UInt
  | LongLong
  | ULongLong
  | Double
  | Char
  | Map
  | List
  | String
  | StringList
  | ByteArray
  | Date
  | Time
  | DateTime
deriving DecidableEq, Repr

/-- A `QDate`. -/
structure QDate where
  year : Int
  month : Int
  day : Int
deriving DecidableEq, Repr

/-- A `QTime`. -/
structure QTime where
  hour : Int
  minute : Int
  second : Int
  msec : Int
deriving DecidableEq, Repr

/-- A `QDateTime`. -/
structure QDateTime where
  date : QDate
  time : QTime
deriving DecidableEq, Repr

/-- A C++ `double`, kept as an uninterpreted bit pattern: the writer only passes such
values on. -/
structure QDouble where
  bits : Nat
deriving DecidableEq, Repr

/-- A `QVariant`: invalid, a null value of some type, or a value.  `other` stands for a
valid, non-null value of a type without a payload of its own in the model. -/
inductive QVariant
  | invalid
  | null (t : QVariantType)
  | bool (b : Bool)
  | int (v : Int)
  | uint (v : Nat)
  | longlong (v : Int)
  | ulonglong (v : Nat)
  | double (v : QDouble)
  | string (s : String)
  | date (d : QDate)
  | time (t : QTime)
  | datetime (dt : QDateTime)
  | other (t : QVariantType) (text : String)
deriving DecidableEq, Repr

namespace QVariant

/-- The Qt call `QVariant::type()`. -/
def type : QVariant → QVariantType
  | .invalid => .Invalid
  | .null t => t
  | .bool _ => .Bool
  | .int _ => .Int
  | .uint _ => .UInt
  | .longlong _ => .LongLong
  | .ulonglong _ => .ULongLong
  | .double _ => .Double
  | .string _ => .String
  | .date _ => .Date
  | .time _ => .Time
  | .datetime _ => .DateTime
  | .other t _ => t

/-- The Qt call `QVariant::isValid()`. -/
def isValid (v : QVariant) : Bool := decide (v.type ≠ .Invalid)

/-- The Qt call `QVariant::isNull()`. -/
def isNull : QVariant → Bool
  | .invalid => true
  | .null _ => true
  | _ => false

/-- Decimal digits of a natural number, padded with zeros on the left to `width`. -/
def padLeft (width : Nat) (n : Nat) : String :=
  let s := toString n
  String.mk (List.replicate (width - s.length) '0') ++ s

/-- Text of a time in Qt's default format `HH:mm:ss`. -/
def timeText (t : QTime) : String :=
  padLeft 2 t.hour.toNat ++ ":" ++ padLeft 2 t.minute.toNat ++ ":" ++ padLeft 2 t.second.toNat

/-- Text of a date in Qt's default format `yyyy-MM-dd`. -/
def dateText (d : QDate) : String :=
  padLeft 4 d.year.toNat ++ "-" ++ padLeft 2 d.month.toNat ++ "-" ++ padLeft 2 d.day.toNat

/-- The Qt call `QDateTime::toString( "yyyy/MM/dd hh:mm:ss.zzz" )`. -/
def dateTimeFormatted (dt : QDateTime) : String :=
  padLeft 4 dt.date.year.toNat ++ "/" ++ padLeft 2 dt.date.month.toNat ++ "/" ++
    padLeft 2 dt.date.day.toNat ++ " " ++ timeText dt.time ++ "." ++ padLeft 3 dt.time.msec.toNat

/-- The Qt call `QVariant::toInt()` where the writer uses it (on `Int` and `UInt` values): an
unsigned value is reinterpreted as a signed 32-bit one. -/
def toInt : QVariant → Int
  | .int v => v
  | .uint v => if v % 2 ^ 32 < 2 ^ 31 then (v % 2 ^ 32 : Nat) else (v % 2 ^ 32 : Nat) - 2 ^ 32
  | .longlong v => v
  | .bool b => if b then 1 else 0
  | _ => 0

/-- The Qt call `QVariant::toLongLong()` where the writer uses it (on `LongLong` and
`ULongLong` values): an unsigned value is reinterpreted as a signed 64-bit one. -/
def toLongLong : QVariant → Int
  | .int v => v
  | .uint v => v
  | .longlong v => v
  | .ulonglong v => if v % 2 ^ 64 < 2 ^ 63 then (v % 2 ^ 64 : Nat) else (v % 2 ^ 64 : Nat) - 2 ^ 64
  | .bool b => if b then 1 else 0
  | _ => 0

/-- The Qt call `QVariant::toDouble()` on a `Double` value. -/
def toDouble : QVariant → QDouble
  | .double v => v
  | _ => ⟨0⟩

/-- The Qt call `QVariant::toString()`; the text of a double is not modelled. -/
def toString : QVariant → String
  | .bool b => if b then "true" else "false"
  | .int v => ToString.toString v
  | .uint v => ToString.toString v
  | .longlong v => ToString.toString v
  | .ulonglong v => ToString.toString v
  | .string s => s
  | .date d => dateText d
  | .time t => timeText t
  | .datetime dt => dateText dt.date ++ "T" ++ timeText dt.time
  | .other _ text => text
  | _ => ""

/-- The Qt call `QVariant::toDate()`. -/
def toDate : QVariant → QDate
  | .date d => d
  | .datetime dt => dt.date
  | _ => ⟨0, 0, 0⟩

/-- The Qt call `QVariant::toTime()`. -/
def toTime : QVariant → QTime
  | .time t => t
  | .datetime dt => dt.time
  | _ => ⟨0 - 1, 0 - 1, 0 - 1, 0 - 1⟩

/-- The Qt call `QVariant::toDateTime()`. -/
def toDateTime : QVariant → QDateTime
  | .datetime dt => dt
  | .date d => ⟨d, ⟨0, 0, 0, 0⟩⟩
  | _ => ⟨⟨0, 0, 0⟩, ⟨0 - 1, 0 - 1, 0 - 1, 0 - 1⟩⟩

/-- The Qt call `QVariant::typeName()`. -/
def typeName (v : QVariant) : String :=
  match v.type with
  | .Invalid => ""
  | .Bool => "bool"
  | .Int => "int"
  | .UInt => "uint"
  | .LongLong => "qlonglong"
  | .ULongLong => "qulonglong"
  | .Double => "double"
  | .Char => "QChar"
  | .Map => "QVariantMap"
  | .List => "QVariantList"
  | .String => "QString"
  | .StringList => "QStringList"
  | .ByteArray => "QByteArray"
  | .Date => "QDate"
  | .Time => "QTime"
  | .DateTime => "QDateTime"

end QVariant

/-- A `QgsField`: one attribute of a schema. -/
structure QgsField where
  name : String
  type : QVariantType
  typeName : String
  length : Int
  precision : Int
deriving DecidableEq, Repr

/-- A `QgsFields`: an ordered attribute schema. -/
abbrev QgsFields := List QgsField

/-- The default-constructed `QgsField()`. -/
def QgsField.default : QgsField := ⟨"", .Invalid, "", 0, 0⟩

/-- The call `fields.at( i )`.  An index outside the schema is outside the contract of
`QgsFields::at`; the model answers with a default-constructed field there. -/
def QgsFields.at (fields : QgsFields) (i : Int) : QgsField :=
  if i < 0 then QgsField.default else fields.getD i.toNat QgsField.default

/-- A single-part shape: its geometry type and its coordinates, which the writer never looks
into. -/
structure QgsShape where
  wkbType : WkbType
  coordinates : List Int
deriving DecidableEq, Repr

/-- A non-null `QgsGeometry`: a single shape, or a multi-part geometry holding shapes. -/
inductive QgsGeometry
  | single (s : QgsShape)
  | multi (t : WkbType) (parts : List QgsShape)
deriving DecidableEq, Repr

namespace QgsGeometry

/-- The call `geom.geometry()->wkbType()`. -/
def wkbType : QgsGeometry → WkbType
  | .single s => s.wkbType
  | .multi t _ => t

/-- Modelled from the spec: `QgsGeometry::convertToMultiType`, which is not among the sources:
"single→multi promotion", producing "a multi-geometry record wrapping the single input shape".
A geometry that is multi-part already, or whose type has no multi variant, is left as it
is. -/
def convertToMultiType : QgsGeometry → QgsGeometry
  | .single s =>
    if QgsWkbTypes.isMultiType (QgsWkbTypes.multiType s.wkbType) then
      .multi (QgsWkbTypes.multiType s.wkbType) [s]
    else .single s
  | .multi t parts => .multi t parts

end QgsGeometry

/-- A `QgsFeature`: identifier, attribute values by field index, optional geometry. -/
structure QgsFeature where
  id : Int
  attributes : List QVariant
  geometry : Option QgsGeometry
deriving DecidableEq, Repr

namespace QgsFeature

/-- The call `feature.hasGeometry()`. -/
def hasGeometry (f : QgsFeature) : Bool := f.geometry.isSome

/-- The call `feature.attribute( fieldIdx )`: an invalid variant outside the attribute
list. -/
def attributeValue (f : QgsFeature) (fieldIdx : Int) : QVariant :=
  if fieldIdx < 0 then .invalid else f.attributes.getD fieldIdx.toNat .invalid

/-- The call `feature.initAttributes( 0 )`. -/
def initAttributes0 (f : QgsFeature) : QgsFeature := { f with attributes := [] }

end QgsFeature

/-! ## The OGR side: field definitions, output records, driver oracles -/

/-- The values of `OGRFieldType` the writer creates fields of. -/
inductive OGRFieldType
  | OFTInteger
  | OFTReal
  | OFTString
  | OFTDate
  | OFTTime
  | OFTDateTime
  | OFTInteger64
deriving DecidableEq, Repr

/-- An `OGRFieldDefnH`: what `OGR_Fld_Create`, `OGR_Fld_SetWidth` and `OGR_Fld_SetPrecision`
set up.  The name is the field name in the output encoding. -/
structure OGRFieldDefn where
  name : String
  type : OGRFieldType
  width : Int
  precision : Int
deriving DecidableEq, Repr

/-- An `OGRFeatureDefnH`: the fields of the output layer, by output field index. -/
abbrev OGRFeatureDefn := List OGRFieldDefn

/-- An `OGRGeometryH`: the OGR geometry type it was created with (an `OGRwkbGeometryType`
value) and the geometry imported into it, if any. -/
structure OGRGeometry where
  type : Nat
  content : Option QgsGeometry
deriving DecidableEq, Repr

/-- A value handed to one of the `OGR_F_SetField...` calls. -/
inductive OGRFieldValue
  | integer (v : Int)
  | integer64 (v : Int)
  | string (s : String)
  | real (v : QDouble)
  | dateTime (year month day hour minute second tzFlag : Int)
deriving DecidableEq, Repr

/-- An `OGRFeatureH`: the output record under construction.  `handle` identifies the
allocation; `fields` lists the field writes in call order as (output field index, value). -/
structure OGRFeature where
  handle : Nat
  fid : Option Int
  fields : List (Int × OGRFieldValue)
  geometry : Option OGRGeometry
  styleString : Option String
deriving DecidableEq, Repr

/-- The OGR calls the writer makes on output records, in the order it makes them. -/
inductive OgrCall
  | F_Create (handle : Nat)
  | F_SetFID (handle : Nat) (fid : Int) (ok : Bool)
  | F_SetField (handle : Nat) (ogrField : Int) (value : OGRFieldValue)
  | G_CreateGeometry (ogrType : Nat) (ok : Bool)
  | G_ImportFromWkb (ogrType : Nat) (geom : QgsGeometry) (ok : Bool)
  | F_SetGeometryDirectly (handle : Nat) (geom : OGRGeometry)
  | F_SetGeometry (handle : Nat) (geom : Option OGRGeometry)
  | F_SetStyleString (handle : Nat) (style : String)
  | L_CreateFeature (record : OGRFeature) (ok : Bool)
  | F_Destroy (handle : Nat)
  | logMessage (text : String)
deriving DecidableEq, Repr

/-- The state of the output layer (`OGRLayerH`): its field definitions, the records
committed to it (oldest first) and the number of commit attempts made so far. -/
structure OGRLayer where
  defn : OGRFeatureDefn
  features : List OGRFeature
  attempts : Nat
deriving DecidableEq, Repr

/-- An `OGRSFDriverH`: the answers of one OGR driver, as oracles.

* `creationFieldDataTypes` is `GDALGetMetadataItem( drv, GDAL_DMD_CREATIONFIELDDATATYPES )`;
* `createDataSource fileName options` tells whether `OGR_Dr_CreateDataSource` succeeds;
* `createLayer layerName srsWkt ogrType options` gives the initial field definitions of the
  layer `OGR_DS_CreateLayer` creates, or `none` when it fails;
* `createField defn fld` gives the field definitions after a successful `OGR_L_CreateField`;
* `getFieldIndex defn name` is `OGR_FD_GetFieldIndex`;
* `createGeometry ogrType` tells whether `OGR_G_CreateGeometry` returns a geometry;
* `importFromWkb ogrType geom` tells whether `OGR_G_ImportFromWkb` accepts the WKB of `geom`
  for a geometry object of type `ogrType`;
* `setFID fid` tells whether `OGR_F_SetFID` succeeds;
* `createFeature layer record` tells whether `OGR_L_CreateFeature` succeeds;
* `startTransaction` / `commitTransaction` tell whether the transaction calls succeed. -/
structure OGRSFDriver where
  creationFieldDataTypes : Option String
  createDataSource : String → List String → Bool
  createLayer : String → Option String → Nat → List String → Option OGRFeatureDefn
  createField : OGRFeatureDefn → OGRFieldDefn → Option OGRFeatureDefn
  getFieldIndex : OGRFeatureDefn → String → Int
  createGeometry : Nat → Bool
  importFromWkb : Nat → QgsGeometry → Bool
  setFID : Int → Bool
  createFeature : OGRLayer → OGRFeature → Bool
  startTransaction : Bool
  commitTransaction : Bool

/-- A `QTextCodec`. -/
structure QTextCodec where
  name : String
  fromUnicode : String → String

/-- Distance units (`QgsUnitTypes::DistanceUnit`). -/
inductive DistanceUnit
  | DistanceMeters
  | DistanceKilometers
  | DistanceFeet
  | DistanceNauticalMiles
  | DistanceYards
  | DistanceMiles
  | DistanceDegrees
  | DistanceUnknownUnit
deriving DecidableEq, Repr

/-- Symbol units (`QgsUnitTypes::RenderUnit`). -/
inductive RenderUnit
  | RenderMillimeters
  | RenderMapUnits
  | RenderPixels
  | RenderPercentage
  | RenderUnknownUnit
deriving DecidableEq, Repr

/-- A `QgsCoordinateReferenceSystem`, as far as the writer looks at it. -/
structure QgsCoordinateReferenceSystem where
  isValid : Bool
  toWkt : String
  mapUnits : DistanceUnit
deriving DecidableEq, Repr

/-- The default-constructed (invalid) `QgsCoordinateReferenceSystem()`. -/
def QgsCoordinateReferenceSystem.invalid : QgsCoordinateReferenceSystem :=
  ⟨false, "", .DistanceUnknownUnit⟩

/-- A `QgsCoordinateTransform`: `transform g` is the transformed geometry, or the text of the
`QgsCsException` that `g.transform( ct )` throws. -/
structure QgsCoordinateTransform where
  isValid : Bool
  destinationCrs : QgsCoordinateReferenceSystem
  transform : QgsGeometry → Except String QgsGeometry

/-- The default-constructed (invalid) `QgsCoordinateTransform()`. -/
def QgsCoordinateTransform.invalid : QgsCoordinateTransform :=
  ⟨false, QgsCoordinateReferenceSystem.invalid, fun g => .ok g⟩

/-- A `QgsRectangle`. -/
structure QgsRectangle where
  xMin : Int
  yMin : Int
  xMax : Int
  yMax : Int
deriving DecidableEq, Repr

/-- A scale factor as `mmScaleFactor` and `mapUnitScaleFactor` compute it from the symbology
scale denominator `d`; the floating-point quotient is kept symbolic. -/
inductive ScaleFactor
  | one
  | thousandOver (d : QDouble)
  | overThousand (d : QDouble)
deriving DecidableEq, Repr

/-- A `QgsSymbolLayer`: its OGR style string for given scale factors and its rendering
pass. -/
structure QgsSymbolLayer where
  ogrFeatureStyle : ScaleFactor → ScaleFactor → String
  renderingPass : Int

/-- A `QgsSymbol`; `ptr` is the address by which the writer tells symbols apart. -/
structure QgsSymbol where
  ptr : Nat
  symbolLayers : List QgsSymbolLayer
  outputUnit : RenderUnit

/-- A `QgsFeatureRenderer`, as far as the writer calls it. -/
structure QgsFeatureRenderer where
  symbolsForFeature : QgsFeature → List QgsSymbol
  symbolForFeature : QgsFeature → Option QgsSymbol
  symbols : List QgsSymbol
  capabilitiesSymbolLevels : Bool
  usingSymbolLevels : Bool
  usedAttributes : List String

/-! ## The writer -/

/-- The enumeration `QgsVectorFileWriter::WriterError`. -/
inductive WriterError
  | NoError
  | ErrDriverNotFound
  | ErrCreateDataSource
  | ErrCreateLayer
  | ErrAttributeTypeUnsupported
  | ErrAttributeCreationFailed
  | ErrProjection
  | ErrFeatureWriteFailed
  | ErrInvalidLayer
deriving DecidableEq, Repr

/-- The enumeration `QgsVectorFileWriter::SymbologyExport`. -/
inductive SymbologyExport
  | NoSymbology
  | FeatureSymbology
  | SymbolLayerSymbology
deriving DecidableEq, Repr

/-- A `QgsVectorFileWriter::FieldValueConverter`. -/
structure FieldValueConverter where
  fieldDefinition : QgsField → QgsField
  convert : Int → QVariant → QVariant

/-- The base class `FieldValueConverter`, whose two methods return their argument. -/
def FieldValueConverter.base : FieldValueConverter :=
  ⟨fun field => field, fun _ value => value⟩

/-- What the writer calls outside itself and OGR drivers: the GDAL version it was compiled
against, the OGR driver registry, Qt codecs and settings, and the file system. -/
structure Env where
  GDAL_VERSION_NUM : Nat
  getDriverByName : String → Option OGRSFDriver
  lastErrorMsg : String
  codecForName : String → Option QTextCodec
  settingsEncoding : String
  codecForLocale : QTextCodec
  ignoreShapeEncoding : Bool
  fileExists : String → Bool
  canonicalFilePath : String → String
  canOpenForWriting : String → Bool
  isNumber : String → Bool
  intersects : QgsGeometry → QgsRectangle → Bool

/-- The calls the export entry points make, in program order.  `addFeature` marks a call of
`QgsVectorFileWriter::addFeature` (with the feature passed and the result of the call); the OGR
calls made inside it follow as `ogr` entries. -/
inductive Effect
  | getDriverByName (name : String)
  | deleteShapeFile (fileName : String)
  | fileRemove (fileName : String)
  | createDataSource (fileName : String) (options : List String) (ok : Bool)
  | createLayer (layerName : String) (ogrType : Nat) (options : List String) (ok : Bool)
  | writeQpj (fileName : String)
  | createField (fld : OGRFieldDefn) (ok : Bool)
  | logMessage (text : String)
  | startRender
  | stopRender
  | startTransaction (ok : Bool)
  | commitTransaction (ok : Bool)
  | addFeature (feature : QgsFeature) (ok : Bool)
  | ogr (call : OgrCall)
  | deleteWriter
deriving DecidableEq, Repr

/-- The members of a `QgsVectorFileWriter`.  `poDriver` is the driver found by `init` (a
local variable there, kept because the later OGR calls go to it) and `nextHandle` numbers the
records allocated with `OGR_F_Create`. -/
structure Writer where
  mDS : Bool
  mLayer : Option OGRLayer
  mOgrRef : Option String
  mGeom : Option OGRGeometry
  mError : WriterError
  mErrorMessage : String
  mCodec : Option QTextCodec
  mWkbType : WkbType
  mSymbologyExport : SymbologyExport
  mSymbologyScaleDenominator : QDouble
  mFieldValueConverter : Option FieldValueConverter
  mOgrDriverName : String
  mFields : QgsFields
  mAttrIdxToOgrIdx : QMap Int Int
  poDriver : Option OGRSFDriver
  nextHandle : Nat

/-- The member initialisers of both constructors. -/
def Writer.initial (geometryType : WkbType) (symbologyExport : SymbologyExport) : Writer :=
  { mDS := false
    mLayer := none
    mOgrRef := none
    mGeom := none
    mError := .NoError
    mErrorMessage := ""
    mCodec := none
    mWkbType := geometryType
    mSymbologyExport := symbologyExport
    mSymbologyScaleDenominator := ⟨1⟩
    mFieldValueConverter := none
    mOgrDriverName := ""
    mFields := []
    mAttrIdxToOgrIdx := QMap.empty
    poDriver := none
    nextHandle := 0 }

/-- The call `mCodec->fromUnicode( s )`. -/
def Writer.fromUnicode (w : Writer) (s : String) : String :=
  match w.mCodec with
  | some c => c.fromUnicode s
  | none => s

/-- The method `hasError()`. -/
def Writer.hasError (w : Writer) : WriterError := w.mError

/-- The method `errorMessage()`. -/
def Writer.errorMessage (w : Writer) : String := w.mErrorMessage

/-- The method `symbologyExport()`. -/
def Writer.symbologyExport (w : Writer) : SymbologyExport := w.mSymbologyExport

/-- The method `setSymbologyScaleDenominator`. -/
def Writer.setSymbologyScaleDenominator (w : Writer) (d : QDouble) : Writer :=
  { w with mSymbologyScaleDenominator := d }

/-- The static method `ogrTypeFromWkbType`, its result as an `OGRwkbGeometryType` value. -/
def ogrTypeFromWkbType (type : WkbType) : Nat :=
  let type := QgsWkbTypes.dropM type
  if QgsWkbTypes.code .PointZ ≤ QgsWkbTypes.code type ∧
      QgsWkbTypes.code type ≤ QgsWkbTypes.code .GeometryCollectionZ then
    QgsWkbTypes.code (QgsWkbTypes.to25D type)
  else QgsWkbTypes.code type

/-! ## The driver metadata table -/

/-- The translation `QObject::tr`: no translation catalogue is modelled, so a text is its own
translation. -/
def tr (sourceText : String) : String := sourceText

/-- The enumeration `QgsVectorFileWriter::OptionType`. -/
inductive OptionType
  | Set
  | String
  | Int
  | Hidden
deriving DecidableEq, Repr

/-- Modelled from the spec: the creation-option classes `SetOption`, `StringOption`,
`IntOption` and `HiddenOption` of qgsvectorfilewriter.h, which is not among the sources:
"each option typed as boolean/int/string/enumerated-set/hidden, with a default value and
description".  The description (`docString`, a help text shown in dialogs) is left out. -/
inductive CreationOption
  | SetOption (values : List String) (defaultValue : String) (allowNone : Bool)
  | StringOption (defaultValue : String)
  | IntOption (defaultValue : Int)
  | HiddenOption (mValue : String)
deriving DecidableEq, Repr

/-- Modelled from the spec: the member `Option::type` that the constructor of each option class
sets. -/
def CreationOption.type : CreationOption → OptionType
  | .SetOption _ _ _ => .Set
  | .StringOption _ => .String
  | .IntOption _ => .Int
  | .HiddenOption _ => .Hidden

/-- Modelled from the spec: the class `BoolOption` of qgsvectorfilewriter.h, a boolean option:
an enumerated-set option over `YES` and `NO` whose default is one of the two. -/
def BoolOption (defaultValue : Bool) : CreationOption :=
  .SetOption ["YES", "NO"] (if defaultValue then "YES" else "NO") false

/-- The struct `QgsVectorFileWriter::MetaData`. -/
structure MetaData where
  longName : String
  trLongName : String
  glob : String
  ext : String
  driverOptions : QMap String CreationOption
  layerOptions : QMap String CreationOption
  compulsoryEncoding : String
deriving DecidableEq, Repr

/-- The map that a sequence of `insert` calls builds from an empty (or cleared) map. -/
def QMap.ofInserts {κ ν : Type} [QMapKey κ] (l : List (κ × ν)) : QMap κ ν :=
  l.foldl (fun m e => m.insert e.1 e.2) QMap.empty

/-- The dataset creation options that `initMetaData` collects for the entry `AVCE00`, in the
order of its `insert` calls. -/
def datasetOptions_AVCE00 : QMap String CreationOption :=
  QMap.ofInserts []

/-- The layer creation options that `initMetaData` collects for the entry `AVCE00`, in the
order of its `insert` calls. -/
def layerOptions_AVCE00 : QMap String CreationOption :=
  QMap.ofInserts []

/-- The dataset creation options that `initMetaData` collects for the entry `BNA`, in the
order of its `insert` calls. -/
def datasetOptions_BNA : QMap String CreationOption :=
  QMap.ofInserts [
    ("LINEFORMAT", .SetOption ["CRLF", "LF"] "" true),
    ("MULTILINE", BoolOption true),
    ("NB_IDS", .SetOption ["2", "3", "4", "NB_SOURCE_FIELDS"] "2" false),
    ("ELLIPSES_AS_ELLIPSES", BoolOption true),
    ("NB_PAIRS_PER_LINE", .IntOption 2),
    ("COORDINATE_PRECISION", .IntOption 10)]

/-- The layer creation options that `initMetaData` collects for the entry `BNA`, in the
order of its `insert` calls. -/
def layerOptions_BNA : QMap String CreationOption :=
  QMap.ofInserts []

/-- The dataset creation options that `initMetaData` collects for the entry `CSV`, in the
order of its `insert` calls. -/
def datasetOptions_CSV : QMap String CreationOption :=
  QMap.ofInserts []

/-- The layer creation options that `initMetaData` collects for the entry `CSV`, in the
order of its `insert` calls. -/
def layerOptions_CSV : QMap String CreationOption :=
  QMap.ofInserts [
    ("LINEFORMAT", .SetOption ["CRLF", "LF"] "" true),
    ("GEOMETRY", .SetOption ["AS_WKT", "AS_XYZ", "AS_XY", "AS_YX"] "AS_XY" true),
    ("CREATE_CSVT", BoolOption false),
    ("SEPARATOR", .SetOption ["COMMA", "SEMICOLON", "TAB"] "COMMA" false),
    ("WRITE_BOM", BoolOption false)]

/-- The dataset creation options that `initMetaData` collects for the entry `ESRI`, in the
order of its `insert` calls. -/
def datasetOptions_ESRI : QMap String CreationOption :=
  QMap.ofInserts []

/-- The layer creation options that `initMetaData` collects for the entry `ESRI`, in the
order of its `insert` calls. -/
def layerOptions_ESRI : QMap String CreationOption :=
  QMap.ofInserts [
    ("SHPT", .SetOption ["NULL", "POINT", "ARC", "POLYGON", "MULTIPOINT", "POINTZ", "ARCZ", "POLYGONZ", "MULTIPOINTZ"] "" true),
    ("RESIZE", BoolOption false)]

/-- The dataset creation options that `initMetaData` collects for the entry `DBF File`, in the
order of its `insert` calls. -/
def datasetOptions_DBF_File : QMap String CreationOption :=
  QMap.ofInserts []

/-- The layer creation options that `initMetaData` collects for the entry `DBF File`, in the
order of its `insert` calls. -/
def layerOptions_DBF_File : QMap String CreationOption :=
  QMap.ofInserts []

/-- The dataset creation options that `initMetaData` collects for the entry `FMEObjects Gateway`, in the
order of its `insert` calls. -/
def datasetOptions_FMEObjects_Gateway : QMap String CreationOption :=
  QMap.ofInserts []

/-- The layer creation options that `initMetaData` collects for the entry `FMEObjects Gateway`, in the
order of its `insert` calls. -/
def layerOptions_FMEObjects_Gateway : QMap String CreationOption :=
  QMap.ofInserts []

/-- The dataset creation options that `initMetaData` collects for the entry `GeoJSON`, in the
order of its `insert` calls. -/
def datasetOptions_GeoJSON : QMap String CreationOption :=
  QMap.ofInserts []

/-- The layer creation options that `initMetaData` collects for the entry `GeoJSON`, in the
order of its `insert` calls. -/
def layerOptions_GeoJSON : QMap String CreationOption :=
  QMap.ofInserts [
    ("WRITE_BBOX", BoolOption false),
    ("COORDINATE_PRECISION", .IntOption 15)]

/-- The dataset creation options that `initMetaData` collects for the entry `GeoRSS`, in the
order of its `insert` calls. -/
def datasetOptions_GeoRSS : QMap String CreationOption :=
  QMap.ofInserts [
    ("FORMAT", .SetOption ["RSS", "ATOM"] "RSS" false),
    ("GEOM_DIALECT", .SetOption ["SIMPLE", "GML", "W3C_GEO"] "SIMPLE" false),
    ("USE_EXTENSIONS", BoolOption true),
    ("WRITE_HEADER_AND_FOOTER", BoolOption true),
    ("HEADER", .StringOption ""),
    ("TITLE", .StringOption ""),
    ("DESCRIPTION", .StringOption ""),
    ("LINK", .StringOption ""),
    ("UPDATED", .StringOption ""),
    ("AUTHOR_NAME", .StringOption ""),
    ("ID", .StringOption "")]

/-- The layer creation options that `initMetaData` collects for the entry `GeoRSS`, in the
order of its `insert` calls. -/
def layerOptions_GeoRSS : QMap String CreationOption :=
  QMap.ofInserts []

/-- The dataset creation options that `initMetaData` collects for the entry `GML`, in the
order of its `insert` calls. -/
def datasetOptions_GML : QMap String CreationOption :=
  QMap.ofInserts [
    ("XSISCHEMAURI", .StringOption ""),
    ("XSISCHEMA", .SetOption ["EXTERNAL", "INTERNAL", "OFF"] "EXTERNAL" false),
    ("PREFIX", .StringOption "ogr"),
    ("STRIP_PREFIX", BoolOption false),
    ("TARGET_NAMESPACE", .StringOption "http://ogr.maptools.org/"),
    ("FORMAT", .SetOption ["GML3", "GML3Deegree", "GML3.2"] "" true),
    ("GML3_LONGSRS", BoolOption true),
    ("WRITE_FEATURE_BOUNDED_BY", BoolOption true),
    ("SPACE_INDENTATION", BoolOption true)]

/-- The layer creation options that `initMetaData` collects for the entry `GML`, in the
order of its `insert` calls. -/
def layerOptions_GML : QMap String CreationOption :=
  QMap.ofInserts []

/-- The dataset creation options that `initMetaData` collects for the entry `GPKG`, in the
order of its `insert` calls. -/
def datasetOptions_GPKG : QMap String CreationOption :=
  QMap.ofInserts []

/-- The layer creation options that `initMetaData` collects for the entry `GPKG`, in the
order of its `insert` calls. -/
def layerOptions_GPKG (GDAL_VERSION_NUM : Nat) : QMap String CreationOption :=
  QMap.ofInserts ([
    ("IDENTIFIER", .StringOption ""),
    ("DESCRIPTION", .StringOption ""),
    ("FID", .StringOption "fid"),
    ("GEOMETRY_NAME", .StringOption "geometry")] ++
    (if 2000000 ≤ GDAL_VERSION_NUM then [("SPATIAL_INDEX", BoolOption true)] else []))

/-- The dataset creation options that `initMetaData` collects for the entry `GMT`, in the
order of its `insert` calls. -/
def datasetOptions_GMT : QMap String CreationOption :=
  QMap.ofInserts []

/-- The layer creation options that `initMetaData` collects for the entry `GMT`, in the
order of its `insert` calls. -/
def layerOptions_GMT : QMap String CreationOption :=
  QMap.ofInserts []

/-- The dataset creation options that `initMetaData` collects for the entry `GPX`, in the
order of its `insert` calls. -/
def datasetOptions_GPX : QMap String CreationOption :=
  QMap.ofInserts [
    ("GPX_USE_EXTENSIONS", BoolOption true),
    ("GPX_EXTENSIONS_NS", .StringOption "ogr"),
    ("GPX_EXTENSIONS_NS_URL", .StringOption "http://osgeo.org/gdal"),
    ("LINEFORMAT", .SetOption ["CRLF", "LF"] "" true)]

/-- The layer creation options that `initMetaData` collects for the entry `GPX`, in the
order of its `insert` calls. -/
def layerOptions_GPX : QMap String CreationOption :=
  QMap.ofInserts [
    ("FORCE_GPX_TRACK", BoolOption false),
    ("FORCE_GPX_ROUTE", BoolOption false)]

/-- The dataset creation options that `initMetaData` collects for the entry `Interlis 1`, in the
order of its `insert` calls. -/
def datasetOptions_Interlis_1 : QMap String CreationOption :=
  QMap.ofInserts []

/-- The layer creation options that `initMetaData` collects for the entry `Interlis 1`, in the
order of its `insert` calls. -/
def layerOptions_Interlis_1 : QMap String CreationOption :=
  QMap.ofInserts []

/-- The dataset creation options that `initMetaData` collects for the entry `Interlis 2`, in the
order of its `insert` calls. -/
def datasetOptions_Interlis_2 : QMap String CreationOption :=
  QMap.ofInserts []

/-- The layer creation options that `initMetaData` collects for the entry `Interlis 2`, in the
order of its `insert` calls. -/
def layerOptions_Interlis_2 : QMap String CreationOption :=
  QMap.ofInserts []

/-- The dataset creation options that `initMetaData` collects for the entry `KML`, in the
order of its `insert` calls. -/
def datasetOptions_KML : QMap String CreationOption :=
  QMap.ofInserts [
    ("NameField", .StringOption "Name"),
    ("DescriptionField", .StringOption "Description"),
    ("AltitudeMode", .SetOption ["clampToGround", "relativeToGround", "absolute"] "clampToGround" false)]

/-- The layer creation options that `initMetaData` collects for the entry `KML`, in the
order of its `insert` calls. -/
def layerOptions_KML : QMap String CreationOption :=
  QMap.ofInserts []

/-- The dataset creation options that `initMetaData` collects for the entry `MapInfo File`, in the
order of its `insert` calls. -/
def datasetOptions_MapInfo_File : QMap String CreationOption :=
  QMap.ofInserts []

/-- The layer creation options that `initMetaData` collects for the entry `MapInfo File`, in the
order of its `insert` calls. -/
def layerOptions_MapInfo_File : QMap String CreationOption :=
  QMap.ofInserts [
    ("SPATIAL_INDEX_MODE", .SetOption ["QUICK"] "" true)]

/-- The dataset creation options that `initMetaData` collects for the entry `DGN`, in the
order of its `insert` calls. -/
def datasetOptions_DGN : QMap String CreationOption :=
  QMap.ofInserts [
    ("3D", BoolOption false),
    ("SEED", .StringOption ""),
    ("COPY_WHOLE_SEED_FILE", BoolOption false),
    ("COPY_SEED_FILE_COLOR_TABLEE", BoolOption false),
    ("MASTER_UNIT_NAME", .StringOption ""),
    ("SUB_UNIT_NAME", .StringOption ""),
    ("SUB_UNITS_PER_MASTER_UNIT", .IntOption 0),
    ("UOR_PER_SUB_UNIT", .IntOption 0),
    ("ORIGIN", .StringOption "")]

/-- The layer creation options that `initMetaData` collects for the entry `DGN`, in the
order of its `insert` calls. -/
def layerOptions_DGN : QMap String CreationOption :=
  QMap.ofInserts []

/-- The dataset creation options that `initMetaData` collects for the entry `S57`, in the
order of its `insert` calls. -/
def datasetOptions_S57 : QMap String CreationOption :=
  QMap.ofInserts [
    ("UPDATES", .SetOption ["APPLY", "IGNORE"] "APPLY" false),
    ("SPLIT_MULTIPOINT", BoolOption false),
    ("ADD_SOUNDG_DEPTH", BoolOption false),
    ("RETURN_PRIMITIVES", BoolOption true),
    ("PRESERVE_EMPTY_NUMBERS", BoolOption false),
    ("LNAM_REFS", BoolOption true),
    ("RETURN_LINKAGES", BoolOption true),
    ("RECODE_BY_DSSI", BoolOption false)]

/-- The layer creation options that `initMetaData` collects for the entry `S57`, in the
order of its `insert` calls. -/
def layerOptions_S57 : QMap String CreationOption :=
  QMap.ofInserts []

/-- The dataset creation options that `initMetaData` collects for the entry `SDTS`, in the
order of its `insert` calls. -/
def datasetOptions_SDTS : QMap String CreationOption :=
  QMap.ofInserts []

/-- The layer creation options that `initMetaData` collects for the entry `SDTS`, in the
order of its `insert` calls. -/
def layerOptions_SDTS : QMap String CreationOption :=
  QMap.ofInserts []

/-- The dataset creation options that `initMetaData` collects for the entry `SQLite`, in the
order of its `insert` calls. -/
def datasetOptions_SQLite : QMap String CreationOption :=
  QMap.ofInserts [
    ("METADATA", BoolOption true),
    ("SPATIALITE", .HiddenOption "NO"),
    ("INIT_WITH_EPSG", .HiddenOption "NO")]

/-- The layer creation options that `initMetaData` collects for the entry `SQLite`, in the
order of its `insert` calls. -/
def layerOptions_SQLite : QMap String CreationOption :=
  QMap.ofInserts [
    ("FORMAT", .SetOption ["WKB", "WKT"] "WKB" false),
    ("LAUNDER", BoolOption true),
    ("SPATIAL_INDEX", .HiddenOption "NO"),
    ("COMPRESS_GEOM", .HiddenOption "NO"),
    ("SRID", .HiddenOption ""),
    ("COMPRESS_COLUMNS", .StringOption "")]

/-- The dataset creation options that `initMetaData` collects for the entry `SpatiaLite`, in the
order of its `insert` calls. -/
def datasetOptions_SpatiaLite : QMap String CreationOption :=
  QMap.ofInserts [
    ("METADATA", BoolOption true),
    ("SPATIALITE", .HiddenOption "YES"),
    ("INIT_WITH_EPSG", BoolOption true)]

/-- The layer creation options that `initMetaData` collects for the entry `SpatiaLite`, in the
order of its `insert` calls. -/
def layerOptions_SpatiaLite : QMap String CreationOption :=
  QMap.ofInserts [
    ("FORMAT", .HiddenOption "SPATIALITE"),
    ("LAUNDER", BoolOption true),
    ("SPATIAL_INDEX", BoolOption true),
    ("COMPRESS_GEOM", BoolOption false),
    ("SRID", .StringOption ""),
    ("COMPRESS_COLUMNS", .StringOption "")]

/-- The dataset creation options that `initMetaData` collects for the entry `DXF`, in the
order of its `insert` calls. -/
def datasetOptions_DXF : QMap String CreationOption :=
  QMap.ofInserts []

/-- The layer creation options that `initMetaData` collects for the entry `DXF`, in the
order of its `insert` calls. -/
def layerOptions_DXF : QMap String CreationOption :=
  QMap.ofInserts []

/-- The dataset creation options that `initMetaData` collects for the entry `Geoconcept`, in the
order of its `insert` calls. -/
def datasetOptions_Geoconcept : QMap String CreationOption :=
  QMap.ofInserts [
    ("EXTENSION", .SetOption ["GXT", "TXT"] "GXT" false)]

/-- The layer creation options that `initMetaData` collects for the entry `Geoconcept`, in the
order of its `insert` calls. -/
def layerOptions_Geoconcept : QMap String CreationOption :=
  QMap.ofInserts []

/-- The dataset creation options that `initMetaData` collects for the entry `FileGDB`, in the
order of its `insert` calls. -/
def datasetOptions_FileGDB : QMap String CreationOption :=
  QMap.ofInserts []

/-- The layer creation options that `initMetaData` collects for the entry `FileGDB`, in the
order of its `insert` calls. -/
def layerOptions_FileGDB : QMap String CreationOption :=
  QMap.ofInserts [
    ("FEATURE_DATASET", .StringOption ""),
    ("GEOMETRY_NAME", .StringOption "SHAPE"),
    ("OID_NAME", .StringOption "OBJECTID")]

/-- The dataset creation options that `initMetaData` collects for the entry `XLSX`, in the
order of its `insert` calls. -/
def datasetOptions_XLSX : QMap String CreationOption :=
  QMap.ofInserts []

/-- The layer creation options that `initMetaData` collects for the entry `XLSX`, in the
order of its `insert` calls. -/
def layerOptions_XLSX : QMap String CreationOption :=
  QMap.ofInserts [
    ("OGR_XLSX_FIELD_TYPES", .SetOption ["AUTO", "STRING"] "AUTO" false)]

/-- The dataset creation options that `initMetaData` collects for the entry `ODS`, in the
order of its `insert` calls. -/
def datasetOptions_ODS : QMap String CreationOption :=
  QMap.ofInserts []

/-- The layer creation options that `initMetaData` collects for the entry `ODS`, in the
order of its `insert` calls. -/
def layerOptions_ODS : QMap String CreationOption :=
  QMap.ofInserts [
    ("OGR_ODS_FIELD_TYPES", .SetOption ["AUTO", "STRING"] "AUTO" false)]

/-- The static method `initMetaData`: the table of driver metadata, built by inserting the
entries in the order of the source.  The entry `MapInfo MIF` is inserted with the option maps
still holding the options of `MapInfo File`. -/
def initMetaData (GDAL_VERSION_NUM : Nat) : QMap String MetaData :=
  QMap.ofInserts [
    ("AVCE00", ⟨"Arc/Info ASCII Coverage", tr "Arc/Info ASCII Coverage", "*.e00", "e00",
      datasetOptions_AVCE00, layerOptions_AVCE00, ""⟩),
    ("BNA", ⟨"Atlas BNA", tr "Atlas BNA", "*.bna", "bna",
      datasetOptions_BNA, layerOptions_BNA, ""⟩),
    ("CSV", ⟨"Comma Separated Value [CSV]", tr "Comma Separated Value [CSV]", "*.csv", "csv",
      datasetOptions_CSV, layerOptions_CSV, ""⟩),
    ("ESRI", ⟨"ESRI Shapefile", tr "ESRI Shapefile", "*.shp", "shp",
      datasetOptions_ESRI, layerOptions_ESRI, ""⟩),
    ("DBF File", ⟨"DBF File", tr "DBF File", "*.dbf", "dbf",
      datasetOptions_DBF_File, layerOptions_DBF_File, ""⟩),
    ("FMEObjects Gateway", ⟨"FMEObjects Gateway", tr "FMEObjects Gateway", "*.fdd", "fdd",
      datasetOptions_FMEObjects_Gateway, layerOptions_FMEObjects_Gateway, ""⟩),
    ("GeoJSON", ⟨"GeoJSON", tr "GeoJSON", "*.geojson", "geojson",
      datasetOptions_GeoJSON, layerOptions_GeoJSON, "UTF-8"⟩),
    ("GeoRSS", ⟨"GeoRSS", tr "GeoRSS", "*.xml", "xml",
      datasetOptions_GeoRSS, layerOptions_GeoRSS, "UTF-8"⟩),
    ("GML", ⟨"Geography Markup Language [GML]", tr "Geography Markup Language [GML]", "*.gml", "gml",
      datasetOptions_GML, layerOptions_GML, "UTF-8"⟩),
    ("GPKG", ⟨"GeoPackage", tr "GeoPackage", "*.gpkg", "gpkg",
      datasetOptions_GPKG, layerOptions_GPKG GDAL_VERSION_NUM, "UTF-8"⟩),
    ("GMT", ⟨"Generic Mapping Tools [GMT]", tr "Generic Mapping Tools [GMT]", "*.gmt", "gmt",
      datasetOptions_GMT, layerOptions_GMT, ""⟩),
    ("GPX", ⟨"GPS eXchange Format [GPX]", tr "GPS eXchange Format [GPX]", "*.gpx", "gpx",
      datasetOptions_GPX, layerOptions_GPX, "UTF-8"⟩),
    ("Interlis 1", ⟨"INTERLIS 1", tr "INTERLIS 1", "*.itf *.xml *.ili", "ili",
      datasetOptions_Interlis_1, layerOptions_Interlis_1, ""⟩),
    ("Interlis 2", ⟨"INTERLIS 2", tr "INTERLIS 2", "*.itf *.xml *.ili", "ili",
      datasetOptions_Interlis_2, layerOptions_Interlis_2, ""⟩),
    ("KML", ⟨"Keyhole Markup Language [KML]", tr "Keyhole Markup Language [KML]", "*.kml", "kml",
      datasetOptions_KML, layerOptions_KML, "UTF-8"⟩),
    ("MapInfo File", ⟨"Mapinfo", tr "Mapinfo TAB", "*.tab", "tab",
      datasetOptions_MapInfo_File, layerOptions_MapInfo_File, ""⟩),
    ("MapInfo MIF", ⟨"Mapinfo", tr "Mapinfo MIF", "*.mif", "mif",
      datasetOptions_MapInfo_File, layerOptions_MapInfo_File, ""⟩),
    ("DGN", ⟨"Microstation DGN", tr "Microstation DGN", "*.dgn", "dgn",
      datasetOptions_DGN, layerOptions_DGN, ""⟩),
    ("S57", ⟨"S-57 Base file", tr "S-57 Base file", "*.000", "000",
      datasetOptions_S57, layerOptions_S57, ""⟩),
    ("SDTS", ⟨"Spatial Data Transfer Standard [SDTS]", tr "Spatial Data Transfer Standard [SDTS]", "*catd.ddf", "ddf",
      datasetOptions_SDTS, layerOptions_SDTS, ""⟩),
    ("SQLite", ⟨"SQLite", tr "SQLite", "*.sqlite", "sqlite",
      datasetOptions_SQLite, layerOptions_SQLite, "UTF-8"⟩),
    ("SpatiaLite", ⟨"SpatiaLite", tr "SpatiaLite", "*.sqlite", "sqlite",
      datasetOptions_SpatiaLite, layerOptions_SpatiaLite, "UTF-8"⟩),
    ("DXF", ⟨"AutoCAD DXF", tr "AutoCAD DXF", "*.dxf", "dxf",
      datasetOptions_DXF, layerOptions_DXF, ""⟩),
    ("Geoconcept", ⟨"Geoconcept", tr "Geoconcept", "*.gxt *.txt", "gxt",
      datasetOptions_Geoconcept, layerOptions_Geoconcept, ""⟩),
    ("FileGDB", ⟨"ESRI FileGDB", tr "ESRI FileGDB", "*.gdb", "gdb",
      datasetOptions_FileGDB, layerOptions_FileGDB, "UTF-8"⟩),
    ("XLSX", ⟨"MS Office Open XML spreadsheet", tr "MS Office Open XML spreadsheet", "*.xlsx", "xlsx",
      datasetOptions_XLSX, layerOptions_XLSX, "UTF-8"⟩),
    ("ODS", ⟨"Open Document Spreadsheet", tr "Open Document Spreadsheet", "*.ods", "ods",
      datasetOptions_ODS, layerOptions_ODS, "UTF-8"⟩)]

/-! ## Qt string helpers -/

/-- The Qt call `s.startsWith( p )` (case sensitive). -/
def startsWith (s p : String) : Bool := p.toList.isPrefixOf s.toList

/-- The characters of a string in lower case, for case-insensitive comparisons. -/
def lowerChars (s : String) : List Char := s.toList.map Char.toLower

/-- The Qt call `s.endsWith( p, Qt::CaseInsensitive )`. -/
def endsWithCI (s p : String) : Bool := (lowerChars p).isSuffixOf (lowerChars s)

/-- The Qt call `a.compare( b, Qt::CaseInsensitive ) == 0`. -/
def equalsCI (a b : String) : Bool := decide (lowerChars a = lowerChars b)

/-- The Qt call `s.toUpper()`. -/
def toUpper (s : String) : String := String.mk (s.toList.map Char.toUpper)

/-- Whether `needle` occurs in `hay` at its start or later. -/
def occursIn (needle : List Char) : List Char → Bool
  | [] => needle.isEmpty
  | c :: rest => needle.isPrefixOf (c :: rest) || occursIn needle rest

/-- The Qt call `s.contains( sub )` (also `strstr( s, sub ) != NULL`). -/
def containsStr (s sub : String) : Bool := occursIn sub.toList s.toList

/-- The characters before the first case-insensitive occurrence of `needle` (given in lower
case); all of them when there is none. -/
def beforeCI (needle : List Char) : List Char → List Char
  | [] => []
  | c :: rest =>
    if needle.isPrefixOf ((c :: rest).map Char.toLower) then []
    else if occursIn needle (rest.map Char.toLower) then c :: beforeCI needle rest
    else c :: rest

/-- The Qt expression `s.left( s.indexOf( sub, 0, Qt::CaseInsensitive ) )`; `left( -1 )` is the
whole string. -/
def leftOfCI (s sub : String) : String := String.mk (beforeCI (lowerChars sub) s.toList)

/-- Splitting of a character list at a separator, empty parts dropped; `cur` holds the
characters of the part being read, last one first. -/
def splitSkipEmptyAux (sep : Char) : List Char → List Char → List String
  | [], cur => if cur.isEmpty then [] else [String.mk cur.reverse]
  | c :: rest, cur =>
    if c = sep then
      (if cur.isEmpty then [] else [String.mk cur.reverse]) ++ splitSkipEmptyAux sep rest []
    else splitSkipEmptyAux sep rest (c :: cur)

/-- The Qt call `s.split( sep, QString::SkipEmptyParts )`. -/
def splitSkipEmpty (s : String) (sep : Char) : List String := splitSkipEmptyAux sep s.toList []

/-- The first part of `s.split( sep )`: the characters before the first separator. -/
def firstPart (s : String) (sep : Char) : String :=
  String.mk (s.toList.takeWhile (fun c => c != sep))

/-- The characters after the last `/` of a path. -/
def afterLastSlash : List Char → List Char
  | [] => []
  | c :: rest => if rest.contains '/' then afterLastSlash rest else if c = '/' then rest else c :: rest

/-- The Qt call `QFileInfo( path ).baseName()`: the file name up to its first dot. -/
def baseName (path : String) : String :=
  String.mk ((afterLastSlash path.toList).takeWhile (fun c => c != '.'))

/-! ## Lookup in the driver metadata table -/

/-- The static method `driverMetadata( driverName, metadata )`: the first entry, in key order,
whose key or long name starts with `driverName`; `none` stands for the result `false`. -/
def driverMetadata (GDAL_VERSION_NUM : Nat) (driverName : String) : Option MetaData :=
  ((initMetaData GDAL_VERSION_NUM).entries.find?
    (fun it => startsWith it.1 driverName || startsWith it.2.longName driverName)).map Prod.snd

/-- What one option adds to the list in `concatenateOptions`. -/
def concatenateOption (key : String) : CreationOption → List String
  | .IntOption defaultValue => [key ++ "=" ++ toString defaultValue]
  | .SetOption _ defaultValue _ =>
    if !defaultValue.isEmpty then [key ++ "=" ++ defaultValue] else []
  | .StringOption defaultValue => [key ++ "=" ++ defaultValue]
  | .HiddenOption mValue => [key ++ "=" ++ mValue]

/-- The static method `concatenateOptions`. -/
def concatenateOptions (options : QMap String CreationOption) : List String :=
  options.entries.foldl (fun list it => list ++ concatenateOption it.1 it.2) []

/-- The static method `defaultDatasetOptions`. -/
def defaultDatasetOptions (GDAL_VERSION_NUM : Nat) (driverName : String) : List String :=
  match driverMetadata GDAL_VERSION_NUM driverName with
  | none => []
  | some metadata => concatenateOptions metadata.driverOptions

/-- The static method `defaultLayerOptions`. -/
def defaultLayerOptions (GDAL_VERSION_NUM : Nat) (driverName : String) : List String :=
  match driverMetadata GDAL_VERSION_NUM driverName with
  | none => []
  | some metadata => concatenateOptions metadata.layerOptions

/-- The static method `convertCodecNameForEncodingOption`; `isNumber` tells whether
`QString::toInt` accepts a text.  The regular expression `(CP|windows-|ISO[ -])(.+)` is matched
case-insensitively against the whole name. -/
def convertCodecNameForEncodingOption (isNumber : String → Bool) (codecName : String) : String :=
  if codecName = "System" then "LDID/0"
  else
    let name := lowerChars codecName
    let cap2 : Option (List Char) :=
      if "cp".toList.isPrefixOf name ∧ 2 < name.length then some (codecName.toList.drop 2)
      else if "windows-".toList.isPrefixOf name ∧ 8 < name.length then
        some (codecName.toList.drop 8)
      else if ("iso ".toList.isPrefixOf name ∨ "iso-".toList.isPrefixOf name) ∧ 4 < name.length
      then some (codecName.toList.drop 4)
      else none
    match cap2 with
    | some cap =>
      let c := String.mk (cap.filter (fun ch => ch != '-'))
      if isNumber c then c else codecName
    | none => codecName

/-! ## Construction of a writer: `init` -/

/-- The statement `++ogrWidth` on a C++ `int`: the next number, and at `INT_MAX` the wrap-around
of a 32-bit two's-complement register to `INT_MIN`. -/
def incrementInt (ogrWidth : Int) : Int :=
  if ogrWidth = 2147483647 then -2147483648 else ogrWidth + 1

/-- The statements of `init` from `int ogrWidth = attrField.length();` to the end of the
`switch ( attrField.type() )`: the OGR field type, width and precision for an attribute field,
or `none` in the `default:` case (unsupported type). -/
def fieldTypeMapping (env : Env) (poDriver : OGRSFDriver) (mOgrDriverName : String)
    (attrField : QgsField) : Option (OGRFieldType × Int × Int) :=
  let ogrWidth := attrField.length
  let ogrPrecision := attrField.precision
  let ogrWidth := if ogrPrecision > 0 then incrementInt ogrWidth else ogrWidth
  match attrField.type with
  | .LongLong =>
    if env.GDAL_VERSION_NUM < 2000000 then
      some (.OFTString, if ogrWidth > 0 ∧ ogrWidth ≤ 21 then ogrWidth else 21, -1)
    else
      let ogrType : OGRFieldType :=
        match poDriver.creationFieldDataTypes with
        | some pszDataTypes =>
          if containsStr pszDataTypes "Integer64" then .OFTInteger64 else .OFTReal
        | none => .OFTReal
      some (ogrType, if ogrWidth > 0 ∧ ogrWidth ≤ 20 then ogrWidth else 20, 0)
  | .String =>
    some (.OFTString, if ogrWidth ≤ 0 ∨ ogrWidth > 255 then 255 else ogrWidth, ogrPrecision)
  | .Int => some (.OFTInteger, if ogrWidth > 0 ∧ ogrWidth ≤ 10 then ogrWidth else 10, 0)
  | .Double => some (.OFTReal, ogrWidth, ogrPrecision)
  | .Date => some (.OFTDate, ogrWidth, ogrPrecision)
  | .Time =>
    if mOgrDriverName = "ESRI Shapefile" then some (.OFTString, 12, ogrPrecision)
    else some (.OFTTime, ogrWidth, ogrPrecision)
  | .DateTime =>
    if mOgrDriverName = "ESRI Shapefile" then some (.OFTString, 24, ogrPrecision)
    else some (.OFTDateTime, ogrWidth, ogrPrecision)
  | _ => none

/-- The search of `init` for a replacement of the reserved name `ogc_fid`: the first of
`ogc_fid0` .. `ogc_fid9` that no field of the schema is named (ignoring case); `none` when the
loop ends with `i == 10`. -/
def ogcFidReplacement (fields : QgsFields) : Option String :=
  ((List.range 10).find?
    (fun i => fields.all (fun f => !equalsCI ("ogc_fid" ++ toString i) f.name))).map
    (fun i => "ogc_fid" ++ toString i)

/-- The name under which `init` creates a field: the field name, or for the SQLite driver and
a field called `ogc_fid` (ignoring case) the replacement; `none` when there is no
replacement. -/
def outputFieldName (mOgrDriverName : String) (fields : QgsFields) (attrField : QgsField) :
    Option String :=
  if mOgrDriverName = "SQLite" ∧ equalsCI attrField.name "ogc_fid" then ogcFidReplacement fields
  else some attrField.name

/-- The field definition `init` builds with `OGR_Fld_Create`, `OGR_Fld_SetWidth` (for a
positive width) and `OGR_Fld_SetPrecision` (for a non-negative precision). -/
def makeFieldDefn (encodedName : String) (ogrType : OGRFieldType) (ogrWidth ogrPrecision : Int) :
    OGRFieldDefn :=
  { name := encodedName
    type := ogrType
    width := if ogrWidth > 0 then ogrWidth else 0
    precision := if ogrPrecision ≥ 0 then ogrPrecision else 0 }

/-- The output field index `init` settles on after a field was created: the index found by
name, or, when that is negative or taken already, the fallback.  Before GDAL 1.7 the fallback
is the last field provided its name is a leading part of the attribute name; from GDAL 1.7 on
it is the last field.  A negative result means that the created field was not found. -/
def resolveOgrIdx (env : Env) (poDriver : OGRSFDriver) (defn : OGRFeatureDefn)
    (existingIdxs : QSetInt) (attrField : QgsField) (encodedName : String) : Int :=
  let ogrIdx := poDriver.getFieldIndex defn encodedName
  if ogrIdx < 0 ∨ existingIdxs.contains ogrIdx then
    if env.GDAL_VERSION_NUM < 1700 then
      let fieldCount : Int := defn.length
      match defn.getLast? with
      | some fdefn =>
        if String.mk (attrField.name.toList.take fdefn.name.length) = fdefn.name then
          fieldCount - 1
        else ogrIdx
      | none => ogrIdx
    else (defn.length : Int) - 1
  else ogrIdx

/-- One round of the loop `for ( int fldIdx = 0; fldIdx < fields.count(); ++fldIdx )` of `init`.
The result is the writer after the round, the set `existingIdxs` when the loop goes on (`none`
when `init` returns with an error), and the calls made. -/
def initField (env : Env) (poDriver : OGRSFDriver) (fields : QgsFields)
    (fieldValueConverter : Option FieldValueConverter) (fldIdx : Int) (existingIdxs : QSetInt)
    (layer : OGRLayer) (w : Writer) : Writer × Option (QSetInt × OGRLayer) × List Effect :=
  let attrField : QgsField :=
    match fieldValueConverter with
    | some converter => converter.fieldDefinition (fields.at fldIdx)
    | none => fields.at fldIdx
  match fieldTypeMapping env poDriver w.mOgrDriverName attrField with
  | none =>
    ({ w with
        mErrorMessage := tr "unsupported type for field " ++ attrField.name
        mError := .ErrAttributeTypeUnsupported }, none, [])
  | some (ogrType, ogrWidth, ogrPrecision) =>
    match outputFieldName w.mOgrDriverName fields attrField with
    | none =>
      ({ w with
          mErrorMessage := tr "no available replacement for internal fieldname ogc_fid found"
          mError := .ErrAttributeCreationFailed }, none, [])
    | some name =>
      let renamed : List Effect :=
        if w.mOgrDriverName = "SQLite" ∧ equalsCI attrField.name "ogc_fid" then
          [.logMessage (tr "Reserved attribute name ogc_fid replaced with " ++ name)]
        else []
      let fld := makeFieldDefn (w.fromUnicode name) ogrType ogrWidth ogrPrecision
      match poDriver.createField layer.defn fld with
      | none =>
        ({ w with
            mErrorMessage := tr "creation of field " ++ attrField.name ++
              " failed (OGR error: " ++ env.lastErrorMsg ++ ")"
            mError := .ErrAttributeCreationFailed }, none, renamed ++ [.createField fld false])
      | some defn =>
        let layer := { layer with defn := defn }
        let ogrIdx := resolveOgrIdx env poDriver defn existingIdxs attrField (w.fromUnicode name)
        if ogrIdx < 0 then
          ({ w with
              mLayer := some layer
              mErrorMessage := tr "created field " ++ attrField.name ++
                " not found (OGR error: " ++ env.lastErrorMsg ++ ")"
              mError := .ErrAttributeCreationFailed }, none, renamed ++ [.createField fld true])
        else
          ({ w with
              mLayer := some layer
              mAttrIdxToOgrIdx := w.mAttrIdxToOgrIdx.insert fldIdx ogrIdx },
            some (existingIdxs.insert ogrIdx, layer), renamed ++ [.createField fld true])

/-- The loop `for ( int fldIdx = 0; fldIdx < fields.count(); ++fldIdx )` of `init`, from index
`fldIdx` on, with `todo` rounds to go.  The boolean tells whether the loop ran to its end. -/
def initFields (env : Env) (poDriver : OGRSFDriver) (fields : QgsFields)
    (fieldValueConverter : Option FieldValueConverter) :
    Nat → Int → QSetInt → OGRLayer → Writer → Writer × Bool × List Effect
  | 0, _, _, _, w => (w, true, [])
  | todo + 1, fldIdx, existingIdxs, layer, w =>
    match initField env poDriver fields fieldValueConverter fldIdx existingIdxs layer w with
    | (w, none, effects) => (w, false, effects)
    | (w, some (existingIdxs, layer), effects) =>
      let r := initFields env poDriver fields fieldValueConverter todo (fldIdx + 1)
        existingIdxs layer w
      (r.1, r.2.1, effects ++ r.2.2)

/-- The static method `createEmptyGeometry`, with the OGR call it makes. -/
def createEmptyGeometry (poDriver : OGRSFDriver) (wkbType : WkbType) :
    Option OGRGeometry × OgrCall :=
  let ogrType := ogrTypeFromWkbType wkbType
  if poDriver.createGeometry ogrType then
    (some { type := ogrType, content := none }, .G_CreateGeometry ogrType true)
  else (none, .G_CreateGeometry ogrType false)

/-- The check of `init` for builds before GDAL 1.7: the first field whose name, cut to ten
characters, was seen before; `seen` holds the cut names of the fields passed. -/
def duplicateTrimmedName : List QgsField → List String → Option String
  | [], _ => none
  | f :: rest, seen =>
    let name := String.mk (f.name.toList.take 10)
    if seen.contains name then some f.name else duplicateTrimmedName rest (name :: seen)

/-- The file name after `init` has added the extension of the format where it is missing.
With metadata that lists no extension the source reads `allExts[0]` of an empty list; the
model appends nothing but the dot there. -/
def fileNameWithExtension (mOgrDriverName driverName vectorFileName : String)
    (metadata : Option MetaData) : String :=
  if mOgrDriverName = "ESRI Shapefile" then
    if driverName = "ESRI Shapefile" ∧ !endsWithCI vectorFileName ".shp" then
      vectorFileName ++ ".shp"
    else if driverName = "DBF file" ∧ !endsWithCI vectorFileName ".dbf" then
      vectorFileName ++ ".dbf"
    else vectorFileName
  else
    match metadata with
    | some metadata =>
      let allExts := splitSkipEmpty metadata.ext ' '
      if allExts.any (fun ext => endsWithCI vectorFileName ("." ++ ext)) then vectorFileName
      else vectorFileName ++ "." ++ allExts.headD ""
    | none => vectorFileName

/-- The codec `init` settles on: the one of the file encoding, else the one of the setting
`/UI/encoding`, else the codec of the locale. -/
def chooseCodec (env : Env) (fileEncoding : String) : QTextCodec :=
  match env.codecForName fileEncoding with
  | some codec => codec
  | none =>
    match env.codecForName env.settingsEncoding with
    | some codec => codec
    | none => env.codecForLocale

/-- The last part of `init`, entered once the output layer exists: the members for the fields
are set, the fields are created, and the scratch geometry is made.  The boolean tells whether
`init` ran to its end. -/
def initAttributes (env : Env) (poDriver : OGRSFDriver) (w : Writer) (fields : QgsFields)
    (geometryType : WkbType) (fieldValueConverter : Option FieldValueConverter)
    (layer : OGRLayer) : Writer × Bool × List Effect :=
  let w := { w with
    mLayer := some layer
    mFields := fields
    mAttrIdxToOgrIdx := QMap.empty
    mFieldValueConverter := fieldValueConverter }
  let r := initFields env poDriver fields fieldValueConverter fields.length 0 [] layer w
  if !r.2.1 then (r.1, false, r.2.2)
  else
    let w := { r.1 with mWkbType := geometryType }
    let g := createEmptyGeometry poDriver geometryType
    if geometryType ≠ .NoGeometry then ({ w with mGeom := g.1 }, true, r.2.2 ++ [.ogr g.2])
    else (w, true, r.2.2)

/-- The middle part of `init`, entered once the driver is found and the file name and the
options are settled: the data source and the layer are created, the codec is chosen and the
`.qpj` file of a shapefile is written; `initAttributes` follows.  `effects` are the calls made
before. -/
def initDataSource (env : Env) (poDriver : OGRSFDriver) (w : Writer)
    (vectorFileName fileEncoding : String) (fields : QgsFields) (geometryType : WkbType)
    (srs : QgsCoordinateReferenceSystem) (datasourceOptions layerOptions : List String)
    (newFilename : Bool) (fieldValueConverter : Option FieldValueConverter)
    (effects : List Effect) : Writer × Option String × List Effect :=
  let mDS := poDriver.createDataSource vectorFileName datasourceOptions
  let effects := effects ++ [.createDataSource vectorFileName datasourceOptions mDS]
  if !mDS then
    ({ w with
        mError := .ErrCreateDataSource
        mErrorMessage := tr "creation of data source failed (OGR error:" ++
          env.lastErrorMsg ++ ")" }, none, effects)
  else
    let w := { w with mDS := true, mCodec := some (chooseCodec env fileEncoding) }
    let w := if srs.isValid then { w with mOgrRef := some srs.toWkt } else w
    let layerName := baseName vectorFileName
    let wkbType := ogrTypeFromWkbType geometryType
    let layerOptions := layerOptions.erase "FEATURE_DATASET="
    let mLayer := poDriver.createLayer layerName w.mOgrRef wkbType layerOptions
    let effects := effects ++ [.createLayer layerName wkbType layerOptions mLayer.isSome]
    let effects :=
      if srs.isValid ∧ w.mOgrDriverName = "ESRI Shapefile" ∧
          env.canOpenForWriting (leftOfCI vectorFileName ".shp" ++ ".qpj") then
        effects ++ [.writeQpj (leftOfCI vectorFileName ".shp" ++ ".qpj")]
      else effects
    match mLayer with
    | none =>
      ({ w with
          mErrorMessage := tr "creation of layer failed (OGR error:" ++ env.lastErrorMsg ++ ")"
          mError := .ErrCreateLayer }, none, effects)
    | some defn =>
      let r := initAttributes env poDriver w fields geometryType fieldValueConverter
        { defn := defn, features := [], attempts := 0 }
      (r.1, if r.2.1 ∧ newFilename then some vectorFileName else none, effects ++ r.2.2)

/-- The method `init`, which both constructors call on the freshly initialised members `w`.
The result is the writer, the value stored through `newFilename` (when `init` gets that far
and the pointer is given) and the calls made. -/
def init (env : Env) (w : Writer) (vectorFileName fileEncoding : String) (fields : QgsFields)
    (geometryType : WkbType) (srs : QgsCoordinateReferenceSystem) (driverName : String)
    (datasourceOptions layerOptions : List String) (newFilename : Bool)
    (fieldValueConverter : Option FieldValueConverter) :
    Writer × Option String × List Effect :=
  if vectorFileName.isEmpty then
    ({ w with mErrorMessage := tr "Empty filename given", mError := .ErrCreateDataSource },
      none, [])
  else
    let mOgrDriverName :=
      if driverName = "MapInfo MIF" then "MapInfo File"
      else if driverName = "SpatiaLite" then "SQLite"
      else if driverName = "DBF file" then "ESRI Shapefile"
      else driverName
    let datasourceOptions :=
      if driverName = "SpatiaLite" ∧ !datasourceOptions.contains "SPATIALITE=YES" then
        datasourceOptions ++ ["SPATIALITE=YES"]
      else datasourceOptions
    let isDbf : Bool := decide (driverName = "DBF file")
    let layerOptions :=
      if isDbf ∧ !layerOptions.contains "SHPT=NULL" then layerOptions ++ ["SHPT=NULL"]
      else layerOptions
    let srs := if isDbf then QgsCoordinateReferenceSystem.invalid else srs
    let w := { w with mOgrDriverName := mOgrDriverName }
    match env.getDriverByName mOgrDriverName with
    | none =>
      ({ w with
          mErrorMessage := tr "OGR driver for '" ++ driverName ++ "' not found (OGR error: " ++
            env.lastErrorMsg ++ ")"
          mError := .ErrDriverNotFound }, none, [.getDriverByName mOgrDriverName])
    | some poDriver =>
      let w := { w with poDriver := some poDriver }
      let metadata := driverMetadata env.GDAL_VERSION_NUM driverName
      let layerOptions :=
        if mOgrDriverName = "ESRI Shapefile" ∧
            !containsStr (toUpper (String.join layerOptions)) "ENCODING=" then
          layerOptions ++
            ["ENCODING=" ++ convertCodecNameForEncodingOption env.isNumber fileEncoding]
        else layerOptions
      let vectorFileName := fileNameWithExtension mOgrDriverName driverName vectorFileName metadata
      let duplicate : Option String :=
        if mOgrDriverName = "ESRI Shapefile" ∧ env.GDAL_VERSION_NUM < 1700 then
          duplicateTrimmedName fields []
        else none
      match duplicate with
      | some name =>
        ({ w with
            mErrorMessage := tr "trimming attribute name '" ++ name ++
              "' to ten significant characters produces duplicate column name."
            mError := .ErrAttributeCreationFailed }, none, [.getDriverByName mOgrDriverName])
      | none =>
        let removal : Effect :=
          if mOgrDriverName = "ESRI Shapefile" then .deleteShapeFile vectorFileName
          else .fileRemove vectorFileName
        let fileEncoding :=
          match metadata with
          | some metadata =>
            if !metadata.compulsoryEncoding.isEmpty ∧
                !equalsCI fileEncoding metadata.compulsoryEncoding then
              metadata.compulsoryEncoding
            else fileEncoding
          | none => fileEncoding
        initDataSource env poDriver w vectorFileName fileEncoding fields geometryType srs
          datasourceOptions layerOptions newFilename fieldValueConverter
          [.getDriverByName mOgrDriverName, removal]

/-- The constructors of `QgsVectorFileWriter`: the member initialisers followed by `init`. -/
def Writer.construct (env : Env) (vectorFileName fileEncoding : String) (fields : QgsFields)
    (geometryType : WkbType) (srs : QgsCoordinateReferenceSystem) (driverName : String)
    (datasourceOptions layerOptions : List String) (newFilename : Bool)
    (symbologyExport : SymbologyExport) (fieldValueConverter : Option FieldValueConverter) :
    Writer × Option String × List Effect :=
  init env (Writer.initial geometryType symbologyExport) vectorFileName fileEncoding fields
    geometryType srs driverName datasourceOptions layerOptions newFilename fieldValueConverter

/-! ## Writing one feature -/

/-- The static method `mmScaleFactor`. -/
def mmScaleFactor (scaleDenominator : QDouble) (symbolUnits : RenderUnit)
    (mapUnits : DistanceUnit) : ScaleFactor :=
  if symbolUnits = .RenderMillimeters then .one
  else if mapUnits = .DistanceMeters then .thousandOver scaleDenominator
  else .one

/-- The static method `mapUnitScaleFactor`. -/
def mapUnitScaleFactor (scaleDenominator : QDouble) (symbolUnits : RenderUnit)
    (mapUnits : DistanceUnit) : ScaleFactor :=
  if symbolUnits = .RenderMapUnits then .one
  else if symbolUnits = .RenderMillimeters ∧ mapUnits = .DistanceMeters then
    .overThousand scaleDenominator
  else .one

/-- The outcome of the `switch ( attrValue.type() )` of `createFeature` for one attribute. -/
inductive FieldWrite
  | write (value : OGRFieldValue)
  | skip
  | unsupported
deriving DecidableEq, Repr

/-- The `switch ( attrValue.type() )` of `createFeature`: the value handed to OGR for an
attribute value, `skip` for the case `QVariant::Invalid` and `unsupported` for the `default:`
case.  `gdal2` is the condition `GDAL_VERSION_NUM >= 2000000`, `shapefile` the condition
`mOgrDriverName == "ESRI Shapefile"`. -/
def fieldWrite (fromUnicode : String → String) (gdal2 shapefile : Bool) (attrValue : QVariant) :
    FieldWrite :=
  match attrValue.type with
  | .Int => .write (.integer attrValue.toInt)
  | .UInt =>
    if gdal2 then .write (.integer attrValue.toInt)
    else .write (.string (fromUnicode attrValue.toString))
  | .LongLong =>
    if gdal2 then .write (.integer64 attrValue.toLongLong)
    else .write (.string (fromUnicode attrValue.toString))
  | .ULongLong =>
    if gdal2 then .write (.integer64 attrValue.toLongLong)
    else .write (.string (fromUnicode attrValue.toString))
  | .String => .write (.string (fromUnicode attrValue.toString))
  | .Double => .write (.real attrValue.toDouble)
  | .Date =>
    .write (.dateTime attrValue.toDate.year attrValue.toDate.month attrValue.toDate.day 0 0 0 0)
  | .DateTime =>
    if shapefile then
      .write (.string (fromUnicode (QVariant.dateTimeFormatted attrValue.toDateTime)))
    else
      .write (.dateTime attrValue.toDateTime.date.year attrValue.toDateTime.date.month
        attrValue.toDateTime.date.day attrValue.toDateTime.time.hour
        attrValue.toDateTime.time.minute attrValue.toDateTime.time.second 0)
  | .Time =>
    if shapefile then .write (.string (fromUnicode attrValue.toString))
    else
      .write (.dateTime 0 0 0 attrValue.toTime.hour attrValue.toTime.minute
        attrValue.toTime.second 0)
  | .Invalid => .skip
  | _ => .unsupported

/-- The attribute loop of `createFeature` over the entries of `mAttrIdxToOgrIdx` that are still
to be visited.  The boolean of the result is `false` when the loop ends in the `default:` case,
where `createFeature` returns a null record. -/
def writeAttributes (env : Env) (feature : QgsFeature) :
    List (Int × Int) → Writer → OGRFeature → Writer × OGRFeature × Bool × List OgrCall
  | [], w, poFeature => (w, poFeature, true, [])
  | (fldIdx, ogrField) :: rest, w, poFeature =>
    let attrValue := feature.attributeValue fldIdx
    if !attrValue.isValid ∨ attrValue.isNull then writeAttributes env feature rest w poFeature
    else
      let attrValue :=
        match w.mFieldValueConverter with
        | some converter => converter.convert fldIdx attrValue
        | none => attrValue
      match fieldWrite w.fromUnicode (decide (env.GDAL_VERSION_NUM ≥ 2000000))
          (decide (w.mOgrDriverName = "ESRI Shapefile")) attrValue with
      | .write value =>
        let r := writeAttributes env feature rest w
          { poFeature with fields := poFeature.fields ++ [(ogrField, value)] }
        (r.1, r.2.1, r.2.2.1, .F_SetField poFeature.handle ogrField value :: r.2.2.2)
      | .skip => writeAttributes env feature rest w poFeature
      | .unsupported =>
        let message := tr "Invalid variant type for field " ++ (w.mFields.at fldIdx).name ++
          "[" ++ toString ogrField ++ "]: received " ++ attrValue.typeName ++ " with type " ++
          attrValue.toString
        ({ w with mErrorMessage := message, mError := .ErrFeatureWriteFailed }, poFeature, false,
          [.logMessage message])

/-- The end of `createFeature` when a geometry could not be created or imported: the error is
recorded, the record destroyed and a null record returned. -/
def geometryNotImported (env : Env) (w : Writer) (poFeature : OGRFeature)
    (calls : List OgrCall) : Option OGRFeature × Writer × List OgrCall :=
  let message := tr "Feature geometry not imported (OGR error: " ++ env.lastErrorMsg ++ ")"
  (none, { w with mErrorMessage := message, mError := .ErrFeatureWriteFailed },
    calls ++ [.logMessage message, .F_Destroy poFeature.handle])

/-- The geometry part of `createFeature` (the block `if ( mWkbType != NoGeometry )`).  When the
scratch geometry `mGeom` is null (its creation failed in `init`) the import into it fails. -/
def setFeatureGeometry (env : Env) (poDriver : OGRSFDriver) (feature : QgsFeature) (w : Writer)
    (poFeature : OGRFeature) : Option OGRFeature × Writer × List OgrCall :=
  if w.mWkbType ≠ .NoGeometry then
    match feature.geometry with
    | some geom =>
      let geom :=
        if QgsWkbTypes.flatType geom.wkbType ≠ QgsWkbTypes.flatType w.mWkbType ∧
            QgsWkbTypes.flatType geom.wkbType =
              QgsWkbTypes.flatType (QgsWkbTypes.singleType w.mWkbType) then
          geom.convertToMultiType
        else geom
      if geom.wkbType ≠ w.mWkbType then
        let forced : Option OGRGeometry × List OgrCall :=
          if QgsWkbTypes.code .Point25D ≤ QgsWkbTypes.code w.mWkbType ∧
              QgsWkbTypes.code w.mWkbType ≤ QgsWkbTypes.code .MultiPolygon25D ∧
              QgsWkbTypes.code .PointZ ≤ QgsWkbTypes.code geom.wkbType ∧
              QgsWkbTypes.code geom.wkbType ≤ QgsWkbTypes.code .MultiPolygonZ then
            let wkbType25d := QgsWkbTypes.ofCode
              (QgsWkbTypes.code geom.wkbType - QgsWkbTypes.code .PointZ +
                QgsWkbTypes.code .Point25D)
            let g := createEmptyGeometry poDriver wkbType25d
            (g.1, [g.2])
          else (none, [])
        let created : Option OGRGeometry × List OgrCall :=
          match forced.1 with
          | some g => (some g, forced.2)
          | none =>
            let g := createEmptyGeometry poDriver geom.wkbType
            (g.1, forced.2 ++ [g.2])
        match created.1 with
        | none => geometryNotImported env w poFeature created.2
        | some mGeom2 =>
          let ok := poDriver.importFromWkb mGeom2.type geom
          let calls := created.2 ++ [.G_ImportFromWkb mGeom2.type geom ok]
          if !ok then geometryNotImported env w poFeature calls
          else
            let mGeom2 := { mGeom2 with content := some geom }
            (some { poFeature with geometry := some mGeom2 }, w,
              calls ++ [.F_SetGeometryDirectly poFeature.handle mGeom2])
      else
        match w.mGeom with
        | none => geometryNotImported env w poFeature []
        | some mGeom =>
          let ok := poDriver.importFromWkb mGeom.type geom
          let calls : List OgrCall := [.G_ImportFromWkb mGeom.type geom ok]
          if !ok then geometryNotImported env w poFeature calls
          else
            let mGeom := { mGeom with content := some geom }
            (some { poFeature with geometry := some mGeom }, { w with mGeom := some mGeom },
              calls ++ [.F_SetGeometry poFeature.handle (some mGeom)])
    | none =>
      let g := createEmptyGeometry poDriver w.mWkbType
      (some { poFeature with geometry := g.1 }, w, [g.2, .F_SetGeometry poFeature.handle g.1])
  else (some poFeature, w, [])

/-- The part of `createFeature` after the record is allocated and its feature id set: the
attribute loop, then the geometry. -/
def fillFeature (env : Env) (poDriver : OGRSFDriver) (feature : QgsFeature) (w : Writer)
    (poFeature : OGRFeature) : Option OGRFeature × Writer × List OgrCall :=
  let a := writeAttributes env feature w.mAttrIdxToOgrIdx.entries w poFeature
  if !a.2.2.1 then (none, a.1, a.2.2.2)
  else
    let g := setFeatureGeometry env poDriver feature a.1 a.2.1
    (g.1, g.2.1, a.2.2.2 ++ g.2.2)

/-- The record `createFeature` allocates with `OGR_F_Create`, after the statement that sets its
feature id when the id of the feature exceeds the largest `int`. -/
def newFeature (poDriver : OGRSFDriver) (w : Writer) (feature : QgsFeature) : OGRFeature :=
  { handle := w.nextHandle
    fid := if feature.id > 2147483647 ∧ poDriver.setFID feature.id then some feature.id else none
    fields := []
    geometry := none
    styleString := none }

/-- The OGR calls of `createFeature` that allocate the record and set its feature id. -/
def newFeatureCalls (poDriver : OGRSFDriver) (w : Writer) (feature : QgsFeature) : List OgrCall :=
  if feature.id > 2147483647 then
    [.F_Create w.nextHandle, .F_SetFID w.nextHandle feature.id (poDriver.setFID feature.id)]
  else [.F_Create w.nextHandle]

/-- The method `createFeature`: the output record for a feature (`none` for a null record),
the writer afterwards and the OGR calls made.  A writer without a driver or a layer has null
handles, for which the source has no defined behaviour; the model makes no call then. -/
def createFeature (env : Env) (w : Writer) (feature : QgsFeature) :
    Option OGRFeature × Writer × List OgrCall :=
  match w.poDriver, w.mLayer with
  | some poDriver, some _ =>
    let r := fillFeature env poDriver feature { w with nextHandle := w.nextHandle + 1 }
      (newFeature poDriver w feature)
    (r.1, r.2.1, newFeatureCalls poDriver w feature ++ r.2.2)
  | _, _ => (none, w, [])

/-- The method `resetMap`. -/
def resetMap (w : Writer) (attributes : List Int) : Writer :=
  let loop := (List.range attributes.length).foldl
    (fun (st : QMap Int Int × QMap Int Int) (i : Nat) =>
      let value := st.1.index (i : Int) 0
      (value.2, st.2.insert (attributes.getD i 0) value.1))
    (w.mAttrIdxToOgrIdx, QMap.empty)
  { w with mAttrIdxToOgrIdx := loop.2 }

/-- The method `writeFeature`: the commit of a record to the layer.  A failed commit records
the error and destroys the record. -/
def writeFeature (env : Env) (w : Writer) (feature : OGRFeature) : Bool × Writer × List OgrCall :=
  match w.poDriver, w.mLayer with
  | some poDriver, some layer =>
    if !poDriver.createFeature layer feature then
      let message := tr "Feature creation error (OGR error: " ++ env.lastErrorMsg ++ ")"
      (false,
        { w with
          mLayer := some { layer with attempts := layer.attempts + 1 }
          mErrorMessage := message
          mError := .ErrFeatureWriteFailed },
        [.L_CreateFeature feature false, .logMessage message, .F_Destroy feature.handle])
    else
      (true,
        { w with
          mLayer := some { layer with
            features := layer.features ++ [feature], attempts := layer.attempts + 1 } },
        [.L_CreateFeature feature true])
  | _, _ => (false, w, [])

/-- The state of the symbol loops of `addFeature`: the writer, the record, the style string
collected so far and the calls made; `failed` is set when a commit failed and `addFeature`
returns `false`. -/
structure StyleLoop where
  w : Writer
  poFeature : OGRFeature
  styleString : String
  calls : List OgrCall
  failed : Bool

/-- The inner loop `for ( int i = 0; i < nSymbolLayers; ++i )` of `addFeature`, over the symbol
layers from index `i` on; `firstSymbol` tells whether the symbol is the first of the list. -/
def addFeatureSymbolLayers (env : Env) (symbol : QgsSymbol) (outputUnit : DistanceUnit)
    (firstSymbol : Bool) : List QgsSymbolLayer → Nat → StyleLoop → StyleLoop
  | [], _, st => st
  | symbolLayer :: rest, i, st =>
    let mmsf := mmScaleFactor st.w.mSymbologyScaleDenominator symbol.outputUnit outputUnit
    let musf := mapUnitScaleFactor st.w.mSymbologyScaleDenominator symbol.outputUnit outputUnit
    let currentStyle := symbolLayer.ogrFeatureStyle mmsf musf
    if st.w.mSymbologyExport = .FeatureSymbology then
      let styleString :=
        if !firstSymbol ∨ i ≠ 0 then st.styleString ++ ";" else st.styleString
      addFeatureSymbolLayers env symbol outputUnit firstSymbol rest (i + 1)
        { st with styleString := styleString ++ currentStyle }
    else if st.w.mSymbologyExport = .SymbolLayerSymbology then
      let poFeature := { st.poFeature with styleString := some currentStyle }
      let r := writeFeature env st.w poFeature
      let calls := st.calls ++ [.F_SetStyleString poFeature.handle currentStyle] ++ r.2.2
      if !r.1 then { st with w := r.2.1, poFeature := poFeature, calls := calls, failed := true }
      else
        addFeatureSymbolLayers env symbol outputUnit firstSymbol rest (i + 1)
          { st with w := r.2.1, poFeature := poFeature, calls := calls }
    else addFeatureSymbolLayers env symbol outputUnit firstSymbol rest (i + 1) st

/-- The outer loop of `addFeature` over the symbols of the feature. -/
def addFeatureSymbols (env : Env) (outputUnit : DistanceUnit) :
    List QgsSymbol → Bool → StyleLoop → StyleLoop
  | [], _, st => st
  | symbol :: rest, firstSymbol, st =>
    let st := addFeatureSymbolLayers env symbol outputUnit firstSymbol symbol.symbolLayers 0 st
    if st.failed then st else addFeatureSymbols env outputUnit rest false st

/-- The method `addFeature`: its result, the writer afterwards and the OGR calls made. -/
def addFeature (env : Env) (w : Writer) (feature : QgsFeature)
    (renderer : Option QgsFeatureRenderer) (outputUnit : DistanceUnit) :
    Bool × Writer × List OgrCall :=
  match createFeature env w feature with
  | (none, w, calls) => (false, w, calls)
  | (some poFeature, w, calls) =>
    let st : StyleLoop :=
      match renderer with
      | some renderer =>
        if w.mSymbologyExport ≠ .NoSymbology then
          let st := addFeatureSymbols env outputUnit (renderer.symbolsForFeature feature) true
            { w := w, poFeature := poFeature, styleString := "", calls := calls, failed := false }
          if st.failed then st
          else
            { st with
              poFeature := { st.poFeature with styleString := some st.styleString }
              calls := st.calls ++ [.F_SetStyleString st.poFeature.handle st.styleString] }
        else { w := w, poFeature := poFeature, styleString := "", calls := calls, failed := false }
      | none => { w := w, poFeature := poFeature, styleString := "", calls := calls, failed := false }
    if st.failed then (false, st.w, st.calls)
    else if st.w.mSymbologyExport = .NoSymbology ∨ st.w.mSymbologyExport = .FeatureSymbology then
      let r := writeFeature env st.w st.poFeature
      if !r.1 then (false, r.2.1, st.calls ++ r.2.2)
      else (true, r.2.1, st.calls ++ r.2.2 ++ [.F_Destroy st.poFeature.handle])
    else (true, st.w, st.calls ++ [.F_Destroy st.poFeature.handle])

/-! ## The source layer -/

/-- A `QgsVectorDataProvider`, as far as the writer looks at it. -/
structure QgsVectorDataProvider where
  dataSourceUri : String
deriving DecidableEq, Repr

/-- A `QgsVectorLayer`, as far as the writer looks at it.  `features` are the features of the
layer in the order an iterator returns them. -/
structure QgsVectorLayer where
  crs : QgsCoordinateReferenceSystem
  wkbType : WkbType
  fields : QgsFields
  attributeList : List Int
  providerType : String
  dataProvider : Option QgsVectorDataProvider
  storageType : String
  selectedFeaturesIds : List Int
  features : List QgsFeature
  renderer : Option QgsFeatureRenderer
  minimumValue : Int → QVariant
  maximumValue : Int → QVariant
  fieldNameIndex : String → Int

/-- The features an iterator `layer->getFeatures( req )` returns: with the flag
`QgsFeatureRequest::NoGeometry` they come without geometry, with `setFilterFids` only the
selected ones come.  The subset of attributes of a request is a hint to the provider and is
not modelled. -/
def QgsVectorLayer.getFeatures (layer : QgsVectorLayer) (noGeometry onlySelected : Bool) :
    List QgsFeature :=
  let fs := if onlySelected then layer.features.filter
    (fun f => layer.selectedFeaturesIds.contains f.id) else layer.features
  if noGeometry then fs.map (fun f => { f with geometry := none }) else fs

/-- The method `symbologyRenderer` for a non-null layer. -/
def Writer.symbologyRenderer (w : Writer) (vl : QgsVectorLayer) : Option QgsFeatureRenderer :=
  if w.mSymbologyExport = .NoSymbology then none else vl.renderer

/-- The method `startRender`, as the call it makes. -/
def Writer.startRender (w : Writer) (vl : QgsVectorLayer) : List Effect :=
  if (w.symbologyRenderer vl).isSome then [.startRender] else []

/-- The method `stopRender`, as the call it makes. -/
def Writer.stopRender (w : Writer) (vl : QgsVectorLayer) : List Effect :=
  if (w.symbologyRenderer vl).isSome then [.stopRender] else []

/-- The method `addRendererAttributes`: the attribute list with the indices of the attributes
the renderer uses appended. -/
def Writer.addRendererAttributes (w : Writer) (vl : QgsVectorLayer) (attList : List Int) :
    List Int :=
  match w.symbologyRenderer vl with
  | some renderer =>
    attList ++ (renderer.usedAttributes.filter (fun a => vl.fieldNameIndex a ≠ -1)).map
      vl.fieldNameIndex
  | none => attList

/-- The step of both export loops that reprojects a fetched feature: the feature with its
geometry transformed, or the text of the exception thrown. -/
def transformFeature (ct : QgsCoordinateTransform) (fet : QgsFeature) : Except String QgsFeature :=
  match fet.geometry with
  | some g =>
    match ct.transform g with
    | .ok g => .ok { fet with geometry := some g }
    | .error what => .error what
  | none => .ok fet

/-! ## Export ordered by symbol levels -/

/-- The `QHash< QgsSymbol*, QList<QgsFeature> >` of `exportFeaturesSymbolLevels`, keyed by the
address of the symbol. -/
abbrev SymbolFeatures := List (QgsSymbol × List QgsFeature)

/-- The lookup `features.find( symbol )`. -/
def SymbolFeatures.find (features : SymbolFeatures) (symbol : QgsSymbol) :
    Option (QgsSymbol × List QgsFeature) :=
  List.find? (fun e => decide (e.1.ptr = symbol.ptr)) features

/-- The statements `it = features.find( symbol )`, insertion of an empty list when there is no
entry, and `it.value().append( fet )`. -/
def SymbolFeatures.append (features : SymbolFeatures) (symbol : QgsSymbol) (fet : QgsFeature) :
    SymbolFeatures :=
  match features with
  | [] => [(symbol, [fet])]
  | e :: rest =>
    if e.1.ptr = symbol.ptr then (e.1, e.2 ++ [fet]) :: rest
    else e :: SymbolFeatures.append rest symbol fet

/-- The first loop of `exportFeaturesSymbolLevels` (fetching, reprojecting and bucketing the
features): the buckets, or the text of the exception of a failed transform. -/
def fetchBySymbol (ct : QgsCoordinateTransform) (renderer : QgsFeatureRenderer) :
    List QgsFeature → SymbolFeatures → Except String SymbolFeatures
  | [], features => .ok features
  | fet :: rest, features =>
    match (if ct.isValid then transformFeature ct fet else .ok fet) with
    | .error what => .error what
    | .ok fet =>
      match renderer.symbolForFeature fet with
      | none => fetchBySymbol ct renderer rest features
      | some featureSymbol =>
        fetchBySymbol ct renderer rest (SymbolFeatures.append features featureSymbol fet)

/-- A `QgsSymbolLevelItem`: a symbol and the index of one of its symbol layers. -/
structure QgsSymbolLevelItem where
  symbol : QgsSymbol
  layer : Nat

/-- The statements `while ( level >= levels.count() ) levels.append( QgsSymbolLevel() )` and
`levels[level].append( item )`. -/
def appendToLevel (levels : List (List QgsSymbolLevelItem)) (level : Nat)
    (item : QgsSymbolLevelItem) : List (List QgsSymbolLevelItem) :=
  let levels := levels ++ List.replicate (level + 1 - levels.length) []
  levels.modify (fun l => l ++ [item]) level

/-- The inner loop of the level ordering, over the symbol layers of `sym` from index `j` on. -/
def symbolLevelsOfLayers (sym : QgsSymbol) :
    List QgsSymbolLayer → Nat → List (List QgsSymbolLevelItem) → List (List QgsSymbolLevelItem)
  | [], _, levels => levels
  | symbolLayer :: rest, j, levels =>
    let level := symbolLayer.renderingPass
    if level < 0 ∨ level ≥ 1000 then symbolLevelsOfLayers sym rest (j + 1) levels
    else symbolLevelsOfLayers sym rest (j + 1) (appendToLevel levels level.toNat ⟨sym, j⟩)

/-- The loop "find out order" of `exportFeaturesSymbolLevels`: the level items by rendering
pass. -/
def symbolLevelOrder (symbols : List QgsSymbol) : List (List QgsSymbolLevelItem) :=
  symbols.foldl (fun levels sym => symbolLevelsOfLayers sym sym.symbolLayers 0 levels) []

/-- The state of the writing loops of `exportFeaturesSymbolLevels`. -/
structure LevelLoop where
  w : Writer
  nErrors : Int
  nTotalFeatures : Int
  calls : List OgrCall

/-- The innermost loop of `exportFeaturesSymbolLevels`: the features of one symbol written for
one symbol layer with style string `styleString`. -/
def exportLevelFeatures (env : Env) (styleString : String) :
    List QgsFeature → LevelLoop → LevelLoop
  | [], st => st
  | feature :: rest, st =>
    let st := { st with nTotalFeatures := st.nTotalFeatures + 1 }
    match createFeature env st.w feature with
    | (none, w, calls) =>
      exportLevelFeatures env styleString rest
        { st with w := w, nErrors := st.nErrors + 1, calls := st.calls ++ calls }
    | (some ogrFeature, w, calls) =>
      if !styleString.isEmpty then
        let ogrFeature := { ogrFeature with styleString := some styleString }
        let r := writeFeature env w ogrFeature
        exportLevelFeatures env styleString rest
          { st with
            w := r.2.1
            nErrors := if !r.1 then st.nErrors + 1 else st.nErrors
            calls := st.calls ++ calls ++ [.F_SetStyleString ogrFeature.handle styleString] ++
              r.2.2 ++ [.F_Destroy ogrFeature.handle] }
      else
        exportLevelFeatures env styleString rest
          { st with w := w, calls := st.calls ++ calls ++ [.F_Destroy ogrFeature.handle] }

/-- The body of the loop over the items of a level.  The style string is taken from the symbol
layer `item.layer()` of the symbol found in the hash, which is the symbol of the item. -/
def exportLevelItem (env : Env) (mapUnits : DistanceUnit) (features : SymbolFeatures)
    (item : QgsSymbolLevelItem) (st : LevelLoop) : LevelLoop :=
  match features.find item.symbol with
  | none => { st with nErrors := st.nErrors + 1 }
  | some (key, featureList) =>
    let mmsf := mmScaleFactor st.w.mSymbologyScaleDenominator key.outputUnit mapUnits
    let musf := mapUnitScaleFactor st.w.mSymbologyScaleDenominator key.outputUnit mapUnits
    match key.symbolLayers.get? item.layer with
    | some symbolLayer =>
      exportLevelFeatures env (symbolLayer.ogrFeatureStyle mmsf musf) featureList st
    | none => st

/-- The result of `exportFeaturesSymbolLevels`: the returned error, the error message behind
the pointer `errorMessage`, the writer, the calls made and the two counters at the end. -/
structure SymbolLevelsResult where
  error : WriterError
  errorMessage : Option String
  w : Writer
  effects : List Effect
  nErrors : Int
  nTotalFeatures : Int

/-- The method `exportFeaturesSymbolLevels` for a non-null layer; `fit` lists the features the
iterator returns. -/
def exportFeaturesSymbolLevels (env : Env) (w : Writer) (layer : QgsVectorLayer)
    (fit : List QgsFeature) (ct : QgsCoordinateTransform) (errorMessage : Option String) :
    SymbolLevelsResult :=
  match layer.renderer with
  | none => ⟨.ErrInvalidLayer, errorMessage, w, [], 0, 0⟩
  | some renderer =>
    let mapUnits := if ct.isValid then ct.destinationCrs.mapUnits else layer.crs.mapUnits
    match fetchBySymbol ct renderer fit [] with
    | .error what =>
      let msg := tr "Failed to transform, writing stopped. (Exception: " ++ what ++ ")"
      ⟨.ErrProjection, errorMessage.map (fun _ => msg), w, w.startRender layer, 0, 0⟩
    | .ok features =>
      let levels := symbolLevelOrder renderer.symbols
      let st := levels.foldl
        (fun st level => level.foldl (fun st item => exportLevelItem env mapUnits features item st)
          st)
        (⟨w, 0, 0, []⟩ : LevelLoop)
      let effects := w.startRender layer ++ st.calls.map Effect.ogr ++ st.w.stopRender layer
      let errorMessage :=
        if st.nErrors > 0 then
          errorMessage.map (fun m => m ++ tr "\nOnly " ++ toString (st.nTotalFeatures - st.nErrors)
            ++ " of " ++ toString st.nTotalFeatures ++ " features written.")
        else errorMessage
      ⟨if st.nErrors > 0 then .ErrFeatureWriteFailed else .NoError, errorMessage, st.w, effects,
        st.nErrors, st.nTotalFeatures⟩

/-! ## The batch export `writeAsVectorFormat` -/

/-- How a call of `writeAsVectorFormat` ends: with a returned error code, or in the dereference
of the null renderer of a layer without renderer (`r->capabilities()`). -/
inductive Outcome
  | returned (error : WriterError)
  | nullDereference
deriving DecidableEq, Repr

/-- The parameters of `writeAsVectorFormat` after the layer.  `errorMessage` is the string
behind the pointer of that name (`none` for a null pointer) and `newFilename` tells whether
that pointer is given. -/
structure WriteArgs where
  fileName : String
  fileEncoding : String
  ct : QgsCoordinateTransform
  driverName : String
  onlySelected : Bool
  errorMessage : Option String
  datasourceOptions : List String
  layerOptions : List String
  skipAttributeCreation : Bool
  newFilename : Bool
  symbologyExport : SymbologyExport
  symbologyScale : QDouble
  filterExtent : Option QgsRectangle
  overrideGeometryType : WkbType
  forceMulti : Bool
  includeZ : Bool
  attributes : List Int
  fieldValueConverter : Option FieldValueConverter

/-- The result of `writeAsVectorFormat`: how the call ends, the error message behind the
pointer `errorMessage`, the file name behind `newFilename`, and the calls made. -/
structure ExportResult where
  outcome : Outcome
  errorMessage : Option String
  newFilename : Option String
  effects : List Effect

/-- How the loop "write all features" stands: still running, left by `break` at the error
ceiling, or left by the `return ErrProjection` of the exception handler. -/
inductive LoopExit
  | running
  | stopped
  | projection
deriving DecidableEq, Repr

/-- The variables of the loop "write all features" of `writeAsVectorFormat`. -/
structure WriteLoop where
  w : Writer
  errorMessage : Option String
  n : Int
  errors : Int
  effects : List Effect
  exit : LoopExit

/-- The first statements of the loop body for a fetched feature: the reprojection (when a
transform is given) and the extent filter, then the clearing of the attributes when attribute
creation is skipped.  The result is the text of the exception of a failed transform, `none`
for a feature the filter skips (`continue`), or the feature that goes to `addFeature`. -/
def prepareFeature (env : Env) (args : WriteArgs) (shallTransform : Bool) (attributes : List Int)
    (fet : QgsFeature) : Except String (Option QgsFeature) :=
  match (if shallTransform then transformFeature args.ct fet else .ok fet) with
  | .error what => .error what
  | .ok fet =>
    let filteredOut : Bool :=
      match fet.geometry, args.filterExtent with
      | some g, some filterExtent => !env.intersects g filterExtent
      | _, _ => false
    if filteredOut then .ok none
    else if attributes.length < 1 ∧ args.skipAttributeCreation then .ok (some fet.initAttributes0)
    else .ok (some fet)

/-- The message of the exception handler of the loop "write all features". -/
def projectionMessage (fet : QgsFeature) (what : String) : String :=
  tr "Failed to transform a point while drawing a feature with ID '" ++ toString fet.id ++
    "'. Writing stopped. (Exception: " ++ what ++ ")"

/-- The body of the loop "write all features" for one fetched feature. -/
def writeLoopBody (env : Env) (args : WriteArgs) (layer : QgsVectorLayer) (shallTransform : Bool)
    (attributes : List Int) (mapUnits : DistanceUnit) (fet : QgsFeature) (st : WriteLoop) :
    WriteLoop :=
  match prepareFeature env args shallTransform attributes fet with
  | .error what =>
    { st with
      errorMessage := st.errorMessage.map (fun _ => projectionMessage fet what)
      effects := st.effects ++ [.deleteWriter, .logMessage (projectionMessage fet what)]
      exit := .projection }
  | .ok none => st
  | .ok (some fet) =>
    let r := addFeature env st.w fet layer.renderer mapUnits
    let effects := st.effects ++ [.addFeature fet r.1] ++ r.2.2.map Effect.ogr
    if !r.1 then
      let err := r.2.1.hasError
      let errorMessage :=
        if err ≠ .NoError then
          st.errorMessage.map (fun m =>
            (if m.isEmpty then tr "Feature write errors:" else m) ++ "\n" ++
              r.2.1.errorMessage)
        else st.errorMessage
      let errors := st.errors + 1
      if errors > 1000 then
        { w := r.2.1
          errorMessage := errorMessage.map (fun m =>
            m ++ tr "Stopping after " ++ toString errors ++ " errors")
          n := -1
          errors := errors
          effects := effects
          exit := .stopped }
      else
        { w := r.2.1, errorMessage := errorMessage, n := st.n + 1, errors := errors,
          effects := effects, exit := .running }
    else
      { w := r.2.1, errorMessage := st.errorMessage, n := st.n + 1, errors := st.errors,
        effects := effects, exit := .running }

/-- The loop `while ( fit.nextFeature( fet ) )` of `writeAsVectorFormat` over the features the
iterator still has. -/
def writeLoop (env : Env) (args : WriteArgs) (layer : QgsVectorLayer) (shallTransform : Bool)
    (attributes : List Int) (mapUnits : DistanceUnit) : List QgsFeature → WriteLoop → WriteLoop
  | [], st => st
  | fet :: rest, st =>
    let st := writeLoopBody env args layer shallTransform attributes mapUnits fet st
    if st.exit = .running then
      writeLoop env args layer shallTransform attributes mapUnits rest st
    else st

/-- The map units `writeAsVectorFormat` passes to `addFeature`. -/
def exportMapUnits (args : WriteArgs) (layer : QgsVectorLayer) : DistanceUnit :=
  if args.ct.isValid then args.ct.destinationCrs.mapUnits else layer.crs.mapUnits

/-- The result of `OGR_L_StartTransaction( writer->mLayer )` as the flag
`transactionsEnabled`. -/
def transactionsEnabled (w : Writer) : Bool :=
  match w.poDriver with
  | some poDriver => poDriver.startTransaction
  | none => false

/-- The state in which the streaming path enters the loop "write all features": the render
start and the transaction start are done, the field map is reset and `mFields` holds the
fields of the layer. -/
def streamingStart (layer : QgsVectorLayer) (w : Writer)
    (attributes : List Int) (errorMessage : Option String) : WriteLoop :=
  { w := { resetMap w attributes with mFields := layer.fields }
    errorMessage := errorMessage
    n := 0
    errors := 0
    effects := w.startRender layer ++ [.startTransaction (transactionsEnabled w)]
    exit := .running }

/-- The summary `writeAsVectorFormat` appends to the error message. -/
def summaryText (written total : Int) : String :=
  tr "\nOnly " ++ toString written ++ " of " ++ toString total ++ " features written."

/-- The streaming path of `writeAsVectorFormat`: the code from `int n = 0, errors = 0;` to the
end of the function, run on the constructed writer `w` with the attribute list `attributes`
(renderer attributes included), the features `fit` of the iterator and the error message
`errorMessage` as it stands.  The result is the returned error, the error message and the calls
made. -/
def writeStreaming (env : Env) (args : WriteArgs) (layer : QgsVectorLayer) (w : Writer)
    (attributes : List Int) (fit : List QgsFeature) (errorMessage : Option String) :
    WriterError × Option String × List Effect :=
  let st := writeLoop env args layer args.ct.isValid attributes (exportMapUnits args layer) fit
    (streamingStart layer w attributes errorMessage)
  if st.exit = .projection then (.ErrProjection, st.errorMessage, st.effects)
  else
    let committed : List Effect :=
      if transactionsEnabled w then
        [.commitTransaction
          (match st.w.poDriver with
            | some poDriver => poDriver.commitTransaction
            | none => false)]
      else []
    let effects := st.effects ++ committed ++ st.w.stopRender layer ++ [.deleteWriter]
    let errorMessage :=
      if st.errors > 0 ∧ st.n > 0 then
        st.errorMessage.map (fun m => m ++ summaryText (st.n - st.errors) st.n)
      else st.errorMessage
    (if st.errors = 0 then .NoError else .ErrFeatureWriteFailed, errorMessage, effects)

/-- The destination geometry type `writeAsVectorFormat` computes first (before it looks at the
provider of the layer). -/
def destinationWkbType (layer : QgsVectorLayer) (overrideGeometryType : WkbType)
    (forceMulti includeZ : Bool) : WkbType :=
  let destWkbType := layer.wkbType
  let destWkbType :=
    if overrideGeometryType ≠ .Unknown then
      let flat := QgsWkbTypes.flatType overrideGeometryType
      if QgsWkbTypes.hasZ overrideGeometryType ∨ includeZ then QgsWkbTypes.addZ flat else flat
    else destWkbType
  if forceMulti then QgsWkbTypes.multiType destWkbType else destWkbType

/-- The attribute list `writeAsVectorFormat` exports: none when attribute creation is skipped,
the requested ones, or, when none is requested, all attributes of the layer except Oracle
geometry columns. -/
def exportedAttributes (layer : QgsVectorLayer) (skipAttributeCreation : Bool)
    (attributes : List Int) : List Int :=
  if skipAttributeCreation then []
  else if attributes.isEmpty then
    layer.attributeList.filter (fun idx =>
      !(layer.providerType = "oracle" ∧ containsStr (layer.fields.at idx).typeName "SDO_GEOMETRY"))
  else attributes

/-- The Qt function `qAbs` on a `qlonglong`, `t >= 0 ? t : -t`: the negation of `LLONG_MIN`
wraps around in a 64-bit two's-complement register and gives `LLONG_MIN` again. -/
def qAbs (t : Int) : Int :=
  if t ≥ 0 then t else if t = -9223372036854775808 then t else -t

/-- The loop of `writeAsVectorFormat` for a layer of the `spatialite` provider: a 64-bit
integer field at position `i` of the exported fields becomes a 32-bit one when the minimum and
maximum of the layer attribute `i` are small enough. -/
def narrowSpatialiteFields (layer : QgsVectorLayer) : List QgsField → Int → List QgsField
  | [], _ => []
  | fld :: rest, i =>
    let fld :=
      if fld.type = .LongLong ∧
          max (qAbs (layer.minimumValue i).toLongLong) (qAbs (layer.maximumValue i).toLongLong)
            < 2147483647 then
        { fld with type := .Int }
      else fld
    fld :: narrowSpatialiteFields layer rest (i + 1)

/-- The method `writeAsVectorFormat` (the overload taking a `QgsCoordinateTransform`). -/
def writeAsVectorFormat (env : Env) (layer : Option QgsVectorLayer) (args : WriteArgs) :
    ExportResult :=
  match layer with
  | none => ⟨.returned .ErrInvalidLayer, args.errorMessage, none, []⟩
  | some layer =>
    let outputCRS := if args.ct.isValid then args.ct.destinationCrs else layer.crs
    let destWkbType :=
      destinationWkbType layer args.overrideGeometryType args.forceMulti args.includeZ
    let attributes := exportedAttributes layer args.skipAttributeCreation args.attributes
    let fields : QgsFields := attributes.map (fun attrIdx => layer.fields.at attrIdx)
    let srcFileName : Option String :=
      match layer.dataProvider with
      | some provider =>
        if layer.providerType = "ogr" then some (firstPart provider.dataSourceUri '|') else none
      | none => none
    let inPlace : Bool :=
      match srcFileName with
      | some srcFileName =>
        env.fileExists srcFileName &&
          decide (env.canonicalFilePath args.fileName = env.canonicalFilePath srcFileName)
      | none => false
    if inPlace then
      ⟨.returned .ErrCreateDataSource,
        args.errorMessage.map (fun _ => tr "Cannot overwrite a OGR layer in place"), none, []⟩
    else
      let destWkbType :=
        if srcFileName.isSome ∧ layer.storageType = "ESRI Shapefile" ∧
            !QgsWkbTypes.isMultiType destWkbType ∧
            (layer.getFeatures false args.onlySelected).any (fun fet =>
              match fet.geometry with
              | some g => QgsWkbTypes.isMultiType g.wkbType
              | none => false) then
          QgsWkbTypes.multiType destWkbType
        else destWkbType
      let fields :=
        if srcFileName.isNone ∧ layer.providerType = "spatialite" then
          narrowSpatialiteFields layer fields 0
        else fields
      let c := Writer.construct env args.fileName args.fileEncoding fields destWkbType outputCRS
        args.driverName args.datasourceOptions args.layerOptions args.newFilename
        args.symbologyExport args.fieldValueConverter
      let writer := c.1.setSymbologyScaleDenominator args.symbologyScale
      let err := writer.hasError
      if err ≠ .NoError then
        ⟨.returned err, args.errorMessage.map (fun _ => writer.errorMessage), c.2.1,
          c.2.2 ++ [.deleteWriter]⟩
      else
        let errorMessage := args.errorMessage.map (fun _ => "")
        let attributes := writer.addRendererAttributes layer attributes
        let fit := layer.getFeatures (decide (layer.wkbType = .NoGeometry)) args.onlySelected
        let symbolLevels : Option Bool :=
          if writer.symbologyExport = .SymbolLayerSymbology then
            layer.renderer.map (fun r => r.capabilitiesSymbolLevels && r.usingSymbolLevels)
          else some false
        match symbolLevels with
        | none => ⟨.nullDereference, errorMessage, c.2.1, c.2.2⟩
        | some true =>
          let r := exportFeaturesSymbolLevels env writer layer fit args.ct errorMessage
          ⟨.returned (if r.error = .NoError then .NoError else .ErrFeatureWriteFailed),
            r.errorMessage, c.2.1, c.2.2 ++ r.effects ++ [.deleteWriter]⟩
        | some false =>
          let r := writeStreaming env args layer writer attributes fit errorMessage
          ⟨.returned r.1, r.2.1, c.2.1, c.2.2 ++ r.2.2⟩

/-! ## Notions used by the theorems -/

/-- The calls of `addFeature` recorded in a list of effects, in order: the feature passed and
the result of the call. -/
def addFeatureCalls : List Effect → List (QgsFeature × Bool)
  | [] => []
  | .addFeature feature ok :: rest => (feature, ok) :: addFeatureCalls rest
  | _ :: rest => addFeatureCalls rest

/-- The number of calls of `addFeature` in a list of effects that returned `false`. -/
def failedCalls (effects : List Effect) : Nat :=
  ((addFeatureCalls effects).filter (fun c => !c.2)).length

/-- Whether `g.transform( ct )` throws for the geometry of a feature in a call with
arguments `args`. -/
def TransformFails (args : WriteArgs) (fet : QgsFeature) : Prop :=
  args.ct.isValid = true ∧ ∃ what, transformFeature args.ct fet = .error what

/-- The field writes `OGR_F_SetField...` among a list of OGR calls, as the output field
indices written, in order. -/
def fieldWriteTargets : List OgrCall → List Int
  | [] => []
  | .F_SetField _ ogrField _ :: rest => ogrField :: fieldWriteTargets rest
  | _ :: rest => fieldWriteTargets rest

/-- The entries of the field map whose attribute value in `feature` is valid and not null. -/
def writableEntries (w : Writer) (feature : QgsFeature) : List (Int × Int) :=
  w.mAttrIdxToOgrIdx.entries.filter
    (fun e => (feature.attributeValue e.1).isValid && !(feature.attributeValue e.1).isNull)

/-- What the claim about field creation assumes of a driver: a successful `OGR_L_CreateField`
appends exactly one field definition, and `OGR_FD_GetFieldIndex` answers with a negative number
or the index of a field of the output layer. -/
def OGRSFDriver.WellBehaved (poDriver : OGRSFDriver) : Prop :=
  (∀ defn fld defn', poDriver.createField defn fld = some defn' →
    defn'.length = defn.length + 1) ∧
  (∀ defn name, poDriver.getFieldIndex defn name < (defn.length : Int))

/-- Whether the attribute loop of `createFeature` meets no value of a type it does not
handle: every mapped attribute that is valid and not null has, after conversion, one of the
types of the `switch`. -/
def AttributesSupported (env : Env) (w : Writer) (feature : QgsFeature) : Prop :=
  ∀ e ∈ writableEntries w feature,
    fieldWrite w.fromUnicode (decide (env.GDAL_VERSION_NUM ≥ 2000000))
      (decide (w.mOgrDriverName = "ESRI Shapefile"))
      (match w.mFieldValueConverter with
        | some converter => converter.convert e.1 (feature.attributeValue e.1)
        | none => feature.attributeValue e.1) ≠ .unsupported

/-! ## Example collaborators, for concrete runs -/

/-- A driver that creates every field (appending it to the layer definition), finds fields by
their exact name, and accepts every geometry and every record. -/
def exampleDriver : OGRSFDriver :=
  { creationFieldDataTypes := some "Integer Integer64 Real String Date DateTime Time"
    createDataSource := fun _ _ => true
    createLayer := fun _ _ _ _ => some []
    createField := fun defn fld => some (defn ++ [fld])
    getFieldIndex := fun defn name =>
      if (defn.map (fun f => f.name)).indexOf name < defn.length then
        ((defn.map (fun f => f.name)).indexOf name : Int)
      else -1
    createGeometry := fun _ => true
    importFromWkb := fun _ _ => true
    setFID := fun _ => true
    createFeature := fun _ _ => true
    startTransaction := true
    commitTransaction := true }

/-- A driver like `exampleDriver` whose layer rejects every record. -/
def rejectingDriver : OGRSFDriver :=
  { exampleDriver with createFeature := fun _ _ => false }

/-- A driver of an old OGR that launders field names: a created field is stored under its
name in lower case, with `_1` appended when that name is taken, and a field is looked up by
name ignoring case. -/
def launderingDriver : OGRSFDriver :=
  { exampleDriver with
    createField := fun defn fld =>
      let name := String.mk (lowerChars fld.name)
      if (defn.map (fun f => f.name)).contains name then
        some (defn ++ [{ fld with name := name ++ "_1" }])
      else some (defn ++ [{ fld with name := name }])
    getFieldIndex := fun defn name =>
      if (defn.map (fun f => lowerChars f.name)).indexOf (lowerChars name) < defn.length then
        ((defn.map (fun f => lowerChars f.name)).indexOf (lowerChars name) : Int)
      else -1 }

/-- The codec of the examples, which leaves a text as it is. -/
def exampleCodec : QTextCodec := { name := "UTF-8", fromUnicode := fun s => s }

/-- An environment built on GDAL 2.1 in which every driver name resolves to `poDriver`. -/
def exampleEnv (poDriver : OGRSFDriver) : Env :=
  { GDAL_VERSION_NUM := 2010000
    getDriverByName := fun _ => some poDriver
    lastErrorMsg := ""
    codecForName := fun _ => some exampleCodec
    settingsEncoding := "System"
    codecForLocale := exampleCodec
    ignoreShapeEncoding := true
    fileExists := fun _ => false
    canonicalFilePath := fun path => path
    canOpenForWriting := fun _ => true
    isNumber := fun _ => false
    intersects := fun _ _ => true }

/-- A transform whose application to any geometry throws. -/
def failingTransform : QgsCoordinateTransform :=
  { isValid := true
    destinationCrs := ⟨true, "", .DistanceMeters⟩
    transform := fun _ => .error "forward transform failed" }

/-- A polygon. -/
def examplePolygon : QgsShape := ⟨.Polygon, [0, 0, 1, 0, 1, 1, 0, 0]⟩

/-- A feature with one integer attribute and a polygon geometry. -/
def exampleFeature : QgsFeature :=
  { id := 1, attributes := [.int 7], geometry := some (.single examplePolygon) }

/-- A layer of polygons with one integer field `a`, holding `features`, without renderer. -/
def exampleLayer (features : List QgsFeature) : QgsVectorLayer :=
  { crs := ⟨true, "", .DistanceMeters⟩
    wkbType := .Polygon
    fields := [⟨"a", .Int, "integer", 10, 0⟩]
    attributeList := [0]
    providerType := "memory"
    dataProvider := none
    storageType := "Memory storage"
    selectedFeaturesIds := []
    features := features
    renderer := none
    minimumValue := fun _ => .invalid
    maximumValue := fun _ => .invalid
    fieldNameIndex := fun name => if name = "a" then 0 else -1 }

/-- Arguments of `writeAsVectorFormat` for an export to a GeoPackage file without transform,
filter or symbology, with an error message sink. -/
def exampleArgs : WriteArgs :=
  { fileName := "out.gpkg"
    fileEncoding := "UTF-8"
    ct := QgsCoordinateTransform.invalid
    driverName := "GPKG"
    onlySelected := false
    errorMessage := some ""
    datasourceOptions := []
    layerOptions := []
    skipAttributeCreation := false
    newFilename := false
    symbologyExport := .NoSymbology
    symbologyScale := ⟨1⟩
    filterExtent := none
    overrideGeometryType := .Unknown
    forceMulti := false
    includeZ := false
    attributes := []
    fieldValueConverter := none }

/-- The writer constructed for an export of `exampleLayer` with `exampleArgs` to a layer of
type `geometryType` through `poDriver`. -/
def exampleWriter (poDriver : OGRSFDriver) (geometryType : WkbType) : Writer :=
  (Writer.construct (exampleEnv poDriver) "out.gpkg" "UTF-8" [⟨"a", .Int, "integer", 10, 0⟩]
    geometryType ⟨true, "", .DistanceMeters⟩ "GPKG" [] [] false .NoSymbology none).1

/-- The notice the streaming loop appends when it stops at the error ceiling. -/
def ceilingNotice : String := "Stopping after 1001 errors"

/-- What holds of the variables of the loop "write all features" between two rounds, for a
call with (`sink = true`) or without an error message sink: `errors` counts the failed calls
of `addFeature`; while the loop runs, and when a transform failed, at most 1000 calls have
failed and `n` counts the calls; after the `break` at the error ceiling exactly 1001 calls have
failed, the last call being one of them, `n` is -1 and the message ends with the notice. -/
def WriteLoop.Invariant (sink : Bool) (st : WriteLoop) : Prop :=
  st.errors = (failedCalls st.effects : Int) ∧ st.errorMessage.isSome = sink ∧
    (∀ ok, Effect.commitTransaction ok ∉ st.effects) ∧
    (st.exit ≠ .stopped →
      st.errors ≤ 1000 ∧ st.n = ((addFeatureCalls st.effects).length : Int)) ∧
    (st.exit = .stopped →
      st.errors = 1001 ∧ st.n = -1 ∧
        (∃ f, (addFeatureCalls st.effects).getLast? = some (f, false)) ∧
        ∀ m, st.errorMessage = some m → ∃ body, m = body ++ ceilingNotice)

/-- What holds of the field loop of `init` before the round for field index `k`: the field map
has the keys `0 .. k-1`, its values are members of `existingIdxs`, the members of
`existingIdxs` are indices of fields of the output layer, and no two keys share a value. -/
def FieldMapInvariant (k : Nat) (existingIdxs : QSetInt) (layer : OGRLayer)
    (m : QMap Int Int) : Prop :=
  m.keys = (List.range k).map Int.ofNat ∧ (∀ e ∈ m.entries, e.2 ∈ existingIdxs) ∧
    (∀ v ∈ existingIdxs, v < (layer.defn.length : Int)) ∧ m.Injective

/-- An environment built on GDAL 1.6 in which every driver name resolves to
`launderingDriver`. -/
def legacyEnv : Env := { exampleEnv launderingDriver with GDAL_VERSION_NUM := 1600 }

/-- A schema of two integer fields whose names differ in case only. -/
def caseFields : QgsFields := [⟨"ab", .Int, "integer", 10, 0⟩, ⟨"AB", .Int, "integer", 10, 0⟩]

/-- A renderer without symbols whose expressions use the attribute `b`. -/
def exampleRenderer : QgsFeatureRenderer :=
  { symbolsForFeature := fun _ => []
    symbolForFeature := fun _ => none
    symbols := []
    capabilitiesSymbolLevels := false
    usingSymbolLevels := false
    usedAttributes := ["b"] }

/-- A layer of polygons with two integer fields `a` and `b`, rendered by `exampleRenderer`,
holding `features`. -/
def styledLayer (features : List QgsFeature) : QgsVectorLayer :=
  { exampleLayer features with
    fields := [⟨"a", .Int, "integer", 10, 0⟩, ⟨"b", .Int, "integer", 10, 0⟩]
    attributeList := [0, 1]
    renderer := some exampleRenderer
    fieldNameIndex := fun name => if name = "a" then 0 else if name = "b" then 1 else -1 }

/-- The writer constructed for an export of the field `a` alone with feature symbology. -/
def styledWriter : Writer :=
  (Writer.construct (exampleEnv exampleDriver) "out.gpkg" "UTF-8" [⟨"a", .Int, "integer", 10, 0⟩]
    .Polygon ⟨true, "", .DistanceMeters⟩ "GPKG" [] [] false .FeatureSymbology none).1

/-- A feature with the attribute values 7 (for `a`) and 9 (for `b`) and a polygon geometry. -/
def twoAttributeFeature : QgsFeature :=
  { id := 1, attributes := [.int 7, .int 9], geometry := some (.single examplePolygon) }

/-- A feature with a boolean attribute value and a polygon geometry. -/
def booleanFeature : QgsFeature :=
  { id := 1, attributes := [.bool true], geometry := some (.single examplePolygon) }

/-- An environment like `exampleEnv exampleDriver` in which every file exists. -/
def existingFileEnv : Env :=
  { exampleEnv exampleDriver with fileExists := fun _ => true }

/-- A layer of the OGR provider read from the layer `a` of the file `out.gpkg`. -/
def ogrLayer : QgsVectorLayer :=
  { exampleLayer [exampleFeature] with
    providerType := "ogr"
    dataProvider := some ⟨"out.gpkg|layername=a"⟩
    storageType := "GPKG" }

/-! ## Notions for the statements about lookups, option defaults and field creation -/

/-- The string an option adds to the default options, in the words of the specification:
`KEY=default` for an integer option, a string option and a hidden option whatever the default
is, and for an enumerated-set option when its default is not empty. -/
def defaultOptionString (key : String) : CreationOption → Option String
  | .IntOption defaultValue => some (key ++ "=" ++ toString defaultValue)
  | .StringOption defaultValue => some (key ++ "=" ++ defaultValue)
  | .HiddenOption mValue => some (key ++ "=" ++ mValue)
  | .SetOption _ defaultValue _ =>
    if defaultValue = "" then none else some (key ++ "=" ++ defaultValue)

/-- The default value an option carries, as text. -/
def CreationOption.defaultText : CreationOption → String
  | .IntOption defaultValue => toString defaultValue
  | .StringOption defaultValue => defaultValue
  | .HiddenOption mValue => mValue
  | .SetOption _ defaultValue _ => defaultValue

/-- The field definition the loop of `init` works on for the field `fldIdx` of the schema: the
schema field, or what the field value converter makes of it. -/
def attributeField (fields : QgsFields) (fieldValueConverter : Option FieldValueConverter)
    (fldIdx : Int) : QgsField :=
  match fieldValueConverter with
  | some converter => converter.fieldDefinition (fields.at fldIdx)
  | none => fields.at fldIdx

/-- The field definitions handed to `OGR_L_CreateField` among the calls, in call order, each
with the result of the call. -/
def createdFields : List Effect → List (OGRFieldDefn × Bool)
  | [] => []
  | .createField fld ok :: rest => (fld, ok) :: createdFields rest
  | _ :: rest => createdFields rest

/-- The field definition that the round of the loop of `init` for the field `fldIdx` hands to
`OGR_L_CreateField`: `none` when the type of the field is unsupported or no name is found for
it. -/
def fieldDefnOf (env : Env) (poDriver : OGRSFDriver) (w : Writer) (fields : QgsFields)
    (fieldValueConverter : Option FieldValueConverter) (fldIdx : Int) : Option OGRFieldDefn :=
  match fieldTypeMapping env poDriver w.mOgrDriverName
      (attributeField fields fieldValueConverter fldIdx) with
  | none => none
  | some (ogrType, ogrWidth, ogrPrecision) =>
    (outputFieldName w.mOgrDriverName fields
      (attributeField fields fieldValueConverter fldIdx)).map
      (fun name => makeFieldDefn (w.fromUnicode name) ogrType ogrWidth ogrPrecision)

/-- The destination geometry type in the words of the specification: the type of the source
layer when no override is given, otherwise the flat type of the override with Z added exactly
when the override has Z or `includeZ` is set; and the multi variant of that type when
`forceMulti` is set. -/
def requestedGeometryType (layerType overrideGeometryType : WkbType)
    (forceMulti includeZ : Bool) : WkbType :=
  let resolved :=
    if overrideGeometryType = .Unknown then layerType
    else if QgsWkbTypes.hasZ overrideGeometryType = true ∨ includeZ = true then
      QgsWkbTypes.addZ (QgsWkbTypes.flatType overrideGeometryType)
    else QgsWkbTypes.flatType overrideGeometryType
  if forceMulti then QgsWkbTypes.multiType resolved else resolved

/-- A driver like `exampleDriver` that refuses to create any field. -/
def fieldRefusingDriver : OGRSFDriver :=
  { exampleDriver with createField := fun _ _ => none }

/-- Two writers agree in the members that the field loop of `init` reads or sets. -/
def Writer.SameFields (a b : Writer) : Prop :=
  a.mError = b.mError ∧ a.mErrorMessage = b.mErrorMessage ∧
    a.mAttrIdxToOgrIdx = b.mAttrIdxToOgrIdx ∧ a.mOgrDriverName = b.mOgrDriverName ∧
    a.mCodec = b.mCodec ∧ a.poDriver = b.poDriver ∧ a.mLayer.isSome = b.mLayer.isSome

/-- The field types the `switch` of `init` handles, in the words of the specification: 32-bit
integer, 64-bit integer, double, string, date, time and date-time. -/
def supportedFieldTypes : List QVariantType :=
  [.Int, .LongLong, .Double, .String, .Date, .Time, .DateTime]

/-- The OGR driver name to which `init` resolves a format name. -/
def resolvedDriverName (driverName : String) : String :=
  if driverName = "MapInfo MIF" then "MapInfo File"
  else if driverName = "SpatiaLite" then "SQLite"
  else if driverName = "DBF file" then "ESRI Shapefile"
  else driverName

/-- Whether no field of the schema is called `ogc_fid<i>`, ignoring case. -/
def replacementFree (fields : QgsFields) (i : Nat) : Bool :=
  fields.all (fun f => !equalsCI ("ogc_fid" ++ toString i) f.name)

/-- How the round of the field loop of `init` for the field `fldIdx` ends `init`, seen from the
writer `r` it leaves and the field definitions `last` it hands to the driver: the type of the
field is unsupported; or no name is found for the field; or the definition of the field is
handed to the driver and the field is not created or not found afterwards. -/
def FieldRoundStops (env : Env) (poDriver : OGRSFDriver) (fields : QgsFields)
    (fieldValueConverter : Option FieldValueConverter) (w : Writer) (fldIdx : Int)
    (r : Writer) (last : List (OGRFieldDefn × Bool)) : Prop :=
  (fieldTypeMapping env poDriver w.mOgrDriverName
      (attributeField fields fieldValueConverter fldIdx) = none ∧ last = [] ∧
    r.mError = .ErrAttributeTypeUnsupported ∧
    r.mErrorMessage = tr "unsupported type for field " ++
      (attributeField fields fieldValueConverter fldIdx).name) ∨
  (fieldTypeMapping env poDriver w.mOgrDriverName
      (attributeField fields fieldValueConverter fldIdx) ≠ none ∧
    outputFieldName w.mOgrDriverName fields
      (attributeField fields fieldValueConverter fldIdx) = none ∧ last = [] ∧
    r.mError = .ErrAttributeCreationFailed ∧
    r.mErrorMessage = tr "no available replacement for internal fieldname ogc_fid found") ∨
  (fieldTypeMapping env poDriver w.mOgrDriverName
      (attributeField fields fieldValueConverter fldIdx) ≠ none ∧
    outputFieldName w.mOgrDriverName fields
      (attributeField fields fieldValueConverter fldIdx) ≠ none ∧
    r.mError = .ErrAttributeCreationFailed ∧
    ∃ fld ok, fieldDefnOf env poDriver w fields fieldValueConverter fldIdx = some fld ∧
      last = [(fld, ok)])

/-- What the field loop of `init` leaves behind when it is started at the field `k` with `todo`
rounds to go from the writer `w`, in terms of its result `r` and the number `j` of rounds that
created and mapped their field: the calls of `OGR_L_CreateField` are those of the `j` rounds,
each for the definition of its field and each successful, followed by those of the round that
ended `init`, if any; the map has the keys `0 .. k+j-1`; and either all rounds were run and the
error state is that of `w`, or the round for the field `k + j` ended `init`. -/
def FieldLoopOutcome (env : Env) (poDriver : OGRSFDriver) (fields : QgsFields)
    (fieldValueConverter : Option FieldValueConverter) (w : Writer) (k todo j : Nat)
    (r : Writer × Bool × List Effect) : Prop :=
  j ≤ todo ∧
  r.1.mOgrDriverName = w.mOgrDriverName ∧ r.1.mCodec = w.mCodec ∧ r.1.poDriver = w.poDriver ∧
  (w.mLayer.isSome = true → r.1.mLayer.isSome = true) ∧
  r.1.mAttrIdxToOgrIdx.keys = (List.range (k + j)).map Int.ofNat ∧
  (∀ i, i < j →
    fieldTypeMapping env poDriver w.mOgrDriverName
      (attributeField fields fieldValueConverter ((k + i : Nat) : Int)) ≠ none ∧
    outputFieldName w.mOgrDriverName fields
      (attributeField fields fieldValueConverter ((k + i : Nat) : Int)) ≠ none) ∧
  ∃ created last,
    createdFields r.2.2 = created ++ last ∧ created.length = j ∧
    (∀ i, i < j → ∃ fld,
      fieldDefnOf env poDriver w fields fieldValueConverter ((k + i : Nat) : Int) = some fld ∧
      created[i]? = some (fld, true)) ∧
    ((r.2.1 = true ∧ j = todo ∧ last = [] ∧ r.1.mError = w.mError ∧
        r.1.mErrorMessage = w.mErrorMessage) ∨
      (r.2.1 = false ∧ j < todo ∧
        FieldRoundStops env poDriver fields fieldValueConverter w ((k + j : Nat) : Int) r.1
          last))

/-- What a construction leaves behind, seen from its result `c`: either `init` returned before
the output layer existed, with an error other than `ErrAttributeTypeUnsupported` and without
any field created or mapped; or the driver `poDriver` was found, the layer was created and the
field loop ran from a writer `w` without error, `j` of its rounds creating and mapping their
field, and its result `r` agrees with `c` in the members the loop sets and in the fields
created. -/
def ConstructionOutcome (env : Env) (fields : QgsFields)
    (fieldValueConverter : Option FieldValueConverter) (driverName : String)
    (c : Writer × Option String × List Effect) : Prop :=
  (c.1.mLayer = none ∧ createdFields c.2.2 = [] ∧ c.1.mError ≠ .NoError ∧
    c.1.mError ≠ .ErrAttributeTypeUnsupported ∧ c.1.mAttrIdxToOgrIdx = QMap.empty) ∨
  ∃ poDriver w j r,
    env.getDriverByName (resolvedDriverName driverName) = some poDriver ∧
    w.mOgrDriverName = resolvedDriverName driverName ∧ w.mError = .NoError ∧
    w.poDriver = some poDriver ∧ w.mLayer.isSome = true ∧
    FieldLoopOutcome env poDriver fields fieldValueConverter w 0 fields.length j r ∧
    c.1.SameFields r.1 ∧ createdFields c.2.2 = createdFields r.2.2

/-- Whether the list of creatable field data types of a driver
(`GDAL_DMD_CREATIONFIELDDATATYPES`) mentions `Integer64`. -/
def OGRSFDriver.mentionsInteger64 (poDriver : OGRSFDriver) : Bool :=
  match poDriver.creationFieldDataTypes with
  | some pszDataTypes => containsStr pszDataTypes "Integer64"
  | none => false

/-- The width `init` starts from for a field: its declared length, increased by one (as a C++
`int` is) when its declared precision is positive. -/
def QgsField.startWidth (field : QgsField) : Int :=
  if field.precision > 0 then incrementInt field.length else field.length

/-- Ten integer fields with the names `ogc_fid0` .. `ogc_fid9`. -/
def reservedNameFields : QgsFields :=
  (List.range 10).map (fun i => ⟨"ogc_fid" ++ toString i, .Int, "integer", 10, 0⟩)

/-- A schema whose first field is called `ogc_fid` and has a boolean type, followed by the
fields `ogc_fid0` .. `ogc_fid9`. -/
def booleanKeyFields : QgsFields :=
  ⟨"ogc_fid", .Bool, "boolean", 1, 0⟩ :: reservedNameFields

/-- A schema of the integer fields `ogc_fid`, `ogc_fid0` .. `ogc_fid9` followed by a boolean
field `flag`. -/
def trailingFlagFields : QgsFields :=
  ⟨"ogc_fid", .Int, "integer", 10, 0⟩ :: reservedNameFields ++ [⟨"flag", .Bool, "boolean", 1, 0⟩]

/-- A feature with a 64-bit integer attribute value that does not fit 32 bits and a polygon
geometry. -/
def bigNumberFeature : QgsFeature :=
  { id := 1, attributes := [.longlong 9000000000], geometry := some (.single examplePolygon) }

/-- The writer constructed for a schema of one 64-bit integer field `n`. -/
def bigNumberWriter : Writer :=
  (Writer.construct (exampleEnv exampleDriver) "out.gpkg" "UTF-8"
    [⟨"n", .LongLong, "int8", 0, 0⟩] .Polygon ⟨true, "", .DistanceMeters⟩ "GPKG" [] [] false
    .NoSymbology none).1

/-- The value the attribute loop of `createFeature` hands to its `switch` for the field
`fldIdx`: the attribute value of the feature, or what the field value converter of the writer
makes of it. -/
def convertedValue (w : Writer) (feature : QgsFeature) (fldIdx : Int) : QVariant :=
  match w.mFieldValueConverter with
  | some converter => converter.convert fldIdx (feature.attributeValue fldIdx)
  | none => feature.attributeValue fldIdx

/-- A schema of two integer fields called `OGC_FID` and `ogc_fid0`. -/
def reservedFirstFields : QgsFields :=
  [⟨"OGC_FID", .Int, "integer", 10, 0⟩, ⟨"ogc_fid0", .Int, "integer", 10, 0⟩]

/-- A schema of an integer field `a` followed by a boolean field `flag` and a string field
`s`. -/
def flagSecondFields : QgsFields :=
  [⟨"a", .Int, "integer", 10, 0⟩, ⟨"flag", .Bool, "boolean", 1, 0⟩, ⟨"s", .String, "string", 20, 0⟩]

/-- What the symbol loops of `addFeature` keep of the writer `w` they were started from: the
driver and the layer are still there, and the error state is `ErrFeatureWriteFailed` once a
commit has failed and that of `w` before. -/
def StyleLoop.Keeps (w : Writer) (st : StyleLoop) : Prop :=
  st.w.poDriver.isSome = true ∧ st.w.mLayer.isSome = true ∧
    (st.failed = true → st.w.mError = .ErrFeatureWriteFailed) ∧
    (st.failed = false → st.w.mError = w.mError)

/-! ## Notions for the statements about transactions, style strings, symbol levels and records -/

/-- The records handed to `OGR_L_CreateFeature` among a list of OGR calls, in call order, each
with the result of the call. -/
def committedRecords : List OgrCall → List (OGRFeature × Bool)
  | [] => []
  | .L_CreateFeature record ok :: rest => (record, ok) :: committedRecords rest
  | _ :: rest => committedRecords rest

/-- The style strings of the records handed to `OGR_L_CreateFeature` among a list of OGR
calls, in call order. -/
def committedStyles (calls : List OgrCall) : List (Option String) :=
  (committedRecords calls).map (fun c => c.1.styleString)

/-- The handles of the records allocated with `OGR_F_Create` among a list of OGR calls. -/
def createdHandles : List OgrCall → List Nat
  | [] => []
  | .F_Create handle :: rest => handle :: createdHandles rest
  | _ :: rest => createdHandles rest

/-- The number of calls of `OGR_F_Destroy` on the record `handle` among a list of OGR calls. -/
def destroyCount (handle : Nat) : List OgrCall → Nat
  | [] => 0
  | .F_Destroy h :: rest => (if h = handle then 1 else 0) + destroyCount handle rest
  | _ :: rest => destroyCount handle rest

/-- The OGR calls among a list of effects. -/
def ogrCalls : List Effect → List OgrCall
  | [] => []
  | .ogr call :: rest => call :: ogrCalls rest
  | _ :: rest => ogrCalls rest

/-- The transaction calls among a list of effects, in call order. -/
def transactionCalls : List Effect → List Effect
  | [] => []
  | .startTransaction ok :: rest => .startTransaction ok :: transactionCalls rest
  | .commitTransaction ok :: rest => .commitTransaction ok :: transactionCalls rest
  | _ :: rest => transactionCalls rest

/-- A symbol layer drawn in the rendering pass `renderingPass` whose OGR style string is
`style` at every scale. -/
def exampleSymbolLayer (style : String) (renderingPass : Int) : QgsSymbolLayer :=
  { ogrFeatureStyle := fun _ _ => style, renderingPass := renderingPass }

/-- A symbol of one symbol layer, a pen drawn in the rendering pass 0. -/
def exampleSymbol : QgsSymbol :=
  { ptr := 1, symbolLayers := [exampleSymbolLayer "PEN(w:1mm)" 0], outputUnit := .RenderMillimeters }

/-- A renderer that uses symbol levels and draws every feature with the symbol `symbol`. -/
def levelRenderer (symbol : QgsSymbol) : QgsFeatureRenderer :=
  { symbolsForFeature := fun _ => [symbol]
    symbolForFeature := fun _ => some symbol
    symbols := [symbol]
    capabilitiesSymbolLevels := true
    usingSymbolLevels := true
    usedAttributes := [] }

/-- A layer like `exampleLayer`, rendered by `levelRenderer symbol`. -/
def levelLayer (symbol : QgsSymbol) (features : List QgsFeature) : QgsVectorLayer :=
  { exampleLayer features with renderer := some (levelRenderer symbol) }

/-- Arguments like `exampleArgs` for an export with one record per symbol layer. -/
def levelArgs : WriteArgs := { exampleArgs with symbologyExport := .SymbolLayerSymbology }

/-- The writer constructed for an export of `exampleLayer` through `poDriver` with the
symbology mode `symbologyExport`. -/
def symbologyWriter (poDriver : OGRSFDriver) (symbologyExport : SymbologyExport) : Writer :=
  (Writer.construct (exampleEnv poDriver) "out.gpkg" "UTF-8" [⟨"a", .Int, "integer", 10, 0⟩]
    .Polygon ⟨true, "", .DistanceMeters⟩ "GPKG" [] [] false symbologyExport none).1

/-- A layer of the provider `spatialite` with a 32-bit integer field `a` holding values from 1
to 5 and a 64-bit integer field `n` holding values from 0 to 9000000000. -/
def spatialiteLayer : QgsVectorLayer :=
  { exampleLayer [] with
    fields := [⟨"a", .Int, "integer", 10, 0⟩, ⟨"n", .LongLong, "int8", 0, 0⟩]
    attributeList := [0, 1]
    providerType := "spatialite"
    storageType := "SQLite database with SpatiaLite extension"
    minimumValue := fun i => if i = 0 then .int 1 else if i = 1 then .longlong 0 else .invalid
    maximumValue := fun i =>
      if i = 0 then .int 5 else if i = 1 then .longlong 9000000000 else .invalid
    fieldNameIndex := fun name => if name = "a" then 0 else if name = "n" then 1 else -1 }

/-- What `init` keeps of the members set by the constructor: the symbology mode is the one
given, and the error state is never `ErrProjection`. -/
def Writer.KeepsMode (symbologyExport : SymbologyExport) (w : Writer) : Prop :=
  w.mSymbologyExport = symbologyExport ∧ w.mError ≠ .ErrProjection

/-- The OGR style string of a symbol layer of `symbol` as the loops of `addFeature` compute it:
`ogrFeatureStyle` at the scale factors for the symbology scale of the writer, the unit of the
symbol and the output unit. -/
def layerStyle (w : Writer) (outputUnit : DistanceUnit) (symbol : QgsSymbol)
    (symbolLayer : QgsSymbolLayer) : String :=
  symbolLayer.ogrFeatureStyle
    (mmScaleFactor w.mSymbologyScaleDenominator symbol.outputUnit outputUnit)
    (mapUnitScaleFactor w.mSymbologyScaleDenominator symbol.outputUnit outputUnit)

/-- The style strings of the symbol layers of a list of symbols: symbols in list order, the
layers of a symbol in index order. -/
def symbolStyles (w : Writer) (outputUnit : DistanceUnit) : List QgsSymbol → List String
  | [] => []
  | symbol :: rest =>
    symbol.symbolLayers.map (layerStyle w outputUnit symbol) ++ symbolStyles w outputUnit rest

/-- The style strings `f_1;f_2;...;f_m` joined with `;`, in the words of the specification;
the empty string when there is none. -/
def joinStyles : List String → String
  | [] => ""
  | f :: rest => rest.foldl (fun joined g => joined ++ ";" ++ g) f

/-- Two writers agree in what the symbol loops of `addFeature` read of a session: the driver,
the presence of the layer, the symbology mode and the symbology scale. -/
def Writer.SameSession (a b : Writer) : Prop :=
  a.poDriver = b.poDriver ∧ a.mLayer.isSome = b.mLayer.isSome ∧
    a.mSymbologyExport = b.mSymbologyExport ∧
    a.mSymbologyScaleDenominator = b.mSymbologyScaleDenominator

/-- Two output records agree in everything but their style string. -/
def OGRFeature.SameRecord (a b : OGRFeature) : Prop :=
  a.handle = b.handle ∧ a.fid = b.fid ∧ a.fields = b.fields ∧ a.geometry = b.geometry

/-- The two ways the geometry block of `createFeature` ends, seen from its result `r`: with
the error end `geometryNotImported` after calls that commit nothing, or with the record
`poFeature` carrying a geometry, in the same session, after calls that commit nothing. -/
def GeometryBlockResult (env : Env) (w : Writer) (poFeature : OGRFeature)
    (r : Option OGRFeature × Writer × List OgrCall) : Prop :=
  (∃ calls, committedRecords calls = [] ∧ r = geometryNotImported env w poFeature calls) ∨
  (∃ g w' calls, committedRecords calls = [] ∧ w'.SameSession w ∧
    r = (some { poFeature with geometry := g }, w', calls))

/-- A symbol of two symbol layers: a pen drawn in the rendering pass 0 and a brush drawn in
the rendering pass 1. -/
def twoLayerSymbol : QgsSymbol :=
  { ptr := 2
    symbolLayers := [exampleSymbolLayer "PEN(w:1mm)" 0, exampleSymbolLayer "BRUSH(fc:red)" 1]
    outputUnit := .RenderMillimeters }

/-- The record `createFeature` builds for `exampleFeature` in a fresh session for the field
`a` and polygons. -/
def exampleRecord : OGRFeature :=
  { handle := 0
    fid := none
    fields := [(0, .integer 7)]
    geometry := some ⟨3, some (.single examplePolygon)⟩
    styleString := none }

/-- The style string `exportFeaturesSymbolLevels` computes for a level item: that of the
symbol layer `item.layer()` of the symbol found in the hash for the symbol of the item; the
empty string stands in where there is no such symbol or layer. -/
def levelItemStyle (w : Writer) (mapUnits : DistanceUnit) (features : SymbolFeatures)
    (item : QgsSymbolLevelItem) : String :=
  match features.find item.symbol with
  | none => ""
  | some (key, _) =>
    match key.symbolLayers.get? item.layer with
    | some symbolLayer => layerStyle w mapUnits key symbolLayer
    | none => ""

/-- The features found in the hash for the symbol of a level item. -/
def levelItemFeatures (features : SymbolFeatures) (item : QgsSymbolLevelItem) :
    List QgsFeature :=
  match features.find item.symbol with
  | none => []
  | some (_, featureList) => featureList

/-- The commits `tags` are made item by item in the order of `items`: for each item at most one
commit per feature found for its symbol, each of a record tagged with the style string of the
item, and none when that style string is empty. -/
def ItemsTrace (w : Writer) (mapUnits : DistanceUnit) (features : SymbolFeatures) :
    List QgsSymbolLevelItem → List (Option String × Bool) → Prop
  | [], tags => tags = []
  | item :: rest, tags =>
    ∃ oks restTags,
      tags = oks.map (fun ok => (some (levelItemStyle w mapUnits features item), ok)) ++
        restTags ∧
      oks.length ≤ (levelItemFeatures features item).length ∧
      ((levelItemStyle w mapUnits features item).isEmpty = true → oks = []) ∧
      ItemsTrace w mapUnits features rest restTags

/-- The destination geometry type `writeAsVectorFormat` hands to the constructor of the writer:
the type computed from the override and the flags, replaced by its multi variant for a layer of
the OGR provider stored as a shapefile that holds a multi-part geometry. -/
def sessionWkbType (layer : QgsVectorLayer) (args : WriteArgs) : WkbType :=
  let destWkbType :=
    destinationWkbType layer args.overrideGeometryType args.forceMulti args.includeZ
  if layer.providerType = "ogr" ∧ layer.dataProvider.isSome ∧
      layer.storageType = "ESRI Shapefile" ∧ !QgsWkbTypes.isMultiType destWkbType ∧
      (layer.getFeatures false args.onlySelected).any (fun fet =>
        match fet.geometry with
        | some g => QgsWkbTypes.isMultiType g.wkbType
        | none => false) then
    QgsWkbTypes.multiType destWkbType
  else destWkbType

/-- A feature with one integer attribute and a multi-polygon geometry. -/
def multiPartFeature : QgsFeature :=
  { id := 2, attributes := [.int 8], geometry := some (.multi .MultiPolygon [examplePolygon]) }

/-- A layer of the OGR provider read from the shapefile `in.shp`, whose type reads `Polygon`
and which holds a multi-polygon. -/
def shapefileLayer : QgsVectorLayer :=
  { exampleLayer [exampleFeature, multiPartFeature] with
    providerType := "ogr"
    dataProvider := some ⟨"in.shp"⟩
    storageType := "ESRI Shapefile" }

/-- Arguments like `exampleArgs` with the geometry-type override `LineString` and the
forced-Z flag set. -/
def forcedZArgs : WriteArgs :=
  { exampleArgs with overrideGeometryType := .LineString, includeZ := true }

/-- A driver like `exampleDriver` whose layer does not support transactions. -/
def noTransactionDriver : OGRSFDriver :=
  { exampleDriver with startTransaction := false }

/-- An environment built on GDAL 2.1 in which every driver name resolves to
`launderingDriver`. -/
def launderingEnv : Env := exampleEnv launderingDriver

/-- The fields `writeAsVectorFormat` hands to the constructor of the writer: the fields of the
exported attributes, after the loop over the 64-bit integer fields for a layer of the provider
`spatialite`. -/
def sessionFields (layer : QgsVectorLayer) (args : WriteArgs) : QgsFields :=
  let fields : QgsFields :=
    (exportedAttributes layer args.skipAttributeCreation args.attributes).map
      (fun attrIdx => layer.fields.at attrIdx)
  if layer.providerType = "ogr" ∧ layer.dataProvider.isSome then fields
  else if layer.providerType = "spatialite" then narrowSpatialiteFields layer fields 0
  else fields

/-! ## Theorems -/

/-! ## Auxiliary facts about effect lists -/

theorem addFeatureCalls_append (a b : List Effect) :
    addFeatureCalls (a ++ b) = addFeatureCalls a ++ addFeatureCalls b := by
  induction a with
  | nil => rfl
  | cons e rest ih => cases e <;> simp [addFeatureCalls, ih]

theorem addFeatureCalls_ogr (calls : List OgrCall) :
    addFeatureCalls (calls.map Effect.ogr) = [] := by
  induction calls with
  | nil => rfl
  | cons c rest ih => simp [addFeatureCalls, ih]

theorem mem_addFeatureCalls {effects : List Effect} {f : QgsFeature} {ok : Bool} :
    (f, ok) ∈ addFeatureCalls effects ↔ Effect.addFeature f ok ∈ effects := by
  induction effects with
  | nil => simp [addFeatureCalls]
  | cons e rest ih => cases e <;> simp [addFeatureCalls, ih]

theorem failedCalls_append (a b : List Effect) :
    failedCalls (a ++ b) = failedCalls a + failedCalls b := by
  simp [failedCalls, addFeatureCalls_append]

/-- The five ways the loop body can end, as equations. -/
theorem writeLoopBody_error {env : Env} {args : WriteArgs} {layer : QgsVectorLayer}
    {shallTransform : Bool} {attributes : List Int} {mapUnits : DistanceUnit} {fet : QgsFeature}
    {what : String} (st : WriteLoop)
    (h : prepareFeature env args shallTransform attributes fet = .error what) :
    writeLoopBody env args layer shallTransform attributes mapUnits fet st =
      { st with
        errorMessage := st.errorMessage.map (fun _ => projectionMessage fet what)
        effects := st.effects ++ [.deleteWriter, .logMessage (projectionMessage fet what)]
        exit := .projection } := by
  simp [writeLoopBody, h]

theorem writeLoopBody_skip {env : Env} {args : WriteArgs} {layer : QgsVectorLayer}
    {shallTransform : Bool} {attributes : List Int} {mapUnits : DistanceUnit} {fet : QgsFeature}
    (st : WriteLoop)
    (h : prepareFeature env args shallTransform attributes fet = .ok none) :
    writeLoopBody env args layer shallTransform attributes mapUnits fet st = st := by
  simp [writeLoopBody, h]

theorem ceilingNotice_eq (errors : Int) (h1 : errors ≤ 1000) (h2 : errors + 1 > 1000) (m : String) :
    m ++ tr "Stopping after " ++ toString (errors + 1) ++ " errors" = m ++ ceilingNotice := by
  have h : errors + 1 = 1001 := by omega
  have hn : tr "Stopping after " ++ toString (1001 : Int) ++ " errors" = ceilingNotice := by decide
  rw [h, ← hn]
  simp [String.append_assoc]

theorem writeLoopBody_invariant (env : Env) (args : WriteArgs) (layer : QgsVectorLayer)
    (shallTransform : Bool) (attributes : List Int) (mapUnits : DistanceUnit) (fet : QgsFeature)
    (sink : Bool) (st : WriteLoop) (hinv : st.Invariant sink) (hrun : st.exit = .running) :
    (writeLoopBody env args layer shallTransform attributes mapUnits fet st).Invariant sink := by
  obtain ⟨herr, hsink, hcommit, hns, _⟩ := hinv
  have hns := hns (by simp [hrun])
  unfold writeLoopBody
  split
  · -- transform failed
    refine ⟨?_, ?_, ?_, ?_, ?_⟩
    · simp [failedCalls, addFeatureCalls_append, addFeatureCalls, herr]
    · simpa using hsink
    · intro ok; simp [hcommit ok]
    · intro _; simp [addFeatureCalls_append, addFeatureCalls, hns]
    · intro h; simp at h
  · -- skipped
    exact ⟨herr, hsink, hcommit, fun _ => hns, fun h => by simp [hrun] at h⟩
  · -- addFeature
    rename_i f hprep
    generalize addFeature env st.w f layer.renderer mapUnits = r
    obtain ⟨ok, w', calls⟩ := r
    cases ok
    · -- failed
      simp only [Bool.not_false, if_true]
      split
      · -- ceiling
        rename_i hceil
        refine ⟨?_, ?_, ?_, ?_, ?_⟩
        · simp [failedCalls, addFeatureCalls_append, addFeatureCalls, addFeatureCalls_ogr, herr]
        · simp only [Option.isSome_map']
          split <;> simpa using hsink
        · intro ok; simp [hcommit ok]
        · intro h; simp at h
        · intro _
          refine ⟨by show st.errors + 1 = 1001; omega, rfl, ⟨f, ?_⟩, ?_⟩
          · simp [addFeatureCalls_append, addFeatureCalls, addFeatureCalls_ogr]
          · intro m hm
            simp only [Option.map_eq_some'] at hm
            obtain ⟨m0, _, hm0⟩ := hm
            exact ⟨m0, by rw [← hm0]; exact ceilingNotice_eq st.errors hns.1 hceil m0⟩
      · rename_i hceil
        refine ⟨?_, ?_, ?_, ?_, ?_⟩
        · simp [failedCalls, addFeatureCalls_append, addFeatureCalls, addFeatureCalls_ogr, herr]
        · simp only []
          split <;> simpa using hsink
        · intro ok; simp [hcommit ok]
        · intro _
          refine ⟨by show st.errors + 1 ≤ 1000; omega, ?_⟩
          simp [addFeatureCalls_append, addFeatureCalls, addFeatureCalls_ogr, hns.2]
        · intro h; simp at h
    · simp only [Bool.not_true]
      refine ⟨?_, ?_, ?_, ?_, ?_⟩
      · simp [failedCalls, addFeatureCalls_append, addFeatureCalls, addFeatureCalls_ogr, herr]
      · simpa using hsink
      · intro ok; simp [hcommit ok]
      · intro _
        refine ⟨hns.1, ?_⟩
        simp [addFeatureCalls_append, addFeatureCalls, addFeatureCalls_ogr, hns.2]
      · intro h; simp at h

theorem writeLoop_invariant (env : Env) (args : WriteArgs) (layer : QgsVectorLayer)
    (shallTransform : Bool) (attributes : List Int) (mapUnits : DistanceUnit) (sink : Bool)
    (fit : List QgsFeature) (st : WriteLoop) (hinv : st.Invariant sink) :
    st.exit = .running → (writeLoop env args layer shallTransform attributes mapUnits fit st).Invariant sink := by
  induction fit generalizing st with
  | nil => exact fun _ => hinv
  | cons fet rest ih =>
    intro hrun
    unfold writeLoop
    have hb := writeLoopBody_invariant env args layer shallTransform attributes mapUnits fet sink
      st hinv hrun
    simp only []
    split
    · rename_i h
      exact ih _ hb h
    · exact hb

/-- The loop over an appended list runs the first part and, when that leaves it running, the
second. -/
theorem writeLoop_append (env : Env) (args : WriteArgs) (layer : QgsVectorLayer)
    (shallTransform : Bool) (attributes : List Int) (mapUnits : DistanceUnit)
    (pre post : List QgsFeature) (st : WriteLoop) (hrun : st.exit = .running) :
    writeLoop env args layer shallTransform attributes mapUnits (pre ++ post) st =
      if (writeLoop env args layer shallTransform attributes mapUnits pre st).exit = .running then
        writeLoop env args layer shallTransform attributes mapUnits post
          (writeLoop env args layer shallTransform attributes mapUnits pre st)
      else writeLoop env args layer shallTransform attributes mapUnits pre st := by
  induction pre generalizing st with
  | nil => simp [writeLoop, hrun]
  | cons fet rest ih =>
    simp only [List.cons_append, writeLoop]
    split
    · rename_i h
      exact ih _ h
    · rename_i h
      simp [h]

/-- The effects of a state are kept, in front, by the loop body. -/
theorem writeLoopBody_effects (env : Env) (args : WriteArgs) (layer : QgsVectorLayer)
    (shallTransform : Bool) (attributes : List Int) (mapUnits : DistanceUnit) (fet : QgsFeature)
    (st : WriteLoop) :
    st.effects <+: (writeLoopBody env args layer shallTransform attributes mapUnits fet st).effects := by
  unfold writeLoopBody
  split
  · exact List.prefix_append _ _
  · exact List.prefix_refl _
  · simp only []
    split
    · split <;> simp [List.append_assoc]
    · simp [List.append_assoc]

theorem writeLoop_effects (env : Env) (args : WriteArgs) (layer : QgsVectorLayer)
    (shallTransform : Bool) (attributes : List Int) (mapUnits : DistanceUnit)
    (fit : List QgsFeature) (st : WriteLoop) :
    st.effects <+: (writeLoop env args layer shallTransform attributes mapUnits fit st).effects := by
  induction fit generalizing st with
  | nil => exact List.prefix_refl _
  | cons fet rest ih =>
    unfold writeLoop
    have hb := writeLoopBody_effects env args layer shallTransform attributes mapUnits fet st
    simp only []
    split
    · exact hb.trans (ih _)
    · exact hb

theorem streamingStart_invariant (layer : QgsVectorLayer) (w : Writer) (attributes : List Int)
    (errorMessage : Option String) :
    (streamingStart layer w attributes errorMessage).Invariant errorMessage.isSome := by
  have h : addFeatureCalls (w.startRender layer ++ [.startTransaction (transactionsEnabled w)])
      = [] := by
    unfold Writer.startRender
    split <;> rfl
  refine ⟨?_, rfl, ?_, ?_, ?_⟩
  · simp [streamingStart, failedCalls, h]
  · intro ok
    simp only [streamingStart, Writer.startRender]
    split <;> simp
  · intro _
    simp [streamingStart, h]
  · intro hstop
    simp [streamingStart] at hstop

theorem prepareFeature_error {env : Env} {args : WriteArgs} {shallTransform : Bool}
    {attributes : List Int} {fet : QgsFeature} {what : String} :
    prepareFeature env args shallTransform attributes fet = .error what ↔
      shallTransform = true ∧ transformFeature args.ct fet = .error what := by
  unfold prepareFeature
  cases shallTransform
  · simp only [Bool.false_eq_true, if_false, false_and, iff_false]
    split <;> simp
    split <;> simp
  · simp only [if_true, true_and]
    cases h : transformFeature args.ct fet with
    | error e => simp
    | ok f =>
      simp only []
      split <;> simp
      split <;> simp

/-- The loop ends in the exception handler only if the transform of some feature throws. -/
theorem writeLoop_projection (env : Env) (args : WriteArgs) (layer : QgsVectorLayer)
    (shallTransform : Bool) (attributes : List Int) (mapUnits : DistanceUnit)
    (fit : List QgsFeature) (st : WriteLoop) (hrun : st.exit = .running)
    (h : (writeLoop env args layer shallTransform attributes mapUnits fit st).exit = .projection) :
    ∃ fet ∈ fit, ∃ what, prepareFeature env args shallTransform attributes fet = .error what := by
  induction fit generalizing st with
  | nil => simp [writeLoop, hrun] at h
  | cons fet rest ih =>
    unfold writeLoop at h
    simp only [] at h
    split at h
    · rename_i hr
      obtain ⟨f, hf, what, hw⟩ := ih _ hr h
      exact ⟨f, List.mem_cons_of_mem _ hf, what, hw⟩
    · rename_i hr
      cases hp : prepareFeature env args shallTransform attributes fet with
      | error what => exact ⟨fet, List.mem_cons_self _ _, what, hp⟩
      | ok o =>
        exfalso
        cases o with
        | none =>
          rw [writeLoopBody_skip st hp] at h hr
          exact hr hrun
        | some f =>
          unfold writeLoopBody at h
          simp only [hp] at h
          split at h
          · split at h <;> simp at h
          · simp at h

theorem map_const_of_isSome {α β : Type} (a b : Option α) (c : β) (h : a.isSome = b.isSome) :
    a.map (fun _ => c) = b.map (fun _ => c) := by
  cases a <;> cases b <;> simp at h ⊢

/-- C1: in the streaming path with a valid coordinate transform, when the transform throws on a
fetched feature `fet` (the loop is still running after the features `pre` before it), the call
returns `ErrProjection`, the error message behind a supplied sink is the projection message for
`fet`, nothing happens after the fetch but the deletion of the writer and the logging of the
message, so `addFeature` is called for no feature other than those before `fet`, and no
transaction commit is among the calls made. -/
theorem transform_failure_aborts_export (env : Env) (args : WriteArgs) (layer : QgsVectorLayer)
    (w : Writer) (attributes : List Int) (pre post : List QgsFeature) (fet : QgsFeature)
    (errorMessage : Option String) (what : String)
    (hvalid : args.ct.isValid = true)
    (hfetched : (writeLoop env args layer true attributes (exportMapUnits args layer) pre
      (streamingStart layer w attributes errorMessage)).exit = .running)
    (hthrow : transformFeature args.ct fet = .error what) :
    (writeStreaming env args layer w attributes (pre ++ fet :: post) errorMessage).1
        = .ErrProjection ∧
      (writeStreaming env args layer w attributes (pre ++ fet :: post) errorMessage).2.1
        = errorMessage.map (fun _ => projectionMessage fet what) ∧
      (writeStreaming env args layer w attributes (pre ++ fet :: post) errorMessage).2.2
        = (writeLoop env args layer true attributes (exportMapUnits args layer) pre
            (streamingStart layer w attributes errorMessage)).effects ++
          [.deleteWriter, .logMessage (projectionMessage fet what)] ∧
      addFeatureCalls
          (writeStreaming env args layer w attributes (pre ++ fet :: post) errorMessage).2.2
        = addFeatureCalls (writeLoop env args layer true attributes (exportMapUnits args layer) pre
            (streamingStart layer w attributes errorMessage)).effects ∧
      ∀ ok, Effect.commitTransaction ok ∉
        (writeStreaming env args layer w attributes (pre ++ fet :: post) errorMessage).2.2 := by
  have hstart := streamingStart_invariant layer w attributes errorMessage
  have hpre := writeLoop_invariant env args layer true attributes (exportMapUnits args layer)
    errorMessage.isSome pre _ hstart rfl
  have hprep : prepareFeature env args true attributes fet = .error what :=
    prepareFeature_error.mpr ⟨rfl, hthrow⟩
  have hloop : writeLoop env args layer true attributes (exportMapUnits args layer)
      (pre ++ fet :: post) (streamingStart layer w attributes errorMessage) =
      writeLoopBody env args layer true attributes (exportMapUnits args layer) fet
        (writeLoop env args layer true attributes (exportMapUnits args layer) pre
          (streamingStart layer w attributes errorMessage)) := by
    rw [writeLoop_append _ _ _ _ _ _ _ _ _ rfl, if_pos hfetched]
    simp only [writeLoop]
    rw [writeLoopBody_error _ hprep]
    simp
  have hres : writeStreaming env args layer w attributes (pre ++ fet :: post) errorMessage =
      (.ErrProjection, errorMessage.map (fun _ => projectionMessage fet what),
        (writeLoop env args layer true attributes (exportMapUnits args layer) pre
            (streamingStart layer w attributes errorMessage)).effects ++
          [.deleteWriter, .logMessage (projectionMessage fet what)]) := by
    unfold writeStreaming
    rw [hvalid, hloop, writeLoopBody_error _ hprep]
    simp only [if_true, Prod.mk.injEq, true_and, and_true]
    exact map_const_of_isSome _ _ _ hpre.2.1
  rw [hres]
  refine ⟨rfl, rfl, rfl, ?_, ?_⟩
  · simp [addFeatureCalls_append, addFeatureCalls]
  · intro ok
    simp [hpre.2.2.1 ok]

/-- Witness of C1: an export of two features through a transform that throws. -/
theorem transform_failure_aborts_export_witness :
    (writeStreaming (exampleEnv exampleDriver) { exampleArgs with ct := failingTransform }
        (exampleLayer []) (exampleWriter exampleDriver .Polygon) [0]
        ([] ++ exampleFeature :: [exampleFeature]) (some "")).1 = .ErrProjection ∧
      addFeatureCalls
        (writeStreaming (exampleEnv exampleDriver) { exampleArgs with ct := failingTransform }
          (exampleLayer []) (exampleWriter exampleDriver .Polygon) [0]
          ([] ++ exampleFeature :: [exampleFeature]) (some "")).2.2 = [] :=
  have h := transform_failure_aborts_export (exampleEnv exampleDriver)
    { exampleArgs with ct := failingTransform } (exampleLayer [])
    (exampleWriter exampleDriver .Polygon) [0] [] [exampleFeature] exampleFeature (some "")
    "forward transform failed" rfl rfl rfl
  ⟨h.1, h.2.2.2.1.trans (by decide)⟩

theorem addFeatureCalls_tail (effects : List Effect) (committed : List Effect)
    (hc : ∀ e ∈ committed, ∃ ok, e = Effect.commitTransaction ok) (w : Writer)
    (layer : QgsVectorLayer) :
    addFeatureCalls (effects ++ committed ++ w.stopRender layer ++ [.deleteWriter]) =
      addFeatureCalls effects := by
  have h1 : addFeatureCalls committed = [] := by
    induction committed with
    | nil => rfl
    | cons e rest ih =>
      obtain ⟨ok, rfl⟩ := hc e (List.mem_cons_self _ _)
      simp [addFeatureCalls]
      exact ih (fun e he => hc e (List.mem_cons_of_mem _ he))
  have h2 : addFeatureCalls (w.stopRender layer) = [] := by
    unfold Writer.stopRender
    split <;> rfl
  simp [addFeatureCalls_append, h1, h2, addFeatureCalls]

/-- The effects of the streaming path carry the calls of `addFeature` that the loop made. -/
theorem writeStreaming_calls (env : Env) (args : WriteArgs) (layer : QgsVectorLayer)
    (w : Writer) (attributes : List Int) (fit : List QgsFeature) (errorMessage : Option String) :
    addFeatureCalls (writeStreaming env args layer w attributes fit errorMessage).2.2 =
      addFeatureCalls (writeLoop env args layer args.ct.isValid attributes
        (exportMapUnits args layer) fit (streamingStart layer w attributes errorMessage)).effects := by
  unfold writeStreaming
  simp only []
  split
  · rfl
  · apply addFeatureCalls_tail
    intro e he
    split at he
    · simp at he; exact ⟨_, he⟩
    · simp at he

theorem failedCalls_prefix {a b : List Effect} (h : a <+: b) : failedCalls a ≤ failedCalls b := by
  obtain ⟨c, rfl⟩ := h
  simp [failedCalls_append]

theorem failedCalls_eq_zero_iff (effects : List Effect) :
    failedCalls effects = 0 ↔ ∀ f ok, Effect.addFeature f ok ∈ effects → ok = true := by
  simp only [failedCalls, List.length_eq_zero, List.filter_eq_nil_iff]
  constructor
  · intro h f ok hm
    have := h (f, ok) (mem_addFeatureCalls.mpr hm)
    simpa using this
  · intro h c hc
    have := h c.1 c.2 (mem_addFeatureCalls.mp hc)
    simp [this]

theorem writeStreaming_not_projection (env : Env) (args : WriteArgs) (layer : QgsVectorLayer)
    (w : Writer) (attributes : List Int) (fit : List QgsFeature) (errorMessage : Option String)
    (hno : ∀ fet ∈ fit, ¬ TransformFails args fet) :
    (writeLoop env args layer args.ct.isValid attributes (exportMapUnits args layer) fit
      (streamingStart layer w attributes errorMessage)).exit ≠ .projection := by
  intro hx
  obtain ⟨x, hxm, what, hw⟩ := writeLoop_projection env args layer args.ct.isValid
    attributes (exportMapUnits args layer) fit _ rfl hx
  exact hno x hxm ⟨(prepareFeature_error.mp hw).1, what, (prepareFeature_error.mp hw).2⟩

/-- C3: in the streaming path, when no transform fails, the call returns `NoError` if and only
if every call of `addFeature` returned `true`, and otherwise it returns
`ErrFeatureWriteFailed`. -/
theorem no_error_iff_every_feature_written (env : Env) (args : WriteArgs)
    (layer : QgsVectorLayer) (w : Writer) (attributes : List Int) (fit : List QgsFeature)
    (errorMessage : Option String) (hno : ∀ fet ∈ fit, ¬ TransformFails args fet) :
    ((writeStreaming env args layer w attributes fit errorMessage).1 = .NoError ↔
      ∀ f ok, Effect.addFeature f ok ∈
        (writeStreaming env args layer w attributes fit errorMessage).2.2 → ok = true) ∧
    ((writeStreaming env args layer w attributes fit errorMessage).1 ≠ .NoError →
      (writeStreaming env args layer w attributes fit errorMessage).1 = .ErrFeatureWriteFailed) := by
  have hstart := streamingStart_invariant layer w attributes errorMessage
  have hcalls := writeStreaming_calls env args layer w attributes fit errorMessage
  have hinv := writeLoop_invariant env args layer args.ct.isValid attributes
    (exportMapUnits args layer) errorMessage.isSome fit _ hstart rfl
  have hnp := writeStreaming_not_projection env args layer w attributes fit errorMessage hno
  have hres : (writeStreaming env args layer w attributes fit errorMessage).1 =
      if failedCalls (writeStreaming env args layer w attributes fit errorMessage).2.2 = 0 then
        .NoError else .ErrFeatureWriteFailed := by
    have hf : failedCalls (writeStreaming env args layer w attributes fit errorMessage).2.2 =
        failedCalls (writeLoop env args layer args.ct.isValid attributes
          (exportMapUnits args layer) fit
          (streamingStart layer w attributes errorMessage)).effects := by
      simp [failedCalls, hcalls]
    rw [hf]
    unfold writeStreaming
    simp only [hnp, if_false, hinv.1]
    congr 1
    simp
  rw [hres, ← failedCalls_eq_zero_iff]
  constructor
  · split <;> simp [*]
  · split <;> simp

/-- Witness of C3: an export of one feature without transform ends with `NoError`. -/
theorem no_error_iff_every_feature_written_witness :
    (writeStreaming (exampleEnv exampleDriver) exampleArgs (exampleLayer [])
      (exampleWriter exampleDriver .Polygon) [0] [exampleFeature] (some "")).1 = .NoError ∧
    ∀ f ok, Effect.addFeature f ok ∈
      (writeStreaming (exampleEnv exampleDriver) exampleArgs (exampleLayer [])
        (exampleWriter exampleDriver .Polygon) [0] [exampleFeature] (some "")).2.2 → ok = true :=
  have h := no_error_iff_every_feature_written (exampleEnv exampleDriver) exampleArgs
    (exampleLayer []) (exampleWriter exampleDriver .Polygon) [0] [exampleFeature] (some "")
    (fun _ _ hf => absurd hf.1 (by decide))
  ⟨by decide, h.1.mp (by decide)⟩

theorem toString_natCast (k : Nat) : toString ((k : Nat) : Int) = toString k := rfl

theorem filter_length_add (l : List (QgsFeature × Bool)) :
    (l.filter (fun c => c.2)).length + (l.filter (fun c => !c.2)).length = l.length := by
  induction l with
  | nil => rfl
  | cons c rest ih =>
    cases h : c.2 <;> simp [List.filter_cons, h] <;> omega

/-- C4 (amended): when the streaming path returns `ErrFeatureWriteFailed` without having stopped
at the error ceiling (at most 1000 calls of `addFeature` failed) and an error message sink is
supplied, the message ends with the summary "Only N of M features written." where M is the
number of features passed to `addFeature` and N the number of those calls that returned `true`,
so that N plus the number of failed calls is M. -/
theorem summary_counts_written_features (env : Env) (args : WriteArgs) (layer : QgsVectorLayer)
    (w : Writer) (attributes : List Int) (fit : List QgsFeature) (errorMessage : Option String)
    (hret : (writeStreaming env args layer w attributes fit errorMessage).1
      = .ErrFeatureWriteFailed)
    (hbelow : failedCalls (writeStreaming env args layer w attributes fit errorMessage).2.2
      ≤ 1000)
    (hsink : errorMessage.isSome = true) :
    (∃ body, (writeStreaming env args layer w attributes fit errorMessage).2.1 =
      some (body ++ "\nOnly " ++
        toString ((addFeatureCalls
          (writeStreaming env args layer w attributes fit errorMessage).2.2).filter
            (fun c => c.2)).length ++ " of " ++
        toString (addFeatureCalls
          (writeStreaming env args layer w attributes fit errorMessage).2.2).length ++
        " features written.")) ∧
    ((addFeatureCalls (writeStreaming env args layer w attributes fit errorMessage).2.2).filter
        (fun c => c.2)).length +
      failedCalls (writeStreaming env args layer w attributes fit errorMessage).2.2 =
      (addFeatureCalls (writeStreaming env args layer w attributes fit errorMessage).2.2).length := by
  have hstart := streamingStart_invariant layer w attributes errorMessage
  have hcalls := writeStreaming_calls env args layer w attributes fit errorMessage
  have hinv := writeLoop_invariant env args layer args.ct.isValid attributes
    (exportMapUnits args layer) errorMessage.isSome fit _ hstart rfl
  refine ⟨?_, filter_length_add _⟩
  have hadd := filter_length_add (addFeatureCalls
    (writeStreaming env args layer w attributes fit errorMessage).2.2)
  have hf : failedCalls (writeStreaming env args layer w attributes fit errorMessage).2.2 =
      failedCalls (writeLoop env args layer args.ct.isValid attributes
        (exportMapUnits args layer) fit
        (streamingStart layer w attributes errorMessage)).effects := by
    simp [failedCalls, hcalls]
  rw [hf] at hbelow
  have hfl : ((addFeatureCalls
      (writeStreaming env args layer w attributes fit errorMessage).2.2).filter
        (fun c => !c.2)).length = failedCalls (writeLoop env args layer args.ct.isValid attributes
        (exportMapUnits args layer) fit
        (streamingStart layer w attributes errorMessage)).effects := by
    rw [← hf]; rfl
  rw [hfl] at hadd
  rw [hcalls] at hadd ⊢
  generalize hst : writeLoop env args layer args.ct.isValid attributes
    (exportMapUnits args layer) fit (streamingStart layer w attributes errorMessage) = st
    at hinv hadd hbelow ⊢
  have hsome := hinv.2.1
  rw [hsink] at hsome
  obtain ⟨m, hm⟩ := Option.isSome_iff_exists.mp hsome
  have hnp : st.exit ≠ .projection := by
    intro hp
    unfold writeStreaming at hret
    simp [hst, hp] at hret
  have hns : st.exit ≠ .stopped := by
    intro hs
    have := (hinv.2.2.2.2 hs).1
    rw [hinv.1] at this
    omega
  obtain ⟨_, hn⟩ := hinv.2.2.2.1 hns
  have herr := hinv.1
  have hpos : st.errors ≠ 0 := by
    intro h0
    unfold writeStreaming at hret
    simp [hst, hnp, h0] at hret
  refine ⟨m, ?_⟩
  unfold writeStreaming
  simp only [hst, hnp, if_false]
  have hcond : st.errors > 0 ∧ st.n > 0 := by omega
  simp only [hcond, and_self, if_true, hm, Option.map_some', summaryText, tr]
  have h1 : st.n - st.errors =
      (((addFeatureCalls st.effects).filter (fun c => c.2)).length : Int) := by omega
  rw [h1, hn, toString_natCast, toString_natCast]
  simp [String.append_assoc]

/-- Witness of C4 (amended): two features that the layer rejects. -/
theorem summary_counts_written_features_witness :
    (writeStreaming (exampleEnv rejectingDriver) exampleArgs (exampleLayer [])
      (exampleWriter rejectingDriver .Polygon) [0] [exampleFeature, exampleFeature]
      (some "")).2.1 =
      some ("Feature write errors:\nFeature creation error (OGR error: )" ++
        "\nFeature creation error (OGR error: )" ++ "\nOnly 0 of 2 features written.") ∧
    ((addFeatureCalls (writeStreaming (exampleEnv rejectingDriver) exampleArgs (exampleLayer [])
      (exampleWriter rejectingDriver .Polygon) [0] [exampleFeature, exampleFeature]
      (some "")).2.2).filter (fun c => c.2)).length +
      failedCalls (writeStreaming (exampleEnv rejectingDriver) exampleArgs (exampleLayer [])
      (exampleWriter rejectingDriver .Polygon) [0] [exampleFeature, exampleFeature]
      (some "")).2.2 =
      (addFeatureCalls (writeStreaming (exampleEnv rejectingDriver) exampleArgs (exampleLayer [])
      (exampleWriter rejectingDriver .Polygon) [0] [exampleFeature, exampleFeature]
      (some "")).2.2).length :=
  ⟨by decide,
    (summary_counts_written_features (exampleEnv rejectingDriver) exampleArgs (exampleLayer [])
      (exampleWriter rejectingDriver .Polygon) [0] [exampleFeature, exampleFeature] (some "")
      (by decide) (by decide) rfl).2⟩

theorem getLast?_data_append (a b : String) (c : Char) (h : b.data.getLast? = some c) :
    (a ++ b).data.getLast? = some c := by
  rw [String.data_append]
  have hne : b.data ≠ [] := by
    intro h0
    rw [h0] at h
    simp at h
  rw [List.getLast?_append_of_ne_nil _ hne, h]

set_option maxRecDepth 100000 in
theorem rejected_export_stops :
    (writeLoop (exampleEnv rejectingDriver) exampleArgs (exampleLayer [])
      exampleArgs.ct.isValid [0] (exportMapUnits exampleArgs (exampleLayer []))
      (List.replicate 1001 exampleFeature)
      (streamingStart (exampleLayer []) (exampleWriter rejectingDriver .Polygon) [0]
        (some ""))).exit = .stopped := by
  decide!

/-- After a `break` at the error ceiling the streaming path returns `ErrFeatureWriteFailed`
and the message behind a supplied sink ends with the notice. -/
theorem writeStreaming_of_stopped (env : Env) (args : WriteArgs) (layer : QgsVectorLayer)
    (w : Writer) (attributes : List Int) (fit : List QgsFeature) (errorMessage : Option String)
    (hstop : (writeLoop env args layer args.ct.isValid attributes (exportMapUnits args layer) fit
      (streamingStart layer w attributes errorMessage)).exit = .stopped) :
    (writeStreaming env args layer w attributes fit errorMessage).1 = .ErrFeatureWriteFailed ∧
    (errorMessage.isSome = true → ∃ body,
      (writeStreaming env args layer w attributes fit errorMessage).2.1
        = some (body ++ "Stopping after 1001 errors")) := by
  have hstart := streamingStart_invariant layer w attributes errorMessage
  have hinv := writeLoop_invariant env args layer args.ct.isValid attributes
    (exportMapUnits args layer) errorMessage.isSome fit _ hstart rfl
  obtain ⟨h1, h2, _, h4⟩ := hinv.2.2.2.2 hstop
  constructor
  · unfold writeStreaming
    simp only [hstop, h1]
    simp
  · intro hsink
    have hsome := hinv.2.1
    rw [hsink] at hsome
    obtain ⟨m, hm⟩ := Option.isSome_iff_exists.mp hsome
    obtain ⟨body, hbody⟩ := h4 m hm
    refine ⟨body, ?_⟩
    unfold writeStreaming
    simp only [hstop, h2]
    simp [hm, hbody, ceilingNotice]

/-- Counterexample to C4: an export of 1001 features that the layer rejects returns
`ErrFeatureWriteFailed` with a message that does not end with a summary "Only N of M features
written." for any N and M: the loop left at the error ceiling sets `n` to -1. -/
theorem summary_missing_at_error_ceiling :
    (writeStreaming (exampleEnv rejectingDriver) exampleArgs (exampleLayer [])
      (exampleWriter rejectingDriver .Polygon) [0] (List.replicate 1001 exampleFeature)
      (some "")).1 = .ErrFeatureWriteFailed ∧
    ∃ m, (writeStreaming (exampleEnv rejectingDriver) exampleArgs (exampleLayer [])
      (exampleWriter rejectingDriver .Polygon) [0] (List.replicate 1001 exampleFeature)
      (some "")).2.1 = some m ∧
      ∀ (body : String) (N M : Nat), m ≠ body ++ "\nOnly " ++ toString N ++ " of " ++ toString M ++
        " features written." := by
  obtain ⟨hret, hmsg⟩ := writeStreaming_of_stopped (exampleEnv rejectingDriver) exampleArgs
    (exampleLayer []) (exampleWriter rejectingDriver .Polygon) [0]
    (List.replicate 1001 exampleFeature) (some "") rejected_export_stops
  obtain ⟨b, hb⟩ := hmsg rfl
  refine ⟨hret, _, hb, ?_⟩
  intro body N M heq
  have hl1 : (b ++ "Stopping after 1001 errors").data.getLast? = some 's' :=
    getLast?_data_append _ _ _ (by decide)
  have hl2 : (b ++ "Stopping after 1001 errors").data.getLast? = some '.' := by
    rw [heq]; exact getLast?_data_append _ _ _ (by decide)
  rw [hl1] at hl2
  exact absurd hl2 (by decide)

theorem fieldWriteTargets_append (a b : List OgrCall) :
    fieldWriteTargets (a ++ b) = fieldWriteTargets a ++ fieldWriteTargets b := by
  induction a with
  | nil => rfl
  | cons c rest ih => cases c <;> simp [fieldWriteTargets, ih]

theorem mem_fieldWriteTargets {calls : List OgrCall} {ogrField : Int} :
    ogrField ∈ fieldWriteTargets calls ↔ ∃ h value, OgrCall.F_SetField h ogrField value ∈ calls := by
  induction calls with
  | nil => simp [fieldWriteTargets]
  | cons c rest ih =>
    cases c <;> simp [fieldWriteTargets, ih]
    rename_i h o v
    constructor
    · rintro (rfl | ⟨h', v', hm⟩)
      · exact ⟨h, v, Or.inl ⟨rfl, rfl, rfl⟩⟩
      · exact ⟨h', v', Or.inr hm⟩
    · rintro ⟨h', v', (⟨_, rfl, _⟩ | hm)⟩
      · exact Or.inl rfl
      · exact Or.inr ⟨h', v', hm⟩

theorem setFeatureGeometry_targets (env : Env) (poDriver : OGRSFDriver) (feature : QgsFeature)
    (w : Writer) (poFeature : OGRFeature) :
    fieldWriteTargets (setFeatureGeometry env poDriver feature w poFeature).2.2 = [] := by
  unfold setFeatureGeometry geometryNotImported createEmptyGeometry
  simp only []
  repeat' split
  all_goals simp_all [fieldWriteTargets_append, fieldWriteTargets]

theorem writeAttributes_targets (env : Env) (feature : QgsFeature) (entries : List (Int × Int))
    (w : Writer) (poFeature : OGRFeature) :
    (fieldWriteTargets (writeAttributes env feature entries w poFeature).2.2.2).Sublist
      ((entries.filter (fun e => (feature.attributeValue e.1).isValid &&
        !(feature.attributeValue e.1).isNull)).map Prod.snd) := by
  induction entries generalizing w poFeature with
  | nil => simp [writeAttributes, fieldWriteTargets]
  | cons e rest ih =>
    obtain ⟨fldIdx, ogrField⟩ := e
    unfold writeAttributes
    simp only []
    split
    · rename_i hnull
      have hf : ((feature.attributeValue fldIdx).isValid &&
          !(feature.attributeValue fldIdx).isNull) = false := by
        rcases hnull with h | h <;> simp_all
      rw [List.filter_cons_of_neg (by simp [hf])]
      exact ih w poFeature
    · rename_i hnull
      have hf : ((feature.attributeValue fldIdx).isValid &&
          !(feature.attributeValue fldIdx).isNull) = true := by
        simp only [not_or, Bool.not_eq_true, Bool.not_eq_false] at hnull
        cases h1 : (feature.attributeValue fldIdx).isValid <;>
          cases h2 : (feature.attributeValue fldIdx).isNull <;> simp_all
      rw [List.filter_cons_of_pos (by simp [hf])]
      simp only [List.map_cons]
      split
      · simp only [fieldWriteTargets]
        exact List.Sublist.cons₂ _ (ih _ _)
      · exact List.Sublist.cons _ (ih _ _)
      · simp [fieldWriteTargets]

theorem fillFeature_targets (env : Env) (poDriver : OGRSFDriver) (feature : QgsFeature)
    (w : Writer) (poFeature : OGRFeature) :
    fieldWriteTargets (fillFeature env poDriver feature w poFeature).2.2 =
      fieldWriteTargets (writeAttributes env feature w.mAttrIdxToOgrIdx.entries w
        poFeature).2.2.2 := by
  unfold fillFeature
  simp only []
  split
  · rfl
  · simp [fieldWriteTargets_append, setFeatureGeometry_targets]

theorem newFeatureCalls_targets (poDriver : OGRSFDriver) (w : Writer) (feature : QgsFeature) :
    fieldWriteTargets (newFeatureCalls poDriver w feature) = [] := by
  unfold newFeatureCalls
  split <;> rfl

theorem createFeature_targets (env : Env) (w : Writer) (feature : QgsFeature) :
    (fieldWriteTargets (createFeature env w feature).2.2).Sublist
      ((writableEntries w feature).map Prod.snd) := by
  unfold createFeature
  split
  · simp only [fieldWriteTargets_append, newFeatureCalls_targets, List.nil_append,
      fillFeature_targets]
    exact writeAttributes_targets env feature _ _ _
  · exact List.nil_sublist _

/-- C5: for every session and every feature, the field writes that `createFeature` issues go,
in order, to output field indices taken from the entries of the field map whose attribute value
in the feature is valid and not null (each such entry is used for at most one write): so no
write is issued for a mapped attribute that is null or invalid, and every write goes to the
image of an input field index under the map. -/
theorem field_writes_only_for_mapped_values (env : Env) (w : Writer) (feature : QgsFeature) :
    (fieldWriteTargets (createFeature env w feature).2.2).Sublist
      ((writableEntries w feature).map Prod.snd) ∧
    ∀ handle ogrField value,
      OgrCall.F_SetField handle ogrField value ∈ (createFeature env w feature).2.2 →
      ∃ fldIdx, (fldIdx, ogrField) ∈ w.mAttrIdxToOgrIdx.entries ∧
        (feature.attributeValue fldIdx).isValid = true ∧
        (feature.attributeValue fldIdx).isNull = false := by
  have hsub : (fieldWriteTargets (createFeature env w feature).2.2).Sublist
      ((writableEntries w feature).map Prod.snd) := by
    exact createFeature_targets env w feature
  refine ⟨hsub, ?_⟩
  intro handle ogrField value hm
  have hmem : ogrField ∈ fieldWriteTargets (createFeature env w feature).2.2 :=
    mem_fieldWriteTargets.mpr ⟨handle, value, hm⟩
  have := hsub.subset hmem
  simp only [writableEntries, List.mem_map, List.mem_filter, Bool.and_eq_true,
    Bool.not_eq_true'] at this
  obtain ⟨⟨k, o⟩, ⟨hin, hv, hn⟩, rfl⟩ := this
  exact ⟨k, hin, hv, hn⟩

/-! ## Facts about `QMap` -/

theorem QMap.mem_insertEntries {κ ν : Type} [QMapKey κ] (k : κ) (v : ν) (l : List (κ × ν))
    (a : κ) (x : ν) :
    (a, x) ∈ QMap.insertEntries k v l → (a = k ∧ x = v) ∨ (a, x) ∈ l := by
  induction l with
  | nil => simp [QMap.insertEntries]
  | cons e rest ih =>
    obtain ⟨k', v'⟩ := e
    unfold QMap.insertEntries
    split
    · simp only [List.mem_cons, Prod.mk.injEq]
      tauto
    · split
      · simp only [List.mem_cons, Prod.mk.injEq]
        rintro (h | h)
        · exact Or.inr (Or.inl h)
        · rcases ih h with h | h
          · exact Or.inl h
          · exact Or.inr (Or.inr h)
      · simp only [List.mem_cons, Prod.mk.injEq]
        tauto

theorem QMap.insertEntries_of_gt {κ ν : Type} [QMapKey κ] (k : κ) (v : ν) (l : List (κ × ν))
    (h : ∀ e ∈ l, QMapKey.lt e.1 k = true) :
    QMap.insertEntries k v l = l ++ [(k, v)] := by
  induction l with
  | nil => rfl
  | cons e rest ih =>
    obtain ⟨k', v'⟩ := e
    have hk : QMapKey.lt k' k = true := h (k', v') (List.mem_cons_self _ _)
    have hnk : QMapKey.lt k k' = false := by
      by_contra hc
      simp only [Bool.not_eq_false] at hc
      have := QMapKey.trans k k' k hc hk
      rw [QMapKey.irrefl] at this
      exact Bool.false_ne_true this
    unfold QMap.insertEntries
    simp only [hnk, Bool.false_eq_true, if_false, hk, if_true, List.cons_append]
    rw [ih (fun e he => h e (List.mem_cons_of_mem _ he))]

theorem QSetInt.mem_insert (s : QSetInt) (i v : Int) :
    v ∈ QSetInt.insert s i ↔ v = i ∨ v ∈ s := by
  unfold QSetInt.insert
  split
  · rename_i h
    have hi : i ∈ s := by simpa using h
    constructor
    · exact Or.inr
    · rintro (rfl | h') <;> assumption
  · simp

theorem resolveOgrIdx_fresh (env : Env) (poDriver : OGRSFDriver) (defn : OGRFeatureDefn)
    (existingIdxs : QSetInt) (attrField : QgsField) (encodedName : String) (len : Nat)
    (hgdal : 1700 ≤ env.GDAL_VERSION_NUM) (hwb : poDriver.WellBehaved)
    (hlen : defn.length = len + 1) (hex : ∀ v ∈ existingIdxs, v < (len : Int)) :
    resolveOgrIdx env poDriver defn existingIdxs attrField encodedName ∉ existingIdxs ∧
    resolveOgrIdx env poDriver defn existingIdxs attrField encodedName < (defn.length : Int) := by
  unfold resolveOgrIdx
  simp only []
  have hlook := hwb.2 defn encodedName
  split
  · rw [if_neg (by omega)]
    constructor
    · intro hm
      have := hex _ hm
      rw [hlen] at this
      push_cast at this
      omega
    · omega
  · rename_i h
    simp only [not_or, not_lt] at h
    refine ⟨?_, hlook⟩
    intro hm
    apply h.2
    simpa using hm

theorem initField_failed (env : Env) (poDriver : OGRSFDriver) (fields : QgsFields)
    (fieldValueConverter : Option FieldValueConverter) (fldIdx : Int) (existingIdxs : QSetInt)
    (layer : OGRLayer) (w w' : Writer) (effects : List Effect)
    (h : initField env poDriver fields fieldValueConverter fldIdx existingIdxs layer w =
      (w', none, effects)) :
    w'.mError ≠ .NoError := by
  unfold initField at h
  simp only [] at h
  split at h
  · cases h; simp
  · split at h
    · cases h; simp
    · split at h
      · cases h; simp
      · split at h
        · cases h; simp
        · cases h

theorem initField_step (env : Env) (poDriver : OGRSFDriver) (fields : QgsFields)
    (fieldValueConverter : Option FieldValueConverter) (k : Nat) (existingIdxs : QSetInt)
    (layer : OGRLayer) (w : Writer)
    (hgdal : 1700 ≤ env.GDAL_VERSION_NUM) (hwb : poDriver.WellBehaved)
    (hinv : FieldMapInvariant k existingIdxs layer w.mAttrIdxToOgrIdx)
    (w' : Writer) (existingIdxs' : QSetInt) (layer' : OGRLayer) (effects : List Effect)
    (h : initField env poDriver fields fieldValueConverter (k : Int) existingIdxs layer w =
      (w', some (existingIdxs', layer'), effects)) :
    w'.mError = w.mError ∧ FieldMapInvariant (k + 1) existingIdxs' layer' w'.mAttrIdxToOgrIdx := by
  unfold initField at h
  simp only [] at h
  split at h
  · cases h
  · split at h
    · cases h
    · split at h
      · cases h
      · rename_i defn hcreate
        split at h
        · cases h
        · rename_i hidx
          simp only [Prod.mk.injEq, Option.some.injEq] at h
          obtain ⟨rfl, ⟨rfl, rfl⟩, _⟩ := h
          simp only [true_and]
          obtain ⟨hkeys, hval, hex, hinj⟩ := hinv
          have hlen := hwb.1 _ _ _ hcreate
          have hres := fun a b => resolveOgrIdx_fresh env poDriver defn existingIdxs a b
            layer.defn.length hgdal hwb hlen hex
          generalize hr : resolveOgrIdx env poDriver defn existingIdxs _ _ = ogrIdx at hidx ⊢
          obtain ⟨hfresh, hlt⟩ : ogrIdx ∉ existingIdxs ∧ ogrIdx < (defn.length : Int) := by
            rw [← hr]
            exact hres _ _
          have hgt : ∀ e ∈ w.mAttrIdxToOgrIdx.entries, QMapKey.lt e.1 (k : Int) = true := by
            intro e he
            have : e.1 ∈ w.mAttrIdxToOgrIdx.keys := List.mem_map_of_mem _ he
            rw [hkeys] at this
            simp only [List.mem_map, List.mem_range] at this
            obtain ⟨a, ha, hae⟩ := this
            rw [← hae]
            show decide ((Int.ofNat a) < (k : Int)) = true
            simp
            omega
          have hins : (w.mAttrIdxToOgrIdx.insert (k : Int) ogrIdx).entries =
              w.mAttrIdxToOgrIdx.entries ++ [((k : Int), ogrIdx)] :=
            QMap.insertEntries_of_gt _ _ _ hgt
          refine ⟨?_, ?_, ?_, ?_⟩
          · show List.map Prod.fst (w.mAttrIdxToOgrIdx.insert (k : Int) ogrIdx).entries = _
            rw [hins, List.range_succ, List.map_append, List.map_append]
            have hk' : List.map Prod.fst w.mAttrIdxToOgrIdx.entries =
              List.map Int.ofNat (List.range k) := hkeys
            rw [hk']
            rfl
          · intro e he
            change e ∈ (w.mAttrIdxToOgrIdx.insert (k : Int) ogrIdx).entries at he
            rw [hins] at he
            simp only [List.mem_append, List.mem_singleton] at he
            rw [QSetInt.mem_insert]
            rcases he with he | rfl
            · exact Or.inr (hval e he)
            · exact Or.inl rfl
          · intro v hv
            rw [QSetInt.mem_insert] at hv
            rcases hv with rfl | hv
            · exact hlt
            · have := hex v hv
              show v < ((defn.length : Nat) : Int)
              rw [hlen]
              push_cast
              omega
          · intro k₁ v₁ k₂ v₂ h1 h2 hv
            change _ ∈ (w.mAttrIdxToOgrIdx.insert (k : Int) ogrIdx).entries at h1 h2
            rw [hins] at h1 h2
            simp only [List.mem_append, List.mem_singleton, Prod.mk.injEq] at h1 h2
            rcases h1 with h1 | ⟨rfl, rfl⟩ <;> rcases h2 with h2 | ⟨rfl, rfl⟩
            · exact hinj _ _ _ _ h1 h2 hv
            · exact absurd (hv ▸ hval _ h1) hfresh
            · exact absurd (hv ▸ hval _ h2) hfresh
            · rfl

theorem initFields_invariant (env : Env) (poDriver : OGRSFDriver) (fields : QgsFields)
    (fieldValueConverter : Option FieldValueConverter)
    (hgdal : 1700 ≤ env.GDAL_VERSION_NUM) (hwb : poDriver.WellBehaved)
    (todo k : Nat) (existingIdxs : QSetInt) (layer : OGRLayer) (w : Writer)
    (hinv : FieldMapInvariant k existingIdxs layer w.mAttrIdxToOgrIdx) :
    ((initFields env poDriver fields fieldValueConverter todo (k : Int) existingIdxs
        layer w).2.1 = false →
      (initFields env poDriver fields fieldValueConverter todo (k : Int) existingIdxs
        layer w).1.mError ≠ .NoError) ∧
    ((initFields env poDriver fields fieldValueConverter todo (k : Int) existingIdxs
        layer w).2.1 = true →
      (initFields env poDriver fields fieldValueConverter todo (k : Int) existingIdxs
        layer w).1.mError = w.mError ∧
      (initFields env poDriver fields fieldValueConverter todo (k : Int) existingIdxs
        layer w).1.mAttrIdxToOgrIdx.keys = (List.range (k + todo)).map Int.ofNat ∧
      (initFields env poDriver fields fieldValueConverter todo (k : Int) existingIdxs
        layer w).1.mAttrIdxToOgrIdx.Injective) := by
  induction todo generalizing k existingIdxs layer w with
  | zero =>
    simp only [initFields, Nat.add_zero]
    exact ⟨by simp, fun _ => ⟨trivial, hinv.1, hinv.2.2.2⟩⟩
  | succ todo ih =>
    unfold initFields
    rcases hstep : initField env poDriver fields fieldValueConverter (k : Int) existingIdxs
      layer w with ⟨w', _ | ⟨existingIdxs', layer'⟩, effects⟩
    · simp only []
      exact ⟨fun _ => initField_failed _ _ _ _ _ _ _ _ _ _ hstep, by simp⟩
    · simp only []
      obtain ⟨herr, hinv'⟩ := initField_step env poDriver fields fieldValueConverter k
        existingIdxs layer w hgdal hwb hinv _ _ _ _ hstep
      have hcast : (k : Int) + 1 = ((k + 1 : Nat) : Int) := by push_cast; rfl
      rw [hcast]
      obtain ⟨h1, h2⟩ := ih (k + 1) existingIdxs' layer' w' hinv'
      refine ⟨h1, fun h => ?_⟩
      obtain ⟨ha, hb, hc⟩ := h2 h
      refine ⟨ha.trans herr, ?_, hc⟩
      rw [hb]
      congr 2
      omega

theorem fieldMapInvariant_empty (layer : OGRLayer) :
    FieldMapInvariant 0 [] layer (QMap.empty : QMap Int Int) := by
  refine ⟨rfl, ?_, ?_, ?_⟩
  · intro e he; cases he
  · intro v hv; cases hv
  · intro _ _ _ _ h; cases h

theorem initAttributes_map (env : Env) (poDriver : OGRSFDriver) (w : Writer)
    (fields : QgsFields) (geometryType : WkbType)
    (fieldValueConverter : Option FieldValueConverter) (layer : OGRLayer)
    (hgdal : 1700 ≤ env.GDAL_VERSION_NUM) (hwb : poDriver.WellBehaved)
    (hok : (initAttributes env poDriver w fields geometryType fieldValueConverter
      layer).1.mError = .NoError) :
    (initAttributes env poDriver w fields geometryType fieldValueConverter
      layer).1.mAttrIdxToOgrIdx.keys = (List.range fields.length).map Int.ofNat ∧
    (initAttributes env poDriver w fields geometryType fieldValueConverter
      layer).1.mAttrIdxToOgrIdx.Injective := by
  have h := initFields_invariant env poDriver fields fieldValueConverter hgdal hwb
    fields.length 0 [] layer
    { w with
      mLayer := some layer
      mFields := fields
      mAttrIdxToOgrIdx := QMap.empty
      mFieldValueConverter := fieldValueConverter } (fieldMapInvariant_empty layer)
  simp only [Nat.cast_zero, Nat.zero_add] at h
  unfold initAttributes at hok ⊢
  simp only [] at hok ⊢
  split
  · rename_i hf
    rw [if_pos hf] at hok
    exact absurd hok (h.1 (by simpa using hf))
  · rename_i hf
    obtain ⟨_, hk, hi⟩ := h.2 (by simpa using hf)
    split <;> exact ⟨hk, hi⟩

theorem initDataSource_map (env : Env) (poDriver : OGRSFDriver) (w : Writer)
    (vectorFileName fileEncoding : String) (fields : QgsFields) (geometryType : WkbType)
    (srs : QgsCoordinateReferenceSystem) (datasourceOptions layerOptions : List String)
    (newFilename : Bool) (fieldValueConverter : Option FieldValueConverter)
    (effects : List Effect)
    (hgdal : 1700 ≤ env.GDAL_VERSION_NUM) (hwb : poDriver.WellBehaved)
    (hok : (initDataSource env poDriver w vectorFileName fileEncoding fields geometryType srs
      datasourceOptions layerOptions newFilename fieldValueConverter effects).1.mError
        = .NoError) :
    (initDataSource env poDriver w vectorFileName fileEncoding fields geometryType srs
      datasourceOptions layerOptions newFilename fieldValueConverter
      effects).1.mAttrIdxToOgrIdx.keys = (List.range fields.length).map Int.ofNat ∧
    (initDataSource env poDriver w vectorFileName fileEncoding fields geometryType srs
      datasourceOptions layerOptions newFilename fieldValueConverter
      effects).1.mAttrIdxToOgrIdx.Injective := by
  unfold initDataSource at hok ⊢
  simp only [] at hok ⊢
  split
  · rename_i hf
    rw [if_pos hf] at hok
    simp at hok
  · rename_i hf
    rw [if_neg hf] at hok
    split
    · rename_i hl
      simp only [hl] at hok
      simp at hok
    · rename_i defn hl
      simp only [hl] at hok
      exact initAttributes_map env poDriver _ fields geometryType fieldValueConverter _ hgdal hwb
        hok

/-- C6: in a build against GDAL 1.7 or newer, assuming each successful driver `createField`
appends exactly one field to the output schema and the by-name field lookup returns either a
negative value or an index of an existing output field: after a successful construction over a
schema of n fields, the field-index mapping has exactly the keys 0..n-1 and is injective.  In
a build against an older GDAL the mapping can fail to be injective. -/
theorem field_map_one_to_one_after_construction (env : Env) (vectorFileName fileEncoding : String)
    (fields : QgsFields) (geometryType : WkbType) (srs : QgsCoordinateReferenceSystem)
    (driverName : String) (datasourceOptions layerOptions : List String) (newFilename : Bool)
    (symbologyExport : SymbologyExport) (fieldValueConverter : Option FieldValueConverter)
    (hgdal : 1700 ≤ env.GDAL_VERSION_NUM)
    (hwb : ∀ name poDriver, env.getDriverByName name = some poDriver → poDriver.WellBehaved)
    (hok : (Writer.construct env vectorFileName fileEncoding fields geometryType srs driverName
      datasourceOptions layerOptions newFilename symbologyExport fieldValueConverter).1.mError
        = .NoError) :
    (Writer.construct env vectorFileName fileEncoding fields geometryType srs driverName
      datasourceOptions layerOptions newFilename symbologyExport
      fieldValueConverter).1.mAttrIdxToOgrIdx.keys = (List.range fields.length).map Int.ofNat ∧
    (Writer.construct env vectorFileName fileEncoding fields geometryType srs driverName
      datasourceOptions layerOptions newFilename symbologyExport
      fieldValueConverter).1.mAttrIdxToOgrIdx.Injective := by
  unfold Writer.construct init at hok ⊢
  split
  · rename_i hname
    rw [if_pos hname] at hok
    simp at hok
  · rename_i hname
    rw [if_neg hname] at hok
    simp only [] at hok ⊢
    split
    · rename_i hdrv
      simp only [hdrv] at hok
      simp at hok
    · rename_i poDriver hdrv
      simp only [hdrv] at hok
      split
      · rename_i hdup
        simp only [hdup] at hok
        simp at hok
      · rename_i hdup
        simp only [hdup] at hok
        exact initDataSource_map env poDriver _ _ _ fields geometryType _ _ _ newFilename
          fieldValueConverter _ hgdal (hwb _ _ hdrv) hok

theorem exampleDriver_wellBehaved : exampleDriver.WellBehaved := by
  constructor
  · intro defn fld defn' h
    simp only [exampleDriver, Option.some.injEq] at h
    rw [← h]
    simp
  · intro defn name
    simp only [exampleDriver]
    split
    · rename_i h
      exact_mod_cast h
    · omega

theorem launderingDriver_wellBehaved : launderingDriver.WellBehaved := by
  constructor
  · intro defn fld defn' h
    simp only [launderingDriver] at h
    split at h <;> (simp only [Option.some.injEq] at h; rw [← h]; simp)
  · intro defn name
    simp only [launderingDriver]
    split
    · rename_i h
      have h' : List.indexOf (lowerChars name) (List.map (fun f => lowerChars f.name) defn) <
          defn.length := h
      exact_mod_cast h'
    · omega

/-- Witness of C6: in a build against GDAL 2.1, with a driver that stores field names in lower
case and finds fields ignoring case, the construction over the two fields `ab` and `AB`
succeeds; the lookup of `AB` finds the output field 0, which is taken, so that the field just
created is used instead: the field map has the keys 0 and 1 and maps them to the output fields
0 and 1. -/
theorem field_map_one_to_one_after_construction_witness :
    (Writer.construct launderingEnv "out.csv" "UTF-8" caseFields .Polygon
      ⟨true, "", .DistanceMeters⟩ "CSV" [] [] false .NoSymbology none).1.mAttrIdxToOgrIdx.entries
      = [(0, 0), (1, 1)] ∧
    launderingDriver.getFieldIndex
      [⟨"ab", .OFTInteger, 10, 0⟩, ⟨"ab_1", .OFTInteger, 10, 0⟩] "AB" = 0 ∧
    (Writer.construct launderingEnv "out.csv" "UTF-8" caseFields .Polygon
      ⟨true, "", .DistanceMeters⟩ "CSV" [] [] false .NoSymbology none).1.mAttrIdxToOgrIdx.keys
      = (List.range caseFields.length).map Int.ofNat ∧
    (Writer.construct launderingEnv "out.csv" "UTF-8" caseFields .Polygon
      ⟨true, "", .DistanceMeters⟩ "CSV" [] [] false .NoSymbology
      none).1.mAttrIdxToOgrIdx.Injective :=
  ⟨by decide, by decide,
    field_map_one_to_one_after_construction launderingEnv "out.csv" "UTF-8"
      caseFields .Polygon ⟨true, "", .DistanceMeters⟩ "CSV" [] [] false
      .NoSymbology none (by decide)
      (fun _ _ h => by
        simp only [launderingEnv, exampleEnv, Option.some.injEq] at h
        rw [← h]
        exact launderingDriver_wellBehaved)
      (by decide)⟩

/-- C6 (failing input): in a build against GDAL 1.6, with a driver that appends exactly one
field per `createField` and answers lookups with -1 or the index of an existing field, the
construction over the two fields `ab` and `AB` succeeds and maps both input fields to the
output field 0: the lookup of `AB` finds the output field 0, which is taken, and the fallback
to the field just created is not used because its name `ab_1` is no leading part of `AB`. -/
theorem field_map_collides_before_gdal_1_7 :
    launderingDriver.WellBehaved ∧
    legacyEnv.GDAL_VERSION_NUM < 1700 ∧
    (Writer.construct legacyEnv "out.csv" "UTF-8" caseFields .Polygon
      ⟨true, "", .DistanceMeters⟩ "CSV" [] [] false .NoSymbology none).1.mError = .NoError ∧
    createdFields (Writer.construct legacyEnv "out.csv" "UTF-8" caseFields .Polygon
      ⟨true, "", .DistanceMeters⟩ "CSV" [] [] false .NoSymbology none).2.2
      = [(⟨"ab", .OFTInteger, 10, 0⟩, true), (⟨"AB", .OFTInteger, 10, 0⟩, true)] ∧
    (Writer.construct legacyEnv "out.csv" "UTF-8" caseFields .Polygon
      ⟨true, "", .DistanceMeters⟩ "CSV" [] [] false .NoSymbology none).1.mAttrIdxToOgrIdx.entries
      = [(0, 0), (1, 0)] ∧
    ¬ (Writer.construct legacyEnv "out.csv" "UTF-8" caseFields .Polygon
      ⟨true, "", .DistanceMeters⟩ "CSV" [] [] false .NoSymbology none).1.mAttrIdxToOgrIdx.Injective := by
  have h : (Writer.construct legacyEnv "out.csv" "UTF-8" caseFields .Polygon
      ⟨true, "", .DistanceMeters⟩ "CSV" [] [] false .NoSymbology none).1.mAttrIdxToOgrIdx.entries
      = [(0, 0), (1, 0)] := by decide
  refine ⟨launderingDriver_wellBehaved, by decide, by decide, by decide, h, ?_⟩
  intro hinj
  have := hinj 0 0 1 0 (by rw [h]; simp) (by rw [h]; simp) rfl
  exact absurd this (by decide)

/-- C7 (failing input): a writer constructed for the one exported field `a` has the one-to-one
field map {0 ↦ 0}; `writeAsVectorFormat` appends the index 1 of the attribute `b` that the
renderer uses and passes the list [0, 1] to `resetMap`, after which the input fields 0 and 1
both map to the output field 0.  In the export of a feature with the values 7 for `a` and 9
for `b`, the value 9 of the attribute that is not exported is then written to the output
field 0, after the value 7. -/
theorem resetMap_maps_renderer_attribute_to_field_zero :
    styledWriter.mAttrIdxToOgrIdx.Injective ∧
    styledWriter.addRendererAttributes (styledLayer []) [0] = [0, 1] ∧
    (resetMap styledWriter [0, 1]).mAttrIdxToOgrIdx.entries = [(0, 0), (1, 0)] ∧
    ¬ (resetMap styledWriter [0, 1]).mAttrIdxToOgrIdx.Injective ∧
    Effect.ogr (.F_SetField 0 0 (.integer 9)) ∈
      (writeAsVectorFormat (exampleEnv exampleDriver) (some (styledLayer [twoAttributeFeature]))
        { exampleArgs with attributes := [0], symbologyExport := .FeatureSymbology }).effects := by
  have h0 : styledWriter.mAttrIdxToOgrIdx.entries = [(0, 0)] := by decide
  have h : (resetMap styledWriter [0, 1]).mAttrIdxToOgrIdx.entries = [(0, 0), (1, 0)] := by
    decide
  refine ⟨?_, by decide, h, ?_, by decide⟩
  · intro k₁ v₁ k₂ v₂ h1 h2 _
    rw [h0] at h1 h2
    simp only [List.mem_singleton, Prod.mk.injEq] at h1 h2
    rw [h1.1, h2.1]
  · intro hinj
    have := hinj 0 0 1 0 (by rw [h]; simp) (by rw [h]; simp) rfl
    exact absurd this (by decide)

/-- A known single-part type whose flat type is the flat single type of a multi type differs
from that multi type in its flat type and has a multi variant. -/
theorem single_of_multi_promotes (T s : WkbType)
    (hT : QgsWkbTypes.isMultiType T = true)
    (hflat : QgsWkbTypes.flatType s = QgsWkbTypes.flatType (QgsWkbTypes.singleType T))
    (hknown : s ≠ .Unknown) :
    QgsWkbTypes.flatType s ≠ QgsWkbTypes.flatType T ∧
    QgsWkbTypes.isMultiType (QgsWkbTypes.multiType s) = true := by
  cases T <;> first
    | (exact absurd hT (by decide))
    | (cases s <;> first
        | (exact absurd hflat (by decide))
        | (exact absurd rfl hknown)
        | decide)

/-- The attribute loop leaves the writer as it is unless it ends in the `default:` case. -/
theorem writeAttributes_writer (env : Env) (feature : QgsFeature) (entries : List (Int × Int))
    (w : Writer) (poFeature : OGRFeature)
    (h : (writeAttributes env feature entries w poFeature).2.2.1 = true) :
    (writeAttributes env feature entries w poFeature).1 = w := by
  induction entries generalizing poFeature with
  | nil => rfl
  | cons e rest ih =>
    obtain ⟨fldIdx, ogrField⟩ := e
    unfold writeAttributes at h ⊢
    simp only [] at h ⊢
    split
    · rename_i hskip
      rw [if_pos hskip] at h
      exact ih _ h
    · rename_i hskip
      rw [if_neg hskip] at h
      split
      · rename_i value hw
        rw [hw] at h
        exact ih _ h
      · rename_i hw
        rw [hw] at h
        exact ih _ h
      · rename_i hw
        rw [hw] at h
        exact absurd h (by simp)

/-- The attribute loop does not end in the `default:` case when every value it hands to the
`switch` has a type the `switch` handles. -/
theorem writeAttributes_supported (env : Env) (feature : QgsFeature)
    (entries : List (Int × Int)) (w : Writer) (poFeature : OGRFeature)
    (h : ∀ e ∈ entries.filter
        (fun e => (feature.attributeValue e.1).isValid && !(feature.attributeValue e.1).isNull),
      fieldWrite w.fromUnicode (decide (env.GDAL_VERSION_NUM ≥ 2000000))
        (decide (w.mOgrDriverName = "ESRI Shapefile"))
        (match w.mFieldValueConverter with
          | some converter => converter.convert e.1 (feature.attributeValue e.1)
          | none => feature.attributeValue e.1) ≠ .unsupported) :
    (writeAttributes env feature entries w poFeature).2.2.1 = true := by
  induction entries generalizing poFeature with
  | nil => rfl
  | cons e rest ih =>
    obtain ⟨fldIdx, ogrField⟩ := e
    have hrest : ∀ e ∈ rest.filter
        (fun e => (feature.attributeValue e.1).isValid && !(feature.attributeValue e.1).isNull),
      fieldWrite w.fromUnicode (decide (env.GDAL_VERSION_NUM ≥ 2000000))
        (decide (w.mOgrDriverName = "ESRI Shapefile"))
        (match w.mFieldValueConverter with
          | some converter => converter.convert e.1 (feature.attributeValue e.1)
          | none => feature.attributeValue e.1) ≠ .unsupported := by
      intro e he
      apply h
      rw [List.filter_cons]
      split
      · exact List.mem_cons_of_mem _ he
      · exact he
    unfold writeAttributes
    simp only []
    split
    · exact ih _ hrest
    · rename_i hskip
      split
      · exact ih _ hrest
      · exact ih _ hrest
      · rename_i hw
        exfalso
        have hmem : (fldIdx, ogrField) ∈ ((fldIdx, ogrField) :: rest).filter
            (fun e => (feature.attributeValue e.1).isValid &&
              !(feature.attributeValue e.1).isNull) := by
          rw [List.filter_cons]
          have : ((feature.attributeValue fldIdx).isValid &&
              !(feature.attributeValue fldIdx).isNull) = true := by
            simp only [Bool.not_eq_true', not_or, Bool.not_eq_false, Bool.not_eq_true] at hskip
            simp [hskip.1, hskip.2]
          simp [this]
        exact h _ hmem hw

/-- The geometry block of `createFeature` for a single-part shape and a multi output type of
the same flat single type: the record returned carries the shape wrapped in its multi type. -/
theorem setFeatureGeometry_promotes (env : Env) (poDriver : OGRSFDriver) (feature : QgsFeature)
    (w : Writer) (poFeature : OGRFeature) (s : QgsShape)
    (hT : QgsWkbTypes.isMultiType w.mWkbType = true)
    (hgeom : feature.geometry = some (.single s))
    (hflat : QgsWkbTypes.flatType s.wkbType =
      QgsWkbTypes.flatType (QgsWkbTypes.singleType w.mWkbType))
    (hknown : s.wkbType ≠ .Unknown)
    (hscratch : w.mGeom.isSome = true)
    (hcreate : ∀ t, poDriver.createGeometry t = true)
    (himport : ∀ t, poDriver.importFromWkb t
      (.multi (QgsWkbTypes.multiType s.wkbType) [s]) = true) :
    ∃ (rec : OGRFeature) (t : Nat),
      (setFeatureGeometry env poDriver feature w poFeature).1 = some rec ∧
      rec.geometry = some ⟨t, some (.multi (QgsWkbTypes.multiType s.wkbType) [s])⟩ := by
  obtain ⟨hne, hmulti⟩ := single_of_multi_promotes w.mWkbType s.wkbType hT hflat hknown
  have hno : w.mWkbType ≠ .NoGeometry := by
    intro h
    rw [h] at hT
    exact absurd hT (by decide)
  have hconv : (QgsGeometry.single s).convertToMultiType =
      .multi (QgsWkbTypes.multiType s.wkbType) [s] := by
    simp [QgsGeometry.convertToMultiType, hmulti]
  have hc : (QgsWkbTypes.flatType (QgsGeometry.single s).wkbType ≠
        QgsWkbTypes.flatType w.mWkbType ∧
      QgsWkbTypes.flatType (QgsGeometry.single s).wkbType =
        QgsWkbTypes.flatType (QgsWkbTypes.singleType w.mWkbType)) := ⟨hne, hflat⟩
  have hty : (QgsGeometry.multi (QgsWkbTypes.multiType s.wkbType) [s]).wkbType =
      QgsWkbTypes.multiType s.wkbType := rfl
  unfold setFeatureGeometry
  rw [if_pos hno, hgeom]
  simp only []
  rw [if_pos hc, hconv, hty]
  simp only [createEmptyGeometry, hcreate, himport, if_true]
  split
  · by_cases hforce : QgsWkbTypes.code .Point25D ≤ QgsWkbTypes.code w.mWkbType ∧
        QgsWkbTypes.code w.mWkbType ≤ QgsWkbTypes.code .MultiPolygon25D ∧
        QgsWkbTypes.code .PointZ ≤ QgsWkbTypes.code (QgsWkbTypes.multiType s.wkbType) ∧
        QgsWkbTypes.code (QgsWkbTypes.multiType s.wkbType) ≤ QgsWkbTypes.code .MultiPolygonZ
    · simp [if_pos hforce, himport]
    · simp [if_neg hforce, himport]
  · obtain ⟨g, hg⟩ := Option.isSome_iff_exists.mp hscratch
    rw [hg]
    simp

/-- The attribute loop and the geometry block of `createFeature` together, for a single-part
shape and a multi output type of the same flat single type. -/
theorem fillFeature_promotes (env : Env) (poDriver : OGRSFDriver) (feature : QgsFeature)
    (w : Writer) (poFeature : OGRFeature) (s : QgsShape)
    (hT : QgsWkbTypes.isMultiType w.mWkbType = true)
    (hgeom : feature.geometry = some (.single s))
    (hflat : QgsWkbTypes.flatType s.wkbType =
      QgsWkbTypes.flatType (QgsWkbTypes.singleType w.mWkbType))
    (hknown : s.wkbType ≠ .Unknown)
    (hattrs : AttributesSupported env w feature)
    (hscratch : w.mGeom.isSome = true)
    (hcreate : ∀ t, poDriver.createGeometry t = true)
    (himport : ∀ t, poDriver.importFromWkb t
      (.multi (QgsWkbTypes.multiType s.wkbType) [s]) = true) :
    ∃ (rec : OGRFeature) (t : Nat),
      (fillFeature env poDriver feature w poFeature).1 = some rec ∧
      rec.geometry = some ⟨t, some (.multi (QgsWkbTypes.multiType s.wkbType) [s])⟩ := by
  have hsup := writeAttributes_supported env feature w.mAttrIdxToOgrIdx.entries w poFeature
    hattrs
  have hw := writeAttributes_writer env feature w.mAttrIdxToOgrIdx.entries w poFeature hsup
  obtain ⟨rec, t, hrec, hg⟩ := setFeatureGeometry_promotes env poDriver feature w
    (writeAttributes env feature w.mAttrIdxToOgrIdx.entries w poFeature).2.1
    s hT hgeom hflat hknown hscratch hcreate himport
  refine ⟨rec, t, ?_, hg⟩
  unfold fillFeature
  simp only []
  rw [hsup, hw]
  exact hrec

/-- C8 (amended): for a writer session with a driver and a layer whose output geometry type T
is a multi type and whose scratch geometry was created, and a feature whose geometry is a
single shape of a known type with flat type equal to the flat single type of T: provided every
attribute value handed to the `switch` of `createFeature` has a type the `switch` handles, the
driver creates geometries and the driver imports the converted geometry, `createFeature`
returns a record, and the geometry attached to it holds the multi-geometry of the multi type
of the shape that wraps the single input shape, not the original single geometry. -/
theorem createFeature_promotes_single_to_multi (env : Env) (w : Writer) (feature : QgsFeature)
    (poDriver : OGRSFDriver) (layer : OGRLayer) (s : QgsShape)
    (hdriver : w.poDriver = some poDriver) (hlayer : w.mLayer = some layer)
    (hT : QgsWkbTypes.isMultiType w.mWkbType = true)
    (hgeom : feature.geometry = some (.single s))
    (hflat : QgsWkbTypes.flatType s.wkbType =
      QgsWkbTypes.flatType (QgsWkbTypes.singleType w.mWkbType))
    (hknown : s.wkbType ≠ .Unknown)
    (hattrs : AttributesSupported env w feature)
    (hscratch : w.mGeom.isSome = true)
    (hcreate : ∀ t, poDriver.createGeometry t = true)
    (himport : ∀ t, poDriver.importFromWkb t
      (.multi (QgsWkbTypes.multiType s.wkbType) [s]) = true) :
    ∃ (rec : OGRFeature) (t : Nat),
      (createFeature env w feature).1 = some rec ∧
      rec.geometry = some ⟨t, some (.multi (QgsWkbTypes.multiType s.wkbType) [s])⟩ ∧
      rec.geometry ≠ some ⟨t, feature.geometry⟩ := by
  have hattrs' : AttributesSupported env { w with nextHandle := w.nextHandle + 1 } feature :=
    hattrs
  obtain ⟨rec, t, hrec, hg⟩ := fillFeature_promotes env poDriver feature
    { w with nextHandle := w.nextHandle + 1 } (newFeature poDriver w feature) s hT hgeom hflat
    hknown hattrs' hscratch hcreate himport
  refine ⟨rec, t, ?_, hg, ?_⟩
  · unfold createFeature
    split
    · rename_i d l hd hl
      rw [hdriver] at hd
      cases hd
      exact hrec
    · rename_i hnone
      exact absurd hlayer (hnone poDriver layer hdriver)
  · rw [hg, hgeom]
    simp

/-- Witness for C8 (amended): the example polygon feature written to a multi-polygon
session. -/
theorem createFeature_promotes_single_to_multi_witness :
    ∃ (rec : OGRFeature) (t : Nat),
      (createFeature (exampleEnv exampleDriver) (exampleWriter exampleDriver .MultiPolygon)
        exampleFeature).1 = some rec ∧
      rec.geometry = some ⟨t, some (.multi (QgsWkbTypes.multiType examplePolygon.wkbType)
        [examplePolygon])⟩ ∧
      rec.geometry ≠ some ⟨t, exampleFeature.geometry⟩ :=
  createFeature_promotes_single_to_multi (exampleEnv exampleDriver)
    (exampleWriter exampleDriver .MultiPolygon) exampleFeature exampleDriver
    ⟨[⟨"a", .OFTInteger, 10, 0⟩], [], 0⟩ examplePolygon rfl (by decide) (by decide)
    rfl (by decide) (by decide) (by unfold AttributesSupported; decide) (by decide)
    (fun _ => rfl) (fun _ => rfl)

/-- Counterexample to C8: a polygon feature written to a multi-polygon session of a driver
whose geometry creation and WKB import always succeed; the flat type of the polygon is the
flat single type of the session type, but the feature carries a boolean attribute, which the
`switch` of `createFeature` does not handle, and `createFeature` returns a null record. -/
theorem createFeature_null_for_unsupported_attribute :
    QgsWkbTypes.isMultiType (exampleWriter exampleDriver .MultiPolygon).mWkbType = true ∧
    booleanFeature.geometry = some (.single examplePolygon) ∧
    QgsWkbTypes.flatType examplePolygon.wkbType =
      QgsWkbTypes.flatType
        (QgsWkbTypes.singleType (exampleWriter exampleDriver .MultiPolygon).mWkbType) ∧
    (∀ t g, exampleDriver.importFromWkb t g = true) ∧
    (∀ t, exampleDriver.createGeometry t = true) ∧
    (exampleWriter exampleDriver .MultiPolygon).mError = .NoError ∧
    (createFeature (exampleEnv exampleDriver) (exampleWriter exampleDriver .MultiPolygon)
      booleanFeature).1 = none := by
  refine ⟨by decide, rfl, by decide, fun _ _ => rfl, fun _ => rfl, by decide, by decide⟩

/-- C9: for a source layer of the OGR provider whose source file (the part of the data source
URI before the first `|`) exists and has the canonical path of the destination file name,
`writeAsVectorFormat` returns `ErrCreateDataSource`, stores the message "Cannot overwrite a OGR
layer in place" in the error message sink when one is passed, leaves the new file name
untouched and makes no call at all: no driver lookup, no dataset creation, no file removal, no
writer construction. -/
theorem in_place_overwrite_is_refused (env : Env) (layer : QgsVectorLayer) (args : WriteArgs)
    (provider : QgsVectorDataProvider)
    (hogr : layer.providerType = "ogr")
    (hprovider : layer.dataProvider = some provider)
    (hexists : env.fileExists (firstPart provider.dataSourceUri '|') = true)
    (hsame : env.canonicalFilePath args.fileName =
      env.canonicalFilePath (firstPart provider.dataSourceUri '|')) :
    (writeAsVectorFormat env (some layer) args).outcome = .returned .ErrCreateDataSource ∧
    (writeAsVectorFormat env (some layer) args).errorMessage =
      args.errorMessage.map (fun _ => "Cannot overwrite a OGR layer in place") ∧
    (writeAsVectorFormat env (some layer) args).newFilename = none ∧
    (writeAsVectorFormat env (some layer) args).effects = [] := by
  have h : writeAsVectorFormat env (some layer) args =
      ⟨.returned .ErrCreateDataSource,
        args.errorMessage.map (fun _ => tr "Cannot overwrite a OGR layer in place"), none, []⟩ := by
    unfold writeAsVectorFormat
    simp only [hprovider, hogr, if_true, hexists, hsame, decide_True, Bool.and_self]
  rw [h]
  exact ⟨rfl, rfl, rfl, rfl⟩

/-- Witness for C9: the export of the layer `a` of `out.gpkg` to the file `out.gpkg`. -/
theorem in_place_overwrite_is_refused_witness :
    (writeAsVectorFormat existingFileEnv (some ogrLayer) exampleArgs).outcome =
      .returned .ErrCreateDataSource ∧
    (writeAsVectorFormat existingFileEnv (some ogrLayer) exampleArgs).errorMessage =
      exampleArgs.errorMessage.map (fun _ => "Cannot overwrite a OGR layer in place") ∧
    (writeAsVectorFormat existingFileEnv (some ogrLayer) exampleArgs).newFilename = none ∧
    (writeAsVectorFormat existingFileEnv (some ogrLayer) exampleArgs).effects = [] :=
  in_place_overwrite_is_refused existingFileEnv ogrLayer exampleArgs ⟨"out.gpkg|layername=a"⟩
    (by decide) (by decide) (by decide) (by decide)

/-! ## Lookup in the driver metadata table -/

/-- Insertion keeps an entry list strictly ascending in its keys. -/
theorem QMap.insertEntries_sorted {κ ν : Type} [QMapKey κ] (k : κ) (v : ν) (l : List (κ × ν))
    (h : l.Pairwise (fun a b => QMapKey.lt a.1 b.1 = true)) :
    (QMap.insertEntries k v l).Pairwise (fun a b => QMapKey.lt a.1 b.1 = true) := by
  induction l with
  | nil => simp [QMap.insertEntries]
  | cons e rest ih =>
    obtain ⟨k', v'⟩ := e
    rw [List.pairwise_cons] at h
    unfold QMap.insertEntries
    split
    · rename_i hlt
      rw [List.pairwise_cons]
      refine ⟨?_, List.pairwise_cons.mpr h⟩
      intro a ha
      rcases List.mem_cons.mp ha with rfl | ha
      · exact hlt
      · exact QMapKey.trans _ _ _ hlt (h.1 a ha)
    · rename_i hnlt
      split
      · rename_i hlt
        rw [List.pairwise_cons]
        refine ⟨?_, ih h.2⟩
        rintro ⟨a, x⟩ ha
        rcases QMap.mem_insertEntries k v rest a x ha with ⟨rfl, _⟩ | ha
        · exact hlt
        · exact h.1 _ ha
      · rename_i hngt
        have hk : k = k' := QMapKey.tri k k' (by simpa using hnlt) (by simpa using hngt)
        rw [List.pairwise_cons]
        refine ⟨?_, h.2⟩
        intro a ha
        rw [hk]
        exact h.1 a ha

/-- A map built by `insert` calls from the empty map is strictly ascending in its keys. -/
theorem QMap.ofInserts_sorted {κ ν : Type} [QMapKey κ] (l : List (κ × ν)) :
    (QMap.ofInserts l).Sorted := by
  have h : ∀ (l : List (κ × ν)) (m : QMap κ ν), m.Sorted →
      (l.foldl (fun m e => m.insert e.1 e.2) m).Sorted := by
    intro l
    induction l with
    | nil => exact fun m hm => hm
    | cons e rest ih =>
      intro m hm
      exact ih _ (QMap.insertEntries_sorted e.1 e.2 m.entries hm)
  exact h l QMap.empty List.Pairwise.nil

/-- The first entry of an ascending entry list that satisfies `p` is among the entries,
satisfies `p` and has a key below that of every other entry satisfying `p`. -/
theorem find?_sorted_least {κ ν : Type} [QMapKey κ] (p : κ × ν → Bool) (l : List (κ × ν))
    (h : l.Pairwise (fun a b => QMapKey.lt a.1 b.1 = true)) (e : κ × ν)
    (hfind : l.find? p = some e) :
    e ∈ l ∧ p e = true ∧ ∀ e' ∈ l, p e' = true → e' = e ∨ QMapKey.lt e.1 e'.1 = true := by
  induction l with
  | nil => simp at hfind
  | cons a rest ih =>
    rw [List.pairwise_cons] at h
    rw [List.find?_cons] at hfind
    split at hfind
    · rename_i hp
      cases hfind
      refine ⟨List.mem_cons_self _ _, hp, ?_⟩
      intro e' he' _
      rcases List.mem_cons.mp he' with rfl | he'
      · exact Or.inl rfl
      · exact Or.inr (h.1 e' he')
    · rename_i hp
      obtain ⟨hmem, hpe, hleast⟩ := ih h.2 hfind
      refine ⟨List.mem_cons_of_mem _ hmem, hpe, ?_⟩
      intro e' he' hpe'
      rcases List.mem_cons.mp he' with rfl | he'
      · rw [hpe'] at hp
        exact absurd hp (by decide)
      · exact hleast e' he' hpe'

/-- C10: for every query string (and every GDAL version the table is built for),
`driverMetadata` succeeds if and only if some entry of the table has a key or a long name that
starts with the query string (compared case-sensitively), and on success it returns the value
of a matching entry whose key is below, in the key order of the map, the key of every other
matching entry. -/
theorem driverMetadata_returns_first_match_in_key_order (GDAL_VERSION_NUM : Nat)
    (driverName : String) :
    ((driverMetadata GDAL_VERSION_NUM driverName).isSome = true ↔
      ∃ e ∈ (initMetaData GDAL_VERSION_NUM).entries,
        startsWith e.1 driverName = true ∨ startsWith e.2.longName driverName = true) ∧
    (∀ metadata, driverMetadata GDAL_VERSION_NUM driverName = some metadata →
      ∃ key, (key, metadata) ∈ (initMetaData GDAL_VERSION_NUM).entries ∧
        (startsWith key driverName = true ∨ startsWith metadata.longName driverName = true) ∧
        ∀ e ∈ (initMetaData GDAL_VERSION_NUM).entries,
          (startsWith e.1 driverName = true ∨ startsWith e.2.longName driverName = true) →
          e = (key, metadata) ∨ qStringLess key e.1 = true) := by
  constructor
  · unfold driverMetadata
    rw [Option.isSome_map', List.find?_isSome]
    simp only [Bool.or_eq_true]
  · intro metadata hm
    unfold driverMetadata at hm
    rw [Option.map_eq_some'] at hm
    obtain ⟨⟨key, m⟩, hfind, hsnd⟩ := hm
    simp only at hsnd
    subst hsnd
    have hsorted : (initMetaData GDAL_VERSION_NUM).Sorted := QMap.ofInserts_sorted _
    obtain ⟨hmem, hp, hleast⟩ := find?_sorted_least _ _ hsorted _ hfind
    refine ⟨key, hmem, by simpa using hp, ?_⟩
    intro e he hpe
    exact hleast e he (by simpa using hpe)

/-! ## Lookups with a longer name -/

/-- A text that starts with a name followed by a suffix starts with the name. -/
theorem startsWith_of_append (s name suffix : String)
    (h : startsWith s (name ++ suffix) = true) : startsWith s name = true := by
  unfold startsWith at h ⊢
  rw [List.isPrefixOf_iff_prefix] at h ⊢
  have happ : (name ++ suffix).toList = name.toList ++ suffix.toList :=
    String.data_append name suffix
  rw [happ] at h
  exact (List.prefix_append _ _).trans h

/-- The first element satisfying `p` is the first element satisfying a stronger `q` that it
satisfies. -/
theorem find?_of_stronger {α : Type} (p q : α → Bool) (l : List α) (e : α)
    (hfind : l.find? p = some e) (hpq : ∀ x, q x = true → p x = true) (hq : q e = true) :
    l.find? q = some e := by
  induction l with
  | nil => simp at hfind
  | cons a rest ih =>
    rw [List.find?_cons] at hfind ⊢
    split at hfind
    · cases hfind
      rw [hq]
    · rename_i hp
      have hqa : q a = false := by
        cases hqa : q a
        · rfl
        · rw [hpq a hqa] at hp
          exact absurd hp (by decide)
      rw [hqa]
      exact ih hfind

/-- C11 (amended): when `driverMetadata` succeeds for a name F with an entry E, there is a key
K under which the table holds E such that, for every suffix: if K or the long name of E starts
with F followed by the suffix, `driverMetadata` returns E for the longer name as well; and
whatever entry `driverMetadata` returns for the longer name is E or is held under a key above
K in the key order of the table. -/
theorem driverMetadata_of_longer_name (GDAL_VERSION_NUM : Nat) (driverName : String)
    (metadata : MetaData)
    (h : driverMetadata GDAL_VERSION_NUM driverName = some metadata) :
    ∃ key, (key, metadata) ∈ (initMetaData GDAL_VERSION_NUM).entries ∧
      ∀ suffix : String,
        ((startsWith key (driverName ++ suffix) = true ∨
            startsWith metadata.longName (driverName ++ suffix) = true) →
          driverMetadata GDAL_VERSION_NUM (driverName ++ suffix) = some metadata) ∧
        (∀ other, driverMetadata GDAL_VERSION_NUM (driverName ++ suffix) = some other →
          other = metadata ∨
            ∃ key', (key', other) ∈ (initMetaData GDAL_VERSION_NUM).entries ∧
              qStringLess key key' = true) := by
  unfold driverMetadata at h
  rw [Option.map_eq_some'] at h
  obtain ⟨⟨key, m⟩, hfind, hsnd⟩ := h
  simp only at hsnd
  subst hsnd
  have hsorted : (initMetaData GDAL_VERSION_NUM).Sorted := QMap.ofInserts_sorted _
  obtain ⟨hmem, _, hleast⟩ := find?_sorted_least _ _ hsorted _ hfind
  refine ⟨key, hmem, fun suffix => ⟨?_, ?_⟩⟩
  · intro hmatch
    unfold driverMetadata
    rw [find?_of_stronger _ _ _ _ hfind ?_ (by simpa using hmatch)]
    · rfl
    · intro x hx
      simp only [Bool.or_eq_true] at hx ⊢
      exact hx.imp (startsWith_of_append _ _ _) (startsWith_of_append _ _ _)
  · intro other hother
    unfold driverMetadata at hother
    rw [Option.map_eq_some'] at hother
    obtain ⟨⟨key', m'⟩, hfind', hsnd'⟩ := hother
    simp only at hsnd'
    subst hsnd'
    obtain ⟨hmem', hp', _⟩ := find?_sorted_least _ _ hsorted _ hfind'
    have hp : (startsWith key' driverName || startsWith m'.longName driverName) = true := by
      simp only [Bool.or_eq_true] at hp' ⊢
      exact hp'.imp (startsWith_of_append _ _ _) (startsWith_of_append _ _ _)
    rcases hleast _ hmem' hp with heq | hlt
    · left
      exact congrArg Prod.snd heq
    · right
      exact ⟨key', hmem', hlt⟩

/-- Witness for C11 (amended): the lookup of `ESRI` and of the longer names that start with
it. -/
theorem driverMetadata_of_longer_name_witness :
    ∃ key, (key, (⟨"ESRI Shapefile", tr "ESRI Shapefile", "*.shp", "shp",
        datasetOptions_ESRI, layerOptions_ESRI, ""⟩ : MetaData)) ∈
          (initMetaData 2010000).entries ∧
      ∀ suffix : String,
        ((startsWith key ("ESRI" ++ suffix) = true ∨
            startsWith (⟨"ESRI Shapefile", tr "ESRI Shapefile", "*.shp", "shp",
              datasetOptions_ESRI, layerOptions_ESRI, ""⟩ : MetaData).longName
              ("ESRI" ++ suffix) = true) →
          driverMetadata 2010000 ("ESRI" ++ suffix) =
            some ⟨"ESRI Shapefile", tr "ESRI Shapefile", "*.shp", "shp",
              datasetOptions_ESRI, layerOptions_ESRI, ""⟩) ∧
        (∀ other, driverMetadata 2010000 ("ESRI" ++ suffix) = some other →
          other = ⟨"ESRI Shapefile", tr "ESRI Shapefile", "*.shp", "shp",
              datasetOptions_ESRI, layerOptions_ESRI, ""⟩ ∨
            ∃ key', (key', other) ∈ (initMetaData 2010000).entries ∧
              qStringLess key key' = true) :=
  driverMetadata_of_longer_name 2010000 "ESRI" _ (by rfl)

/-- Counterexample to C11: `driverMetadata` succeeds for the name `ESRI` and for the name
`ESRI FileGDB`, which is `ESRI` with a suffix appended, and returns different entries: the
entry of the key `ESRI` (long name `ESRI Shapefile`) for the first and the entry of the key
`FileGDB` (long name `ESRI FileGDB`) for the second. -/
theorem driverMetadata_differs_for_longer_name :
    "ESRI FileGDB" = "ESRI" ++ " FileGDB" ∧
    (driverMetadata 2010000 "ESRI").map (fun m => m.longName) = some "ESRI Shapefile" ∧
    (driverMetadata 2010000 "ESRI FileGDB").map (fun m => m.longName) = some "ESRI FileGDB" ∧
    driverMetadata 2010000 "ESRI" ≠ driverMetadata 2010000 "ESRI FileGDB" := by
  have h1 : (driverMetadata 2010000 "ESRI").map (fun m => m.longName) = some "ESRI Shapefile" :=
    by decide
  have h2 : (driverMetadata 2010000 "ESRI FileGDB").map (fun m => m.longName) =
      some "ESRI FileGDB" := by decide
  refine ⟨by decide, h1, h2, ?_⟩
  intro heq
  rw [heq, h2] at h1
  exact absurd h1 (by decide)

/-! ## Default options -/

/-- An entry of a map built by `insert` calls was in the map before or is one of the entries
inserted. -/
theorem QMap.mem_foldl_insert {κ ν : Type} [QMapKey κ] (l : List (κ × ν)) (m : QMap κ ν)
    (e : κ × ν) (h : e ∈ (l.foldl (fun m e => m.insert e.1 e.2) m).entries) :
    e ∈ m.entries ∨ e ∈ l := by
  induction l generalizing m with
  | nil => exact Or.inl h
  | cons a rest ih =>
    rcases ih _ h with h | h
    · obtain ⟨k, x⟩ := e
      rcases QMap.mem_insertEntries a.1 a.2 m.entries k x h with ⟨hk, hx⟩ | h
      · right
        rw [hk, hx]
        exact List.mem_cons_self _ _
      · exact Or.inl h
    · exact Or.inr (List.mem_cons_of_mem _ h)

/-- An entry of a map built by `insert` calls from the empty map is one of the entries
inserted. -/
theorem QMap.mem_ofInserts {κ ν : Type} [QMapKey κ] (l : List (κ × ν)) (e : κ × ν)
    (h : e ∈ (QMap.ofInserts l).entries) : e ∈ l := by
  rcases QMap.mem_foldl_insert l QMap.empty e h with h | h
  · cases h
  · exact h

/-- The option maps of every entry of the driver metadata table are ascending in their
keys. -/
theorem initMetaData_options_sorted (GDAL_VERSION_NUM : Nat) (e : String × MetaData)
    (h : e ∈ (initMetaData GDAL_VERSION_NUM).entries) :
    e.2.driverOptions.Sorted ∧ e.2.layerOptions.Sorted := by
  have h := QMap.mem_ofInserts _ e h
  simp only [List.mem_cons, List.mem_singleton, List.mem_nil_iff, or_false] at h
  rcases h with rfl | rfl | rfl | rfl | rfl | rfl | rfl | rfl | rfl | rfl | rfl | rfl | rfl | rfl | rfl | rfl | rfl | rfl | rfl | rfl | rfl | rfl | rfl | rfl | rfl | rfl | rfl
  all_goals exact ⟨QMap.ofInserts_sorted _, QMap.ofInserts_sorted _⟩

/-- The metadata `driverMetadata` returns is the value of an entry of the table. -/
theorem driverMetadata_mem (GDAL_VERSION_NUM : Nat) (driverName : String) (metadata : MetaData)
    (h : driverMetadata GDAL_VERSION_NUM driverName = some metadata) :
    ∃ key, (key, metadata) ∈ (initMetaData GDAL_VERSION_NUM).entries := by
  unfold driverMetadata at h
  rw [Option.map_eq_some'] at h
  obtain ⟨⟨key, m⟩, hfind, hsnd⟩ := h
  simp only at hsnd
  subst hsnd
  exact ⟨key, List.mem_of_find?_eq_some hfind⟩

/-- The loop of `concatenateOptions` from a list collected so far. -/
theorem concatenateOptions_foldl (entries : List (String × CreationOption))
    (list : List String) :
    entries.foldl (fun list it => list ++ concatenateOption it.1 it.2) list =
      list ++ entries.filterMap (fun e => defaultOptionString e.1 e.2) := by
  induction entries generalizing list with
  | nil => simp
  | cons e rest ih =>
    rw [List.foldl_cons, ih]
    obtain ⟨key, option⟩ := e
    cases option with
    | IntOption d => simp [concatenateOption, defaultOptionString]
    | StringOption d => simp [concatenateOption, defaultOptionString]
    | HiddenOption d => simp [concatenateOption, defaultOptionString]
    | SetOption values d allowNone =>
      by_cases hd : d = ""
      · subst hd
        have : "".isEmpty = true := by decide
        simp [concatenateOption, defaultOptionString, this]
      · have : d.isEmpty = false := by
          have := (String.isEmpty_iff d).not.mpr hd
          simpa using this
        simp [concatenateOption, defaultOptionString, hd, this]

/-- The list `concatenateOptions` returns holds, in the order of the map, the string of every
option that has one. -/
theorem concatenateOptions_eq (options : QMap String CreationOption) :
    concatenateOptions options =
      options.entries.filterMap (fun e => defaultOptionString e.1 e.2) := by
  unfold concatenateOptions
  rw [concatenateOptions_foldl]
  rfl

/-- The driver metadata table is that of a build against GDAL 2.0 or that of a build against
an older GDAL. -/
theorem initMetaData_cases (GDAL_VERSION_NUM : Nat) :
    initMetaData GDAL_VERSION_NUM = initMetaData 2000000 ∨
      initMetaData GDAL_VERSION_NUM = initMetaData 0 := by
  by_cases h : 2000000 ≤ GDAL_VERSION_NUM
  · left
    have hl : layerOptions_GPKG GDAL_VERSION_NUM = layerOptions_GPKG 2000000 := by
      unfold layerOptions_GPKG
      rw [if_pos h, if_pos (le_refl _)]
    unfold initMetaData
    rw [hl]
  · right
    have hl : layerOptions_GPKG GDAL_VERSION_NUM = layerOptions_GPKG 0 := by
      unfold layerOptions_GPKG
      rw [if_neg h, if_neg (by decide)]
    unfold initMetaData
    rw [hl]

/-- The default dataset options of `KML`. -/
theorem defaultDatasetOptions_KML (GDAL_VERSION_NUM : Nat) :
    defaultDatasetOptions GDAL_VERSION_NUM "KML" =
      ["AltitudeMode=clampToGround", "DescriptionField=Description", "NameField=Name"] := by
  have h2 : defaultDatasetOptions 2000000 "KML" =
      ["AltitudeMode=clampToGround", "DescriptionField=Description", "NameField=Name"] := by
    decide
  have h0 : defaultDatasetOptions 0 "KML" =
      ["AltitudeMode=clampToGround", "DescriptionField=Description", "NameField=Name"] := by
    decide
  unfold defaultDatasetOptions driverMetadata at h2 h0 ⊢
  rcases initMetaData_cases GDAL_VERSION_NUM with h | h
  · rw [h]
    exact h2
  · rw [h]
    exact h0

/-- C13: `defaultDatasetOptions` and `defaultLayerOptions` return the empty list when
`driverMetadata` fails for the name; otherwise they return, in the order of the option map of
that scope, which is ascending in the option keys, exactly one string `KEY=default` for every
integer option, every string option and every hidden option (whatever the default is) and for
an enumerated-set option if and only if its default is not empty.  The dataset options of
`KML` give `AltitudeMode=clampToGround`, `DescriptionField=Description`, `NameField=Name`. -/
theorem default_options_list_option_defaults (GDAL_VERSION_NUM : Nat) (driverName : String) :
    (driverMetadata GDAL_VERSION_NUM driverName = none →
      defaultDatasetOptions GDAL_VERSION_NUM driverName = [] ∧
      defaultLayerOptions GDAL_VERSION_NUM driverName = []) ∧
    (∀ metadata, driverMetadata GDAL_VERSION_NUM driverName = some metadata →
      defaultDatasetOptions GDAL_VERSION_NUM driverName =
        metadata.driverOptions.entries.filterMap (fun e => defaultOptionString e.1 e.2) ∧
      defaultLayerOptions GDAL_VERSION_NUM driverName =
        metadata.layerOptions.entries.filterMap (fun e => defaultOptionString e.1 e.2) ∧
      metadata.driverOptions.Sorted ∧ metadata.layerOptions.Sorted) ∧
    defaultDatasetOptions GDAL_VERSION_NUM "KML" =
      ["AltitudeMode=clampToGround", "DescriptionField=Description", "NameField=Name"] := by
  refine ⟨?_, ?_, defaultDatasetOptions_KML _⟩
  · intro h
    unfold defaultDatasetOptions defaultLayerOptions
    rw [h]
    exact ⟨rfl, rfl⟩
  · intro metadata h
    obtain ⟨key, hmem⟩ := driverMetadata_mem _ _ _ h
    obtain ⟨hd, hl⟩ := initMetaData_options_sorted _ _ hmem
    unfold defaultDatasetOptions defaultLayerOptions
    rw [h]
    exact ⟨concatenateOptions_eq _, concatenateOptions_eq _, hd, hl⟩

/-- What `defaultOptionString` returns has the form `KEY=default`, and the default of an
enumerated-set option for which it returns a string is not empty. -/
theorem defaultOptionString_form (key : String) (option : CreationOption) (s : String)
    (h : defaultOptionString key option = some s) :
    s = key ++ "=" ++ option.defaultText ∧
      (option.type = .Set → option.defaultText ≠ "") := by
  cases option with
  | IntOption d =>
    simp only [defaultOptionString, Option.some.injEq] at h
    exact ⟨h.symm, fun ht => by cases ht⟩
  | StringOption d =>
    simp only [defaultOptionString, Option.some.injEq] at h
    exact ⟨h.symm, fun ht => by cases ht⟩
  | HiddenOption d =>
    simp only [defaultOptionString, Option.some.injEq] at h
    exact ⟨h.symm, fun ht => by cases ht⟩
  | SetOption values d allowNone =>
    simp only [defaultOptionString] at h
    split at h
    · cases h
    · rename_i hd
      simp only [Option.some.injEq] at h
      exact ⟨h.symm, fun _ => hd⟩

/-- C14 (amended): for every name for which `driverMetadata` succeeds and both scopes, every
string that `defaultDatasetOptions` or `defaultLayerOptions` returns has the form `KEY=value`
where `KEY` is the key of an option of that scope and the value is the default the option
carries; the value is not empty when the option is an enumerated-set option, while an integer,
string or hidden option is emitted whatever its default is. -/
theorem default_option_strings_carry_defaults (GDAL_VERSION_NUM : Nat) (driverName s : String)
    (h : s ∈ defaultDatasetOptions GDAL_VERSION_NUM driverName ∨
      s ∈ defaultLayerOptions GDAL_VERSION_NUM driverName) :
    ∃ metadata key option,
      driverMetadata GDAL_VERSION_NUM driverName = some metadata ∧
      ((s ∈ defaultDatasetOptions GDAL_VERSION_NUM driverName ∧
          (key, option) ∈ metadata.driverOptions.entries) ∨
        (s ∈ defaultLayerOptions GDAL_VERSION_NUM driverName ∧
          (key, option) ∈ metadata.layerOptions.entries)) ∧
      s = key ++ "=" ++ option.defaultText ∧
      (option.type = .Set → option.defaultText ≠ "") := by
  cases hm : driverMetadata GDAL_VERSION_NUM driverName with
  | none =>
    unfold defaultDatasetOptions defaultLayerOptions at h
    rw [hm] at h
    simp at h
  | some metadata =>
    have hd : defaultDatasetOptions GDAL_VERSION_NUM driverName =
        metadata.driverOptions.entries.filterMap (fun e => defaultOptionString e.1 e.2) := by
      unfold defaultDatasetOptions
      rw [hm]
      exact concatenateOptions_eq _
    have hl : defaultLayerOptions GDAL_VERSION_NUM driverName =
        metadata.layerOptions.entries.filterMap (fun e => defaultOptionString e.1 e.2) := by
      unfold defaultLayerOptions
      rw [hm]
      exact concatenateOptions_eq _
    rcases h with h | h
    · have h' := h
      rw [hd, List.mem_filterMap] at h'
      obtain ⟨⟨key, option⟩, hmem, hs⟩ := h'
      obtain ⟨hform, hset⟩ := defaultOptionString_form key option s hs
      exact ⟨metadata, key, option, rfl, Or.inl ⟨h, hmem⟩, hform, hset⟩
    · have h' := h
      rw [hl, List.mem_filterMap] at h'
      obtain ⟨⟨key, option⟩, hmem, hs⟩ := h'
      obtain ⟨hform, hset⟩ := defaultOptionString_form key option s hs
      exact ⟨metadata, key, option, rfl, Or.inr ⟨h, hmem⟩, hform, hset⟩

/-- Witness for C14 (amended): the string `NameField=Name` among the default dataset options
of `KML`. -/
theorem default_option_strings_carry_defaults_witness :
    ∃ metadata key option,
      driverMetadata 2010000 "KML" = some metadata ∧
      (("NameField=Name" ∈ defaultDatasetOptions 2010000 "KML" ∧
          (key, option) ∈ metadata.driverOptions.entries) ∨
        ("NameField=Name" ∈ defaultLayerOptions 2010000 "KML" ∧
          (key, option) ∈ metadata.layerOptions.entries)) ∧
      "NameField=Name" = key ++ "=" ++ option.defaultText ∧
      (option.type = .Set → option.defaultText ≠ "") :=
  default_option_strings_carry_defaults 2010000 "KML" "NameField=Name" (Or.inl (by decide))

/-- Counterexample to C14: `GeoRSS` is a registered format, and its default dataset options
hold the string `HEADER=`, whose value is empty: the string option `HEADER` carries the empty
default and is emitted all the same. -/
theorem default_options_emit_empty_default :
    (driverMetadata 2010000 "GeoRSS").isSome = true ∧
    ("HEADER", CreationOption.StringOption "") ∈ datasetOptions_GeoRSS.entries ∧
    (driverMetadata 2010000 "GeoRSS").map (fun m => m.driverOptions) =
      some datasetOptions_GeoRSS ∧
    "HEADER=" ∈ defaultDatasetOptions 2010000 "GeoRSS" ∧
    "HEADER=" = "HEADER" ++ "=" ++ "" := by
  refine ⟨by decide, by decide, by decide, by decide, by decide⟩

/-! ## The field loop of `init`, round by round -/

theorem createdFields_append (a b : List Effect) :
    createdFields (a ++ b) = createdFields a ++ createdFields b := by
  induction a with
  | nil => rfl
  | cons e rest ih =>
    cases e <;> simp [createdFields, ih]

/-- The outcomes of one round of the field loop: the type of the field is unsupported; no name
is found for it; the field definition is handed to the driver and the round ends `init` with
`ErrAttributeCreationFailed`; or the field is created and mapped. -/
theorem initField_cases (env : Env) (poDriver : OGRSFDriver) (fields : QgsFields)
    (fieldValueConverter : Option FieldValueConverter) (fldIdx : Int) (existingIdxs : QSetInt)
    (layer : OGRLayer) (w : Writer) :
    (fieldTypeMapping env poDriver w.mOgrDriverName
        (attributeField fields fieldValueConverter fldIdx) = none ∧
      initField env poDriver fields fieldValueConverter fldIdx existingIdxs layer w =
        ({ w with
            mErrorMessage := tr "unsupported type for field " ++
              (attributeField fields fieldValueConverter fldIdx).name
            mError := .ErrAttributeTypeUnsupported }, none, [])) ∨
    (fieldTypeMapping env poDriver w.mOgrDriverName
        (attributeField fields fieldValueConverter fldIdx) ≠ none ∧
      outputFieldName w.mOgrDriverName fields
        (attributeField fields fieldValueConverter fldIdx) = none ∧
      initField env poDriver fields fieldValueConverter fldIdx existingIdxs layer w =
        ({ w with
            mErrorMessage := tr "no available replacement for internal fieldname ogc_fid found"
            mError := .ErrAttributeCreationFailed }, none, [])) ∨
    (∃ fld, fieldDefnOf env poDriver w fields fieldValueConverter fldIdx = some fld ∧
      fieldTypeMapping env poDriver w.mOgrDriverName
        (attributeField fields fieldValueConverter fldIdx) ≠ none ∧
      outputFieldName w.mOgrDriverName fields
        (attributeField fields fieldValueConverter fldIdx) ≠ none ∧
      ((∃ w' effects ok,
          initField env poDriver fields fieldValueConverter fldIdx existingIdxs layer w =
            (w', none, effects) ∧
          createdFields effects = [(fld, ok)] ∧ w'.mError = .ErrAttributeCreationFailed ∧
          w'.mAttrIdxToOgrIdx = w.mAttrIdxToOgrIdx ∧ w'.mOgrDriverName = w.mOgrDriverName ∧
          w'.mCodec = w.mCodec ∧ w'.poDriver = w.poDriver ∧
          (w.mLayer.isSome = true → w'.mLayer.isSome = true)) ∨
        (∃ existingIdxs' layer' effects ogrIdx,
          initField env poDriver fields fieldValueConverter fldIdx existingIdxs layer w =
            ({ w with
                mLayer := some layer'
                mAttrIdxToOgrIdx := w.mAttrIdxToOgrIdx.insert fldIdx ogrIdx },
              some (existingIdxs', layer'), effects) ∧
          createdFields effects = [(fld, true)]))) := by
  cases fieldValueConverter <;>
  · unfold initField fieldDefnOf attributeField
    simp only []
    split
    · rename_i h1
      left
      exact ⟨h1, rfl⟩
    · rename_i t wd p h1
      right
      split
      · rename_i h2
        left
        exact ⟨by rw [h1]; simp, h2, rfl⟩
      · rename_i name h2
        right
        refine ⟨makeFieldDefn (w.fromUnicode name) t wd p,
          by simp [h1, h2],
          by rw [h1]; simp, by rw [h2]; simp, ?_⟩
        split
        · left
          refine ⟨_, _, false, rfl, ?_, rfl, rfl, rfl, rfl, rfl, fun h => h⟩
          rw [createdFields_append]
          split <;> simp [createdFields]
        · rename_i defn h3
          split
          · left
            refine ⟨_, _, true, rfl, ?_, rfl, rfl, rfl, rfl, rfl, fun _ => rfl⟩
            rw [createdFields_append]
            split <;> simp [createdFields]
          · right
            refine ⟨_, _, _, _, rfl, ?_⟩
            rw [createdFields_append]
            split <;> simp [createdFields]

/-- The definition of a field depends on the writer through its driver name and its codec
only. -/
theorem fieldDefnOf_congr (env : Env) (poDriver : OGRSFDriver) (w w' : Writer)
    (fields : QgsFields) (fieldValueConverter : Option FieldValueConverter) (fldIdx : Int)
    (hname : w'.mOgrDriverName = w.mOgrDriverName) (hcodec : w'.mCodec = w.mCodec) :
    fieldDefnOf env poDriver w' fields fieldValueConverter fldIdx =
      fieldDefnOf env poDriver w fields fieldValueConverter fldIdx := by
  have hfrom : w'.fromUnicode = w.fromUnicode := by
    funext s
    unfold Writer.fromUnicode
    rw [hcodec]
  unfold fieldDefnOf
  rw [hname, hfrom]

/-- A map with the keys `0 .. k-1` has the keys `0 .. k` after `k` is inserted. -/
theorem QMap.keys_insert_next (m : QMap Int Int) (k : Nat) (v : Int)
    (hkeys : m.keys = (List.range k).map Int.ofNat) :
    (m.insert (k : Int) v).keys = (List.range (k + 1)).map Int.ofNat := by
  have hgt : ∀ e ∈ m.entries, QMapKey.lt e.1 (k : Int) = true := by
    intro e he
    have : e.1 ∈ m.keys := List.mem_map_of_mem _ he
    rw [hkeys] at this
    simp only [List.mem_map, List.mem_range] at this
    obtain ⟨a, ha, hae⟩ := this
    rw [← hae]
    show decide ((Int.ofNat a) < (k : Int)) = true
    simp
    omega
  have hins : (m.insert (k : Int) v).entries = m.entries ++ [((k : Int), v)] :=
    QMap.insertEntries_of_gt _ _ _ hgt
  show List.map Prod.fst (m.insert (k : Int) v).entries = _
  rw [hins, List.range_succ, List.map_append, List.map_append]
  have hk' : List.map Prod.fst m.entries = List.map Int.ofNat (List.range k) := hkeys
  rw [hk']
  rfl

/-- The field loop of `init` ends in one of the ways `FieldLoopOutcome` lists. -/
theorem initFields_outcome (env : Env) (poDriver : OGRSFDriver) (fields : QgsFields)
    (fieldValueConverter : Option FieldValueConverter) (todo k : Nat)
    (existingIdxs : QSetInt) (layer : OGRLayer) (w : Writer)
    (hkeys : w.mAttrIdxToOgrIdx.keys = (List.range k).map Int.ofNat) :
    ∃ j, FieldLoopOutcome env poDriver fields fieldValueConverter w k todo j
      (initFields env poDriver fields fieldValueConverter todo (k : Int) existingIdxs layer w) := by
  induction todo generalizing k existingIdxs layer w with
  | zero =>
    refine ⟨0, Nat.le_refl _, rfl, rfl, rfl, fun h => h, hkeys, fun i hi => absurd hi (by omega),
      [], [], rfl, rfl, fun i hi => absurd hi (by omega), Or.inl ⟨rfl, rfl, rfl, rfl, rfl⟩⟩
  | succ todo ih =>
    unfold initFields
    rcases initField_cases env poDriver fields fieldValueConverter (k : Int) existingIdxs layer w
      with ⟨h1, heq⟩ | ⟨h1, h2, heq⟩ | ⟨fld, hfld, h1, h2, h3 | h3⟩
    · rw [heq]
      refine ⟨0, Nat.zero_le _, rfl, rfl, rfl, fun h => h, hkeys,
        fun i hi => absurd hi (by omega), [], [], rfl, rfl, fun i hi => absurd hi (by omega),
        Or.inr ⟨rfl, Nat.succ_pos _, Or.inl ⟨h1, rfl, rfl, rfl⟩⟩⟩
    · rw [heq]
      refine ⟨0, Nat.zero_le _, rfl, rfl, rfl, fun h => h, hkeys,
        fun i hi => absurd hi (by omega), [], [], rfl, rfl, fun i hi => absurd hi (by omega),
        Or.inr ⟨rfl, Nat.succ_pos _, Or.inr (Or.inl ⟨h1, h2, rfl, rfl, rfl⟩)⟩⟩
    · obtain ⟨w', effects, ok, heq, hcreated, herr, hmap, hname, hcodec, hdrv, hlayer⟩ := h3
      rw [heq]
      refine ⟨0, Nat.zero_le _, hname, hcodec, hdrv, hlayer, by rw [hmap]; exact hkeys,
        fun i hi => absurd hi (by omega), [], [(fld, ok)], hcreated, rfl,
        fun i hi => absurd hi (by omega),
        Or.inr ⟨rfl, Nat.succ_pos _, Or.inr (Or.inr ⟨h1, h2, herr, fld, ok, hfld, rfl⟩)⟩⟩
    · obtain ⟨existingIdxs', layer', effects, ogrIdx, heq, hcreated⟩ := h3
      rw [heq]
      simp only []
      have hkeys' : ({ w with
          mLayer := some layer'
          mAttrIdxToOgrIdx := w.mAttrIdxToOgrIdx.insert (k : Int) ogrIdx } :
            Writer).mAttrIdxToOgrIdx.keys = (List.range (k + 1)).map Int.ofNat :=
        QMap.keys_insert_next _ _ _ hkeys
      have hcast : (k : Int) + 1 = ((k + 1 : Nat) : Int) := by push_cast; rfl
      rw [hcast]
      obtain ⟨j, hle, hname, hcodec, hdrv, hlayer, hk, hsup, created, last, hc, hlen, hpos,
        hend⟩ := ih (k + 1) existingIdxs' layer' _ hkeys'
      have hidx : ∀ i : Nat, k + 1 + i = k + (i + 1) := fun i => by omega
      refine ⟨j + 1, Nat.succ_le_succ hle, hname, hcodec, hdrv, fun _ => hlayer rfl, ?_, ?_,
        (fld, true) :: created, last, ?_, by simp [hlen], ?_, ?_⟩
      · rw [hk]
        congr 2
        omega
      · intro i hi
        cases i with
        | zero => exact ⟨h1, h2⟩
        | succ i =>
          have := hsup i (by omega)
          rw [hidx i] at this
          exact this
      · rw [createdFields_append, hcreated, hc]
        rfl
      · intro i hi
        cases i with
        | zero => exact ⟨fld, hfld, by simp⟩
        | succ i =>
          obtain ⟨f, hf, hget⟩ := hpos i (by omega)
          rw [hidx i] at hf
          refine ⟨f, ?_, by simpa using hget⟩
          rw [← hf]
          exact (fieldDefnOf_congr env poDriver w { w with
            mLayer := some layer'
            mAttrIdxToOgrIdx := w.mAttrIdxToOgrIdx.insert (k : Int) ogrIdx }
            fields fieldValueConverter _ rfl rfl).symm
      · rcases hend with ⟨hr, hj, hl, he, hm⟩ | ⟨hr, hj, hstop⟩
        · exact Or.inl ⟨hr, by omega, hl, he, hm⟩
        · refine Or.inr ⟨hr, by omega, ?_⟩
          have hidxj : k + 1 + j = k + (j + 1) := by omega
          rw [hidxj] at hstop
          unfold FieldRoundStops at hstop ⊢
          rw [fieldDefnOf_congr env poDriver w { w with
            mLayer := some layer'
            mAttrIdxToOgrIdx := w.mAttrIdxToOgrIdx.insert (k : Int) ogrIdx }
            fields fieldValueConverter _ rfl rfl] at hstop
          exact hstop

/-! ## From the field loop to the constructor -/

/-- The end of `init` after the field loop: the result agrees with that of the loop in the
members the loop sets, and no further field is created. -/
theorem initAttributes_fields (env : Env) (poDriver : OGRSFDriver) (w : Writer)
    (fields : QgsFields) (geometryType : WkbType)
    (fieldValueConverter : Option FieldValueConverter) (layer : OGRLayer) :
    (initAttributes env poDriver w fields geometryType fieldValueConverter layer).1.SameFields
      (initFields env poDriver fields fieldValueConverter fields.length ((0 : Nat) : Int) []
        layer { w with
          mLayer := some layer
          mFields := fields
          mAttrIdxToOgrIdx := QMap.empty
          mFieldValueConverter := fieldValueConverter }).1 ∧
    createdFields
      (initAttributes env poDriver w fields geometryType fieldValueConverter layer).2.2 =
      createdFields
        (initFields env poDriver fields fieldValueConverter fields.length ((0 : Nat) : Int) []
          layer { w with
            mLayer := some layer
            mFields := fields
            mAttrIdxToOgrIdx := QMap.empty
            mFieldValueConverter := fieldValueConverter }).2.2 := by
  unfold initAttributes
  simp only [Nat.cast_zero]
  split
  · exact ⟨⟨rfl, rfl, rfl, rfl, rfl, rfl, rfl⟩, rfl⟩
  · split
    · refine ⟨⟨rfl, rfl, rfl, rfl, rfl, rfl, rfl⟩, ?_⟩
      rw [createdFields_append]
      simp [createdFields]
    · exact ⟨⟨rfl, rfl, rfl, rfl, rfl, rfl, rfl⟩, rfl⟩

/-- The end of `init` after the layer is created: the field loop is run from a writer that has
the driver name, the driver and the error state of `w`, and the result agrees with that of the
loop. -/
theorem initAttributes_outcome (env : Env) (poDriver : OGRSFDriver) (w : Writer)
    (fields : QgsFields) (geometryType : WkbType)
    (fieldValueConverter : Option FieldValueConverter) (layer : OGRLayer) :
    ∃ w0 j r,
      w0.mOgrDriverName = w.mOgrDriverName ∧ w0.mError = w.mError ∧
      w0.poDriver = w.poDriver ∧ w0.mLayer.isSome = true ∧
      FieldLoopOutcome env poDriver fields fieldValueConverter w0 0 fields.length j r ∧
      (initAttributes env poDriver w fields geometryType fieldValueConverter
        layer).1.SameFields r.1 ∧
      createdFields (initAttributes env poDriver w fields geometryType fieldValueConverter
        layer).2.2 = createdFields r.2.2 := by
  obtain ⟨j, hj⟩ := initFields_outcome env poDriver fields fieldValueConverter
    fields.length 0 [] layer
    { w with
      mLayer := some layer
      mFields := fields
      mAttrIdxToOgrIdx := QMap.empty
      mFieldValueConverter := fieldValueConverter } rfl
  obtain ⟨hsame, hcreated⟩ := initAttributes_fields env poDriver w fields geometryType
    fieldValueConverter layer
  exact ⟨{ w with
      mLayer := some layer
      mFields := fields
      mAttrIdxToOgrIdx := QMap.empty
      mFieldValueConverter := fieldValueConverter }, j, _, rfl, rfl, rfl, rfl, hj, hsame,
    hcreated⟩

/-- The middle part of `init`, entered with a writer without error, layer or mapped field and
without a field created so far: `init` returns before the layer exists, or the field loop is
run from a writer that has the driver name, the driver and the error state of `w`. -/
theorem initDataSource_outcome (env : Env) (poDriver : OGRSFDriver) (w : Writer)
    (vectorFileName fileEncoding : String) (fields : QgsFields) (geometryType : WkbType)
    (srs : QgsCoordinateReferenceSystem) (datasourceOptions layerOptions : List String)
    (newFilename : Bool) (fieldValueConverter : Option FieldValueConverter)
    (effects : List Effect)
    (hlayer : w.mLayer = none) (hmap : w.mAttrIdxToOgrIdx = QMap.empty)
    (heffects : createdFields effects = []) :
    ((initDataSource env poDriver w vectorFileName fileEncoding fields geometryType srs
        datasourceOptions layerOptions newFilename fieldValueConverter effects).1.mLayer = none ∧
      createdFields (initDataSource env poDriver w vectorFileName fileEncoding fields
        geometryType srs datasourceOptions layerOptions newFilename fieldValueConverter
        effects).2.2 = [] ∧
      (initDataSource env poDriver w vectorFileName fileEncoding fields geometryType srs
        datasourceOptions layerOptions newFilename fieldValueConverter effects).1.mError
          ≠ .NoError ∧
      (initDataSource env poDriver w vectorFileName fileEncoding fields geometryType srs
        datasourceOptions layerOptions newFilename fieldValueConverter effects).1.mError
          ≠ .ErrAttributeTypeUnsupported ∧
      (initDataSource env poDriver w vectorFileName fileEncoding fields geometryType srs
        datasourceOptions layerOptions newFilename fieldValueConverter
        effects).1.mAttrIdxToOgrIdx = QMap.empty) ∨
    ∃ w0 j r,
      w0.mOgrDriverName = w.mOgrDriverName ∧ w0.mError = w.mError ∧
      w0.poDriver = w.poDriver ∧ w0.mLayer.isSome = true ∧
      FieldLoopOutcome env poDriver fields fieldValueConverter w0 0 fields.length j r ∧
      (initDataSource env poDriver w vectorFileName fileEncoding fields geometryType srs
        datasourceOptions layerOptions newFilename fieldValueConverter effects).1.SameFields
          r.1 ∧
      createdFields (initDataSource env poDriver w vectorFileName fileEncoding fields
        geometryType srs datasourceOptions layerOptions newFilename fieldValueConverter
        effects).2.2 = createdFields r.2.2 := by
  unfold initDataSource
  simp only []
  split
  · left
    refine ⟨hlayer, ?_, by simp, by simp, hmap⟩
    rw [createdFields_append, heffects]
    rfl
  · by_cases hsrs : srs.isValid = true
    · simp only [hsrs, if_true, true_and]
      split
      · left
        refine ⟨hlayer, ?_, by simp, by simp, hmap⟩
        split <;> simp [createdFields_append, createdFields, heffects]
      · rename_i defn hdefn
        right
        obtain ⟨w0, j, r, h1, h2, h3, h4, hj, hsame, hcreated⟩ := initAttributes_outcome env
          poDriver { w with
            mDS := true
            mCodec := some (chooseCodec env fileEncoding)
            mOgrRef := some srs.toWkt } fields geometryType fieldValueConverter
          { defn := defn, features := [], attempts := 0 }
        refine ⟨w0, j, r, h1, h2, h3, h4, hj, hsame, ?_⟩
        rw [createdFields_append, hcreated]
        split <;> simp [createdFields_append, createdFields, heffects]
    · simp only [hsrs, Bool.false_eq_true, if_false, false_and]
      split
      · left
        refine ⟨hlayer, ?_, by simp, by simp, hmap⟩
        simp [createdFields_append, createdFields, heffects]
      · rename_i defn hdefn
        right
        obtain ⟨w0, j, r, h1, h2, h3, h4, hj, hsame, hcreated⟩ := initAttributes_outcome env
          poDriver { w with
            mDS := true
            mCodec := some (chooseCodec env fileEncoding) } fields geometryType
          fieldValueConverter { defn := defn, features := [], attempts := 0 }
        refine ⟨w0, j, r, h1, h2, h3, h4, hj, hsame, ?_⟩
        rw [createdFields_append, hcreated]
        simp [createdFields_append, createdFields, heffects]

/-- The middle part of `init` ends in one of the two ways `ConstructionOutcome` lists. -/
theorem initDataSource_construction (env : Env) (poDriver : OGRSFDriver) (w : Writer)
    (vectorFileName fileEncoding : String) (fields : QgsFields) (geometryType : WkbType)
    (srs : QgsCoordinateReferenceSystem) (driverName : String)
    (datasourceOptions layerOptions : List String)
    (newFilename : Bool) (fieldValueConverter : Option FieldValueConverter)
    (effects : List Effect)
    (hlayer : w.mLayer = none) (hmap : w.mAttrIdxToOgrIdx = QMap.empty)
    (heffects : createdFields effects = [])
    (hdrv : env.getDriverByName (resolvedDriverName driverName) = some poDriver)
    (hname : w.mOgrDriverName = resolvedDriverName driverName)
    (herr : w.mError = .NoError) (hpo : w.poDriver = some poDriver) :
    ConstructionOutcome env fields fieldValueConverter driverName
      (initDataSource env poDriver w vectorFileName fileEncoding fields geometryType srs
        datasourceOptions layerOptions newFilename fieldValueConverter effects) := by
  rcases initDataSource_outcome env poDriver w vectorFileName fileEncoding fields geometryType
    srs datasourceOptions layerOptions newFilename fieldValueConverter effects hlayer hmap
    heffects with h | h
  · exact Or.inl h
  · obtain ⟨w0, j, r, h1, h2, h3, h4, hj, hsame, hcreated⟩ := h
    exact Or.inr ⟨poDriver, w0, j, r, hdrv, h1.trans hname, h2.trans herr, h3.trans hpo, h4, hj,
      hsame, hcreated⟩

/-- Every construction ends in one of the two ways `ConstructionOutcome` lists. -/
theorem construct_outcome (env : Env) (vectorFileName fileEncoding : String)
    (fields : QgsFields) (geometryType : WkbType) (srs : QgsCoordinateReferenceSystem)
    (driverName : String) (datasourceOptions layerOptions : List String) (newFilename : Bool)
    (symbologyExport : SymbologyExport) (fieldValueConverter : Option FieldValueConverter) :
    ConstructionOutcome env fields fieldValueConverter driverName
      (Writer.construct env vectorFileName fileEncoding fields geometryType srs driverName
        datasourceOptions layerOptions newFilename symbologyExport fieldValueConverter) := by
  unfold Writer.construct init
  split
  · exact Or.inl ⟨rfl, rfl, by simp, by simp, rfl⟩
  · simp only []
    split
    · exact Or.inl ⟨rfl, rfl, by simp, by simp, rfl⟩
    · rename_i poDriver hdrv
      split
      · exact Or.inl ⟨rfl, rfl, by simp, by simp, rfl⟩
      · have heffects : ∀ (c : Prop) (inst : Decidable c) (n a b : String),
            createdFields [Effect.getDriverByName n,
              @ite Effect c inst (Effect.deleteShapeFile a) (Effect.fileRemove b)] = [] := by
          intro c inst n a b
          split <;> rfl
        exact initDataSource_construction env poDriver _ _ _ fields geometryType _ driverName
          _ _ newFilename fieldValueConverter _ (by rfl) (by rfl) (by apply heffects) hdrv
          (by rfl) (by rfl) (by rfl)

/-! ## The fields a construction creates -/

/-- The call of `OGR_L_CreateField` at position `i` of the field loop is made for the field
`k + i`, with the definition `fieldDefnOf` gives for it. -/
theorem loop_created_field (env : Env) (poDriver : OGRSFDriver) (fields : QgsFields)
    (fieldValueConverter : Option FieldValueConverter) (w : Writer) (k todo j : Nat)
    (r : Writer × Bool × List Effect)
    (hout : FieldLoopOutcome env poDriver fields fieldValueConverter w k todo j r)
    (i : Nat) (fld : OGRFieldDefn) (ok : Bool)
    (h : (createdFields r.2.2)[i]? = some (fld, ok)) :
    i < todo ∧
      fieldDefnOf env poDriver w fields fieldValueConverter ((k + i : Nat) : Int) = some fld := by
  obtain ⟨hle, _, _, _, _, _, _, created, last, hc, hlen, hpos, hend⟩ := hout
  rw [hc] at h
  by_cases hi : i < j
  · rw [List.getElem?_append_left (by omega)] at h
    obtain ⟨f, hf, hget⟩ := hpos i hi
    rw [hget] at h
    simp only [Option.some.injEq, Prod.mk.injEq] at h
    rw [← h.1]
    exact ⟨by omega, hf⟩
  · rw [List.getElem?_append_right (by omega)] at h
    rcases hend with ⟨_, _, hl, _⟩ | ⟨_, hj, hstop⟩
    · rw [hl] at h
      simp at h
    · rcases hstop with ⟨_, hl, _⟩ | ⟨_, _, hl, _⟩ | ⟨_, _, _, f, b, hf, hl⟩
      · rw [hl] at h
        simp at h
      · rw [hl] at h
        simp at h
      · rw [hl] at h
        have hij : i - created.length = 0 := by
          by_contra hne
          rw [List.getElem?_eq_none (by simp; omega)] at h
          cases h
        rw [hij] at h
        simp only [List.getElem?_cons_zero, Option.some.injEq, Prod.mk.injEq] at h
        have hieq : i = j := by omega
        rw [hieq, ← h.1]
        exact ⟨hj, hf⟩

/-- The call of `OGR_L_CreateField` at position `i` of a construction is made for the field
`i` of the schema, with the definition `fieldDefnOf` gives for it. -/
theorem construct_created_field (env : Env) (vectorFileName fileEncoding : String)
    (fields : QgsFields) (geometryType : WkbType) (srs : QgsCoordinateReferenceSystem)
    (driverName : String) (datasourceOptions layerOptions : List String) (newFilename : Bool)
    (symbologyExport : SymbologyExport) (fieldValueConverter : Option FieldValueConverter)
    (i : Nat) (fld : OGRFieldDefn) (ok : Bool)
    (h : (createdFields (Writer.construct env vectorFileName fileEncoding fields geometryType
      srs driverName datasourceOptions layerOptions newFilename symbologyExport
      fieldValueConverter).2.2)[i]? = some (fld, ok)) :
    i < fields.length ∧
    (Writer.construct env vectorFileName fileEncoding fields geometryType srs driverName
      datasourceOptions layerOptions newFilename symbologyExport
      fieldValueConverter).1.mOgrDriverName = resolvedDriverName driverName ∧
    ∃ poDriver,
      (Writer.construct env vectorFileName fileEncoding fields geometryType srs driverName
        datasourceOptions layerOptions newFilename symbologyExport
        fieldValueConverter).1.poDriver = some poDriver ∧
      fieldDefnOf env poDriver
        (Writer.construct env vectorFileName fileEncoding fields geometryType srs driverName
          datasourceOptions layerOptions newFilename symbologyExport fieldValueConverter).1
        fields fieldValueConverter (i : Int) = some fld := by
  rcases construct_outcome env vectorFileName fileEncoding fields geometryType srs driverName
    datasourceOptions layerOptions newFilename symbologyExport fieldValueConverter
    with ⟨_, hnone, _⟩ | ⟨poDriver, w, j, r, _, hname, _, hpo, _, hout, hsame, hcreated⟩
  · rw [hnone] at h
    simp at h
  · obtain ⟨hloop, hfld⟩ := loop_created_field env poDriver fields fieldValueConverter w 0
      fields.length j r hout i fld ok (by rw [← hcreated]; exact h)
    obtain ⟨_, hrname, hrcodec, hrpo, _⟩ := hout
    obtain ⟨_, _, _, hsname, hscodec, hspo, _⟩ := hsame
    refine ⟨hloop, (hsname.trans hrname).trans hname, poDriver, (hspo.trans hrpo).trans hpo, ?_⟩
    rw [Nat.zero_add] at hfld
    rw [← hfld]
    exact fieldDefnOf_congr env poDriver w _ fields fieldValueConverter _
      (hsname.trans hrname) (hscodec.trans hrcodec)

/-- A construction that succeeds has made one successful call of `OGR_L_CreateField` for every
field of the schema. -/
theorem construct_creates_every_field (env : Env) (vectorFileName fileEncoding : String)
    (fields : QgsFields) (geometryType : WkbType) (srs : QgsCoordinateReferenceSystem)
    (driverName : String) (datasourceOptions layerOptions : List String) (newFilename : Bool)
    (symbologyExport : SymbologyExport) (fieldValueConverter : Option FieldValueConverter)
    (hok : (Writer.construct env vectorFileName fileEncoding fields geometryType srs driverName
      datasourceOptions layerOptions newFilename symbologyExport fieldValueConverter).1.mError
        = .NoError) :
    (createdFields (Writer.construct env vectorFileName fileEncoding fields geometryType srs
      driverName datasourceOptions layerOptions newFilename symbologyExport
      fieldValueConverter).2.2).length = fields.length ∧
    ∀ i, i < fields.length → ∃ fld,
      (createdFields (Writer.construct env vectorFileName fileEncoding fields geometryType srs
        driverName datasourceOptions layerOptions newFilename symbologyExport
        fieldValueConverter).2.2)[i]? = some (fld, true) := by
  rcases construct_outcome env vectorFileName fileEncoding fields geometryType srs driverName
    datasourceOptions layerOptions newFilename symbologyExport fieldValueConverter
    with ⟨_, _, hne, _⟩ | ⟨poDriver, w, j, r, _, _, herr, _, _, hout, hsame, hcreated⟩
  · exact absurd hok hne
  · obtain ⟨_, _, _, _, _, _, _, created, last, hc, hlen, hpos, hend⟩ := hout
    rw [hsame.1] at hok
    rcases hend with ⟨_, hj, hl, _⟩ | ⟨_, _, hstop⟩
    · rw [hcreated, hc, hl, List.append_nil]
      refine ⟨by omega, fun i hi => ?_⟩
      obtain ⟨fld, _, hget⟩ := hpos i (by omega)
      exact ⟨fld, hget⟩
    · exfalso
      rcases hstop with ⟨_, _, he, _⟩ | ⟨_, _, _, he, _⟩ | ⟨_, _, he, _⟩ <;>
      · rw [he] at hok
        cases hok

/-- The definition made for a string field is a string field with a width from 1 to 255, and
the definition made for a 32-bit integer field is an integer field with a width from 1 to 10
and the precision 0. -/
theorem fieldDefnOf_string_int (env : Env) (poDriver : OGRSFDriver) (w : Writer)
    (fields : QgsFields) (fieldValueConverter : Option FieldValueConverter) (fldIdx : Int)
    (fld : OGRFieldDefn)
    (h : fieldDefnOf env poDriver w fields fieldValueConverter fldIdx = some fld) :
    ((attributeField fields fieldValueConverter fldIdx).type = .String →
      fld.type = .OFTString ∧ 1 ≤ fld.width ∧ fld.width ≤ 255) ∧
    ((attributeField fields fieldValueConverter fldIdx).type = .Int →
      fld.type = .OFTInteger ∧ 1 ≤ fld.width ∧ fld.width ≤ 10 ∧ fld.precision = 0) := by
  unfold fieldDefnOf at h
  constructor
  · intro ht
    unfold fieldTypeMapping at h
    rw [ht] at h
    simp only [Option.map_eq_some'] at h
    obtain ⟨name, _, hfld⟩ := h
    rw [← hfld]
    unfold makeFieldDefn
    simp only []
    refine ⟨trivial, ?_, ?_⟩ <;> split_ifs <;> omega
  · intro ht
    unfold fieldTypeMapping at h
    rw [ht] at h
    simp only [Option.map_eq_some'] at h
    obtain ⟨name, _, hfld⟩ := h
    rw [← hfld]
    unfold makeFieldDefn
    simp only []
    refine ⟨trivial, ?_, ?_, ?_⟩ <;> split_ifs <;> omega

/-- C15: the call of `OGR_L_CreateField` at position `i` of a construction is the one for the
field `i` of the schema; when that field (as the loop of `init` sees it, after the field value
converter, if any) is a string field, whatever its declared length and precision, the output
field is created as a string field with a width from 1 to 255; when it is a 32-bit integer
field the output field is created as an integer field with a width from 1 to 10 and the
precision 0.  A construction that succeeds has made such a call for every field of the
schema. -/
theorem string_and_integer_fields_created_with_bounded_width (env : Env)
    (vectorFileName fileEncoding : String)
    (fields : QgsFields) (geometryType : WkbType) (srs : QgsCoordinateReferenceSystem)
    (driverName : String) (datasourceOptions layerOptions : List String) (newFilename : Bool)
    (symbologyExport : SymbologyExport) (fieldValueConverter : Option FieldValueConverter)
    (i : Nat) (fld : OGRFieldDefn) (ok : Bool)
    (h : (createdFields (Writer.construct env vectorFileName fileEncoding fields geometryType
      srs driverName datasourceOptions layerOptions newFilename symbologyExport
      fieldValueConverter).2.2)[i]? = some (fld, ok)) :
    i < fields.length ∧
    ((attributeField fields fieldValueConverter (i : Int)).type = .String →
      fld.type = .OFTString ∧ 1 ≤ fld.width ∧ fld.width ≤ 255) ∧
    ((attributeField fields fieldValueConverter (i : Int)).type = .Int →
      fld.type = .OFTInteger ∧ 1 ≤ fld.width ∧ fld.width ≤ 10 ∧ fld.precision = 0) ∧
    ((Writer.construct env vectorFileName fileEncoding fields geometryType srs driverName
        datasourceOptions layerOptions newFilename symbologyExport
        fieldValueConverter).1.mError = .NoError →
      (createdFields (Writer.construct env vectorFileName fileEncoding fields geometryType srs
        driverName datasourceOptions layerOptions newFilename symbologyExport
        fieldValueConverter).2.2).length = fields.length) := by
  obtain ⟨hi, _, poDriver, _, hfld⟩ := construct_created_field env vectorFileName fileEncoding
    fields geometryType srs driverName datasourceOptions layerOptions newFilename
    symbologyExport fieldValueConverter i fld ok h
  obtain ⟨hs, hn⟩ := fieldDefnOf_string_int env poDriver _ fields fieldValueConverter _ fld hfld
  exact ⟨hi, hs, hn, fun hok => (construct_creates_every_field env vectorFileName fileEncoding
    fields geometryType srs driverName datasourceOptions layerOptions newFilename
    symbologyExport fieldValueConverter hok).1⟩

/-- Witness for C15: a string field of declared length 300, created with the width 255 in a
construction over a string field and an integer field. -/
theorem string_and_integer_fields_created_with_bounded_width_witness :
    0 < [(⟨"s", .String, "string", 300, 0⟩ : QgsField), ⟨"n", .Int, "integer", 0, 0⟩].length ∧
    ((attributeField [⟨"s", .String, "string", 300, 0⟩, ⟨"n", .Int, "integer", 0, 0⟩] none
        ((0 : Nat) : Int)).type = .String →
      (⟨"s", .OFTString, 255, 0⟩ : OGRFieldDefn).type = .OFTString ∧
      1 ≤ (⟨"s", .OFTString, 255, 0⟩ : OGRFieldDefn).width ∧
      (⟨"s", .OFTString, 255, 0⟩ : OGRFieldDefn).width ≤ 255) ∧
    ((attributeField [⟨"s", .String, "string", 300, 0⟩, ⟨"n", .Int, "integer", 0, 0⟩] none
        ((0 : Nat) : Int)).type = .Int →
      (⟨"s", .OFTString, 255, 0⟩ : OGRFieldDefn).type = .OFTInteger ∧
      1 ≤ (⟨"s", .OFTString, 255, 0⟩ : OGRFieldDefn).width ∧
      (⟨"s", .OFTString, 255, 0⟩ : OGRFieldDefn).width ≤ 10 ∧
      (⟨"s", .OFTString, 255, 0⟩ : OGRFieldDefn).precision = 0) ∧
    ((Writer.construct (exampleEnv exampleDriver) "out.gpkg" "UTF-8"
        [⟨"s", .String, "string", 300, 0⟩, ⟨"n", .Int, "integer", 0, 0⟩] .Polygon
        ⟨true, "", .DistanceMeters⟩ "GPKG" [] [] false .NoSymbology none).1.mError = .NoError →
      (createdFields (Writer.construct (exampleEnv exampleDriver) "out.gpkg" "UTF-8"
        [⟨"s", .String, "string", 300, 0⟩, ⟨"n", .Int, "integer", 0, 0⟩] .Polygon
        ⟨true, "", .DistanceMeters⟩ "GPKG" [] [] false .NoSymbology none).2.2).length =
      [(⟨"s", .String, "string", 300, 0⟩ : QgsField), ⟨"n", .Int, "integer", 0, 0⟩].length) :=
  string_and_integer_fields_created_with_bounded_width (exampleEnv exampleDriver) "out.gpkg"
    "UTF-8" [⟨"s", .String, "string", 300, 0⟩, ⟨"n", .Int, "integer", 0, 0⟩] .Polygon
    ⟨true, "", .DistanceMeters⟩ "GPKG" [] [] false .NoSymbology none 0
    ⟨"s", .OFTString, 255, 0⟩ true (by decide)

/-- On the numbers a C++ `int` holds, `incrementInt` is the addition of one modulo 2^32 in
two's-complement representation. -/
theorem incrementInt_eq_wrap (x : Int) (h1 : -2147483648 ≤ x) (h2 : x ≤ 2147483647) :
    incrementInt x = (x + 1 + 2147483648) % 4294967296 - 2147483648 := by
  unfold incrementInt
  split_ifs <;> omega

/-- The definition made for a double field is a real-number field whose width is the start
width of the field where that is positive, and whose precision is the declared one where that
is not negative. -/
theorem fieldDefnOf_double (env : Env) (poDriver : OGRSFDriver) (w : Writer)
    (fields : QgsFields) (fieldValueConverter : Option FieldValueConverter) (fldIdx : Int)
    (fld : OGRFieldDefn)
    (h : fieldDefnOf env poDriver w fields fieldValueConverter fldIdx = some fld)
    (ht : (attributeField fields fieldValueConverter fldIdx).type = .Double) :
    fld.type = .OFTReal ∧
    fld.width = max 0 (attributeField fields fieldValueConverter fldIdx).startWidth ∧
    fld.precision = max 0 (attributeField fields fieldValueConverter fldIdx).precision := by
  unfold fieldDefnOf fieldTypeMapping at h
  rw [ht] at h
  simp only [Option.map_eq_some'] at h
  obtain ⟨name, _, hfld⟩ := h
  rw [← hfld]
  unfold makeFieldDefn QgsField.startWidth
  simp only []
  refine ⟨trivial, ?_, ?_⟩ <;> split_ifs <;> omega

/-- C16 (amended): the call of `OGR_L_CreateField` at position `i` of a construction is the one
for the field `i` of the schema, and when that field is a double field the output field is
created as a real-number field whose width is the declared length, increased by one when the
declared precision is positive, and whose precision is the declared precision (0 when that is
negative).  The width is 0, that of a field whose width is not set, when the value is not
positive, and also when the precision is positive and the declared length is `INT_MAX`, where
the increment of the C++ `int` wraps around to a negative number.  The width of a field whose
declared length is a C++ `int` is never above `INT_MAX`. -/
theorem double_fields_created_one_wider_with_precision (env : Env)
    (vectorFileName fileEncoding : String)
    (fields : QgsFields) (geometryType : WkbType) (srs : QgsCoordinateReferenceSystem)
    (driverName : String) (datasourceOptions layerOptions : List String) (newFilename : Bool)
    (symbologyExport : SymbologyExport) (fieldValueConverter : Option FieldValueConverter)
    (i : Nat) (fld : OGRFieldDefn) (ok : Bool)
    (h : (createdFields (Writer.construct env vectorFileName fileEncoding fields geometryType
      srs driverName datasourceOptions layerOptions newFilename symbologyExport
      fieldValueConverter).2.2)[i]? = some (fld, ok))
    (ht : (attributeField fields fieldValueConverter (i : Int)).type = .Double) :
    i < fields.length ∧ fld.type = .OFTReal ∧
    fld.width =
      (if (attributeField fields fieldValueConverter (i : Int)).precision > 0 then
        if (attributeField fields fieldValueConverter (i : Int)).length = 2147483647 then 0
        else max 0 ((attributeField fields fieldValueConverter (i : Int)).length + 1)
      else max 0 (attributeField fields fieldValueConverter (i : Int)).length) ∧
    fld.precision = max 0 (attributeField fields fieldValueConverter (i : Int)).precision ∧
    ((attributeField fields fieldValueConverter (i : Int)).length ≤ 2147483647 →
      fld.width ≤ 2147483647) := by
  obtain ⟨hi, _, poDriver, _, hfld⟩ := construct_created_field env vectorFileName fileEncoding
    fields geometryType srs driverName datasourceOptions layerOptions newFilename
    symbologyExport fieldValueConverter i fld ok h
  obtain ⟨h1, h2, h3⟩ := fieldDefnOf_double env poDriver _ fields fieldValueConverter _ fld hfld
    ht
  refine ⟨hi, h1, ?_, h3, ?_⟩
  · rw [h2]
    unfold QgsField.startWidth incrementInt
    split_ifs <;> omega
  · intro hlen
    rw [h2]
    unfold QgsField.startWidth incrementInt
    split_ifs <;> omega

/-- Witness for C16 (amended): a double field of declared length 10 and precision 3, created
with the width 11 and the precision 3. -/
theorem double_fields_created_one_wider_with_precision_witness :
    0 < [(⟨"d", .Double, "double", 10, 3⟩ : QgsField)].length ∧
    (⟨"d", .OFTReal, 11, 3⟩ : OGRFieldDefn).type = .OFTReal ∧
    (⟨"d", .OFTReal, 11, 3⟩ : OGRFieldDefn).width =
      (if (attributeField [⟨"d", .Double, "double", 10, 3⟩] none ((0 : Nat) : Int)).precision > 0
      then
        if (attributeField [⟨"d", .Double, "double", 10, 3⟩] none ((0 : Nat) : Int)).length
          = 2147483647 then 0
        else max 0
          ((attributeField [⟨"d", .Double, "double", 10, 3⟩] none ((0 : Nat) : Int)).length + 1)
      else max 0
        (attributeField [⟨"d", .Double, "double", 10, 3⟩] none ((0 : Nat) : Int)).length) ∧
    (⟨"d", .OFTReal, 11, 3⟩ : OGRFieldDefn).precision = max 0
      (attributeField [⟨"d", .Double, "double", 10, 3⟩] none ((0 : Nat) : Int)).precision ∧
    ((attributeField [⟨"d", .Double, "double", 10, 3⟩] none ((0 : Nat) : Int)).length
        ≤ 2147483647 →
      (⟨"d", .OFTReal, 11, 3⟩ : OGRFieldDefn).width ≤ 2147483647) :=
  double_fields_created_one_wider_with_precision (exampleEnv exampleDriver) "out.gpkg"
    "UTF-8" [⟨"d", .Double, "double", 10, 3⟩] .Polygon ⟨true, "", .DistanceMeters⟩ "GPKG" [] []
    false .NoSymbology none 0 ⟨"d", .OFTReal, 11, 3⟩ true (by decide) (by decide)

/-- Counterexample to C16: a construction over one double field of declared length 10 and
precision 3 succeeds and creates the output field as a real-number field of width 11, not
10; and a construction over one double field of declared length `INT_MAX` and precision 3
creates the output field without setting a width. -/
theorem double_field_created_wider_than_declared :
    (Writer.construct (exampleEnv exampleDriver) "out.gpkg" "UTF-8"
      [⟨"d", .Double, "double", 10, 3⟩] .Polygon ⟨true, "", .DistanceMeters⟩ "GPKG" [] [] false
      .NoSymbology none).1.mError = .NoError ∧
    createdFields (Writer.construct (exampleEnv exampleDriver) "out.gpkg" "UTF-8"
      [⟨"d", .Double, "double", 10, 3⟩] .Polygon ⟨true, "", .DistanceMeters⟩ "GPKG" [] [] false
      .NoSymbology none).2.2 = [(⟨"d", .OFTReal, 11, 3⟩, true)] ∧
    (⟨"d", .OFTReal, 11, 3⟩ : OGRFieldDefn).width ≠
      (⟨"d", .Double, "double", 10, 3⟩ : QgsField).length ∧
    createdFields (Writer.construct (exampleEnv exampleDriver) "out.gpkg" "UTF-8"
      [⟨"d", .Double, "double", 2147483647, 3⟩] .Polygon ⟨true, "", .DistanceMeters⟩ "GPKG" []
      [] false .NoSymbology none).2.2 = [(⟨"d", .OFTReal, 0, 3⟩, true)] := by
  refine ⟨by decide, by decide, by decide, by decide⟩

/-- When the attribute loop of `createFeature` runs to its end, it has written every mapped
attribute whose value is valid and not null and has a type the `switch` handles. -/
theorem writeAttributes_writes (env : Env) (feature : QgsFeature) (entries : List (Int × Int))
    (w : Writer) (poFeature : OGRFeature)
    (hdone : (writeAttributes env feature entries w poFeature).2.2.1 = true)
    (fldIdx ogrField : Int) (hmem : (fldIdx, ogrField) ∈ entries)
    (hvalid : (feature.attributeValue fldIdx).isValid = true)
    (hnull : (feature.attributeValue fldIdx).isNull = false)
    (value : OGRFieldValue)
    (hwrite : fieldWrite w.fromUnicode (decide (env.GDAL_VERSION_NUM ≥ 2000000))
      (decide (w.mOgrDriverName = "ESRI Shapefile")) (convertedValue w feature fldIdx) =
        .write value) :
    OgrCall.F_SetField poFeature.handle ogrField value ∈
      (writeAttributes env feature entries w poFeature).2.2.2 := by
  induction entries generalizing poFeature with
  | nil => cases hmem
  | cons e rest ih =>
    obtain ⟨k, o⟩ := e
    unfold writeAttributes at hdone ⊢
    simp only [] at hdone ⊢
    split
    · rename_i hskip
      rw [if_pos hskip] at hdone
      rcases List.mem_cons.mp hmem with heq | hrest
      · simp only [Prod.mk.injEq] at heq
        rw [← heq.1, hvalid, hnull] at hskip
        simp at hskip
      · exact ih _ hdone hrest
    · rename_i hskip
      rw [if_neg hskip] at hdone
      split
      · rename_i val hw
        rw [hw] at hdone
        rcases List.mem_cons.mp hmem with heq | hrest
        · simp only [Prod.mk.injEq] at heq
          have hval : val = value := by
            unfold convertedValue at hwrite
            rw [heq.1] at hwrite
            have hv : FieldWrite.write value = FieldWrite.write val := hwrite.symm.trans hw
            simp only [FieldWrite.write.injEq] at hv
            exact hv.symm
          rw [heq.2, hval]
          exact List.mem_cons_self _ _
        · exact List.mem_cons_of_mem _ (ih _ hdone hrest)
      · rename_i hw
        rw [hw] at hdone
        rcases List.mem_cons.mp hmem with heq | hrest
        · simp only [Prod.mk.injEq] at heq
          unfold convertedValue at hwrite
          rw [heq.1] at hwrite
          have hv : FieldWrite.write value = FieldWrite.skip := hwrite.symm.trans hw
          cases hv
        · exact ih _ hdone hrest
      · rename_i hw
        rw [hw] at hdone
        cases hdone

/-- A record returned by `createFeature` has had every mapped attribute written whose value is
valid and not null and has a type the `switch` handles. -/
theorem createFeature_writes (env : Env) (w : Writer) (feature : QgsFeature) (rec : OGRFeature)
    (hrec : (createFeature env w feature).1 = some rec)
    (fldIdx ogrField : Int) (hmem : (fldIdx, ogrField) ∈ w.mAttrIdxToOgrIdx.entries)
    (hvalid : (feature.attributeValue fldIdx).isValid = true)
    (hnull : (feature.attributeValue fldIdx).isNull = false)
    (value : OGRFieldValue)
    (hwrite : fieldWrite w.fromUnicode (decide (env.GDAL_VERSION_NUM ≥ 2000000))
      (decide (w.mOgrDriverName = "ESRI Shapefile")) (convertedValue w feature fldIdx) =
        .write value) :
    OgrCall.F_SetField w.nextHandle ogrField value ∈ (createFeature env w feature).2.2 := by
  unfold createFeature at hrec ⊢
  split
  · rename_i poDriver layer hd hl
    split at hrec
    case h_2 hnone => exact absurd hl (hnone _ _ hd)
    rename_i poDriver' layer' hd' hl'
    rw [hd] at hd'
    cases hd'
    simp only [] at hrec
    unfold fillFeature at hrec ⊢
    simp only [] at hrec ⊢
    have hdone : (writeAttributes env feature w.mAttrIdxToOgrIdx.entries
        { w with nextHandle := w.nextHandle + 1 } (newFeature poDriver w feature)).2.2.1 = true := by
      by_contra hne
      have hf : (writeAttributes env feature w.mAttrIdxToOgrIdx.entries
          { w with nextHandle := w.nextHandle + 1 } (newFeature poDriver w feature)).2.2.1
            = false := by simpa using hne
      rw [hf] at hrec
      simp at hrec
    have hcall := writeAttributes_writes env feature w.mAttrIdxToOgrIdx.entries
      { w with nextHandle := w.nextHandle + 1 } (newFeature poDriver w feature) hdone fldIdx
      ogrField hmem hvalid hnull value hwrite
    rw [hdone]
    simp only [Bool.not_true, Bool.false_eq_true, if_false]
    exact List.mem_append_right _ (List.mem_append_left _ hcall)
  · rename_i hnone
    split at hrec
    · rename_i hd hl
      exact absurd hl (hnone _ _ hd)
    · cases hrec

/-- The definition made for a 64-bit integer field in a build against GDAL 2.0 or newer. -/
theorem fieldDefnOf_longlong (env : Env) (poDriver : OGRSFDriver) (w : Writer)
    (fields : QgsFields) (fieldValueConverter : Option FieldValueConverter) (fldIdx : Int)
    (fld : OGRFieldDefn) (hgdal : 2000000 ≤ env.GDAL_VERSION_NUM)
    (h : fieldDefnOf env poDriver w fields fieldValueConverter fldIdx = some fld)
    (ht : (attributeField fields fieldValueConverter fldIdx).type = .LongLong) :
    fld.type = (if poDriver.mentionsInteger64 = true then .OFTInteger64 else .OFTReal) ∧
    fld.width =
      (if 1 ≤ (attributeField fields fieldValueConverter fldIdx).startWidth ∧
          (attributeField fields fieldValueConverter fldIdx).startWidth ≤ 20 then
        (attributeField fields fieldValueConverter fldIdx).startWidth
      else 20) ∧
    fld.precision = 0 := by
  unfold fieldDefnOf fieldTypeMapping at h
  rw [ht] at h
  simp only [if_neg (show ¬ env.GDAL_VERSION_NUM < 2000000 by omega), Option.map_eq_some'] at h
  obtain ⟨name, _, hfld⟩ := h
  rw [← hfld]
  unfold makeFieldDefn QgsField.startWidth OGRSFDriver.mentionsInteger64
  simp only []
  refine ⟨?_, ?_, ?_⟩
  · cases poDriver.creationFieldDataTypes <;> simp
  · split_ifs <;> omega
  · simp

/-- C17 (amended): in a build against GDAL 2.0 or newer, the call of `OGR_L_CreateField` at
position `i` of a construction is the one for the field `i` of the schema, and when that field
is a 64-bit integer field the output type is Integer64 when the list of creatable field data
types of the driver mentions `Integer64` and Real otherwise, the width is the declared length,
increased by one when the declared precision is positive, if that lies in 1..20, and 20
otherwise, and the precision is 0.  And for a record that `createFeature` returns and a mapped
attribute whose value is valid, not null and (after the field value converter, if any) the
64-bit integer `v`, the 64-bit integer setter was called for the mapped output field of the
record with exactly `v`. -/
theorem int64_fields_created_and_values_written (env : Env)
    (vectorFileName fileEncoding : String)
    (fields : QgsFields) (geometryType : WkbType) (srs : QgsCoordinateReferenceSystem)
    (driverName : String) (datasourceOptions layerOptions : List String) (newFilename : Bool)
    (symbologyExport : SymbologyExport) (fieldValueConverter : Option FieldValueConverter)
    (i : Nat) (fld : OGRFieldDefn) (ok : Bool)
    (w : Writer) (feature : QgsFeature) (rec : OGRFeature) (fldIdx ogrField v : Int)
    (hgdal : 2000000 ≤ env.GDAL_VERSION_NUM)
    (h : (createdFields (Writer.construct env vectorFileName fileEncoding fields geometryType
      srs driverName datasourceOptions layerOptions newFilename symbologyExport
      fieldValueConverter).2.2)[i]? = some (fld, ok))
    (ht : (attributeField fields fieldValueConverter (i : Int)).type = .LongLong)
    (hrec : (createFeature env w feature).1 = some rec)
    (hmem : (fldIdx, ogrField) ∈ w.mAttrIdxToOgrIdx.entries)
    (hvalid : (feature.attributeValue fldIdx).isValid = true)
    (hnull : (feature.attributeValue fldIdx).isNull = false)
    (hvalue : convertedValue w feature fldIdx = .longlong v) :
    (i < fields.length ∧
      ∃ poDriver,
        (Writer.construct env vectorFileName fileEncoding fields geometryType srs driverName
          datasourceOptions layerOptions newFilename symbologyExport
          fieldValueConverter).1.poDriver = some poDriver ∧
        fld.type = (if poDriver.mentionsInteger64 = true then .OFTInteger64 else .OFTReal) ∧
        fld.width =
          (if 1 ≤ (attributeField fields fieldValueConverter (i : Int)).length +
                (if (attributeField fields fieldValueConverter (i : Int)).precision > 0
                  then 1 else 0) ∧
              (attributeField fields fieldValueConverter (i : Int)).length +
                (if (attributeField fields fieldValueConverter (i : Int)).precision > 0
                  then 1 else 0) ≤ 20 then
            (attributeField fields fieldValueConverter (i : Int)).length +
              (if (attributeField fields fieldValueConverter (i : Int)).precision > 0
                then 1 else 0)
          else 20) ∧
        fld.precision = 0) ∧
    OgrCall.F_SetField w.nextHandle ogrField (.integer64 v) ∈
      (createFeature env w feature).2.2 := by
  constructor
  · obtain ⟨hi, _, poDriver, hpo, hfld⟩ := construct_created_field env vectorFileName
      fileEncoding fields geometryType srs driverName datasourceOptions layerOptions
      newFilename symbologyExport fieldValueConverter i fld ok h
    obtain ⟨h1, h2, h3⟩ := fieldDefnOf_longlong env poDriver _ fields fieldValueConverter _ fld
      hgdal hfld ht
    refine ⟨hi, poDriver, hpo, h1, ?_, h3⟩
    rw [h2]
    unfold QgsField.startWidth incrementInt
    split_ifs <;> first | rfl | omega
  · apply createFeature_writes env w feature rec hrec fldIdx ogrField hmem hvalid hnull
    rw [hvalue]
    unfold fieldWrite
    simp [QVariant.type, QVariant.toLongLong, hgdal]

/-- Witness for C17 (amended): a 64-bit integer field created as an Integer64 field of width
20, and the value 9000000000 written to it. -/
theorem int64_fields_created_and_values_written_witness :
    (0 < [(⟨"n", .LongLong, "int8", 0, 0⟩ : QgsField)].length ∧
      ∃ poDriver,
        (Writer.construct (exampleEnv exampleDriver) "out.gpkg" "UTF-8"
          [⟨"n", .LongLong, "int8", 0, 0⟩] .Polygon ⟨true, "", .DistanceMeters⟩ "GPKG" [] []
          false .NoSymbology none).1.poDriver = some poDriver ∧
        (⟨"n", .OFTInteger64, 20, 0⟩ : OGRFieldDefn).type =
          (if poDriver.mentionsInteger64 = true then .OFTInteger64 else .OFTReal) ∧
        (⟨"n", .OFTInteger64, 20, 0⟩ : OGRFieldDefn).width =
          (if 1 ≤ (attributeField [⟨"n", .LongLong, "int8", 0, 0⟩] none ((0 : Nat) : Int)).length +
                (if (attributeField [⟨"n", .LongLong, "int8", 0, 0⟩] none
                  ((0 : Nat) : Int)).precision > 0 then 1 else 0) ∧
              (attributeField [⟨"n", .LongLong, "int8", 0, 0⟩] none ((0 : Nat) : Int)).length +
                (if (attributeField [⟨"n", .LongLong, "int8", 0, 0⟩] none
                  ((0 : Nat) : Int)).precision > 0 then 1 else 0) ≤ 20 then
            (attributeField [⟨"n", .LongLong, "int8", 0, 0⟩] none ((0 : Nat) : Int)).length +
              (if (attributeField [⟨"n", .LongLong, "int8", 0, 0⟩] none
                ((0 : Nat) : Int)).precision > 0 then 1 else 0)
          else 20) ∧
        (⟨"n", .OFTInteger64, 20, 0⟩ : OGRFieldDefn).precision = 0) ∧
    OgrCall.F_SetField bigNumberWriter.nextHandle 0 (.integer64 9000000000) ∈
      (createFeature (exampleEnv exampleDriver) bigNumberWriter bigNumberFeature).2.2 :=
  int64_fields_created_and_values_written (exampleEnv exampleDriver) "out.gpkg" "UTF-8"
    [⟨"n", .LongLong, "int8", 0, 0⟩] .Polygon ⟨true, "", .DistanceMeters⟩ "GPKG" [] [] false
    .NoSymbology none 0 ⟨"n", .OFTInteger64, 20, 0⟩ true bigNumberWriter bigNumberFeature
    ⟨0, none, [(0, .integer64 9000000000)],
      some ⟨3, some (.single examplePolygon)⟩, none⟩ 0 0 9000000000
    (by decide) (by decide) (by decide) (by decide) (by decide) (by decide) (by decide)
    (by decide)

/-- Counterexample to C17: in a build against GDAL 2.1, a construction over one 64-bit integer
field of declared width 5 and precision 2 succeeds and creates the output field with the width
6, although the declared width lies in 1..20. -/
theorem int64_field_created_wider_than_declared :
    2000000 ≤ (exampleEnv exampleDriver).GDAL_VERSION_NUM ∧
    (Writer.construct (exampleEnv exampleDriver) "out.gpkg" "UTF-8"
      [⟨"n", .LongLong, "int8", 5, 2⟩] .Polygon ⟨true, "", .DistanceMeters⟩ "GPKG" [] [] false
      .NoSymbology none).1.mError = .NoError ∧
    createdFields (Writer.construct (exampleEnv exampleDriver) "out.gpkg" "UTF-8"
      [⟨"n", .LongLong, "int8", 5, 2⟩] .Polygon ⟨true, "", .DistanceMeters⟩ "GPKG" [] [] false
      .NoSymbology none).2.2 = [(⟨"n", .OFTInteger64, 6, 0⟩, true)] ∧
    1 ≤ (⟨"n", .LongLong, "int8", 5, 2⟩ : QgsField).length ∧
    (⟨"n", .LongLong, "int8", 5, 2⟩ : QgsField).length ≤ 20 ∧
    (⟨"n", .OFTInteger64, 6, 0⟩ : OGRFieldDefn).width ≠
      (⟨"n", .LongLong, "int8", 5, 2⟩ : QgsField).length := by
  refine ⟨by decide, by decide, by decide, by decide, by decide, by decide⟩

/-! ## The reserved field name of SQLite -/

/-- The driver name resolves to `SQLite` for the format names `SQLite` and `SpatiaLite`
only. -/
theorem resolvedDriverName_sqlite (driverName : String) :
    resolvedDriverName driverName = "SQLite" ↔
      driverName = "SQLite" ∨ driverName = "SpatiaLite" := by
  unfold resolvedDriverName
  split_ifs with h1 h2 h3
  · subst h1
    simp
  · subst h2
    simp
  · subst h3
    simp
  · constructor
    · exact fun h => Or.inl h
    · rintro (h | h)
      · exact h
      · exact absurd h h2

/-- The first number below `N` that satisfies `p` is below `N`, satisfies `p` and has no number
satisfying `p` below it. -/
theorem find?_range_least (p : Nat → Bool) (N n : Nat)
    (h : (List.range N).find? p = some n) :
    n < N ∧ p n = true ∧ ∀ m, m < n → p m = false := by
  induction N with
  | zero => simp at h
  | succ N ih =>
    rw [List.range_succ, List.find?_append] at h
    cases hf : (List.range N).find? p with
    | some x =>
      rw [hf] at h
      have h : x = n := by simpa using h
      subst h
      obtain ⟨h1, h2, h3⟩ := ih hf
      exact ⟨by omega, h2, h3⟩
    | none =>
      rw [hf] at h
      have h : p N = true ∧ N = n := by
        cases hp : p N
        · simp [List.find?_cons, hp] at h
        · simpa [List.find?_cons, hp] using h
      obtain ⟨hp, hn⟩ := h
      subst hn
      refine ⟨by omega, hp, fun m hm => ?_⟩
      rw [List.find?_eq_none] at hf
      have := hf m (List.mem_range.mpr hm)
      simpa using this

/-- No number below `N` satisfies `p` when the search among them finds none. -/
theorem find?_range_none (p : Nat → Bool) (N : Nat) :
    (List.range N).find? p = none ↔ ∀ m, m < N → p m = false := by
  rw [List.find?_eq_none]
  constructor
  · intro h m hm
    have := h m (List.mem_range.mpr hm)
    simpa using this
  · intro h m hm
    rw [h m (List.mem_range.mp hm)]
    simp

/-- The name under which a field is created: for the driver `SQLite` and a field called
`ogc_fid`, ignoring case, the first free one of `ogc_fid0` .. `ogc_fid9`; the name of the
field otherwise. -/
theorem outputFieldName_some (mOgrDriverName : String) (fields : QgsFields)
    (attrField : QgsField) (name : String)
    (h : outputFieldName mOgrDriverName fields attrField = some name) :
    (mOgrDriverName = "SQLite" ∧ equalsCI attrField.name "ogc_fid" = true →
      ∃ n, n < 10 ∧ replacementFree fields n = true ∧
        (∀ m, m < n → replacementFree fields m = false) ∧
        name = "ogc_fid" ++ toString n) ∧
    (¬(mOgrDriverName = "SQLite" ∧ equalsCI attrField.name "ogc_fid" = true) →
      name = attrField.name) := by
  unfold outputFieldName at h
  constructor
  · intro hc
    rw [if_pos hc] at h
    unfold ogcFidReplacement at h
    rw [Option.map_eq_some'] at h
    obtain ⟨n, hfind, hname⟩ := h
    obtain ⟨h1, h2, h3⟩ := find?_range_least _ 10 n hfind
    exact ⟨n, h1, h2, h3, hname.symm⟩
  · intro hc
    rw [if_neg hc] at h
    simp only [Option.some.injEq] at h
    exact h.symm

/-- No name is found for a field exactly when the driver is `SQLite`, the field is called
`ogc_fid`, ignoring case, and none of `ogc_fid0` .. `ogc_fid9` is free. -/
theorem outputFieldName_none (mOgrDriverName : String) (fields : QgsFields)
    (attrField : QgsField) :
    outputFieldName mOgrDriverName fields attrField = none ↔
      (mOgrDriverName = "SQLite" ∧ equalsCI attrField.name "ogc_fid" = true) ∧
        ∀ m, m < 10 → replacementFree fields m = false := by
  unfold outputFieldName
  split_ifs with hc
  · unfold ogcFidReplacement
    rw [Option.map_eq_none', find?_range_none]
    exact ⟨fun h => ⟨hc, h⟩, fun h => h.2⟩
  · simp [hc]

/-- A field definition carries the name found for its field, in the encoding of the codec. -/
theorem fieldDefnOf_name (env : Env) (poDriver : OGRSFDriver) (w : Writer)
    (fields : QgsFields) (fieldValueConverter : Option FieldValueConverter) (fldIdx : Int)
    (fld : OGRFieldDefn)
    (h : fieldDefnOf env poDriver w fields fieldValueConverter fldIdx = some fld) :
    ∃ name, outputFieldName w.mOgrDriverName fields
        (attributeField fields fieldValueConverter fldIdx) = some name ∧
      fld.name = w.fromUnicode name := by
  unfold fieldDefnOf at h
  split at h
  · cases h
  · rw [Option.map_eq_some'] at h
    obtain ⟨name, hname, hfld⟩ := h
    exact ⟨name, hname, by rw [← hfld]; rfl⟩

/-- Maps with the keys `0 .. a-1` and `0 .. b-1` have the same number of keys. -/
theorem range_map_injective (a b : Nat)
    (h : (List.range a).map Int.ofNat = (List.range b).map Int.ofNat) : a = b := by
  have := congrArg List.length h
  simpa using this

/-- The members of a list all of whose positions hold a successful call are successful
calls. -/
theorem created_all_ok (created : List (OGRFieldDefn × Bool)) (j : Nat)
    (hlen : created.length = j)
    (hpos : ∀ i, i < j → ∃ fld, created[i]? = some (fld, true)) :
    ∀ p ∈ created, p.2 = true := by
  intro p hp
  obtain ⟨i, hi, hget⟩ := List.getElem_of_mem hp
  obtain ⟨fld, hf⟩ := hpos i (by omega)
  rw [List.getElem?_eq_getElem hi, hget] at hf
  simp only [Option.some.injEq] at hf
  rw [hf]

/-- C12 (amended): the call of `OGR_L_CreateField` at position `i` of a construction is the one
for the field `i` of the schema.  When the format name is `SQLite` or `SpatiaLite` and the name
of that field equals `ogc_fid` ignoring case, the field is created under the name
`ogc_fid<n>`, in the encoding of the codec, where `n` is the least number in 0..9 such that no
field name of the schema equals `ogc_fid<n>` ignoring case; for every other format or field
name the field is created under its own name.  When a field `k` of such a format is called
`ogc_fid` ignoring case and no such number exists, the construction does not succeed and
creates no field for the index `k` or a later one; and when it got as far as that field (the
layer exists and exactly the fields before `k` are mapped) and the type of the field is
supported, it ends with `ErrAttributeCreationFailed` and the message that no replacement was
found. -/
theorem reserved_field_name_replaced (env : Env) (vectorFileName fileEncoding : String)
    (fields : QgsFields) (geometryType : WkbType) (srs : QgsCoordinateReferenceSystem)
    (driverName : String) (datasourceOptions layerOptions : List String) (newFilename : Bool)
    (symbologyExport : SymbologyExport) (fieldValueConverter : Option FieldValueConverter) :
    (∀ (i : Nat) (fld : OGRFieldDefn) (ok : Bool),
      (createdFields (Writer.construct env vectorFileName fileEncoding fields geometryType srs driverName
        datasourceOptions layerOptions newFilename symbologyExport fieldValueConverter).2.2)[i]? = some (fld, ok) →
      i < fields.length ∧
      (((driverName = "SQLite" ∨ driverName = "SpatiaLite") ∧
          equalsCI (attributeField fields fieldValueConverter (i : Int)).name "ogc_fid" = true) →
        ∃ n, n < 10 ∧ replacementFree fields n = true ∧
          (∀ m, m < n → replacementFree fields m = false) ∧
          fld.name = (Writer.construct env vectorFileName fileEncoding fields geometryType srs driverName
        datasourceOptions layerOptions newFilename symbologyExport fieldValueConverter).1.fromUnicode ("ogc_fid" ++ toString n)) ∧
      (¬((driverName = "SQLite" ∨ driverName = "SpatiaLite") ∧
          equalsCI (attributeField fields fieldValueConverter (i : Int)).name "ogc_fid" = true) →
        fld.name = (Writer.construct env vectorFileName fileEncoding fields geometryType srs driverName
        datasourceOptions layerOptions newFilename symbologyExport fieldValueConverter).1.fromUnicode
          (attributeField fields fieldValueConverter (i : Int)).name)) ∧
    (∀ k : Nat, k < fields.length →
      (driverName = "SQLite" ∨ driverName = "SpatiaLite") →
      equalsCI (attributeField fields fieldValueConverter (k : Int)).name "ogc_fid" = true →
      (∀ n, n < 10 → replacementFree fields n = false) →
      (Writer.construct env vectorFileName fileEncoding fields geometryType srs driverName
        datasourceOptions layerOptions newFilename symbologyExport fieldValueConverter).1.mError ≠ .NoError ∧
      (createdFields (Writer.construct env vectorFileName fileEncoding fields geometryType srs driverName
        datasourceOptions layerOptions newFilename symbologyExport fieldValueConverter).2.2).length ≤ k ∧
      ((Writer.construct env vectorFileName fileEncoding fields geometryType srs driverName
        datasourceOptions layerOptions newFilename symbologyExport fieldValueConverter).1.mLayer.isSome = true →
        (Writer.construct env vectorFileName fileEncoding fields geometryType srs driverName
        datasourceOptions layerOptions newFilename symbologyExport fieldValueConverter).1.mAttrIdxToOgrIdx.keys = (List.range k).map Int.ofNat →
        (attributeField fields fieldValueConverter (k : Int)).type ∈ supportedFieldTypes →
        (Writer.construct env vectorFileName fileEncoding fields geometryType srs driverName
        datasourceOptions layerOptions newFilename symbologyExport fieldValueConverter).1.mError = .ErrAttributeCreationFailed ∧
        (Writer.construct env vectorFileName fileEncoding fields geometryType srs driverName
        datasourceOptions layerOptions newFilename symbologyExport fieldValueConverter).1.mErrorMessage =
          tr "no available replacement for internal fieldname ogc_fid found")) := by
  constructor
  · intro i fld ok h
    obtain ⟨hi, hdrv, poDriver, _, hfld⟩ := construct_created_field env vectorFileName
      fileEncoding fields geometryType srs driverName datasourceOptions layerOptions
      newFilename symbologyExport fieldValueConverter i fld ok h
    obtain ⟨name, hname, hfn⟩ := fieldDefnOf_name env poDriver _ fields fieldValueConverter _
      fld hfld
    obtain ⟨h1, h2⟩ := outputFieldName_some _ fields _ name hname
    rw [hdrv, resolvedDriverName_sqlite] at h1 h2
    refine ⟨hi, fun hc => ?_, fun hc => ?_⟩
    · obtain ⟨n, hn, hfree, hleast, heq⟩ := h1 hc
      exact ⟨n, hn, hfree, hleast, by rw [hfn, heq]⟩
    · rw [hfn, h2 hc]
  · intro k hk hsqlite hreserved htaken
    have hnone : ∀ name, name = resolvedDriverName driverName →
        outputFieldName name fields (attributeField fields fieldValueConverter (k : Int))
          = none := by
      intro name hname
      rw [outputFieldName_none, hname, resolvedDriverName_sqlite]
      exact ⟨⟨hsqlite, hreserved⟩, htaken⟩
    rcases construct_outcome env vectorFileName fileEncoding fields geometryType srs driverName
      datasourceOptions layerOptions newFilename symbologyExport fieldValueConverter
      with ⟨hl, hnil, hne, _⟩ | ⟨poDriver, w, j, r, _, hname, herr, _, _, hout, hsame, hcreated⟩
    · refine ⟨hne, by rw [hnil]; exact Nat.zero_le _, fun hsome => ?_⟩
      rw [hl] at hsome
      cases hsome
    · obtain ⟨_, _, _, _, _, hkeys, hsup, created, last, hc, hlen, _, hend⟩ := hout
      obtain ⟨hserr, hsmsg, hsmap, _⟩ := hsame
      have hjk : j ≤ k := by
        by_contra hlt
        have := (hsup k (by omega)).2
        rw [Nat.zero_add] at this
        exact this (hnone _ hname)
      rcases hend with ⟨_, hj, _⟩ | ⟨_, hj, hstop⟩
      · omega
      · rw [Nat.zero_add] at hstop hkeys
        have hlast : last.length ≤ 1 ∧ (j = k → last = []) := by
          rcases hstop with ⟨_, hl, _⟩ | ⟨_, _, hl, _⟩ | ⟨_, hn, _, f, b, _, hl⟩
          · rw [hl]
            exact ⟨Nat.zero_le _, fun _ => rfl⟩
          · rw [hl]
            exact ⟨Nat.zero_le _, fun _ => rfl⟩
          · rw [hl]
            refine ⟨Nat.le_refl _, fun hjeq => ?_⟩
            rw [hjeq] at hn
            exact absurd (hnone _ hname) hn
        refine ⟨?_, ?_, fun _ hk2 hty => ?_⟩
        · rw [hserr]
          rcases hstop with ⟨_, _, he, _⟩ | ⟨_, _, _, he, _⟩ | ⟨_, _, he, _⟩ <;>
          · rw [he]
            simp
        · rw [hcreated, hc, List.length_append, hlen]
          by_cases hjeq : j = k
          · rw [hlast.2 hjeq]
            simp [hjeq]
          · have := hlast.1
            omega
        · rw [hsmap, hkeys] at hk2
          have hjeq : j = k := range_map_injective _ _ hk2
          rw [hjeq] at hstop
          rcases hstop with ⟨hn, _⟩ | ⟨_, _, _, he, hm⟩ | ⟨_, hn, _⟩
          · exfalso
            revert hn hty
            unfold fieldTypeMapping supportedFieldTypes
            cases (attributeField fields fieldValueConverter (k : Int)).type <;>
              simp <;> split_ifs <;> simp
          · exact ⟨hserr.trans he, hsmsg.trans hm⟩
          · exact absurd (hnone _ hname) hn

/-- Witness for C12 (amended): in a construction for the format `SpatiaLite` over the fields
`OGC_FID` and `ogc_fid0`, the first field is created under the name `ogc_fid1`. -/
theorem reserved_field_name_replaced_witness :
    0 < reservedFirstFields.length ∧
    ((("SpatiaLite" = "SQLite" ∨ "SpatiaLite" = "SpatiaLite") ∧
        equalsCI (attributeField reservedFirstFields none ((0 : Nat) : Int)).name "ogc_fid"
          = true) →
      ∃ n, n < 10 ∧ replacementFree reservedFirstFields n = true ∧
        (∀ m, m < n → replacementFree reservedFirstFields m = false) ∧
        (⟨"ogc_fid1", .OFTInteger, 10, 0⟩ : OGRFieldDefn).name =
          (Writer.construct (exampleEnv exampleDriver) "out.sqlite" "UTF-8" reservedFirstFields
        .Polygon ⟨true, "", .DistanceMeters⟩ "SpatiaLite" [] [] false .NoSymbology none).1.fromUnicode ("ogc_fid" ++ toString n)) ∧
    (¬(("SpatiaLite" = "SQLite" ∨ "SpatiaLite" = "SpatiaLite") ∧
        equalsCI (attributeField reservedFirstFields none ((0 : Nat) : Int)).name "ogc_fid"
          = true) →
      (⟨"ogc_fid1", .OFTInteger, 10, 0⟩ : OGRFieldDefn).name =
        (Writer.construct (exampleEnv exampleDriver) "out.sqlite" "UTF-8" reservedFirstFields
        .Polygon ⟨true, "", .DistanceMeters⟩ "SpatiaLite" [] [] false .NoSymbology none).1.fromUnicode (attributeField reservedFirstFields none ((0 : Nat) : Int)).name) :=
  (reserved_field_name_replaced (exampleEnv exampleDriver) "out.sqlite" "UTF-8"
    reservedFirstFields .Polygon ⟨true, "", .DistanceMeters⟩ "SpatiaLite" [] [] false
    .NoSymbology none).1 0 ⟨"ogc_fid1", .OFTInteger, 10, 0⟩ true (by decide)

/-- Counterexample to C12: the format `SQLite` resolves to the driver `SQLite`; the first
field of the schema is called `ogc_fid` and none of the names `ogc_fid0` .. `ogc_fid9` is free,
as the schema holds fields of these names; the driver creates every field it is asked for.
The construction ends with `ErrAttributeTypeUnsupported`, not with
`ErrAttributeCreationFailed`: the field has a boolean type, and `init` looks at the type of a
field before it looks at its name. -/
theorem reserved_name_fails_with_unsupported_type :
    (Writer.construct (exampleEnv exampleDriver) "out.sqlite" "UTF-8" booleanKeyFields
      .Polygon ⟨true, "", .DistanceMeters⟩ "SQLite" [] [] false .NoSymbology
      none).1.mOgrDriverName = "SQLite" ∧
    equalsCI (attributeField booleanKeyFields none ((0 : Nat) : Int)).name "ogc_fid" = true ∧
    (∀ n : Nat, n < 10 → replacementFree booleanKeyFields n = false) ∧
    (Writer.construct (exampleEnv exampleDriver) "out.sqlite" "UTF-8" booleanKeyFields
      .Polygon ⟨true, "", .DistanceMeters⟩ "SQLite" [] [] false .NoSymbology none).1.mError
        = .ErrAttributeTypeUnsupported ∧
    (Writer.construct (exampleEnv exampleDriver) "out.sqlite" "UTF-8" booleanKeyFields
      .Polygon ⟨true, "", .DistanceMeters⟩ "SQLite" [] [] false .NoSymbology none).1.mError
        ≠ .ErrAttributeCreationFailed := by
  refine ⟨by decide, by decide, by decide, by decide, by decide⟩

/-! ## Unsupported field types -/

/-- The `switch` of `init` ends in its `default:` case exactly for the field types outside the
list of supported ones. -/
theorem fieldTypeMapping_none (env : Env) (poDriver : OGRSFDriver) (mOgrDriverName : String)
    (attrField : QgsField) :
    fieldTypeMapping env poDriver mOgrDriverName attrField = none ↔
      attrField.type ∉ supportedFieldTypes := by
  unfold fieldTypeMapping supportedFieldTypes
  cases attrField.type <;> simp <;> split_ifs <;> simp

/-- C18 (amended): for every schema in which the first field whose type is not one of 32-bit
integer, 64-bit integer, double, string, date, time and date-time sits at the index `k`, the
construction does not succeed and calls `OGR_L_CreateField` at most `k` times, so for no field
of index `k` or later.  It ends with `ErrAttributeTypeUnsupported` exactly when it got as far
as the field `k`, that is when the layer was created and exactly the fields `0 .. k-1` are
mapped; then exactly `k` fields were created, each successfully, and the error message names
the field `k`.  Otherwise it ends with the error of the earlier failure. -/
theorem unsupported_field_type_stops_construction (env : Env)
    (vectorFileName fileEncoding : String)
    (fields : QgsFields) (geometryType : WkbType) (srs : QgsCoordinateReferenceSystem)
    (driverName : String) (datasourceOptions layerOptions : List String) (newFilename : Bool)
    (symbologyExport : SymbologyExport) (fieldValueConverter : Option FieldValueConverter)
    (k : Nat) (hk : k < fields.length)
    (hfirst : ∀ i : Nat, i < k →
      (attributeField fields fieldValueConverter (i : Int)).type ∈ supportedFieldTypes)
    (hunsupported :
      (attributeField fields fieldValueConverter (k : Int)).type ∉ supportedFieldTypes) :
    (Writer.construct env vectorFileName fileEncoding fields geometryType srs driverName
      datasourceOptions layerOptions newFilename symbologyExport fieldValueConverter).1.mError ≠ .NoError ∧
    (createdFields (Writer.construct env vectorFileName fileEncoding fields geometryType srs driverName
      datasourceOptions layerOptions newFilename symbologyExport fieldValueConverter).2.2).length ≤ k ∧
    ((Writer.construct env vectorFileName fileEncoding fields geometryType srs driverName
      datasourceOptions layerOptions newFilename symbologyExport fieldValueConverter).1.mError = .ErrAttributeTypeUnsupported ↔
      ((Writer.construct env vectorFileName fileEncoding fields geometryType srs driverName
      datasourceOptions layerOptions newFilename symbologyExport fieldValueConverter).1.mLayer.isSome = true ∧
        (Writer.construct env vectorFileName fileEncoding fields geometryType srs driverName
      datasourceOptions layerOptions newFilename symbologyExport fieldValueConverter).1.mAttrIdxToOgrIdx.keys = (List.range k).map Int.ofNat)) ∧
    ((Writer.construct env vectorFileName fileEncoding fields geometryType srs driverName
      datasourceOptions layerOptions newFilename symbologyExport fieldValueConverter).1.mError = .ErrAttributeTypeUnsupported →
      (createdFields (Writer.construct env vectorFileName fileEncoding fields geometryType srs driverName
      datasourceOptions layerOptions newFilename symbologyExport fieldValueConverter).2.2).length = k ∧
      (∀ p ∈ createdFields (Writer.construct env vectorFileName fileEncoding fields geometryType srs driverName
      datasourceOptions layerOptions newFilename symbologyExport fieldValueConverter).2.2, p.2 = true) ∧
      (Writer.construct env vectorFileName fileEncoding fields geometryType srs driverName
      datasourceOptions layerOptions newFilename symbologyExport fieldValueConverter).1.mErrorMessage = tr "unsupported type for field " ++
        (attributeField fields fieldValueConverter (k : Int)).name) := by
  rcases construct_outcome env vectorFileName fileEncoding fields geometryType srs driverName
    datasourceOptions layerOptions newFilename symbologyExport fieldValueConverter
    with ⟨hl, hnil, hne, hnu, _⟩ |
      ⟨poDriver, w, j, r, _, hname, herr, _, hwl, hout, hsame, hcreated⟩
  · refine ⟨hne, by rw [hnil]; exact Nat.zero_le _, ⟨fun h => absurd h hnu, fun h => ?_⟩,
      fun h => absurd h hnu⟩
    rw [hl] at h
    cases h.1
  · obtain ⟨_, _, _, _, hrl, hkeys, hsup, created, last, hc, hlen, hpos, hend⟩ := hout
    obtain ⟨hserr, hsmsg, hsmap, _, _, _, hslayer⟩ := hsame
    have hnone : fieldTypeMapping env poDriver w.mOgrDriverName
        (attributeField fields fieldValueConverter (k : Int)) = none :=
      (fieldTypeMapping_none _ _ _ _).mpr hunsupported
    have hjk : j ≤ k := by
      by_contra hlt
      have := (hsup k (by omega)).1
      rw [Nat.zero_add] at this
      exact this hnone
    rw [Nat.zero_add] at hkeys
    have hall : ∀ p ∈ created, p.2 = true :=
      created_all_ok created j hlen (fun i hi => by
        obtain ⟨fld, _, hget⟩ := hpos i hi
        exact ⟨fld, hget⟩)
    rcases hend with ⟨_, hj, _⟩ | ⟨_, hj, hstop⟩
    · omega
    · rw [Nat.zero_add] at hstop
      by_cases hjeq : j = k
      · rw [hjeq] at hstop hkeys hlen
        rcases hstop with ⟨_, hl, he, hm⟩ | ⟨hn, _⟩ | ⟨hn, _⟩
        · have herrC := hserr.trans he
          have hlenC : (createdFields (Writer.construct env vectorFileName fileEncoding fields geometryType srs driverName
      datasourceOptions layerOptions newFilename symbologyExport fieldValueConverter).2.2).length = k := by
            rw [hcreated, hc, hl, List.append_nil, hlen]
          refine ⟨by rw [herrC]; simp, Nat.le_of_eq hlenC,
            ⟨fun _ => ⟨hslayer.trans (hrl hwl), by rw [hsmap]; exact hkeys⟩, fun _ => herrC⟩,
            fun _ => ⟨hlenC, ?_, hsmsg.trans hm⟩⟩
          rw [hcreated, hc, hl, List.append_nil]
          exact hall
        · exact absurd hnone hn
        · exact absurd hnone hn
      · have hjlt : j < k := by omega
        have hsupp : fieldTypeMapping env poDriver w.mOgrDriverName
            (attributeField fields fieldValueConverter (j : Int)) ≠ none := by
          rw [Ne, fieldTypeMapping_none, not_not]
          exact hfirst j hjlt
        have hfacts : r.1.mError = .ErrAttributeCreationFailed ∧ last.length ≤ 1 := by
          rcases hstop with ⟨hn, _⟩ | ⟨_, _, hl, he, _⟩ | ⟨_, _, he, f, b, _, hl⟩
          · exact absurd hn hsupp
          · rw [hl]
            exact ⟨he, Nat.zero_le _⟩
          · rw [hl]
            exact ⟨he, Nat.le_refl _⟩
        have herrC := hserr.trans hfacts.1
        refine ⟨by rw [herrC]; simp, ?_, ⟨fun h => ?_, fun h => ?_⟩, fun h => ?_⟩
        · rw [hcreated, hc, List.length_append, hlen]
          have := hfacts.2
          omega
        · rw [herrC] at h
          cases h
        · exfalso
          have h2 := h.2
          rw [hsmap, hkeys] at h2
          exact hjeq (range_map_injective _ _ h2)
        · rw [herrC] at h
          cases h

/-- Witness for C18 (amended): a schema whose second field is boolean. -/
theorem unsupported_field_type_stops_construction_witness :
    (Writer.construct (exampleEnv exampleDriver) "out.gpkg" "UTF-8" flagSecondFields .Polygon
      ⟨true, "", .DistanceMeters⟩ "GPKG" [] [] false .NoSymbology none).1.mError ≠ .NoError ∧
    (createdFields (Writer.construct (exampleEnv exampleDriver) "out.gpkg" "UTF-8"
      flagSecondFields .Polygon ⟨true, "", .DistanceMeters⟩ "GPKG" [] [] false .NoSymbology
      none).2.2).length ≤ 1 ∧
    ((Writer.construct (exampleEnv exampleDriver) "out.gpkg" "UTF-8" flagSecondFields .Polygon
        ⟨true, "", .DistanceMeters⟩ "GPKG" [] [] false .NoSymbology none).1.mError =
          .ErrAttributeTypeUnsupported ↔
      ((Writer.construct (exampleEnv exampleDriver) "out.gpkg" "UTF-8" flagSecondFields .Polygon
          ⟨true, "", .DistanceMeters⟩ "GPKG" [] [] false .NoSymbology none).1.mLayer.isSome
            = true ∧
        (Writer.construct (exampleEnv exampleDriver) "out.gpkg" "UTF-8" flagSecondFields .Polygon
          ⟨true, "", .DistanceMeters⟩ "GPKG" [] [] false .NoSymbology
          none).1.mAttrIdxToOgrIdx.keys = (List.range 1).map Int.ofNat)) ∧
    ((Writer.construct (exampleEnv exampleDriver) "out.gpkg" "UTF-8" flagSecondFields .Polygon
        ⟨true, "", .DistanceMeters⟩ "GPKG" [] [] false .NoSymbology none).1.mError =
          .ErrAttributeTypeUnsupported →
      (createdFields (Writer.construct (exampleEnv exampleDriver) "out.gpkg" "UTF-8"
        flagSecondFields .Polygon ⟨true, "", .DistanceMeters⟩ "GPKG" [] [] false .NoSymbology
        none).2.2).length = 1 ∧
      (∀ p ∈ createdFields (Writer.construct (exampleEnv exampleDriver) "out.gpkg" "UTF-8"
        flagSecondFields .Polygon ⟨true, "", .DistanceMeters⟩ "GPKG" [] [] false .NoSymbology
        none).2.2, p.2 = true) ∧
      (Writer.construct (exampleEnv exampleDriver) "out.gpkg" "UTF-8" flagSecondFields .Polygon
        ⟨true, "", .DistanceMeters⟩ "GPKG" [] [] false .NoSymbology none).1.mErrorMessage =
          tr "unsupported type for field " ++
            (attributeField flagSecondFields none ((1 : Nat) : Int)).name) :=
  unsupported_field_type_stops_construction (exampleEnv exampleDriver) "out.gpkg" "UTF-8"
    flagSecondFields .Polygon ⟨true, "", .DistanceMeters⟩ "GPKG" [] [] false .NoSymbology none
    1 (by decide) (by decide) (by decide)

/-- Counterexample to C18: in the schema of the integer fields `ogc_fid`, `ogc_fid0` ..
`ogc_fid9` followed by a boolean field, the first field of an unsupported type sits at the
index 11.  The construction for the format `SpatiaLite`, with a driver that creates every
field it is asked for, ends with `ErrAttributeCreationFailed` at the field 0, for which no
replacement name is free, and creates and maps no field at all. -/
theorem unsupported_field_type_not_reached :
    (∀ i : Nat, i < 11 →
      (attributeField trailingFlagFields none (i : Int)).type ∈ supportedFieldTypes) ∧
    (attributeField trailingFlagFields none ((11 : Nat) : Int)).type ∉ supportedFieldTypes ∧
    (Writer.construct (exampleEnv exampleDriver) "out.sqlite" "UTF-8" trailingFlagFields
      .Polygon ⟨true, "", .DistanceMeters⟩ "SpatiaLite" [] [] false .NoSymbology none).1.mError
        = .ErrAttributeCreationFailed ∧
    createdFields (Writer.construct (exampleEnv exampleDriver) "out.sqlite" "UTF-8"
      trailingFlagFields .Polygon ⟨true, "", .DistanceMeters⟩ "SpatiaLite" [] [] false
      .NoSymbology none).2.2 = [] ∧
    (Writer.construct (exampleEnv exampleDriver) "out.sqlite" "UTF-8" trailingFlagFields
      .Polygon ⟨true, "", .DistanceMeters⟩ "SpatiaLite" [] [] false .NoSymbology
      none).1.mAttrIdxToOgrIdx.entries = [] := by
  refine ⟨by decide, by decide, by decide, by decide, by decide⟩

/-! ## The error state after `addFeature` -/

/-- A commit that fails sets the error state to `ErrFeatureWriteFailed`; one that succeeds
leaves the error state as it is.  The driver and the layer stay. -/
theorem writeFeature_error (env : Env) (w : Writer) (feature : OGRFeature)
    (hdrv : w.poDriver.isSome = true) (hlayer : w.mLayer.isSome = true) :
    ((writeFeature env w feature).1 = false →
      (writeFeature env w feature).2.1.mError = .ErrFeatureWriteFailed) ∧
    ((writeFeature env w feature).1 = true →
      (writeFeature env w feature).2.1.mError = w.mError) ∧
    (writeFeature env w feature).2.1.poDriver.isSome = true ∧
    (writeFeature env w feature).2.1.mLayer.isSome = true := by
  obtain ⟨d, hd⟩ := Option.isSome_iff_exists.mp hdrv
  obtain ⟨l, hl⟩ := Option.isSome_iff_exists.mp hlayer
  unfold writeFeature
  split
  · rename_i d' l' hd' hl'
    split
    · exact ⟨fun _ => rfl, fun h => Bool.noConfusion h, hdrv, rfl⟩
    · exact ⟨fun h => Bool.noConfusion h, fun _ => rfl, hdrv, rfl⟩
  · rename_i hnone
    exact absurd hl (hnone _ _ hd)

/-- The inner symbol loop of `addFeature` keeps what `StyleLoop.Keeps` lists. -/
theorem addFeatureSymbolLayers_keeps (env : Env) (w : Writer) (symbol : QgsSymbol)
    (outputUnit : DistanceUnit) (firstSymbol : Bool) (layers : List QgsSymbolLayer) (i : Nat)
    (st : StyleLoop) (hst : st.Keeps w) (hrun : st.failed = false) :
    (addFeatureSymbolLayers env symbol outputUnit firstSymbol layers i st).Keeps w := by
  induction layers generalizing i st with
  | nil => exact hst
  | cons layer rest ih =>
    unfold addFeatureSymbolLayers
    simp only []
    split
    · exact ih _ _ hst hrun
    · split
      · obtain ⟨h1, h2, h3, h4⟩ := hst
        obtain ⟨hf, ht, hd, hl⟩ := writeFeature_error env st.w
          { st.poFeature with
            styleString := some (layer.ogrFeatureStyle
              (mmScaleFactor st.w.mSymbologyScaleDenominator symbol.outputUnit outputUnit)
              (mapUnitScaleFactor st.w.mSymbologyScaleDenominator symbol.outputUnit
                outputUnit)) } h1 h2
        split
        · rename_i hfail
          exact ⟨hd, hl, fun _ => hf (by simpa using hfail), fun h => Bool.noConfusion h⟩
        · rename_i hfail
          refine ih _ _ ⟨hd, hl, fun h => ?_, fun _ => ?_⟩ hrun
          · rw [hrun] at h
            cases h
          · rw [ht (by simpa using hfail)]
            exact h4 hrun
      · exact ih _ _ hst hrun

/-- The symbol loop of `addFeature` keeps what `StyleLoop.Keeps` lists. -/
theorem addFeatureSymbols_keeps (env : Env) (w : Writer) (outputUnit : DistanceUnit)
    (symbols : List QgsSymbol) (firstSymbol : Bool) (st : StyleLoop) (hst : st.Keeps w)
    (hrun : st.failed = false) :
    (addFeatureSymbols env outputUnit symbols firstSymbol st).Keeps w := by
  induction symbols generalizing firstSymbol st with
  | nil => exact hst
  | cons symbol rest ih =>
    unfold addFeatureSymbols
    simp only []
    have hk := addFeatureSymbolLayers_keeps env w symbol outputUnit firstSymbol
      symbol.symbolLayers 0 st hst hrun
    split
    · exact hk
    · rename_i hf
      exact ih _ _ hk (by simpa using hf)

/-- The geometry block of `createFeature` sets the error state to `ErrFeatureWriteFailed` when
it returns a null record and leaves it as it is otherwise; the driver and the layer stay. -/
theorem setFeatureGeometry_error (env : Env) (poDriver : OGRSFDriver) (feature : QgsFeature)
    (w : Writer) (poFeature : OGRFeature) :
    ((setFeatureGeometry env poDriver feature w poFeature).1 = none →
      (setFeatureGeometry env poDriver feature w poFeature).2.1.mError
        = .ErrFeatureWriteFailed) ∧
    ((setFeatureGeometry env poDriver feature w poFeature).1.isSome = true →
      (setFeatureGeometry env poDriver feature w poFeature).2.1.mError = w.mError) ∧
    (setFeatureGeometry env poDriver feature w poFeature).2.1.poDriver = w.poDriver ∧
    (setFeatureGeometry env poDriver feature w poFeature).2.1.mLayer = w.mLayer := by
  unfold setFeatureGeometry geometryNotImported createEmptyGeometry
  simp only []
  repeat' split
  all_goals simp_all

/-- The attribute loop of `createFeature` sets the error state to `ErrFeatureWriteFailed` when
it ends in the `default:` case; the driver and the layer stay. -/
theorem writeAttributes_error (env : Env) (feature : QgsFeature) (entries : List (Int × Int))
    (w : Writer) (poFeature : OGRFeature) :
    ((writeAttributes env feature entries w poFeature).2.2.1 = false →
      (writeAttributes env feature entries w poFeature).1.mError = .ErrFeatureWriteFailed) ∧
    (writeAttributes env feature entries w poFeature).1.poDriver = w.poDriver ∧
    (writeAttributes env feature entries w poFeature).1.mLayer = w.mLayer := by
  induction entries generalizing poFeature with
  | nil => exact ⟨fun h => Bool.noConfusion h, rfl, rfl⟩
  | cons e rest ih =>
    obtain ⟨fldIdx, ogrField⟩ := e
    unfold writeAttributes
    simp only []
    split
    · exact ih _
    · split
      · exact ih _
      · exact ih _
      · exact ⟨fun _ => rfl, rfl, rfl⟩

/-- For a writer with a driver and a layer, `createFeature` sets the error state to
`ErrFeatureWriteFailed` when it returns a null record and leaves it as it is otherwise; the
driver and the layer stay. -/
theorem createFeature_error (env : Env) (w : Writer) (feature : QgsFeature)
    (hdrv : w.poDriver.isSome = true) (hlayer : w.mLayer.isSome = true) :
    ((createFeature env w feature).1 = none →
      (createFeature env w feature).2.1.mError = .ErrFeatureWriteFailed) ∧
    ((createFeature env w feature).1.isSome = true →
      (createFeature env w feature).2.1.mError = w.mError) ∧
    (createFeature env w feature).2.1.poDriver.isSome = true ∧
    (createFeature env w feature).2.1.mLayer.isSome = true := by
  obtain ⟨d, hd⟩ := Option.isSome_iff_exists.mp hdrv
  obtain ⟨l, hl⟩ := Option.isSome_iff_exists.mp hlayer
  unfold createFeature
  split
  · rename_i d' l' hd' hl'
    simp only []
    unfold fillFeature
    simp only []
    obtain ⟨ha, hap, hal⟩ := writeAttributes_error env feature w.mAttrIdxToOgrIdx.entries
      { w with nextHandle := w.nextHandle + 1 } (newFeature d' w feature)
    have hw := writeAttributes_writer env feature w.mAttrIdxToOgrIdx.entries
      { w with nextHandle := w.nextHandle + 1 } (newFeature d' w feature)
    split
    · rename_i hf
      refine ⟨fun _ => ha (by simpa using hf), fun h => Bool.noConfusion h, ?_, ?_⟩
      · rw [hap]
        exact hdrv
      · rw [hal]
        exact hlayer
    · rename_i hf
      have hdone : (writeAttributes env feature w.mAttrIdxToOgrIdx.entries
          { w with nextHandle := w.nextHandle + 1 } (newFeature d' w feature)).2.2.1 = true := by
        simpa using hf
      obtain ⟨hg1, hg2, hg3, hg4⟩ := setFeatureGeometry_error env d' feature
        (writeAttributes env feature w.mAttrIdxToOgrIdx.entries
          { w with nextHandle := w.nextHandle + 1 } (newFeature d' w feature)).1
        (writeAttributes env feature w.mAttrIdxToOgrIdx.entries
          { w with nextHandle := w.nextHandle + 1 } (newFeature d' w feature)).2.1
      refine ⟨hg1, fun h => ?_, ?_, ?_⟩
      · rw [hg2 h, hw hdone]
      · rw [hg3, hap]
        exact hdrv
      · rw [hg4, hal]
        exact hlayer
  · rename_i hnone
    exact absurd hl (hnone _ _ hd)

/-- The end of `addFeature`, after the symbol loops: a result `true` leaves the error state as
the loops left it, a result `false` comes with the error state `ErrFeatureWriteFailed`. -/
theorem addFeature_commit_error (env : Env) (w : Writer) (st : StyleLoop) (hst : st.Keeps w)
    (r : Bool × Writer × List OgrCall)
    (hr : r =
      if st.failed = true then (false, st.w, st.calls)
      else if st.w.mSymbologyExport = .NoSymbology ∨
          st.w.mSymbologyExport = .FeatureSymbology then
        if (!(writeFeature env st.w st.poFeature).1) = true then
          (false, (writeFeature env st.w st.poFeature).2.1,
            st.calls ++ (writeFeature env st.w st.poFeature).2.2)
        else (true, (writeFeature env st.w st.poFeature).2.1,
          st.calls ++ (writeFeature env st.w st.poFeature).2.2 ++
            [OgrCall.F_Destroy st.poFeature.handle])
      else (true, st.w, st.calls ++ [OgrCall.F_Destroy st.poFeature.handle])) :
    (r.1 = true → r.2.1.mError = w.mError) ∧
    (r.1 = false → r.2.1.mError = .ErrFeatureWriteFailed) ∧
    r.2.1.poDriver.isSome = true ∧ r.2.1.mLayer.isSome = true := by
  obtain ⟨h1, h2, h3, h4⟩ := hst
  obtain ⟨hf, ht, hd, hl⟩ := writeFeature_error env st.w st.poFeature h1 h2
  subst hr
  split
  · rename_i hfail
    exact ⟨fun h => Bool.noConfusion h, fun _ => h3 hfail, h1, h2⟩
  · rename_i hfail
    have hrun : st.failed = false := by simpa using hfail
    split
    · split
      · rename_i hwf
        exact ⟨fun h => Bool.noConfusion h, fun _ => hf (by simpa using hwf), hd, hl⟩
      · rename_i hwf
        refine ⟨fun _ => ?_, fun h => Bool.noConfusion h, hd, hl⟩
        rw [ht (by simpa using hwf), h4 hrun]
    · exact ⟨fun _ => h4 hrun, fun h => Bool.noConfusion h, h1, h2⟩

/-- A construction that succeeds leaves a session with a driver and a layer. -/
theorem construct_success_has_driver_and_layer (env : Env)
    (vectorFileName fileEncoding : String)
    (fields : QgsFields) (geometryType : WkbType) (srs : QgsCoordinateReferenceSystem)
    (driverName : String) (datasourceOptions layerOptions : List String) (newFilename : Bool)
    (symbologyExport : SymbologyExport) (fieldValueConverter : Option FieldValueConverter)
    (hok : (Writer.construct env vectorFileName fileEncoding fields geometryType srs driverName
      datasourceOptions layerOptions newFilename symbologyExport fieldValueConverter).1.mError
        = .NoError) :
    (Writer.construct env vectorFileName fileEncoding fields geometryType srs driverName
      datasourceOptions layerOptions newFilename symbologyExport
      fieldValueConverter).1.poDriver.isSome = true ∧
    (Writer.construct env vectorFileName fileEncoding fields geometryType srs driverName
      datasourceOptions layerOptions newFilename symbologyExport
      fieldValueConverter).1.mLayer.isSome = true := by
  rcases construct_outcome env vectorFileName fileEncoding fields geometryType srs driverName
    datasourceOptions layerOptions newFilename symbologyExport fieldValueConverter
    with ⟨_, _, hne, _⟩ | ⟨poDriver, w, j, r, _, _, _, hpo, hwl, hout, hsame, _⟩
  · exact absurd hok hne
  · obtain ⟨_, _, _, hrpo, hrl, _⟩ := hout
    obtain ⟨_, _, _, _, _, hspo, hsl⟩ := hsame
    refine ⟨?_, hsl.trans (hrl hwl)⟩
    rw [hspo, hrpo, hpo]
    rfl

/-- C19 (amended): for every session that has a driver and a layer, as every successfully
constructed session has, and every feature: when `addFeature` returns `true` the error state
of the session is what it was before, so `hasError()` is still `NoError` for a session without
error; when `addFeature` returns `false` the error state is `ErrFeatureWriteFailed`
afterwards.  A per-feature failure is thus reported by the result of the call and recorded in
the error state of the session as well; the driver and the layer stay, so that further
features can be added. -/
theorem addFeature_records_failure_in_error_state (env : Env) (w : Writer)
    (feature : QgsFeature) (renderer : Option QgsFeatureRenderer) (outputUnit : DistanceUnit)
    (hdrv : w.poDriver.isSome = true) (hlayer : w.mLayer.isSome = true) :
    ((addFeature env w feature renderer outputUnit).1 = true →
      (addFeature env w feature renderer outputUnit).2.1.hasError = w.hasError) ∧
    ((addFeature env w feature renderer outputUnit).1 = false →
      (addFeature env w feature renderer outputUnit).2.1.hasError = .ErrFeatureWriteFailed) ∧
    (addFeature env w feature renderer outputUnit).2.1.poDriver.isSome = true ∧
    (addFeature env w feature renderer outputUnit).2.1.mLayer.isSome = true := by
  obtain ⟨hc1, hc2, hc3, hc4⟩ := createFeature_error env w feature hdrv hlayer
  unfold addFeature Writer.hasError
  rcases hcf : createFeature env w feature with ⟨_ | poFeature, w1, calls⟩
  · rw [hcf] at hc1 hc3 hc4
    exact ⟨fun h => Bool.noConfusion h, fun _ => hc1 rfl, hc3, hc4⟩
  · rw [hcf] at hc2 hc3 hc4
    have herr : w1.mError = w.mError := hc2 rfl
    simp only []
    have hstart : StyleLoop.Keeps w1 ⟨w1, poFeature, "", calls, false⟩ :=
      ⟨hc3, hc4, fun h => Bool.noConfusion h, fun _ => rfl⟩
    rw [← herr]
    refine addFeature_commit_error env w1 _ ?_ _ rfl
    split
    · rename_i r
      split
      · have hk := addFeatureSymbols_keeps env w1 outputUnit (r.symbolsForFeature feature) true
          _ hstart rfl
        split
        · exact hk
        · rename_i hf
          obtain ⟨k1, k2, k3, k4⟩ := hk
          exact ⟨k1, k2, k3, k4⟩
      · exact hstart
    · exact hstart

/-- Witness for C19 (amended): a feature added to a session whose driver rejects every
record. -/
theorem addFeature_records_failure_in_error_state_witness :
    ((addFeature (exampleEnv rejectingDriver) (exampleWriter rejectingDriver .Polygon)
        exampleFeature none .DistanceMeters).1 = true →
      (addFeature (exampleEnv rejectingDriver) (exampleWriter rejectingDriver .Polygon)
        exampleFeature none .DistanceMeters).2.1.hasError =
          (exampleWriter rejectingDriver .Polygon).hasError) ∧
    ((addFeature (exampleEnv rejectingDriver) (exampleWriter rejectingDriver .Polygon)
        exampleFeature none .DistanceMeters).1 = false →
      (addFeature (exampleEnv rejectingDriver) (exampleWriter rejectingDriver .Polygon)
        exampleFeature none .DistanceMeters).2.1.hasError = .ErrFeatureWriteFailed) ∧
    (addFeature (exampleEnv rejectingDriver) (exampleWriter rejectingDriver .Polygon)
      exampleFeature none .DistanceMeters).2.1.poDriver.isSome = true ∧
    (addFeature (exampleEnv rejectingDriver) (exampleWriter rejectingDriver .Polygon)
      exampleFeature none .DistanceMeters).2.1.mLayer.isSome = true :=
  addFeature_records_failure_in_error_state (exampleEnv rejectingDriver)
    (exampleWriter rejectingDriver .Polygon) exampleFeature none .DistanceMeters
    (by decide) (by decide)

/-- Counterexample to C19: the session constructed with a driver whose layer rejects every
record is constructed successfully, `hasError()` being `NoError`; `addFeature` returns `false`
for the example feature, and `hasError()` is `ErrFeatureWriteFailed` afterwards. -/
theorem addFeature_failure_changes_error_state :
    (exampleWriter rejectingDriver .Polygon).hasError = .NoError ∧
    (addFeature (exampleEnv rejectingDriver) (exampleWriter rejectingDriver .Polygon)
      exampleFeature none .DistanceMeters).1 = false ∧
    (addFeature (exampleEnv rejectingDriver) (exampleWriter rejectingDriver .Polygon)
      exampleFeature none .DistanceMeters).2.1.hasError = .ErrFeatureWriteFailed := by
  refine ⟨by decide, by decide, by decide⟩

/-! ## The destination geometry type -/

/-- For a source layer without a data provider and not of the provider `spatialite`,
`writeAsVectorFormat` starts with the construction of a writer for the exported fields and the
geometry type `destinationWkbType` gives. -/
theorem writeAsVectorFormat_constructs_with_destination_type (env : Env)
    (layer : QgsVectorLayer) (args : WriteArgs)
    (hprov : layer.dataProvider = none) (hsl : layer.providerType ≠ "spatialite") :
    (Writer.construct env args.fileName args.fileEncoding
      ((exportedAttributes layer args.skipAttributeCreation args.attributes).map
        (fun attrIdx => layer.fields.at attrIdx))
      (destinationWkbType layer args.overrideGeometryType args.forceMulti args.includeZ)
      (if args.ct.isValid then args.ct.destinationCrs else layer.crs) args.driverName
      args.datasourceOptions args.layerOptions args.newFilename args.symbologyExport
      args.fieldValueConverter).2.2 <+:
    (writeAsVectorFormat env (some layer) args).effects := by
  unfold writeAsVectorFormat
  simp only [hprov, Bool.false_eq_true, if_false, Option.isSome_none, false_and, hsl, and_false]
  by_cases hct : args.ct.isValid = true
  · simp only [hct, if_true]
    repeat' split
    all_goals first
      | exact List.prefix_append _ _
      | exact List.prefix_refl _
      | (rw [List.append_assoc]; exact List.prefix_append _ _)
  · simp only [hct, Bool.false_eq_true, if_false]
    repeat' split
    all_goals first
      | exact List.prefix_append _ _
      | exact List.prefix_refl _
      | (rw [List.append_assoc]; exact List.prefix_append _ _)

/-- C20: the destination geometry type that `writeAsVectorFormat` computes before it looks at
the provider of the source layer is the type of the source layer when no override is given,
otherwise the flat type of the override with Z added exactly when the override has Z or
`includeZ` is set; and the multi variant of that type when `forceMulti` is set.  For a source
layer for which no adjustment to its provider is made (one without a data provider and not of
the provider `spatialite`), the calls of `writeAsVectorFormat` start with those of the
construction of a writer for this geometry type. -/
theorem destination_type_from_override_and_flags (env : Env) (layer : QgsVectorLayer)
    (args : WriteArgs) :
    destinationWkbType layer args.overrideGeometryType args.forceMulti args.includeZ =
      requestedGeometryType layer.wkbType args.overrideGeometryType args.forceMulti
        args.includeZ ∧
    (args.overrideGeometryType = .Unknown →
      destinationWkbType layer args.overrideGeometryType args.forceMulti args.includeZ =
        if args.forceMulti = true then QgsWkbTypes.multiType layer.wkbType
        else layer.wkbType) ∧
    (args.overrideGeometryType ≠ .Unknown →
      (QgsWkbTypes.hasZ args.overrideGeometryType = true ∨ args.includeZ = true) →
      destinationWkbType layer args.overrideGeometryType args.forceMulti args.includeZ =
        if args.forceMulti = true then
          QgsWkbTypes.multiType (QgsWkbTypes.addZ (QgsWkbTypes.flatType args.overrideGeometryType))
        else QgsWkbTypes.addZ (QgsWkbTypes.flatType args.overrideGeometryType)) ∧
    (args.overrideGeometryType ≠ .Unknown →
      ¬(QgsWkbTypes.hasZ args.overrideGeometryType = true ∨ args.includeZ = true) →
      destinationWkbType layer args.overrideGeometryType args.forceMulti args.includeZ =
        if args.forceMulti = true then
          QgsWkbTypes.multiType (QgsWkbTypes.flatType args.overrideGeometryType)
        else QgsWkbTypes.flatType args.overrideGeometryType) ∧
    (layer.dataProvider = none → layer.providerType ≠ "spatialite" →
      (Writer.construct env args.fileName args.fileEncoding
        ((exportedAttributes layer args.skipAttributeCreation args.attributes).map
          (fun attrIdx => layer.fields.at attrIdx))
        (requestedGeometryType layer.wkbType args.overrideGeometryType args.forceMulti
          args.includeZ)
        (if args.ct.isValid then args.ct.destinationCrs else layer.crs) args.driverName
        args.datasourceOptions args.layerOptions args.newFilename args.symbologyExport
        args.fieldValueConverter).2.2 <+:
      (writeAsVectorFormat env (some layer) args).effects) := by
  have heq : destinationWkbType layer args.overrideGeometryType args.forceMulti args.includeZ =
      requestedGeometryType layer.wkbType args.overrideGeometryType args.forceMulti
        args.includeZ := by
    unfold destinationWkbType requestedGeometryType
    split_ifs <;> simp_all
  refine ⟨heq, ?_, ?_, ?_, ?_⟩
  · intro h1
    unfold destinationWkbType
    simp [h1]
  · intro h1 h2
    unfold destinationWkbType
    simp [h1, h2]
  · intro h1 h2
    unfold destinationWkbType
    simp [h1, h2]
  · intro hprov hsl
    rw [← heq]
    exact writeAsVectorFormat_constructs_with_destination_type env layer args hprov hsl

/-! ## The forced-Z flag -/

/-- The multi variant of a geometry type has a Z dimension exactly when the type has. -/
theorem hasZ_multiType (t : WkbType) :
    QgsWkbTypes.hasZ (QgsWkbTypes.multiType t) = QgsWkbTypes.hasZ t := by
  cases t <;> rfl

/-- Adding Z to the flat type of a geometry type other than `Unknown` and `NoGeometry` gives a
type with a Z dimension. -/
theorem hasZ_addZ_flatType (t : WkbType) (h1 : t ≠ .Unknown) (h2 : t ≠ .NoGeometry) :
    QgsWkbTypes.hasZ (QgsWkbTypes.addZ (QgsWkbTypes.flatType t)) = true := by
  cases t <;> first | rfl | exact absurd rfl h1 | exact absurd rfl h2

/-- Taking the multi variant of a geometry type twice is taking it once. -/
theorem multiType_multiType (t : WkbType) :
    QgsWkbTypes.multiType (QgsWkbTypes.multiType t) = QgsWkbTypes.multiType t := by
  cases t <;> rfl

/-- The geometry type handed to the constructor is the type computed from the override and the
flags or its multi variant. -/
theorem sessionWkbType_cases (layer : QgsVectorLayer) (args : WriteArgs) :
    sessionWkbType layer args =
        destinationWkbType layer args.overrideGeometryType args.forceMulti args.includeZ ∨
      sessionWkbType layer args = QgsWkbTypes.multiType
        (destinationWkbType layer args.overrideGeometryType args.forceMulti args.includeZ) := by
  unfold sessionWkbType
  simp only []
  split
  · exact Or.inr rfl
  · exact Or.inl rfl

/-- The calls of `writeAsVectorFormat` for a layer: none at all when the export is refused
because it would overwrite the source of the layer in place, and otherwise first those of the
construction of a writer for the fields `sessionFields` and the geometry type
`sessionWkbType`. -/
theorem writeAsVectorFormat_constructs_with_session_type (env : Env)
    (layer : QgsVectorLayer) (args : WriteArgs) :
    ((writeAsVectorFormat env (some layer) args).outcome = .returned .ErrCreateDataSource ∧
      (writeAsVectorFormat env (some layer) args).effects = []) ∨
    (Writer.construct env args.fileName args.fileEncoding (sessionFields layer args)
      (sessionWkbType layer args)
      (if args.ct.isValid then args.ct.destinationCrs else layer.crs) args.driverName
      args.datasourceOptions args.layerOptions args.newFilename args.symbologyExport
      args.fieldValueConverter).2.2 <+:
    (writeAsVectorFormat env (some layer) args).effects := by
  unfold writeAsVectorFormat sessionWkbType sessionFields
  simp only []
  cases hp : layer.dataProvider with
  | none =>
    simp only [Option.isSome_none, Bool.false_eq_true, false_and, and_false, if_false,
      Option.isNone_none, true_and]
    apply Or.inr
    repeat' split
    all_goals first
      | exact List.prefix_append _ _
      | exact List.prefix_refl _
      | (rw [List.append_assoc]; exact List.prefix_append _ _)
  | some p =>
    by_cases ho : layer.providerType = "ogr"
    · simp only [ho, if_true, Option.isSome_some, true_and, Option.isNone_some,
        Bool.false_eq_true, false_and, if_false]
      split
      · exact Or.inl ⟨rfl, rfl⟩
      · apply Or.inr
        repeat' split
        all_goals first
          | exact List.prefix_append _ _
          | exact List.prefix_refl _
          | (rw [List.append_assoc]; exact List.prefix_append _ _)
    · simp only [ho, if_false, Option.isSome_none, Bool.false_eq_true, false_and, and_false,
        Option.isNone_none, true_and]
      apply Or.inr
      repeat' split
      all_goals first
        | exact List.prefix_append _ _
        | exact List.prefix_refl _
        | (rw [List.append_assoc]; exact List.prefix_append _ _)

/-- C21, amended: the forced-Z flag acts on a geometry-type override only.  With an override
other than `Unknown` and `NoGeometry` and `includeZ` set, the destination geometry type that
`writeAsVectorFormat` hands to the constructor of the writer has a Z dimension: it is the flat
type of the override with Z added, or the multi variant of that type.  Without an override it
is the type of the source layer or its multi variant, and has a Z dimension exactly when the
type of the source layer has, whatever `includeZ` is.  This holds for every source layer, with
or without data provider: unless the export is refused because it would overwrite the source of
the layer in place, the calls of `writeAsVectorFormat` start with those of the construction of
a writer for this type. -/
theorem forced_z_applies_to_override_only (env : Env) (layer : QgsVectorLayer)
    (args : WriteArgs) :
    (args.overrideGeometryType ≠ .Unknown → args.overrideGeometryType ≠ .NoGeometry →
      args.includeZ = true →
      QgsWkbTypes.hasZ (sessionWkbType layer args) = true ∧
      (sessionWkbType layer args =
          QgsWkbTypes.addZ (QgsWkbTypes.flatType args.overrideGeometryType) ∨
        sessionWkbType layer args = QgsWkbTypes.multiType
          (QgsWkbTypes.addZ (QgsWkbTypes.flatType args.overrideGeometryType)))) ∧
    (args.overrideGeometryType = .Unknown →
      QgsWkbTypes.hasZ (sessionWkbType layer args) = QgsWkbTypes.hasZ layer.wkbType ∧
      (sessionWkbType layer args = layer.wkbType ∨
        sessionWkbType layer args = QgsWkbTypes.multiType layer.wkbType)) ∧
    (((writeAsVectorFormat env (some layer) args).outcome = .returned .ErrCreateDataSource ∧
        (writeAsVectorFormat env (some layer) args).effects = []) ∨
      (Writer.construct env args.fileName args.fileEncoding (sessionFields layer args)
        (sessionWkbType layer args)
        (if args.ct.isValid then args.ct.destinationCrs else layer.crs) args.driverName
        args.datasourceOptions args.layerOptions args.newFilename args.symbologyExport
        args.fieldValueConverter).2.2 <+:
      (writeAsVectorFormat env (some layer) args).effects) := by
  refine ⟨?_, ?_, writeAsVectorFormat_constructs_with_session_type env layer args⟩
  · intro h1 h2 hz
    have hd : destinationWkbType layer args.overrideGeometryType args.forceMulti args.includeZ
          = QgsWkbTypes.addZ (QgsWkbTypes.flatType args.overrideGeometryType) ∨
        destinationWkbType layer args.overrideGeometryType args.forceMulti args.includeZ
          = QgsWkbTypes.multiType
            (QgsWkbTypes.addZ (QgsWkbTypes.flatType args.overrideGeometryType)) := by
      unfold destinationWkbType
      simp only [ne_eq, h1, not_false_eq_true, if_true, hz, or_true]
      split
      · exact Or.inr rfl
      · exact Or.inl rfl
    have hcases : sessionWkbType layer args =
          QgsWkbTypes.addZ (QgsWkbTypes.flatType args.overrideGeometryType) ∨
        sessionWkbType layer args = QgsWkbTypes.multiType
          (QgsWkbTypes.addZ (QgsWkbTypes.flatType args.overrideGeometryType)) := by
      rcases sessionWkbType_cases layer args with hs | hs <;> rcases hd with hd | hd
      · exact Or.inl (hs.trans hd)
      · exact Or.inr (hs.trans hd)
      · exact Or.inr (hs.trans (by rw [hd]))
      · exact Or.inr (hs.trans (by rw [hd, multiType_multiType]))
    refine ⟨?_, hcases⟩
    rcases hcases with hs | hs
    · rw [hs]
      exact hasZ_addZ_flatType _ h1 h2
    · rw [hs, hasZ_multiType]
      exact hasZ_addZ_flatType _ h1 h2
  · intro h1
    have hd : destinationWkbType layer args.overrideGeometryType args.forceMulti args.includeZ
          = layer.wkbType ∨
        destinationWkbType layer args.overrideGeometryType args.forceMulti args.includeZ
          = QgsWkbTypes.multiType layer.wkbType := by
      unfold destinationWkbType
      simp only [ne_eq, h1, not_true_eq_false, if_false]
      split
      · exact Or.inr rfl
      · exact Or.inl rfl
    have hcases : sessionWkbType layer args = layer.wkbType ∨
        sessionWkbType layer args = QgsWkbTypes.multiType layer.wkbType := by
      rcases sessionWkbType_cases layer args with hs | hs <;> rcases hd with hd | hd
      · exact Or.inl (hs.trans hd)
      · exact Or.inr (hs.trans hd)
      · exact Or.inr (hs.trans (by rw [hd]))
      · exact Or.inr (hs.trans (by rw [hd, multiType_multiType]))
    refine ⟨?_, hcases⟩
    rcases hcases with hs | hs
    · rw [hs]
    · rw [hs, hasZ_multiType]

/-- Witness of C21, amended: an export of a shapefile layer of the OGR provider that holds a
multi-polygon, with the override `LineString` and `includeZ` set, hands the constructor the
type `MultiLineStringZ`, which has a Z dimension, and creates the output layer with the OGR
geometry type `wkbMultiLineString25D`. -/
theorem forced_z_applies_to_override_only_witness :
    (QgsWkbTypes.hasZ (sessionWkbType shapefileLayer forcedZArgs) = true ∧
      (sessionWkbType shapefileLayer forcedZArgs =
          QgsWkbTypes.addZ (QgsWkbTypes.flatType forcedZArgs.overrideGeometryType) ∨
        sessionWkbType shapefileLayer forcedZArgs = QgsWkbTypes.multiType
          (QgsWkbTypes.addZ (QgsWkbTypes.flatType forcedZArgs.overrideGeometryType)))) ∧
    shapefileLayer.dataProvider = some ⟨"in.shp"⟩ ∧
    sessionWkbType shapefileLayer forcedZArgs = .MultiLineStringZ ∧
    ogrTypeFromWkbType .MultiLineStringZ = 0x80000005 ∧
    Effect.createLayer "out" 0x80000005 [] true ∈
      (writeAsVectorFormat (exampleEnv exampleDriver) (some shapefileLayer)
        forcedZArgs).effects :=
  ⟨(forced_z_applies_to_override_only (exampleEnv exampleDriver) shapefileLayer
      forcedZArgs).1 (by decide) (by decide) rfl,
    rfl, by decide, by decide, by decide⟩

/-- Counterexample to C21: an export of a polygon layer without a geometry-type override and
with `includeZ` set hands the constructor the type `Polygon`, which has no Z dimension, and
creates the output layer with the OGR geometry type of `Polygon`. -/
theorem forced_z_ignored_without_override :
    ({ exampleArgs with includeZ := true } : WriteArgs).includeZ = true ∧
    destinationWkbType (exampleLayer []) .Unknown false true = .Polygon ∧
    sessionWkbType (exampleLayer []) { exampleArgs with includeZ := true } = .Polygon ∧
    QgsWkbTypes.hasZ (sessionWkbType (exampleLayer []) { exampleArgs with includeZ := true })
      = false ∧
    Effect.createLayer "out" (ogrTypeFromWkbType .Polygon) [] true ∈
      (writeAsVectorFormat (exampleEnv exampleDriver) (some (exampleLayer []))
        { exampleArgs with includeZ := true }).effects := by
  refine ⟨rfl, by decide, by decide, by decide, by decide⟩

/-! ## Transform failures in the export ordered by symbol levels -/

theorem initField_keepsMode (env : Env) (poDriver : OGRSFDriver) (fields : QgsFields)
    (fieldValueConverter : Option FieldValueConverter) (fldIdx : Int) (existingIdxs : QSetInt)
    (layer : OGRLayer) (w : Writer) (s : SymbologyExport) (h : w.KeepsMode s) :
    (initField env poDriver fields fieldValueConverter fldIdx existingIdxs layer w).1.KeepsMode
      s := by
  obtain ⟨h1, h2⟩ := h
  unfold initField
  simp only []
  repeat' split
  all_goals exact ⟨h1, by first | exact h2 | simp⟩

theorem initFields_keepsMode (env : Env) (poDriver : OGRSFDriver) (fields : QgsFields)
    (fieldValueConverter : Option FieldValueConverter) (s : SymbologyExport) (todo : Nat) :
    ∀ (fldIdx : Int) (existingIdxs : QSetInt) (layer : OGRLayer) (w : Writer), w.KeepsMode s →
      (initFields env poDriver fields fieldValueConverter todo fldIdx existingIdxs layer
        w).1.KeepsMode s := by
  induction todo with
  | zero => intro _ _ _ w h; exact h
  | succ n ih =>
    intro fldIdx existingIdxs layer w h
    have hf := initField_keepsMode env poDriver fields fieldValueConverter fldIdx existingIdxs
      layer w s h
    unfold initFields
    split
    · rename_i heq
      rw [heq] at hf
      exact hf
    · rename_i heq
      rw [heq] at hf
      exact ih _ _ _ _ hf

theorem initAttributes_keepsMode (env : Env) (poDriver : OGRSFDriver) (w : Writer)
    (fields : QgsFields) (geometryType : WkbType)
    (fieldValueConverter : Option FieldValueConverter) (layer : OGRLayer) (s : SymbologyExport)
    (h : w.KeepsMode s) :
    (initAttributes env poDriver w fields geometryType fieldValueConverter layer).1.KeepsMode
      s := by
  unfold initAttributes
  simp only []
  split
  · exact initFields_keepsMode _ _ _ _ _ _ _ _ _ _ (by exact h)
  · split
    · exact ⟨(initFields_keepsMode _ _ _ _ _ _ _ _ _ _ (by exact h)).1,
        (initFields_keepsMode _ _ _ _ _ _ _ _ _ _ (by exact h)).2⟩
    · exact ⟨(initFields_keepsMode _ _ _ _ _ _ _ _ _ _ (by exact h)).1,
        (initFields_keepsMode _ _ _ _ _ _ _ _ _ _ (by exact h)).2⟩

theorem initDataSource_keepsMode (env : Env) (poDriver : OGRSFDriver) (w : Writer)
    (vectorFileName fileEncoding : String) (fields : QgsFields) (geometryType : WkbType)
    (srs : QgsCoordinateReferenceSystem) (datasourceOptions layerOptions : List String)
    (newFilename : Bool) (fieldValueConverter : Option FieldValueConverter)
    (effects : List Effect) (s : SymbologyExport) (h : w.KeepsMode s) :
    (initDataSource env poDriver w vectorFileName fileEncoding fields geometryType srs
      datasourceOptions layerOptions newFilename fieldValueConverter effects).1.KeepsMode s := by
  obtain ⟨h1, h2⟩ := h
  unfold initDataSource
  simp only []
  split
  · exact ⟨h1, by simp⟩
  · split
    · by_cases hs : srs.isValid = true <;> simp [Writer.KeepsMode, hs, h1]
    · apply initAttributes_keepsMode
      by_cases hs : srs.isValid = true <;> simp [Writer.KeepsMode, hs, h1, h2]

/-- A constructed writer has the symbology mode it was constructed with, and its error state is
never `ErrProjection`. -/
theorem construct_keepsMode (env : Env) (vectorFileName fileEncoding : String)
    (fields : QgsFields) (geometryType : WkbType) (srs : QgsCoordinateReferenceSystem)
    (driverName : String) (datasourceOptions layerOptions : List String) (newFilename : Bool)
    (symbologyExport : SymbologyExport) (fieldValueConverter : Option FieldValueConverter) :
    (Writer.construct env vectorFileName fileEncoding fields geometryType srs driverName
      datasourceOptions layerOptions newFilename symbologyExport
      fieldValueConverter).1.KeepsMode symbologyExport := by
  unfold Writer.construct init
  simp only []
  split
  · exact ⟨rfl, by simp⟩
  · split
    · exact ⟨rfl, by simp⟩
    · split
      · exact ⟨rfl, by simp⟩
      · apply initDataSource_keepsMode
        exact ⟨rfl, by simp [Writer.initial]⟩

/-- When the transform of a fetched feature throws, `exportFeaturesSymbolLevels` returns
`ErrProjection` and puts its message behind a supplied sink. -/
theorem exportFeaturesSymbolLevels_projection (env : Env) (w : Writer) (layer : QgsVectorLayer)
    (r : QgsFeatureRenderer) (fit : List QgsFeature) (ct : QgsCoordinateTransform)
    (errorMessage : Option String) (what : String) (hr : layer.renderer = some r)
    (hfail : fetchBySymbol ct r fit [] = .error what) :
    (exportFeaturesSymbolLevels env w layer fit ct errorMessage).error = .ErrProjection ∧
    (exportFeaturesSymbolLevels env w layer fit ct errorMessage).errorMessage =
      errorMessage.map (fun _ =>
        tr "Failed to transform, writing stopped. (Exception: " ++ what ++ ")") := by
  unfold exportFeaturesSymbolLevels
  simp [hr, hfail]

/-- C22: in the path of `writeAsVectorFormat` that exports by symbol levels (symbology mode
`SymbolLayerSymbology`, a renderer that has and uses symbol levels) the call never returns
`ErrProjection`.  When the transform of a fetched feature throws, `exportFeaturesSymbolLevels`
returns `ErrProjection` and sets the message, but `writeAsVectorFormat` turns every result
other than `NoError` into `ErrFeatureWriteFailed`. -/
theorem symbol_level_export_never_returns_projection_error (env : Env)
    (layer : QgsVectorLayer) (args : WriteArgs) (r : QgsFeatureRenderer)
    (hmode : args.symbologyExport = .SymbolLayerSymbology)
    (hr : layer.renderer = some r) (hcap : r.capabilitiesSymbolLevels = true)
    (huse : r.usingSymbolLevels = true) :
    (writeAsVectorFormat env (some layer) args).outcome ≠ .returned .ErrProjection ∧
    ∀ (w : Writer) (fit : List QgsFeature) (errorMessage : Option String) (what : String),
      fetchBySymbol args.ct r fit [] = .error what →
      (exportFeaturesSymbolLevels env w layer fit args.ct errorMessage).error
        = .ErrProjection := by
  refine ⟨?_, fun w fit errorMessage what hfail =>
    (exportFeaturesSymbolLevels_projection env w layer r fit args.ct errorMessage what hr
      hfail).1⟩
  have hk1 : ∀ fields T srs, (Writer.construct env args.fileName args.fileEncoding fields T srs
      args.driverName args.datasourceOptions args.layerOptions args.newFilename
      args.symbologyExport args.fieldValueConverter).1.mSymbologyExport
        = .SymbolLayerSymbology := fun _ _ _ => (construct_keepsMode _ _ _ _ _ _ _ _ _ _ _ _).1.trans hmode
  have hk2 : ∀ fields T srs, (Writer.construct env args.fileName args.fileEncoding fields T srs
      args.driverName args.datasourceOptions args.layerOptions args.newFilename
      args.symbologyExport args.fieldValueConverter).1.mError ≠ .ErrProjection :=
    fun _ _ _ => (construct_keepsMode _ _ _ _ _ _ _ _ _ _ _ _).2
  unfold writeAsVectorFormat
  simp only [Writer.symbologyExport, Writer.setSymbologyScaleDenominator, Writer.hasError, hk1,
    hr, Option.map_some', hcap, huse, Bool.and_self, if_true]
  repeat' split
  all_goals
    intro h
    injection h with h
    first
      | exact hk2 _ _ _ h
      | cases h

/-- Witness of C22: an export by symbol levels of one feature through a transform that throws.
The inner call returns `ErrProjection`; `writeAsVectorFormat` returns
`ErrFeatureWriteFailed`. -/
theorem symbol_level_export_never_returns_projection_error_witness :
    (writeAsVectorFormat (exampleEnv exampleDriver)
        (some (levelLayer exampleSymbol [exampleFeature]))
        { levelArgs with ct := failingTransform }).outcome ≠ .returned .ErrProjection ∧
    (exportFeaturesSymbolLevels (exampleEnv exampleDriver)
        (symbologyWriter exampleDriver .SymbolLayerSymbology)
        (levelLayer exampleSymbol [exampleFeature]) [exampleFeature] failingTransform
        (some "")).error = .ErrProjection ∧
    (writeAsVectorFormat (exampleEnv exampleDriver)
        (some (levelLayer exampleSymbol [exampleFeature]))
        { levelArgs with ct := failingTransform }).outcome
      = .returned .ErrFeatureWriteFailed ∧
    (writeAsVectorFormat (exampleEnv exampleDriver)
        (some (levelLayer exampleSymbol [exampleFeature]))
        { levelArgs with ct := failingTransform }).errorMessage
      = some "Failed to transform, writing stopped. (Exception: forward transform failed)" :=
  have h := symbol_level_export_never_returns_projection_error (exampleEnv exampleDriver)
    (levelLayer exampleSymbol [exampleFeature]) { levelArgs with ct := failingTransform }
    (levelRenderer exampleSymbol) rfl rfl rfl rfl
  ⟨h.1, h.2 (symbologyWriter exampleDriver .SymbolLayerSymbology) [exampleFeature] (some "")
    "forward transform failed" rfl, by decide, by decide⟩

/-! ## Metadata of the format names that `init` resolves -/

/-- C27: of the format names that `init` and `ogrDriverList` treat as names of formats,
`ESRI Shapefile`, `MapInfo File`, `MapInfo MIF` and `SpatiaLite` have metadata with the file
extensions `shp`, `tab`, `mif` and `sqlite`.  For `DBF file` the lookup `driverMetadata` fails:
the entry of that format is stored under the key and long name `DBF File`, which do not start
with `DBF file`; under the name `DBF File` the entry with the extension `dbf` is found. -/
theorem driverMetadata_fails_for_dbf_format_name (GDAL_VERSION_NUM : Nat) :
    (driverMetadata GDAL_VERSION_NUM "ESRI Shapefile").map (fun m => m.ext) = some "shp" ∧
    (driverMetadata GDAL_VERSION_NUM "MapInfo File").map (fun m => m.ext) = some "tab" ∧
    (driverMetadata GDAL_VERSION_NUM "MapInfo MIF").map (fun m => m.ext) = some "mif" ∧
    (driverMetadata GDAL_VERSION_NUM "SpatiaLite").map (fun m => m.ext) = some "sqlite" ∧
    resolvedDriverName "DBF file" = "ESRI Shapefile" ∧
    (driverMetadata GDAL_VERSION_NUM "DBF file").map (fun m => m.ext) = none ∧
    (driverMetadata GDAL_VERSION_NUM "DBF File").map (fun m => m.ext) = some "dbf" := by
  have h2 : (["ESRI Shapefile", "MapInfo File", "MapInfo MIF", "SpatiaLite", "DBF file",
      "DBF File"].map (fun n => (driverMetadata 2000000 n).map (fun m => m.ext))) =
      [some "shp", some "tab", some "mif", some "sqlite", none, some "dbf"] := by decide
  have h0 : (["ESRI Shapefile", "MapInfo File", "MapInfo MIF", "SpatiaLite", "DBF file",
      "DBF File"].map (fun n => (driverMetadata 0 n).map (fun m => m.ext))) =
      [some "shp", some "tab", some "mif", some "sqlite", none, some "dbf"] := by decide
  have h : (["ESRI Shapefile", "MapInfo File", "MapInfo MIF", "SpatiaLite", "DBF file",
      "DBF File"].map (fun n => (driverMetadata GDAL_VERSION_NUM n).map (fun m => m.ext))) =
      [some "shp", some "tab", some "mif", some "sqlite", none, some "dbf"] := by
    unfold driverMetadata at h2 h0 ⊢
    rcases initMetaData_cases GDAL_VERSION_NUM with h | h
    · rw [h]
      exact h2
    · rw [h]
      exact h0
  simp only [List.map_cons, List.map_nil, List.cons.injEq, and_true] at h
  obtain ⟨a, b, c, d, e, f⟩ := h
  exact ⟨a, b, c, d, by decide, e, f⟩

/-! ## Creation and destruction of output records -/

/-- C26: two paths on which a created output record is not destroyed exactly once.  In
`addFeature` for a feature with an attribute value of a type `createFeature` does not handle (a
boolean), the record 0 is allocated with `OGR_F_Create` and `createFeature` returns a null record
without destroying it, so `addFeature` returns `false` and the record is never destroyed.  In
`exportFeaturesSymbolLevels` with a driver that rejects the commit, `writeFeature` destroys the
record 0 and the loop body destroys it again. -/
theorem record_leaked_or_destroyed_twice :
    (addFeature (exampleEnv exampleDriver) (exampleWriter exampleDriver .Polygon) booleanFeature
      none .DistanceMeters).1 = false ∧
    createdHandles (addFeature (exampleEnv exampleDriver) (exampleWriter exampleDriver .Polygon)
      booleanFeature none .DistanceMeters).2.2 = [0] ∧
    destroyCount 0 (addFeature (exampleEnv exampleDriver) (exampleWriter exampleDriver .Polygon)
      booleanFeature none .DistanceMeters).2.2 = 0 ∧
    createdHandles (ogrCalls (exportFeaturesSymbolLevels (exampleEnv rejectingDriver)
      (symbologyWriter rejectingDriver .SymbolLayerSymbology)
      (levelLayer exampleSymbol [exampleFeature]) [exampleFeature]
      QgsCoordinateTransform.invalid (some "")).effects) = [0] ∧
    (committedRecords (ogrCalls (exportFeaturesSymbolLevels (exampleEnv rejectingDriver)
      (symbologyWriter rejectingDriver .SymbolLayerSymbology)
      (levelLayer exampleSymbol [exampleFeature]) [exampleFeature]
      QgsCoordinateTransform.invalid (some "")).effects)).map (fun c => (c.1.handle, c.2))
        = [(0, false)] ∧
    destroyCount 0 (ogrCalls (exportFeaturesSymbolLevels (exampleEnv rejectingDriver)
      (symbologyWriter rejectingDriver .SymbolLayerSymbology)
      (levelLayer exampleSymbol [exampleFeature]) [exampleFeature]
      QgsCoordinateTransform.invalid (some "")).effects) = 2 := by
  refine ⟨by decide, by decide, by decide, by decide, by decide, by decide⟩

/-! ## The counters of the export ordered by symbol levels -/

/-- C28: an export by symbol levels of a layer without features whose renderer has one symbol
with a symbol layer in the rendering pass 0.  The level item of the symbol finds no features
in the hash, which increments `nErrors` but not `nTotalFeatures`: at the end `nErrors` is 1 and
`nTotalFeatures` is 0, the call returns `ErrFeatureWriteFailed` and reports -1 of 0 features
written, although no record was created and no commit was attempted. -/
theorem symbol_without_features_counts_as_error :
    (exportFeaturesSymbolLevels (exampleEnv exampleDriver)
      (symbologyWriter exampleDriver .SymbolLayerSymbology) (levelLayer exampleSymbol []) []
      QgsCoordinateTransform.invalid (some "")).nErrors = 1 ∧
    (exportFeaturesSymbolLevels (exampleEnv exampleDriver)
      (symbologyWriter exampleDriver .SymbolLayerSymbology) (levelLayer exampleSymbol []) []
      QgsCoordinateTransform.invalid (some "")).nTotalFeatures = 0 ∧
    (exportFeaturesSymbolLevels (exampleEnv exampleDriver)
      (symbologyWriter exampleDriver .SymbolLayerSymbology) (levelLayer exampleSymbol []) []
      QgsCoordinateTransform.invalid (some "")).error = .ErrFeatureWriteFailed ∧
    (exportFeaturesSymbolLevels (exampleEnv exampleDriver)
      (symbologyWriter exampleDriver .SymbolLayerSymbology) (levelLayer exampleSymbol []) []
      QgsCoordinateTransform.invalid (some "")).errorMessage
        = some "\nOnly -1 of 0 features written." ∧
    createdHandles (ogrCalls (exportFeaturesSymbolLevels (exampleEnv exampleDriver)
      (symbologyWriter exampleDriver .SymbolLayerSymbology) (levelLayer exampleSymbol []) []
      QgsCoordinateTransform.invalid (some "")).effects) = [] ∧
    committedRecords (ogrCalls (exportFeaturesSymbolLevels (exampleEnv exampleDriver)
      (symbologyWriter exampleDriver .SymbolLayerSymbology) (levelLayer exampleSymbol []) []
      QgsCoordinateTransform.invalid (some "")).effects) = [] ∧
    (writeAsVectorFormat (exampleEnv exampleDriver) (some (levelLayer exampleSymbol []))
      levelArgs).outcome = .returned .ErrFeatureWriteFailed := by
  refine ⟨by decide, by decide, by decide, by decide, by decide, by decide, by decide⟩

/-! ## 64-bit integer fields of a `spatialite` layer -/

/-- On the numbers a `qlonglong` holds, `qAbs` negates a negative number modulo 2^64 in
two's-complement representation. -/
theorem qAbs_eq_wrap (t : Int) (h1 : -9223372036854775808 ≤ t)
    (h2 : t ≤ 9223372036854775807) :
    qAbs t = if t ≥ 0 then t
      else (-t + 9223372036854775808) % 18446744073709551616 - 9223372036854775808 := by
  unfold qAbs
  split_ifs <;> omega

/-- The loop of `writeAsVectorFormat` over the exported fields of a `spatialite` layer decides
for the field at the position `k` by the minimum and maximum of the layer attribute `i + k`,
where `i` is the index the loop starts with. -/
theorem narrowSpatialiteFields_getElem? (layer : QgsVectorLayer) (fields : List QgsField) :
    ∀ (i : Int) (k : Nat), (narrowSpatialiteFields layer fields i)[k]? =
      fields[k]?.map (fun fld =>
        if fld.type = .LongLong ∧
            max (qAbs (layer.minimumValue (i + k)).toLongLong)
              (qAbs (layer.maximumValue (i + k)).toLongLong) < 2147483647 then
          { fld with type := .Int }
        else fld) := by
  induction fields with
  | nil => intro i k; simp [narrowSpatialiteFields]
  | cons fld rest ih =>
    intro i k
    cases k with
    | zero => simp [narrowSpatialiteFields]
    | succ k =>
      simp only [narrowSpatialiteFields, List.getElem?_cons_succ]
      rw [ih (i + 1) k]
      have h : i + 1 + (k : Int) = i + ((k + 1 : Nat) : Int) := by push_cast; ring
      rw [h]

/-- C30: the loop of `writeAsVectorFormat` for a `spatialite` layer decides for the exported
field at the position `k` by the minimum and maximum of the layer attribute `k`, not of the
attribute the field was copied from.  In an export of the attribute 1 alone of a layer whose
attribute 0 holds values from 1 to 5 and whose 64-bit attribute 1 holds values up to
9000000000, the exported field `n` is redeclared as a 32-bit integer field and created as
one. -/
theorem spatialite_field_narrowed_by_position (layer : QgsVectorLayer)
    (fields : List QgsField) (k : Nat) :
    (narrowSpatialiteFields layer fields 0)[k]? =
      fields[k]?.map (fun fld =>
        if fld.type = .LongLong ∧
            max (qAbs (layer.minimumValue k).toLongLong)
              (qAbs (layer.maximumValue k).toLongLong) < 2147483647 then
          { fld with type := .Int }
        else fld) ∧
    (exportedAttributes spatialiteLayer false [1]).map (fun i => spatialiteLayer.fields.at i)
      = [⟨"n", .LongLong, "int8", 0, 0⟩] ∧
    (spatialiteLayer.minimumValue 1).toLongLong = 0 ∧
    (spatialiteLayer.maximumValue 1).toLongLong = 9000000000 ∧
    narrowSpatialiteFields spatialiteLayer [⟨"n", .LongLong, "int8", 0, 0⟩] 0
      = [⟨"n", .Int, "int8", 0, 0⟩] ∧
    createdFields (writeAsVectorFormat (exampleEnv exampleDriver) (some spatialiteLayer)
      { exampleArgs with attributes := [1] }).effects = [(⟨"n", .OFTInteger, 10, 0⟩, true)] := by
  refine ⟨?_, by decide, by decide, by decide, by decide, by decide⟩
  have h := narrowSpatialiteFields_getElem? layer fields 0 k
  simpa using h

/-! ## The transaction around the loop "write all features" -/

theorem transactionCalls_append (a b : List Effect) :
    transactionCalls (a ++ b) = transactionCalls a ++ transactionCalls b := by
  induction a with
  | nil => rfl
  | cons e rest ih => cases e <;> simp [transactionCalls, ih]

theorem transactionCalls_ogr (calls : List OgrCall) :
    transactionCalls (calls.map Effect.ogr) = [] := by
  induction calls with
  | nil => rfl
  | cons c rest ih => simp [transactionCalls, ih]

/-- The body of the loop "write all features" makes no transaction call. -/
theorem writeLoopBody_transactionCalls (env : Env) (args : WriteArgs) (layer : QgsVectorLayer)
    (shallTransform : Bool) (attributes : List Int) (mapUnits : DistanceUnit) (fet : QgsFeature)
    (st : WriteLoop) :
    transactionCalls
      (writeLoopBody env args layer shallTransform attributes mapUnits fet st).effects =
      transactionCalls st.effects := by
  unfold writeLoopBody
  split
  · simp [transactionCalls_append, transactionCalls]
  · rfl
  · simp only []
    split
    · split <;> simp [transactionCalls_append, transactionCalls, transactionCalls_ogr]
    · simp [transactionCalls_append, transactionCalls, transactionCalls_ogr]

/-- The loop "write all features" makes no transaction call. -/
theorem writeLoop_transactionCalls (env : Env) (args : WriteArgs) (layer : QgsVectorLayer)
    (shallTransform : Bool) (attributes : List Int) (mapUnits : DistanceUnit)
    (fit : List QgsFeature) (st : WriteLoop) :
    transactionCalls
      (writeLoop env args layer shallTransform attributes mapUnits fit st).effects =
      transactionCalls st.effects := by
  induction fit generalizing st with
  | nil => rfl
  | cons fet rest ih =>
    unfold writeLoop
    have hb := writeLoopBody_transactionCalls env args layer shallTransform attributes mapUnits
      fet st
    simp only []
    split
    · exact (ih _).trans hb
    · exact hb

/-- The calls `startRender` and `stopRender` are neither transaction calls nor calls of
`addFeature`. -/
theorem render_calls_plain (w : Writer) (layer : QgsVectorLayer) :
    transactionCalls (w.startRender layer) = [] ∧ addFeatureCalls (w.startRender layer) = [] ∧
    transactionCalls (w.stopRender layer) = [] ∧ addFeatureCalls (w.stopRender layer) = [] := by
  unfold Writer.startRender Writer.stopRender
  split <;> exact ⟨rfl, rfl, rfl, rfl⟩

/-! ## Commits and style strings of `addFeature` -/

theorem committedRecords_append (a b : List OgrCall) :
    committedRecords (a ++ b) = committedRecords a ++ committedRecords b := by
  induction a with
  | nil => rfl
  | cons c rest ih => cases c <;> simp [committedRecords, ih]

theorem Writer.SameSession.refl (w : Writer) : w.SameSession w := ⟨rfl, rfl, rfl, rfl⟩

theorem Writer.SameSession.trans {a b c : Writer} (h1 : a.SameSession b)
    (h2 : b.SameSession c) : a.SameSession c :=
  ⟨h1.1.trans h2.1, h1.2.1.trans h2.2.1, h1.2.2.1.trans h2.2.2.1, h1.2.2.2.trans h2.2.2.2⟩

/-- Records that agree in everything but their style string are equal once the style string is
set. -/
theorem OGRFeature.SameRecord.withStyle {a b : OGRFeature} (h : a.SameRecord b)
    (s : Option String) : { a with styleString := s } = { b with styleString := s } := by
  obtain ⟨h1, h2, h3, h4⟩ := h
  cases a
  cases b
  simp_all

/-- The attribute loop of `createFeature` commits nothing and leaves the session and the
style string of the record as they are. -/
theorem writeAttributes_session (env : Env) (feature : QgsFeature) (entries : List (Int × Int))
    (w : Writer) (poFeature : OGRFeature) :
    (writeAttributes env feature entries w poFeature).1.SameSession w ∧
    committedRecords (writeAttributes env feature entries w poFeature).2.2.2 = [] ∧
    (writeAttributes env feature entries w poFeature).2.1.styleString
      = poFeature.styleString := by
  induction entries generalizing poFeature with
  | nil => exact ⟨Writer.SameSession.refl w, rfl, rfl⟩
  | cons e rest ih =>
    obtain ⟨fldIdx, ogrField⟩ := e
    unfold writeAttributes
    simp only []
    split
    · exact ih _
    · split
      · obtain ⟨h1, h2, h3⟩ := ih
          { poFeature with fields := poFeature.fields ++ [(ogrField, by assumption)] }
        exact ⟨h1, by simpa [committedRecords] using h2, h3⟩
      · exact ih _
      · exact ⟨⟨rfl, rfl, rfl, rfl⟩, rfl, rfl⟩

/-- The geometry block of `createFeature` ends in one of the two ways of
`GeometryBlockResult`. -/
theorem setFeatureGeometry_result (env : Env) (poDriver : OGRSFDriver) (feature : QgsFeature)
    (w : Writer) (poFeature : OGRFeature) :
    GeometryBlockResult env w poFeature
      (setFeatureGeometry env poDriver feature w poFeature) := by
  unfold setFeatureGeometry createEmptyGeometry
  simp only []
  repeat' split
  all_goals first
    | (apply Or.inl
       refine ⟨_, ?_, rfl⟩
       rfl)
    | (apply Or.inr
       refine ⟨_, _, _, ?_, ?_, rfl⟩
       · rfl
       · exact ⟨rfl, rfl, rfl, rfl⟩)

/-- The geometry block of `createFeature` commits nothing and leaves the session and the style
string of the record as they are. -/
theorem setFeatureGeometry_session (env : Env) (poDriver : OGRSFDriver) (feature : QgsFeature)
    (w : Writer) (poFeature : OGRFeature) :
    (setFeatureGeometry env poDriver feature w poFeature).2.1.SameSession w ∧
    committedRecords (setFeatureGeometry env poDriver feature w poFeature).2.2 = [] ∧
    ∀ rec, (setFeatureGeometry env poDriver feature w poFeature).1 = some rec →
      rec.styleString = poFeature.styleString := by
  rcases setFeatureGeometry_result env poDriver feature w poFeature with
    ⟨calls, hc, hr⟩ | ⟨g, w', calls, hc, hs, hr⟩
  · rw [hr]
    refine ⟨⟨rfl, rfl, rfl, rfl⟩, ?_, ?_⟩
    · simp [geometryNotImported, committedRecords_append, hc, committedRecords]
    · intro rec h
      simp [geometryNotImported] at h
  · rw [hr]
    refine ⟨hs, hc, ?_⟩
    intro rec h
    simp only [Option.some.injEq] at h
    subst h
    rfl

/-- The method `createFeature` commits nothing, leaves the session as it is, and returns a
record without style string. -/
theorem createFeature_session (env : Env) (w : Writer) (feature : QgsFeature) :
    (createFeature env w feature).2.1.SameSession w ∧
    committedRecords (createFeature env w feature).2.2 = [] ∧
    ∀ rec, (createFeature env w feature).1 = some rec → rec.styleString = none := by
  unfold createFeature
  split
  · rename_i poDriver _ _ _
    simp only []
    unfold fillFeature
    simp only []
    obtain ⟨ha1, ha2, ha3⟩ := writeAttributes_session env feature w.mAttrIdxToOgrIdx.entries
      { w with nextHandle := w.nextHandle + 1 } (newFeature poDriver w feature)
    have hn : committedRecords (newFeatureCalls poDriver w feature) = [] := by
      unfold newFeatureCalls
      split <;> rfl
    have hw : ({ w with nextHandle := w.nextHandle + 1 } : Writer).SameSession w :=
      ⟨rfl, rfl, rfl, rfl⟩
    split
    · refine ⟨ha1.trans hw, ?_, ?_⟩
      · simp [committedRecords_append, hn, ha2]
      · intro rec h
        cases h
    · obtain ⟨hg1, hg2, hg3⟩ := setFeatureGeometry_session env poDriver feature
        (writeAttributes env feature w.mAttrIdxToOgrIdx.entries
          { w with nextHandle := w.nextHandle + 1 } (newFeature poDriver w feature)).1
        (writeAttributes env feature w.mAttrIdxToOgrIdx.entries
          { w with nextHandle := w.nextHandle + 1 } (newFeature poDriver w feature)).2.1
      refine ⟨hg1.trans (ha1.trans hw), ?_, ?_⟩
      · simp [committedRecords_append, hn, ha2, hg2]
      · intro rec h
        rw [hg3 rec h, ha3]
        rfl
  · exact ⟨Writer.SameSession.refl w, rfl, fun rec h => by cases h⟩

/-- The method `writeFeature` of a session with driver and layer makes one commit, of the
record it is given, and returns the result of that commit; the session stays as it is. -/
theorem writeFeature_commit (env : Env) (w : Writer) (poDriver : OGRSFDriver)
    (feature : OGRFeature) (hd : w.poDriver = some poDriver) (hl : w.mLayer.isSome = true) :
    (writeFeature env w feature).2.1.SameSession w ∧
    committedRecords (writeFeature env w feature).2.2
      = [(feature, (writeFeature env w feature).1)] ∧
    ((∀ layer rec, poDriver.createFeature layer rec = true) →
      (writeFeature env w feature).1 = true) := by
  obtain ⟨l, hl'⟩ := Option.isSome_iff_exists.mp hl
  unfold writeFeature
  split
  · rename_i d' l' hd' hl''
    rw [hd] at hd'
    cases hd'
    split
    · rename_i hf
      refine ⟨⟨rfl, by simp [hl], rfl, rfl⟩, rfl, fun h => ?_⟩
      rw [h] at hf
      cases hf
    · exact ⟨⟨rfl, by simp [hl], rfl, rfl⟩, rfl, fun _ => rfl⟩
  · rename_i hnone
    exact absurd hl' (hnone _ _ hd)

/-! ## The symbol loops of `addFeature` -/

/-- In the mode `SymbolLayerSymbology` the inner symbol loop of `addFeature`, run for a session
with driver and layer, keeps the session, the record (up to its style string) and the collected
style string; when it ends without a failed commit, it has committed the record once for each
symbol layer, tagged with the style string of that layer, every commit succeeding; and it ends
so when the driver accepts every record. -/
theorem addFeatureSymbolLayers_commits (env : Env) (w : Writer) (poDriver : OGRSFDriver)
    (p : OGRFeature) (symbol : QgsSymbol) (outputUnit : DistanceUnit) (firstSymbol : Bool)
    (hd : w.poDriver = some poDriver) (hl : w.mLayer.isSome = true)
    (hmode : w.mSymbologyExport = .SymbolLayerSymbology)
    (layers : List QgsSymbolLayer) (i : Nat) (st : StyleLoop)
    (hs : st.w.SameSession w) (hp : st.poFeature.SameRecord p) (hrun : st.failed = false) :
    (addFeatureSymbolLayers env symbol outputUnit firstSymbol layers i st).w.SameSession w ∧
    (addFeatureSymbolLayers env symbol outputUnit firstSymbol layers i st).poFeature.SameRecord
      p ∧
    (addFeatureSymbolLayers env symbol outputUnit firstSymbol layers i st).styleString
      = st.styleString ∧
    ((addFeatureSymbolLayers env symbol outputUnit firstSymbol layers i st).failed = false →
      committedRecords (addFeatureSymbolLayers env symbol outputUnit firstSymbol layers i
          st).calls =
        committedRecords st.calls ++ layers.map (fun l =>
          (({ p with styleString := some (layerStyle w outputUnit symbol l) } : OGRFeature),
            true))) ∧
    ((∀ layer rec, poDriver.createFeature layer rec = true) →
      (addFeatureSymbolLayers env symbol outputUnit firstSymbol layers i st).failed
        = false) := by
  induction layers generalizing i st with
  | nil => exact ⟨hs, hp, rfl, fun _ => by simp [addFeatureSymbolLayers], fun _ => hrun⟩
  | cons layer rest ih =>
    have hm : st.w.mSymbologyExport = .SymbolLayerSymbology := hs.2.2.1.trans hmode
    have hnf : ¬ st.w.mSymbologyExport = .FeatureSymbology := by
      rw [hm]
      exact fun h => SymbologyExport.noConfusion h
    have hsc : st.w.mSymbologyScaleDenominator = w.mSymbologyScaleDenominator := hs.2.2.2
    obtain ⟨hw1, hw2, hw3⟩ := writeFeature_commit env st.w poDriver
      { st.poFeature with styleString := some (layerStyle w outputUnit symbol layer) }
      (hs.1.trans hd) (hs.2.1.trans hl)
    have hpf : ({ st.poFeature with
        styleString := some (layerStyle w outputUnit symbol layer) } : OGRFeature) =
        { p with styleString := some (layerStyle w outputUnit symbol layer) } := hp.withStyle _
    unfold addFeatureSymbolLayers
    simp only [if_neg hnf, if_pos hm, hsc]
    simp only [layerStyle] at hw1 hw2 hw3 hpf
    split
    · rename_i hfail
      refine ⟨hw1.trans hs, ⟨hp.1, hp.2.1, hp.2.2.1, hp.2.2.2⟩, rfl,
        fun h => Bool.noConfusion h, fun hall => ?_⟩
      rw [hw3 hall] at hfail
      cases hfail
    · rename_i hfail
      have hok : (writeFeature env st.w { st.poFeature with
          styleString := some (layer.ogrFeatureStyle
            (mmScaleFactor w.mSymbologyScaleDenominator symbol.outputUnit outputUnit)
            (mapUnitScaleFactor w.mSymbologyScaleDenominator symbol.outputUnit
              outputUnit)) }).1 = true := by
        simpa using hfail
      obtain ⟨i1, i2, i3, i4, i5⟩ := ih (i + 1)
        ⟨(writeFeature env st.w { st.poFeature with
          styleString := some (layer.ogrFeatureStyle
            (mmScaleFactor w.mSymbologyScaleDenominator symbol.outputUnit outputUnit)
            (mapUnitScaleFactor w.mSymbologyScaleDenominator symbol.outputUnit
              outputUnit)) }).2.1,
          { st.poFeature with
            styleString := some (layer.ogrFeatureStyle
              (mmScaleFactor w.mSymbologyScaleDenominator symbol.outputUnit outputUnit)
              (mapUnitScaleFactor w.mSymbologyScaleDenominator symbol.outputUnit
                outputUnit)) },
          st.styleString,
          st.calls ++ [.F_SetStyleString st.poFeature.handle (layer.ogrFeatureStyle
              (mmScaleFactor w.mSymbologyScaleDenominator symbol.outputUnit outputUnit)
              (mapUnitScaleFactor w.mSymbologyScaleDenominator symbol.outputUnit
                outputUnit))] ++
            (writeFeature env st.w { st.poFeature with
              styleString := some (layer.ogrFeatureStyle
                (mmScaleFactor w.mSymbologyScaleDenominator symbol.outputUnit outputUnit)
                (mapUnitScaleFactor w.mSymbologyScaleDenominator symbol.outputUnit
                  outputUnit)) }).2.2,
          st.failed⟩
        (hw1.trans hs) ⟨hp.1, hp.2.1, hp.2.2.1, hp.2.2.2⟩ hrun
      refine ⟨i1, i2, i3, fun h => ?_, i5⟩
      rw [i4 h]
      rw [hpf] at hw2 hok
      simp [committedRecords_append, committedRecords, hw2, hok, hpf, layerStyle]

/-- In the mode `SymbolLayerSymbology` the symbol loop of `addFeature`, run for a session with
driver and layer, keeps the session, the record (up to its style string) and the collected
style string; when it ends without a failed commit, it has committed the record once for each
symbol layer of the symbols, in order, tagged with the style string of that layer, every commit
succeeding; and it ends so when the driver accepts every record. -/
theorem addFeatureSymbols_commits (env : Env) (w : Writer) (poDriver : OGRSFDriver)
    (p : OGRFeature) (outputUnit : DistanceUnit)
    (hd : w.poDriver = some poDriver) (hl : w.mLayer.isSome = true)
    (hmode : w.mSymbologyExport = .SymbolLayerSymbology)
    (symbols : List QgsSymbol) (firstSymbol : Bool) (st : StyleLoop)
    (hs : st.w.SameSession w) (hp : st.poFeature.SameRecord p) (hrun : st.failed = false) :
    (addFeatureSymbols env outputUnit symbols firstSymbol st).w.SameSession w ∧
    (addFeatureSymbols env outputUnit symbols firstSymbol st).poFeature.SameRecord p ∧
    (addFeatureSymbols env outputUnit symbols firstSymbol st).styleString = st.styleString ∧
    ((addFeatureSymbols env outputUnit symbols firstSymbol st).failed = false →
      committedRecords (addFeatureSymbols env outputUnit symbols firstSymbol st).calls =
        committedRecords st.calls ++ (symbolStyles w outputUnit symbols).map (fun f =>
          (({ p with styleString := some f } : OGRFeature), true))) ∧
    ((∀ layer rec, poDriver.createFeature layer rec = true) →
      (addFeatureSymbols env outputUnit symbols firstSymbol st).failed = false) := by
  induction symbols generalizing firstSymbol st with
  | nil => exact ⟨hs, hp, rfl, fun _ => by simp [addFeatureSymbols, symbolStyles], fun _ => hrun⟩
  | cons symbol rest ih =>
    obtain ⟨l1, l2, l3, l4, l5⟩ := addFeatureSymbolLayers_commits env w poDriver p symbol
      outputUnit firstSymbol hd hl hmode symbol.symbolLayers 0 st hs hp hrun
    unfold addFeatureSymbols
    simp only []
    split
    · rename_i hfail
      refine ⟨l1, l2, l3, fun h => ?_, l5⟩
      rw [hfail] at h
      cases h
    · rename_i hfail
      have hrun1 : (addFeatureSymbolLayers env symbol outputUnit firstSymbol
          symbol.symbolLayers 0 st).failed = false := by simpa using hfail
      obtain ⟨i1, i2, i3, i4, i5⟩ := ih false _ l1 l2 hrun1
      refine ⟨i1, i2, i3.trans l3, fun h => ?_, i5⟩
      rw [i4 h, l4 hrun1]
      simp [symbolStyles, List.map_append, List.append_assoc]

/-- In the mode `FeatureSymbology` the inner symbol loop of `addFeature`, when a separator
goes before the first layer, appends to the collected style string a separator and the style
string of each layer, and does nothing else. -/
theorem addFeatureSymbolLayers_appends (env : Env) (w : Writer) (symbol : QgsSymbol)
    (outputUnit : DistanceUnit) (firstSymbol : Bool) (layers : List QgsSymbolLayer) (i : Nat)
    (st : StyleLoop) (hmode : st.w.mSymbologyExport = .FeatureSymbology)
    (hsc : st.w.mSymbologyScaleDenominator = w.mSymbologyScaleDenominator)
    (hsep : firstSymbol = false ∨ i ≠ 0) :
    addFeatureSymbolLayers env symbol outputUnit firstSymbol layers i st =
      { st with styleString :=
        ((layers.map (layerStyle w outputUnit symbol)).foldl
          (fun joined g => joined ++ ";" ++ g) st.styleString) } := by
  induction layers generalizing i st with
  | nil => rfl
  | cons layer rest ih =>
    have hcond : (!firstSymbol) = true ∨ i ≠ 0 := by
      rcases hsep with h | h
      · exact Or.inl (by simp [h])
      · exact Or.inr h
    unfold addFeatureSymbolLayers
    simp only [if_pos hmode, if_pos hcond, hsc]
    refine (ih (i + 1) _ ?_ ?_ (Or.inr (Nat.succ_ne_zero i))).trans ?_
    · exact hmode
    · exact hsc
    · simp [layerStyle]

/-- In the mode `FeatureSymbology` the symbol loop of `addFeature`, entered after the first
symbol, appends to the collected style string a separator and the style string of each symbol
layer of the symbols, and does nothing else. -/
theorem addFeatureSymbols_appends (env : Env) (w : Writer) (outputUnit : DistanceUnit)
    (symbols : List QgsSymbol) (st : StyleLoop)
    (hmode : st.w.mSymbologyExport = .FeatureSymbology)
    (hsc : st.w.mSymbologyScaleDenominator = w.mSymbologyScaleDenominator)
    (hrun : st.failed = false) :
    addFeatureSymbols env outputUnit symbols false st =
      { st with styleString :=
        ((symbolStyles w outputUnit symbols).foldl
          (fun joined g => joined ++ ";" ++ g) st.styleString) } := by
  induction symbols generalizing st with
  | nil => rfl
  | cons symbol rest ih =>
    unfold addFeatureSymbols
    simp only []
    rw [addFeatureSymbolLayers_appends env w symbol outputUnit false symbol.symbolLayers 0 st
      hmode hsc (Or.inl rfl)]
    simp only [hrun, Bool.false_eq_true, if_false]
    refine (ih _ ?_ ?_ ?_).trans ?_
    · exact hmode
    · exact hsc
    · rfl
    · simp [symbolStyles, List.foldl_append, hrun]

/-- In the mode `FeatureSymbology` the symbol loop of `addFeature`, started with an empty style
string over symbols that have at least one symbol layer each, collects the style strings of
the symbol layers joined with `;`, and does nothing else. -/
theorem addFeatureSymbols_joins (env : Env) (w : Writer) (outputUnit : DistanceUnit)
    (symbols : List QgsSymbol) (st : StyleLoop)
    (hmode : st.w.mSymbologyExport = .FeatureSymbology)
    (hsc : st.w.mSymbologyScaleDenominator = w.mSymbologyScaleDenominator)
    (hrun : st.failed = false) (hempty : st.styleString = "")
    (hlayers : ∀ symbol ∈ symbols, symbol.symbolLayers ≠ []) :
    addFeatureSymbols env outputUnit symbols true st =
      { st with styleString := joinStyles (symbolStyles w outputUnit symbols) } := by
  cases symbols with
  | nil =>
    simp only [addFeatureSymbols, symbolStyles, joinStyles]
    rw [← hempty]
  | cons symbol rest =>
    obtain ⟨layer, layers, hsl⟩ := List.exists_cons_of_ne_nil
      (hlayers symbol (List.mem_cons_self _ _))
    have hfirst : addFeatureSymbolLayers env symbol outputUnit true symbol.symbolLayers 0 st =
        { st with styleString :=
          ((layers.map (layerStyle w outputUnit symbol)).foldl
            (fun joined g => joined ++ ";" ++ g) (layerStyle w outputUnit symbol layer)) } := by
      rw [hsl]
      unfold addFeatureSymbolLayers
      simp only [if_pos hmode, hsc]
      refine (addFeatureSymbolLayers_appends env w symbol outputUnit true layers 1 _ ?_ ?_
        (Or.inr (by decide))).trans ?_
      · exact hmode
      · exact hsc
      · simp [layerStyle, hempty]
    unfold addFeatureSymbols
    simp only []
    rw [hfirst]
    simp only [hrun, Bool.false_eq_true, if_false]
    refine (addFeatureSymbols_appends env w outputUnit rest _ ?_ ?_ ?_).trans ?_
    · exact hmode
    · exact hsc
    · rfl
    · simp [symbolStyles, hsl, joinStyles, List.foldl_append, hrun]

/-! ## The commits of `addFeature` in the three symbology modes -/

/-- C24 (amended): for a session with driver and layer whose driver accepts every record, a
renderer whose symbols for the feature have at least one symbol layer each, and a feature for
which `createFeature` returns a record `rec`: `addFeature` returns `true`, and the records it
commits are, in the mode `FeatureSymbology`, the record once, with the style strings of the
symbol layers joined with `;` as its style string; in the mode `SymbolLayerSymbology`, the
record once for each symbol layer, in order, with the style string of that layer; in the mode
`NoSymbology`, the record once, without style string. -/
theorem addFeature_commits_by_symbology_mode (env : Env) (w : Writer) (feature : QgsFeature)
    (renderer : QgsFeatureRenderer) (outputUnit : DistanceUnit) (poDriver : OGRSFDriver)
    (rec : OGRFeature)
    (hd : w.poDriver = some poDriver) (hl : w.mLayer.isSome = true)
    (hrec : (createFeature env w feature).1 = some rec)
    (hcommit : ∀ layer r, poDriver.createFeature layer r = true)
    (hlayers : ∀ symbol ∈ renderer.symbolsForFeature feature, symbol.symbolLayers ≠ []) :
    (addFeature env w feature (some renderer) outputUnit).1 = true ∧
    rec.styleString = none ∧
    (w.mSymbologyExport = .FeatureSymbology →
      committedRecords (addFeature env w feature (some renderer) outputUnit).2.2 =
        [({ rec with styleString := some (joinStyles
          (symbolStyles w outputUnit (renderer.symbolsForFeature feature))) }, true)]) ∧
    (w.mSymbologyExport = .SymbolLayerSymbology →
      committedRecords (addFeature env w feature (some renderer) outputUnit).2.2 =
        (symbolStyles w outputUnit (renderer.symbolsForFeature feature)).map (fun f =>
          (({ rec with styleString := some f } : OGRFeature), true))) ∧
    (w.mSymbologyExport = .NoSymbology →
      committedRecords (addFeature env w feature (some renderer) outputUnit).2.2 =
        [(rec, true)]) := by
  obtain ⟨hs, hc, hsty⟩ := createFeature_session env w feature
  rcases hcf : createFeature env w feature with ⟨o, w1, calls⟩
  rw [hcf] at hrec hs hc hsty
  simp only at hrec hs hc hsty
  subst hrec
  have hd1 : w1.poDriver = some poDriver := hs.1.trans hd
  have hl1 : w1.mLayer.isSome = true := hs.2.1.trans hl
  have hsc : w1.mSymbologyScaleDenominator = w.mSymbologyScaleDenominator := hs.2.2.2
  unfold addFeature
  rw [hcf]
  simp only []
  have hj := addFeatureSymbols_joins env w outputUnit (renderer.symbolsForFeature feature)
    ⟨w1, rec, "", calls, false⟩
  obtain ⟨hw1, hw2, hw3⟩ := writeFeature_commit env w1 poDriver
    { rec with styleString := some (joinStyles
        (symbolStyles w outputUnit (renderer.symbolsForFeature feature))) } hd1 hl1
  obtain ⟨hn1, hn2, hn3⟩ := writeFeature_commit env w1 poDriver rec hd1 hl1
  have hloop := addFeatureSymbols_commits env w poDriver rec outputUnit hd hl
  refine ⟨?_, hsty rec rfl, ?_, ?_, ?_⟩
  · cases hmode : w.mSymbologyExport with
    | NoSymbology =>
      have hm1 : w1.mSymbologyExport = .NoSymbology := hs.2.2.1.trans hmode
      simp [hm1, hn3 hcommit]
    | FeatureSymbology =>
      have hm1 : w1.mSymbologyExport = .FeatureSymbology := hs.2.2.1.trans hmode
      simp [hm1, hj hm1 hsc rfl rfl hlayers, hw3 hcommit]
    | SymbolLayerSymbology =>
      have hm1 : w1.mSymbologyExport = .SymbolLayerSymbology := hs.2.2.1.trans hmode
      obtain ⟨l1, l2, l3, l4, l5⟩ := hloop hmode (renderer.symbolsForFeature feature) true
        ⟨w1, rec, "", calls, false⟩ hs ⟨rfl, rfl, rfl, rfl⟩ rfl
      have hm2 := l1.2.2.1.trans hmode
      simp [hm1, l5 hcommit, hm2]
  · intro hmode
    have hm1 : w1.mSymbologyExport = .FeatureSymbology := hs.2.2.1.trans hmode
    simp [hm1, hj hm1 hsc rfl rfl hlayers, hw2, hw3 hcommit, committedRecords_append, hc,
      committedRecords]
  · intro hmode
    have hm1 : w1.mSymbologyExport = .SymbolLayerSymbology := hs.2.2.1.trans hmode
    obtain ⟨l1, l2, l3, l4, l5⟩ := hloop hmode (renderer.symbolsForFeature feature) true
      ⟨w1, rec, "", calls, false⟩ hs ⟨rfl, rfl, rfl, rfl⟩ rfl
    have hm2 := l1.2.2.1.trans hmode
    simp [hm1, l5 hcommit, hm2, committedRecords_append, l4 (l5 hcommit), hc,
      committedRecords]
  · intro hmode
    have hm1 : w1.mSymbologyExport = .NoSymbology := hs.2.2.1.trans hmode
    simp [hm1, hn2, hn3 hcommit, committedRecords_append, hc, committedRecords]

/-- Witness of C24 (amended): the example feature added to a session in the mode
`FeatureSymbology` with a renderer whose symbol has a pen layer and a brush layer is committed
once, with the two style strings joined. -/
theorem addFeature_commits_by_symbology_mode_witness :
    (addFeature (exampleEnv exampleDriver) (symbologyWriter exampleDriver .FeatureSymbology)
      exampleFeature (some (levelRenderer twoLayerSymbol)) .DistanceMeters).1 = true ∧
    committedRecords (addFeature (exampleEnv exampleDriver)
      (symbologyWriter exampleDriver .FeatureSymbology) exampleFeature
      (some (levelRenderer twoLayerSymbol)) .DistanceMeters).2.2 =
        [({ exampleRecord with styleString := some (joinStyles
          (symbolStyles (symbologyWriter exampleDriver .FeatureSymbology) .DistanceMeters
            ((levelRenderer twoLayerSymbol).symbolsForFeature exampleFeature))) }, true)] ∧
    joinStyles (symbolStyles (symbologyWriter exampleDriver .FeatureSymbology) .DistanceMeters
      ((levelRenderer twoLayerSymbol).symbolsForFeature exampleFeature))
        = "PEN(w:1mm);BRUSH(fc:red)" :=
  have h := addFeature_commits_by_symbology_mode (exampleEnv exampleDriver)
    (symbologyWriter exampleDriver .FeatureSymbology) exampleFeature
    (levelRenderer twoLayerSymbol) .DistanceMeters exampleDriver exampleRecord rfl
    (by decide) (by decide) (fun _ _ => rfl)
    (fun symbol hmem => by
      have hsym : symbol = twoLayerSymbol := by simpa [levelRenderer] using hmem
      rw [hsym]
      exact List.cons_ne_nil _ _)
  ⟨h.1, h.2.2.1 (by decide), by decide⟩

/-- Counterexample to C24: in a session in the mode `FeatureSymbology` whose driver accepts
every record, with a renderer whose symbol has one symbol layer, `addFeature` for a feature
with a boolean attribute value returns `false` and commits nothing, because `createFeature`
returns a null record. -/
theorem addFeature_commits_nothing_without_record :
    (∀ layer r, exampleDriver.createFeature layer r = true) ∧
    ((levelRenderer exampleSymbol).symbolsForFeature booleanFeature).map
      (fun symbol => symbol.symbolLayers.length) = [1] ∧
    (symbologyWriter exampleDriver .FeatureSymbology).mSymbologyExport = .FeatureSymbology ∧
    (createFeature (exampleEnv exampleDriver) (symbologyWriter exampleDriver .FeatureSymbology)
      booleanFeature).1 = none ∧
    (addFeature (exampleEnv exampleDriver) (symbologyWriter exampleDriver .FeatureSymbology)
      booleanFeature (some (levelRenderer exampleSymbol)) .DistanceMeters).1 = false ∧
    committedRecords (addFeature (exampleEnv exampleDriver)
      (symbologyWriter exampleDriver .FeatureSymbology) booleanFeature
      (some (levelRenderer exampleSymbol)) .DistanceMeters).2.2 = [] := by
  refine ⟨fun _ _ => rfl, by decide, by decide, by decide, by decide, by decide⟩

/-! ## Commits behind a successful `addFeature` -/

/-- In the mode `FeatureSymbology` the inner symbol loop of `addFeature` changes nothing but
the collected style string. -/
theorem addFeatureSymbolLayers_collects (env : Env) (symbol : QgsSymbol)
    (outputUnit : DistanceUnit) (firstSymbol : Bool) (layers : List QgsSymbolLayer) (i : Nat)
    (st : StyleLoop) (hmode : st.w.mSymbologyExport = .FeatureSymbology) :
    (addFeatureSymbolLayers env symbol outputUnit firstSymbol layers i st).w = st.w ∧
    (addFeatureSymbolLayers env symbol outputUnit firstSymbol layers i st).poFeature
      = st.poFeature ∧
    (addFeatureSymbolLayers env symbol outputUnit firstSymbol layers i st).calls = st.calls ∧
    (addFeatureSymbolLayers env symbol outputUnit firstSymbol layers i st).failed
      = st.failed := by
  induction layers generalizing i st with
  | nil => exact ⟨rfl, rfl, rfl, rfl⟩
  | cons layer rest ih =>
    unfold addFeatureSymbolLayers
    simp only [if_pos hmode]
    exact ih (i + 1) _ (by exact hmode)

/-- In the mode `FeatureSymbology` the symbol loop of `addFeature` changes nothing but the
collected style string. -/
theorem addFeatureSymbols_collects (env : Env) (outputUnit : DistanceUnit)
    (symbols : List QgsSymbol) (firstSymbol : Bool) (st : StyleLoop)
    (hmode : st.w.mSymbologyExport = .FeatureSymbology) :
    (addFeatureSymbols env outputUnit symbols firstSymbol st).w = st.w ∧
    (addFeatureSymbols env outputUnit symbols firstSymbol st).poFeature = st.poFeature ∧
    (addFeatureSymbols env outputUnit symbols firstSymbol st).calls = st.calls ∧
    (addFeatureSymbols env outputUnit symbols firstSymbol st).failed = st.failed := by
  induction symbols generalizing firstSymbol st with
  | nil => exact ⟨rfl, rfl, rfl, rfl⟩
  | cons symbol rest ih =>
    obtain ⟨h1, h2, h3, h4⟩ := addFeatureSymbolLayers_collects env symbol outputUnit
      firstSymbol symbol.symbolLayers 0 st hmode
    unfold addFeatureSymbols
    simp only []
    split
    · exact ⟨h1, h2, h3, h4⟩
    · obtain ⟨i1, i2, i3, i4⟩ := ih false
        (addFeatureSymbolLayers env symbol outputUnit firstSymbol symbol.symbolLayers 0 st)
        (by rw [h1]; exact hmode)
      exact ⟨i1.trans h1, i2.trans h2, i3.trans h3, i4.trans h4⟩

/-- C29 (amended): for a session with driver and layer, when `addFeature` returns `true`: in
the modes `NoSymbology` and `FeatureSymbology` exactly one record has been committed, with
success; in the mode `SymbolLayerSymbology` with a renderer, one record has been committed,
with success, for each symbol layer of the symbols of the feature, tagged with the style string
of that layer, so that at least one record has been committed exactly when one of these symbols
has a symbol layer; in the mode `SymbolLayerSymbology` without renderer no record has been
committed. -/
theorem addFeature_success_commits (env : Env) (w : Writer) (feature : QgsFeature)
    (renderer : Option QgsFeatureRenderer) (outputUnit : DistanceUnit)
    (hdrv : w.poDriver.isSome = true) (hlayer : w.mLayer.isSome = true)
    (htrue : (addFeature env w feature renderer outputUnit).1 = true) :
    (w.mSymbologyExport ≠ .SymbolLayerSymbology →
      ∃ rec, committedRecords (addFeature env w feature renderer outputUnit).2.2
        = [(rec, true)]) ∧
    (w.mSymbologyExport = .SymbolLayerSymbology → ∀ r, renderer = some r →
      (committedRecords (addFeature env w feature renderer outputUnit).2.2).map
          (fun c => (c.1.styleString, c.2)) =
        (symbolStyles w outputUnit (r.symbolsForFeature feature)).map
          (fun f => (some f, true))) ∧
    (w.mSymbologyExport = .SymbolLayerSymbology → renderer = none →
      committedRecords (addFeature env w feature renderer outputUnit).2.2 = []) := by
  obtain ⟨poDriver, hd⟩ := Option.isSome_iff_exists.mp hdrv
  obtain ⟨hs, hc, hsty⟩ := createFeature_session env w feature
  rcases hcf : createFeature env w feature with ⟨_ | rec, w1, calls⟩
  · unfold addFeature at htrue
    rw [hcf] at htrue
    cases htrue
  · rw [hcf] at hs hc hsty
    simp only at hs hc hsty
    have hd1 : w1.poDriver = some poDriver := hs.1.trans hd
    have hl1 : w1.mLayer.isSome = true := hs.2.1.trans hlayer
    unfold addFeature at htrue ⊢
    rw [hcf] at htrue ⊢
    simp only [] at htrue ⊢
    refine ⟨?_, ?_, ?_⟩
    · intro hmode
      have hwf := fun rec' => writeFeature_commit env w1 poDriver rec' hd1 hl1
      cases hm : w.mSymbologyExport with
      | SymbolLayerSymbology => exact absurd hm hmode
      | NoSymbology =>
        have hm1 : w1.mSymbologyExport = .NoSymbology := hs.2.2.1.trans hm
        cases renderer with
        | none =>
          simp only [hm1, ne_eq, not_true_eq_false, if_false, Bool.false_eq_true, true_or,
            or_true, if_true, reduceCtorEq] at htrue ⊢
          cases hwr : (writeFeature env w1 rec).1 with
          | false => simp [hwr] at htrue
          | true =>
            exact ⟨rec, by simp [hwr, committedRecords_append, hc, (hwf rec).2.1,
              committedRecords]⟩
        | some r =>
          simp only [hm1, ne_eq, not_true_eq_false, if_false, Bool.false_eq_true, true_or,
            or_true, if_true, reduceCtorEq] at htrue ⊢
          cases hwr : (writeFeature env w1 rec).1 with
          | false => simp [hwr] at htrue
          | true =>
            exact ⟨rec, by simp [hwr, committedRecords_append, hc, (hwf rec).2.1,
              committedRecords]⟩
      | FeatureSymbology =>
        have hm1 : w1.mSymbologyExport = .FeatureSymbology := hs.2.2.1.trans hm
        cases renderer with
        | none =>
          simp only [hm1, ne_eq, not_true_eq_false, if_false, Bool.false_eq_true, true_or,
            or_true, if_true, reduceCtorEq] at htrue ⊢
          cases hwr : (writeFeature env w1 rec).1 with
          | false => simp [hwr] at htrue
          | true =>
            exact ⟨rec, by simp [hwr, committedRecords_append, hc, (hwf rec).2.1,
              committedRecords]⟩
        | some r =>
          obtain ⟨c1, c2, c3, c4⟩ := addFeatureSymbols_collects env outputUnit
            (r.symbolsForFeature feature) true ⟨w1, rec, "", calls, false⟩ hm1
          simp only [hm1, ne_eq, not_false_eq_true, if_true, c1, c2, c3, c4,
            Bool.false_eq_true, if_false, or_true, reduceCtorEq] at htrue ⊢
          cases hwr : (writeFeature env w1 { rec with styleString := (some
              (addFeatureSymbols env outputUnit (r.symbolsForFeature feature) true
                ⟨w1, rec, "", calls, false⟩).styleString) }).1 with
          | false => simp [hwr] at htrue
          | true =>
            exact ⟨{ rec with styleString := (some
                (addFeatureSymbols env outputUnit (r.symbolsForFeature feature) true
                  ⟨w1, rec, "", calls, false⟩).styleString) },
              by simp [hwr, committedRecords_append, hc, (hwf _).2.1, committedRecords]⟩
    · intro hmode r hr
      have hm1 : w1.mSymbologyExport = .SymbolLayerSymbology := hs.2.2.1.trans hmode
      obtain ⟨l1, l2, l3, l4, l5⟩ := addFeatureSymbols_commits env w poDriver rec outputUnit hd
        hlayer hmode (r.symbolsForFeature feature) true ⟨w1, rec, "", calls, false⟩ hs
        ⟨rfl, rfl, rfl, rfl⟩ rfl
      have hm2 := l1.2.2.1.trans hmode
      subst hr
      have hrun : (addFeatureSymbols env outputUnit (r.symbolsForFeature feature) true
          ⟨w1, rec, "", calls, false⟩).failed = false := by
        by_contra hf
        simp [hm1, hf] at htrue
      simp [hm1, hrun, hm2, committedRecords_append, l4 hrun, hc, committedRecords,
        List.map_map, Function.comp_def]
    · intro hmode hr
      have hm1 : w1.mSymbologyExport = .SymbolLayerSymbology := hs.2.2.1.trans hmode
      simp [hr, hm1, committedRecords_append, hc, committedRecords]

/-- Witness of C29 (amended): the example feature added to a session without symbology is
committed once. -/
theorem addFeature_success_commits_witness :
    (addFeature (exampleEnv exampleDriver) (symbologyWriter exampleDriver .NoSymbology)
      exampleFeature none .DistanceMeters).1 = true ∧
    ∃ rec, committedRecords (addFeature (exampleEnv exampleDriver)
      (symbologyWriter exampleDriver .NoSymbology) exampleFeature none .DistanceMeters).2.2
        = [(rec, true)] :=
  ⟨by decide, (addFeature_success_commits (exampleEnv exampleDriver)
    (symbologyWriter exampleDriver .NoSymbology) exampleFeature none .DistanceMeters
    (by decide) (by decide) (by decide)).1 (by decide)⟩

/-- Counterexample to C29: a session constructed successfully in the mode
`SymbolLayerSymbology`.  `addFeature` for the example feature returns `true` without renderer,
and with a renderer that has no symbol for the feature, and in both cases no record is
committed: the output layer holds no record afterwards. -/
theorem addFeature_true_without_commit :
    (symbologyWriter exampleDriver .SymbolLayerSymbology).hasError = .NoError ∧
    (addFeature (exampleEnv exampleDriver) (symbologyWriter exampleDriver .SymbolLayerSymbology)
      exampleFeature none .DistanceMeters).1 = true ∧
    committedRecords (addFeature (exampleEnv exampleDriver)
      (symbologyWriter exampleDriver .SymbolLayerSymbology) exampleFeature none
      .DistanceMeters).2.2 = [] ∧
    (addFeature (exampleEnv exampleDriver) (symbologyWriter exampleDriver .SymbolLayerSymbology)
      exampleFeature none .DistanceMeters).2.1.mLayer.map (fun layer => layer.features)
        = some [] ∧
    (addFeature (exampleEnv exampleDriver) (symbologyWriter exampleDriver .SymbolLayerSymbology)
      exampleFeature (some exampleRenderer) .DistanceMeters).1 = true ∧
    committedRecords (addFeature (exampleEnv exampleDriver)
      (symbologyWriter exampleDriver .SymbolLayerSymbology) exampleFeature
      (some exampleRenderer) .DistanceMeters).2.2 = [] := by
  refine ⟨by decide, by decide, by decide, by decide, by decide, by decide⟩

/-! ## The commits of the export ordered by symbol levels -/

/-- A trace of commits for a list of items followed by one for another list is a trace for the
two lists appended. -/
theorem ItemsTrace.append (w : Writer) (mapUnits : DistanceUnit) (features : SymbolFeatures)
    (a b : List QgsSymbolLevelItem) (ta tb : List (Option String × Bool))
    (ha : ItemsTrace w mapUnits features a ta) (hb : ItemsTrace w mapUnits features b tb) :
    ItemsTrace w mapUnits features (a ++ b) (ta ++ tb) := by
  induction a generalizing ta with
  | nil =>
    simp only [ItemsTrace] at ha
    rw [ha]
    exact hb
  | cons item rest ih =>
    simp only [ItemsTrace] at ha
    obtain ⟨oks, restTags, h1, h2, h3, h4⟩ := ha
    simp only [List.cons_append, ItemsTrace]
    exact ⟨oks, restTags ++ tb, by rw [h1, List.append_assoc], h2, h3, ih restTags h4⟩

/-- The method `writeFeature` leaves the driver of the session as it is. -/
theorem writeFeature_poDriver (env : Env) (w : Writer) (feature : OGRFeature) :
    (writeFeature env w feature).2.1.poDriver = w.poDriver := by
  unfold writeFeature
  split
  · split <;> rfl
  · rfl

/-- The inner symbol loop of `addFeature` leaves the driver of the session as it is. -/
theorem addFeatureSymbolLayers_poDriver (env : Env) (symbol : QgsSymbol)
    (outputUnit : DistanceUnit) (firstSymbol : Bool) (layers : List QgsSymbolLayer) (i : Nat)
    (st : StyleLoop) :
    (addFeatureSymbolLayers env symbol outputUnit firstSymbol layers i st).w.poDriver
      = st.w.poDriver := by
  induction layers generalizing i st with
  | nil => rfl
  | cons layer rest ih =>
    unfold addFeatureSymbolLayers
    simp only []
    split
    · exact ih _ _
    · split
      · split
        · exact writeFeature_poDriver env st.w _
        · exact (ih _ _).trans (writeFeature_poDriver env st.w _)
      · exact ih _ _

/-- The symbol loop of `addFeature` leaves the driver of the session as it is. -/
theorem addFeatureSymbols_poDriver (env : Env) (outputUnit : DistanceUnit)
    (symbols : List QgsSymbol) (firstSymbol : Bool) (st : StyleLoop) :
    (addFeatureSymbols env outputUnit symbols firstSymbol st).w.poDriver = st.w.poDriver := by
  induction symbols generalizing firstSymbol st with
  | nil => rfl
  | cons symbol rest ih =>
    have h := addFeatureSymbolLayers_poDriver env symbol outputUnit firstSymbol
      symbol.symbolLayers 0 st
    unfold addFeatureSymbols
    simp only []
    split
    · exact h
    · exact (ih _ _).trans h

/-- The method `addFeature` leaves the driver of the session as it is. -/
theorem addFeature_poDriver (env : Env) (w : Writer) (feature : QgsFeature)
    (renderer : Option QgsFeatureRenderer) (outputUnit : DistanceUnit) :
    (addFeature env w feature renderer outputUnit).2.1.poDriver = w.poDriver := by
  have hc := (createFeature_session env w feature).1.1
  unfold addFeature
  split
  · rename_i w' calls heq
    rw [heq] at hc
    exact hc
  · rename_i poFeature w' calls heq
    rw [heq] at hc
    have hst : ∀ st : StyleLoop, st.w.poDriver = w.poDriver →
        (if st.failed = true then (false, st.w, st.calls)
          else if st.w.mSymbologyExport = .NoSymbology ∨
              st.w.mSymbologyExport = .FeatureSymbology then
            if (!(writeFeature env st.w st.poFeature).1) = true then
              (false, (writeFeature env st.w st.poFeature).2.1,
                st.calls ++ (writeFeature env st.w st.poFeature).2.2)
            else (true, (writeFeature env st.w st.poFeature).2.1,
              st.calls ++ (writeFeature env st.w st.poFeature).2.2 ++
                [.F_Destroy st.poFeature.handle])
          else (true, st.w, st.calls ++ [OgrCall.F_Destroy st.poFeature.handle])).2.1.poDriver
          = w.poDriver := by
      intro st h
      split
      · exact h
      · split
        · split <;> exact (writeFeature_poDriver env st.w _).trans h
        · exact h
    apply hst
    split
    · split
      · simp only []
        split
        · exact (addFeatureSymbols_poDriver env outputUnit _ true _).trans hc
        · exact (addFeatureSymbols_poDriver env outputUnit _ true _).trans hc
      · exact hc
    · exact hc

/-- The body of the loop "write all features" leaves the driver of the session as it is. -/
theorem writeLoopBody_poDriver (env : Env) (args : WriteArgs) (layer : QgsVectorLayer)
    (shallTransform : Bool) (attributes : List Int) (mapUnits : DistanceUnit) (fet : QgsFeature)
    (st : WriteLoop) :
    (writeLoopBody env args layer shallTransform attributes mapUnits fet st).w.poDriver
      = st.w.poDriver := by
  unfold writeLoopBody
  split
  · rfl
  · rfl
  · simp only []
    split
    · split <;> exact addFeature_poDriver env st.w _ layer.renderer mapUnits
    · exact addFeature_poDriver env st.w _ layer.renderer mapUnits

/-- The loop "write all features" leaves the driver of the session as it is. -/
theorem writeLoop_poDriver (env : Env) (args : WriteArgs) (layer : QgsVectorLayer)
    (shallTransform : Bool) (attributes : List Int) (mapUnits : DistanceUnit)
    (fit : List QgsFeature) (st : WriteLoop) :
    (writeLoop env args layer shallTransform attributes mapUnits fit st).w.poDriver
      = st.w.poDriver := by
  induction fit generalizing st with
  | nil => rfl
  | cons fet rest ih =>
    unfold writeLoop
    have hb := writeLoopBody_poDriver env args layer shallTransform attributes mapUnits fet st
    simp only []
    split
    · exact (ih _).trans hb
    · exact hb

/-- C23: in the streaming path, for a writer whose driver is `poDriver` (as every successfully
constructed writer has one), when no transform fails, the calls made are: the render start;
the transaction start, attempted once, with the result the driver gives; the calls of the loop,
which hold every call of `addFeature` and no transaction call; then, if and only if the driver
started the transaction, one transaction commit, with the result the driver gives; then the
render stop and the deletion of the writer.  So the transaction calls are the start alone when
the driver refused it and the start followed by one commit when the driver accepted it, the
start comes before the first and the commit after the last call of `addFeature`, and neither
depends on the results of the calls of `addFeature`. -/
theorem transaction_wraps_write_loop (env : Env) (args : WriteArgs) (layer : QgsVectorLayer)
    (w : Writer) (poDriver : OGRSFDriver) (attributes : List Int) (fit : List QgsFeature)
    (errorMessage : Option String)
    (hd : w.poDriver = some poDriver)
    (hno : ∀ fet ∈ fit, ¬ TransformFails args fet) :
    ∃ (loop tail : List Effect),
      (writeStreaming env args layer w attributes fit errorMessage).2.2 =
        w.startRender layer ++ [.startTransaction poDriver.startTransaction] ++ loop ++
          (if poDriver.startTransaction = true then
            [.commitTransaction poDriver.commitTransaction] else []) ++ tail ∧
      transactionCalls (w.startRender layer) = [] ∧
      addFeatureCalls (w.startRender layer) = [] ∧
      transactionCalls loop = [] ∧
      addFeatureCalls loop =
        addFeatureCalls (writeStreaming env args layer w attributes fit errorMessage).2.2 ∧
      transactionCalls tail = [] ∧ addFeatureCalls tail = [] ∧
      transactionCalls (writeStreaming env args layer w attributes fit errorMessage).2.2 =
        if poDriver.startTransaction = true then
          [.startTransaction true, .commitTransaction poDriver.commitTransaction]
        else [.startTransaction false] := by
  have hnp := writeStreaming_not_projection env args layer w attributes fit errorMessage hno
  obtain ⟨loop, hloop⟩ := writeLoop_effects env args layer args.ct.isValid attributes
    (exportMapUnits args layer) fit (streamingStart layer w attributes errorMessage)
  have htc := writeLoop_transactionCalls env args layer args.ct.isValid attributes
    (exportMapUnits args layer) fit (streamingStart layer w attributes errorMessage)
  have hpd := writeLoop_poDriver env args layer args.ct.isValid attributes
    (exportMapUnits args layer) fit (streamingStart layer w attributes errorMessage)
  have hpd0 : (streamingStart layer w attributes errorMessage).w.poDriver = some poDriver := hd
  rw [hpd0] at hpd
  obtain ⟨hr1, hr2, _, _⟩ := render_calls_plain w layer
  have hte : transactionsEnabled w = poDriver.startTransaction := by
    unfold transactionsEnabled
    rw [hd]
  have hstart : (streamingStart layer w attributes errorMessage).effects =
      w.startRender layer ++ [.startTransaction poDriver.startTransaction] := by
    rw [← hte]
    rfl
  have hloopt : transactionCalls loop = [] := by
    rw [← hloop, transactionCalls_append] at htc
    exact List.append_right_eq_self.mp htc
  generalize hst : writeLoop env args layer args.ct.isValid attributes
    (exportMapUnits args layer) fit (streamingStart layer w attributes errorMessage) = st
    at hnp hloop hpd
  obtain ⟨_, _, hs3, hs4⟩ := render_calls_plain st.w layer
  have heff : (writeStreaming env args layer w attributes fit errorMessage).2.2 =
      w.startRender layer ++ [.startTransaction poDriver.startTransaction] ++ loop ++
        (if poDriver.startTransaction = true then
          [.commitTransaction poDriver.commitTransaction] else []) ++
        (st.w.stopRender layer ++ [.deleteWriter]) := by
    unfold writeStreaming
    simp only [hst, hnp, if_false, hte, hpd]
    rw [← hloop, hstart]
    exact List.append_assoc _ _ _
  refine ⟨loop, st.w.stopRender layer ++ [.deleteWriter], heff, hr1, hr2, hloopt, ?_, ?_, ?_, ?_⟩
  · rw [heff]
    simp only [addFeatureCalls_append, hr2, hs4]
    split <;> simp [addFeatureCalls]
  · simp [transactionCalls_append, hs3, transactionCalls]
  · simp [addFeatureCalls_append, hs4, addFeatureCalls]
  · rw [heff]
    simp only [transactionCalls_append, hr1, hloopt, hs3]
    cases poDriver.startTransaction <;> simp [transactionCalls]

/-- Witness of C23: an export of one feature through a driver with transactions makes the
transaction calls start and commit, in this order, the call of `addFeature` lying between
them; the same export through a driver whose layer does not support transactions makes the
failed transaction start and no commit; and so do the calls of `writeAsVectorFormat` for a
layer holding the feature. -/
theorem transaction_wraps_write_loop_witness :
    (exampleWriter exampleDriver .Polygon).poDriver = some exampleDriver ∧
    exampleDriver.startTransaction = true ∧
    (writeStreaming (exampleEnv exampleDriver) exampleArgs (exampleLayer [])
      (exampleWriter exampleDriver .Polygon) [0] [exampleFeature] (some "")).2.2 =
      [.startTransaction true, .addFeature exampleFeature true,
        .ogr (.F_Create 0), .ogr (.F_SetField 0 0 (.integer 7)),
        .ogr (.G_ImportFromWkb 3 (.single examplePolygon) true),
        .ogr (.F_SetGeometry 0 (some ⟨3, some (.single examplePolygon)⟩)),
        .ogr (.L_CreateFeature exampleRecord true), .ogr (.F_Destroy 0),
        .commitTransaction true, .deleteWriter] ∧
    (∃ (loop tail : List Effect),
      (writeStreaming (exampleEnv exampleDriver) exampleArgs (exampleLayer [])
        (exampleWriter exampleDriver .Polygon) [0] [exampleFeature] (some "")).2.2 =
        (exampleWriter exampleDriver .Polygon).startRender (exampleLayer []) ++
          [.startTransaction exampleDriver.startTransaction] ++ loop ++
          (if exampleDriver.startTransaction = true then
            [.commitTransaction exampleDriver.commitTransaction] else []) ++ tail ∧
      transactionCalls ((exampleWriter exampleDriver .Polygon).startRender (exampleLayer []))
        = [] ∧
      addFeatureCalls ((exampleWriter exampleDriver .Polygon).startRender (exampleLayer []))
        = [] ∧
      transactionCalls loop = [] ∧
      addFeatureCalls loop =
        addFeatureCalls (writeStreaming (exampleEnv exampleDriver) exampleArgs (exampleLayer [])
          (exampleWriter exampleDriver .Polygon) [0] [exampleFeature] (some "")).2.2 ∧
      transactionCalls tail = [] ∧ addFeatureCalls tail = [] ∧
      transactionCalls (writeStreaming (exampleEnv exampleDriver) exampleArgs (exampleLayer [])
          (exampleWriter exampleDriver .Polygon) [0] [exampleFeature] (some "")).2.2 =
        if exampleDriver.startTransaction = true then
          [.startTransaction true, .commitTransaction exampleDriver.commitTransaction]
        else [.startTransaction false]) ∧
    transactionCalls (writeStreaming (exampleEnv exampleDriver) exampleArgs (exampleLayer [])
      (exampleWriter exampleDriver .Polygon) [0] [exampleFeature] (some "")).2.2 =
      [.startTransaction true, .commitTransaction true] ∧
    transactionCalls (writeStreaming (exampleEnv noTransactionDriver) exampleArgs
      (exampleLayer []) (exampleWriter noTransactionDriver .Polygon) [0] [exampleFeature]
      (some "")).2.2 = [.startTransaction false] ∧
    transactionCalls (writeAsVectorFormat (exampleEnv exampleDriver)
      (some (exampleLayer [exampleFeature])) exampleArgs).effects =
      [.startTransaction true, .commitTransaction true] ∧
    transactionCalls (writeAsVectorFormat (exampleEnv noTransactionDriver)
      (some (exampleLayer [exampleFeature])) exampleArgs).effects =
      [.startTransaction false] :=
  ⟨rfl, rfl, by decide,
    transaction_wraps_write_loop (exampleEnv exampleDriver) exampleArgs (exampleLayer [])
      (exampleWriter exampleDriver .Polygon) exampleDriver [0] [exampleFeature] (some "") rfl
      (fun _ _ hf => absurd hf.1 (by decide)),
    by decide, by decide, by decide, by decide⟩

end QgsVectorFileWriter
